import Mathlib

/-!
# vkdf: buffer resources and command submission

A shallow embedding of `framework/vkdf-buffer.cpp` (`vkdf_create_buffer`,
`vkdf_buffer_map_and_fill`, `vkdf_destroy_buffer`) over an explicit model of the Vulkan
device the code talks to, and of the functions the demos call whose code is not among the
sources (`vkdf_memory_type_from_properties`, `vkdf_buffer_map_and_get`,
`vkdf_command_buffer_execute`), which are modelled from the specification and say so.

* Every Vulkan entry point the code calls is a function on `VkdfContext` that
  appends one `Call` to `VkdfContext.log` and returns what the entry point returns.
* The answers of the driver (result codes, reported memory requirements, the
  bytes read where nothing is specified) are fields of `Driver`, so every theorem
  quantifies over all drivers.
* A C function becomes a `Prog`: it takes the context and gives back an `Outcome`
  together with the context at the point where it returned or stopped.
* `vkdf-buffer.cpp` uses `assert`, so its functions take the build configuration:
  `ndebug` tells whether `NDEBUG` is defined.
* Sizes, offsets and flag words are natural numbers: the code does no arithmetic on
  them, it only compares them and tests bits.
-/

namespace Vkdf

/-! ## Vulkan constants (vulkan_core.h) -/

abbrev VkResult := Int

def VK_SUCCESS : VkResult := 0

def VK_ERROR_MEMORY_MAP_FAILED : VkResult := -5

def VK_MEMORY_PROPERTY_DEVICE_LOCAL_BIT : Nat := 1

def VK_MEMORY_PROPERTY_HOST_VISIBLE_BIT : Nat := 2

def VK_MEMORY_PROPERTY_HOST_COHERENT_BIT : Nat := 4

def VK_MEMORY_PROPERTY_HOST_CACHED_BIT : Nat := 8

def VK_ERROR_OUT_OF_POOL_MEMORY : VkResult := -1000069000

def VK_WHOLE_SIZE : Nat := 2 ^ 64 - 1

def VK_ACCESS_SHADER_WRITE_BIT : Nat := 0x40

def VK_ACCESS_TRANSFER_READ_BIT : Nat := 0x800

def VK_ACCESS_TRANSFER_WRITE_BIT : Nat := 0x1000

def VK_ACCESS_HOST_READ_BIT : Nat := 0x2000

def VK_IMAGE_LAYOUT_UNDEFINED : Nat := 0

def VK_IMAGE_LAYOUT_GENERAL : Nat := 1

def VK_IMAGE_LAYOUT_COLOR_ATTACHMENT_OPTIMAL : Nat := 2

def VK_IMAGE_LAYOUT_PREINITIALIZED : Nat := 8

def VK_IMAGE_LAYOUT_PRESENT_SRC_KHR : Nat := 1000001002

def VK_PIPELINE_STAGE_FRAGMENT_SHADER_BIT : Nat := 0x80

def VK_PIPELINE_STAGE_COLOR_ATTACHMENT_OUTPUT_BIT : Nat := 0x400

def VK_PIPELINE_STAGE_TRANSFER_BIT : Nat := 0x1000

def VK_PIPELINE_STAGE_HOST_BIT : Nat := 0x4000

def VK_IMAGE_ASPECT_COLOR_BIT : Nat := 1

def VK_COMMAND_BUFFER_LEVEL_PRIMARY : Nat := 0

def VK_COMMAND_BUFFER_USAGE_ONE_TIME_SUBMIT_BIT : Nat := 1

def VK_COMMAND_BUFFER_USAGE_SIMULTANEOUS_USE_BIT : Nat := 4

def VK_SUBPASS_CONTENTS_INLINE : Nat := 0

def VK_IMAGE_TYPE_2D : Nat := 1

def VK_IMAGE_VIEW_TYPE_2D : Nat := 1

def VK_FORMAT_UNDEFINED : Nat := 0

def VK_FORMAT_R8G8B8A8_UNORM : Nat := 37

def VK_FORMAT_R16G16B16A16_SFLOAT : Nat := 97

def VK_FORMAT_R32G32B32A32_SFLOAT : Nat := 109

def VK_FORMAT_FEATURE_COLOR_ATTACHMENT_BIT : Nat := 0x80

def VK_IMAGE_USAGE_TRANSFER_SRC_BIT : Nat := 1

def VK_IMAGE_USAGE_TRANSFER_DST_BIT : Nat := 2

def VK_IMAGE_USAGE_COLOR_ATTACHMENT_BIT : Nat := 0x10

def VK_BUFFER_USAGE_TRANSFER_SRC_BIT : Nat := 1

def VK_BUFFER_USAGE_TRANSFER_DST_BIT : Nat := 2

def VK_BUFFER_USAGE_UNIFORM_BUFFER_BIT : Nat := 0x10

def VK_BUFFER_USAGE_STORAGE_BUFFER_BIT : Nat := 0x20

def VK_BUFFER_USAGE_VERTEX_BUFFER_BIT : Nat := 0x80

def VK_ATTACHMENT_LOAD_OP_LOAD : Nat := 0

def VK_ATTACHMENT_LOAD_OP_CLEAR : Nat := 1

def VK_ATTACHMENT_LOAD_OP_DONT_CARE : Nat := 2

def VK_ATTACHMENT_STORE_OP_STORE : Nat := 0

def VK_ATTACHMENT_STORE_OP_DONT_CARE : Nat := 1

def VK_SAMPLE_COUNT_1_BIT : Nat := 1

def VK_PIPELINE_BIND_POINT_GRAPHICS : Nat := 0

def VK_DESCRIPTOR_TYPE_UNIFORM_BUFFER : Nat := 6

def VK_DESCRIPTOR_TYPE_STORAGE_BUFFER : Nat := 7

def VK_SHADER_STAGE_VERTEX_BIT : Nat := 1

def VK_SHADER_STAGE_FRAGMENT_BIT : Nat := 0x10

def VK_VERTEX_INPUT_RATE_VERTEX : Nat := 0

def VK_PRIMITIVE_TOPOLOGY_TRIANGLE_LIST : Nat := 3

def VK_CULL_MODE_NONE : Nat := 0

/-! ## Data model -/

/-- The struct `VkMemoryRequirements` filled in by `vkGetBufferMemoryRequirements`. -/
structure VkMemoryRequirements where
  size : Nat
  alignment : Nat
  memoryTypeBits : Nat
deriving DecidableEq

/-- The struct `VkdfBuffer`: the fields `vkdf-buffer.cpp` reads and writes. Handles are
numbers. -/
structure VkdfBuffer where
  buf : Nat
  mem : Nat
  mem_reqs : VkMemoryRequirements
  mem_props : Nat
deriving DecidableEq

/-- The struct `VkImageSubresourceRange`. -/
structure VkImageSubresourceRange where
  aspectMask : Nat
  baseMipLevel : Nat
  levelCount : Nat
  baseArrayLayer : Nat
  layerCount : Nat
deriving DecidableEq

/-- The struct `VkImageMemoryBarrier`: the fields of the barrier descriptor of spec §3
(access masks, layouts, resource scope). -/
structure VkImageMemoryBarrier where
  srcAccessMask : Nat
  dstAccessMask : Nat
  oldLayout : Nat
  newLayout : Nat
  image : Nat
  subresourceRange : VkImageSubresourceRange
deriving DecidableEq

/-- The struct `VkBufferMemoryBarrier`: the fields of the barrier descriptor of spec §3
(access masks, buffer, offset, size). -/
structure VkBufferMemoryBarrier where
  srcAccessMask : Nat
  dstAccessMask : Nat
  buffer : Nat
  offset : Nat
  size : Nat
deriving DecidableEq

/-- The struct `VkBufferImageCopy`; `imageSubresource` lists aspect mask, mip level, base
array layer and layer count, `imageOffset` x, y, z and `imageExtent` width, height,
depth. -/
structure VkBufferImageCopy where
  bufferOffset : Nat
  bufferRowLength : Nat
  bufferImageHeight : Nat
  imageSubresource : List Nat
  imageOffset : List Nat
  imageExtent : List Nat
deriving DecidableEq

/-- The struct `VkRenderPassBeginInfo`; `renderArea` lists offset x, offset y, extent
width and extent height. A clear value lists its four `float32` components; a `float`
that holds a whole number is written as that number. -/
structure VkRenderPassBeginInfo where
  renderPass : Nat
  framebuffer : Nat
  renderArea : List Nat
  clearValues : List (List Nat)
deriving DecidableEq

/-- A command recorded into a command buffer, named after the entry point that records
it. A viewport lists x, y, width, height, minDepth, maxDepth (whole-numbered floats
written as numbers), a scissor offset x, offset y, extent width, extent height. -/
inductive Command where
  | vkCmdBeginRenderPass (renderPassBegin : VkRenderPassBeginInfo) (contents : Nat)
  | vkCmdEndRenderPass
  | vkCmdPipelineBarrier (srcStageMask dstStageMask dependencyFlags : Nat)
      (memoryBarriers : List Nat) (bufferMemoryBarriers : List VkBufferMemoryBarrier)
      (imageMemoryBarriers : List VkImageMemoryBarrier)
  | vkCmdCopyImageToBuffer (srcImage srcImageLayout dstBuffer : Nat)
      (regions : List VkBufferImageCopy)
  | vkCmdBindPipeline (pipelineBindPoint pipeline : Nat)
  | vkCmdBindDescriptorSets (pipelineBindPoint layout firstSet : Nat)
      (descriptorSets dynamicOffsets : List Nat)
  | vkCmdBindVertexBuffers (firstBinding : Nat) (buffers offsets : List Nat)
  | vkCmdSetViewport (firstViewport : Nat) (viewports : List (List Nat))
  | vkCmdSetScissor (firstScissor : Nat) (scissors : List (List Nat))
  | vkCmdDraw (vertexCount instanceCount firstVertex firstInstance : Nat)
deriving DecidableEq

/-- Whether the command is a pipeline barrier. -/
def Command.isBarrier : Command → Bool
  | .vkCmdPipelineBarrier _ _ _ _ _ _ => true
  | _ => false

/-- The kinds of device objects the demos create besides buffers, memory, command
buffers, descriptor pools and descriptor sets. -/
inductive ObjectKind where
  | Image
  | ImageView
  | RenderPass
  | Framebuffer
  | CommandPool
  | ShaderModule
  | PipelineLayout
  | Pipeline
  | Semaphore
  | DescriptorSetLayout
deriving DecidableEq

/-- What the demos print on `stdout` (the percentages are floating point and left out). -/
inductive Message where
  | painted (count_painted num_pixels : Nat)
  | different (count_different num_pixels : Nat)
  | correct
  | wrong
deriving DecidableEq

/-- One call made by the code, in program order, with its arguments and, for the entry
points that return a `VkResult`, the result the device gave. `memcpy_to_mapped` is the host
`memcpy` into the range mapped at `offset` of `mem`, `memcpy_from_mapped` the one out of
it; `bytes` are the bytes copied. The calls that create something also carry the handle
(or handles) created. `record` is a `vkCmd...` entry point recording `command` into
`cmd_buf`. `fwrite` writes `bytes` to the file the demo has opened; when they are read
out of a mapped range, `source` is the allocation and the offset they are read at. -/
inductive Call where
  | vkCreateBuffer (flags size usage : Nat) (res : VkResult)
  | vkGetBufferMemoryRequirements (buf : Nat)
  | vkdf_memory_type_from_properties (allowed_mem_types requirements_mask : Nat)
      (found : Option Nat)
  | vkAllocateMemory (allocationSize memoryTypeIndex : Nat) (res : VkResult)
  | vkBindBufferMemory (buf mem memoryOffset : Nat) (res : VkResult)
  | vkMapMemory (mem offset size : Nat) (res : VkResult)
  | memcpy_to_mapped (mem offset : Nat) (bytes : List Nat)
  | memcpy_from_mapped (mem offset : Nat) (bytes : List Nat)
  | vkFlushMappedMemoryRanges (mem offset size : Nat) (res : VkResult)
  | vkInvalidateMappedMemoryRanges (mem offset size : Nat) (res : VkResult)
  | vkUnmapMemory (mem : Nat)
  | vkDestroyBuffer (buf : Nat)
  | vkFreeMemory (mem : Nat)
  | vkQueueSubmit (cmd_buf : Nat) (wait_sem wait_stages signal_sem : List Nat)
      (res : VkResult)
  | vkAllocateCommandBuffers (commandPool level commandBufferCount : Nat) (res : VkResult)
      (cmd_bufs : List Nat)
  | vkBeginCommandBuffer (cmd_buf flags : Nat)
  | vkEndCommandBuffer (cmd_buf : Nat)
  | record (cmd_buf : Nat) (command : Command)
  | vkResetCommandPool (commandPool : Nat)
  | vkFreeCommandBuffers (commandPool : Nat) (cmd_bufs : List Nat)
  | vkDeviceWaitIdle (res : VkResult)
  | create (kind : ObjectKind) (info : List Nat) (res : VkResult) (handle : Nat)
  | destroy (kind : ObjectKind) (handle : Nat)
  | vkGetImageMemoryRequirements (image : Nat)
  | vkBindImageMemory (image mem memoryOffset : Nat) (res : VkResult)
  | vkCreateDescriptorPool (type maxSets : Nat) (res : VkResult) (pool : Nat)
  | vkAllocateDescriptorSets (descriptorPool : Nat) (setLayouts : List Nat) (res : VkResult)
      (sets : List Nat)
  | vkdf_descriptor_set_buffer_update (descriptor buffer binding count : Nat)
      (offsets ranges : List Nat) (type : Nat)
  | vkFreeDescriptorSets (descriptorPool : Nat) (sets : List Nat)
  | vkDestroyDescriptorPool (descriptorPool : Nat)
  | vkdf_memory_map (mem offset size : Nat) (res : VkResult)
  | vkdf_memory_unmap (mem mem_props offset size : Nat)
  | fopen
  | fwrite (source : Option (Nat × Nat)) (bytes : List Nat)
  | fclose
  | fprintf (message : Message)
deriving DecidableEq

/-- The result code carried by a call, `VK_SUCCESS` for the calls that return nothing. -/
def Call.result : Call → VkResult
  | .vkCreateBuffer _ _ _ res => res
  | .vkAllocateMemory _ _ res => res
  | .vkBindBufferMemory _ _ _ res => res
  | .vkMapMemory _ _ _ res => res
  | .vkFlushMappedMemoryRanges _ _ _ res => res
  | .vkInvalidateMappedMemoryRanges _ _ _ res => res
  | .vkQueueSubmit _ _ _ _ res => res
  | .vkAllocateCommandBuffers _ _ _ res _ => res
  | .vkDeviceWaitIdle res => res
  | .create _ _ res _ => res
  | .vkBindImageMemory _ _ _ res => res
  | .vkCreateDescriptorPool _ _ res _ => res
  | .vkAllocateDescriptorSets _ _ res _ => res
  | .vkdf_memory_map _ _ _ res => res
  | _ => VK_SUCCESS

/-- The device rejected the call. -/
def Call.rejected (c : Call) : Prop := c.result ≠ VK_SUCCESS

instance (c : Call) : Decidable c.rejected := by
  unfold Call.rejected
  exact inferInstance

/-- What the driver answers. Nothing is assumed about it. -/
structure Driver where
  createBuffer : Nat → Nat → Nat → VkResult
  requirements : Nat → Nat → Nat → VkMemoryRequirements
  allocateMemory : Nat → Nat → VkResult
  bindBufferMemory : Nat → Nat → Nat → VkResult
  mapMemory : Nat → Nat → Nat → VkResult
  flushMappedMemoryRanges : Nat → Nat → Nat → VkResult
  invalidateMappedMemoryRanges : Nat → Nat → Nat → VkResult
  queueSubmit : Nat → VkResult
  unspecified : Nat → Nat
  allocateCommandBuffers : Nat → Nat → VkResult
  deviceWaitIdle : VkResult
  create : ObjectKind → List Nat → VkResult
  imageRequirements : List Nat → VkMemoryRequirements
  bindImageMemory : Nat → Nat → Nat → VkResult
  createDescriptorPool : Nat → Nat → VkResult
  allocateDescriptorSets : Nat → Nat → VkResult

/-- A buffer object living on the device. -/
structure BufferObject where
  flags : Nat
  size : Nat
  usage : Nat
  bound : Option (Nat × Nat)
deriving DecidableEq

/-- One device memory allocation. `device` is the content the device sees, `host` the
content the host sees through a mapping; bytes at addresses `≥ allocationSize` do not
exist. -/
structure DeviceMemory where
  allocationSize : Nat
  propertyFlags : Nat
  device : Nat → Nat
  host : Nat → Nat
  mapped : Bool

/-- The states of a command buffer (spec §4.5). -/
inductive CommandBufferState where
  | Initial
  | Recording
  | Executable
  | Pending
  | Invalid
deriving DecidableEq

/-- A command buffer living on the device: its state, whether it was recorded with
simultaneous-use, the pool it was allocated from and the commands recorded into it, in
the order recorded. -/
structure CommandBuffer where
  state : CommandBufferState
  simultaneous_use : Bool
  pool : Nat
  commands : List Command
deriving DecidableEq

/-- A device object of one of the kinds of `ObjectKind`, with the numbers it was created
from. -/
structure Object where
  kind : ObjectKind
  info : List Nat
deriving DecidableEq

/-- A descriptor pool living on the device (spec §3): the descriptor type it was declared
for, its capacity in sets and the number of sets allocated from it. -/
structure DescriptorPool where
  type : Nat
  maxSets : Nat
  allocated : Nat
deriving DecidableEq

/-- What an update wrote into a binding of a descriptor set. -/
structure DescriptorWrite where
  buffer : Nat
  binding : Nat
  count : Nat
  offsets : List Nat
  ranges : List Nat
  type : Nat
deriving DecidableEq

/-- A descriptor set living on the device: the pool it was allocated from, its layout and
the updates made to it, in order. -/
structure DescriptorSet where
  pool : Nat
  layout : Nat
  writes : List DescriptorWrite
deriving DecidableEq

/-- The struct `VkdfContext` (`ctx->device`, `ctx->phy_device_mem_props`, and the fields
the demos read: `width`, `height`, `surface_format`, `swap_chain_length`,
`swap_chain_index`, `acquired_sem`, `draw_sem`) together with the state of the device
behind it. `phy_device_mem_props` lists the `propertyFlags` of
`memoryTypes[0 .. memoryTypeCount)`. -/
structure VkdfContext where
  phy_device_mem_props : List Nat
  driver : Driver
  buffers : Nat → Option BufferObject
  memory : Nat → Option DeviceMemory
  cmd_bufs : Nat → Option CommandBuffer
  next : Nat
  log : List Call
  width : Nat
  height : Nat
  surface_format : Nat
  swap_chain_length : Nat
  swap_chain_index : Nat
  acquired_sem : List Nat
  draw_sem : List Nat
  objects : Nat → Option Object
  descriptor_pools : Nat → Option DescriptorPool
  descriptor_sets : Nat → Option DescriptorSet

/-- How a call of a C function ends: it returns `val`, an `assert` fails and the process
aborts, `VK_CHECK` sees the result `res` and the process terminates, (for the functions
modelled from the spec) a caller precondition is violated, or the call does something
whose behaviour C++ leaves undefined (a write outside an object): the run is followed up
to there, and nothing is said of what comes after. -/
inductive Outcome (α : Type) where
  | ok (val : α)
  | assertion
  | fatal (res : VkResult)
  | invalidArgument
  | undefined
deriving DecidableEq

/-- A C function over the context. -/
def Prog (α : Type) : Type := VkdfContext → Outcome α × VkdfContext

/-- Return `a` without touching the context. -/
def Prog.pure {α : Type} (a : α) : Prog α := fun ctx => (Outcome.ok a, ctx)

/-- Sequencing: the second part runs only if the first returned. -/
def Prog.bind {α β : Type} (m : Prog α) (f : α → Prog β) : Prog β := fun ctx =>
  match m ctx with
  | (Outcome.ok a, ctx1) => f a ctx1
  | (Outcome.assertion, ctx1) => (Outcome.assertion, ctx1)
  | (Outcome.fatal res, ctx1) => (Outcome.fatal res, ctx1)
  | (Outcome.invalidArgument, ctx1) => (Outcome.invalidArgument, ctx1)
  | (Outcome.undefined, ctx1) => (Outcome.undefined, ctx1)

instance : Monad Prog where
  pure := Prog.pure
  bind := Prog.bind

/-- A failed `assert`: the process aborts. -/
def abort {α : Type} : Prog α := fun ctx => (Outcome.assertion, ctx)

/-- An operation whose behaviour C++ leaves undefined. -/
def undefinedBehaviour {α : Type} : Prog α := fun ctx => (Outcome.undefined, ctx)

/-- Modelled from the spec: the `VK_CHECK` wrapper of vkdf.hpp is not among the sources.
Per the spec (fatal device errors) a native call that fails is reported and the process
terminates; a call that returns `VK_SUCCESS` lets the function go on. The second
component of what `call` returns is what the entry point wrote through its out-pointer. -/
def VK_CHECK {α : Type} (call : Prog (VkResult × α)) : Prog α := fun ctx =>
  match call ctx with
  | (Outcome.ok (res, out), ctx1) =>
    if res = VK_SUCCESS then (Outcome.ok out, ctx1) else (Outcome.fatal res, ctx1)
  | (Outcome.assertion, ctx1) => (Outcome.assertion, ctx1)
  | (Outcome.fatal res, ctx1) => (Outcome.fatal res, ctx1)
  | (Outcome.invalidArgument, ctx1) => (Outcome.invalidArgument, ctx1)
  | (Outcome.undefined, ctx1) => (Outcome.undefined, ctx1)

/-- The C `assert` on an expression without side effects: with `NDEBUG` defined it
expands to nothing, otherwise a false condition aborts the process. -/
def assert (ndebug : Bool) (cond : Bool) : Prog Unit :=
  if ndebug then Prog.pure () else if cond then Prog.pure () else abort

/-- The C `assert` on a call that writes through an out-pointer: with `NDEBUG` defined
the call is not made and the pointee keeps the value `old` it had; otherwise the call is
made, the pointee holds what the call wrote, and a false return value aborts. -/
def assertCall {α : Type} (ndebug : Bool) (call : Prog (Bool × α)) (old : α) : Prog α :=
  if ndebug then Prog.pure old
  else Prog.bind call (fun r => if r.1 then Prog.pure r.2 else abort)

/-- Whether `addr` lies in the range of `size` bytes starting at `offset`. -/
def inRange (offset size addr : Nat) : Bool := decide (offset ≤ addr) && decide (addr < offset + size)

/-- Whether `flags & bit` is non-zero. -/
def hasFlag (flags bit : Nat) : Bool := flags &&& bit != 0

/-! ## Memory type selection -/

/-- Modelled from the spec: the scan of `select_memory_type` (§4.1), whose code
(`vkdf_memory_type_from_properties`) is not among the sources. It scans the memory types
in index order, `i` being the index of the head of `types`, and returns the first index
whose bit is set in `type_bitmask` and whose property flags are a superset of
`required_properties`; `none` is the failure `NoSuitableMemoryType`. -/
def select_memory_type_from (type_bitmask required_properties : Nat) :
    List Nat → Nat → Option Nat
  | [], _ => none
  | propertyFlags :: rest, i =>
    if type_bitmask.testBit i && (propertyFlags &&& required_properties == required_properties)
    then some i
    else select_memory_type_from type_bitmask required_properties rest (i + 1)

/-- Modelled from the spec: `select_memory_type(type_bitmask, required_properties)` of
§4.1 over the device's memory-type table. -/
def select_memory_type (types : List Nat) (type_bitmask required_properties : Nat) :
    Option Nat :=
  select_memory_type_from type_bitmask required_properties types 0

/-- Memory type `i` of the table satisfies the request (spec §3, MemoryTypeDescriptor):
it exists, its bit is set in `type_bitmask` and its flags are a superset of
`required_properties`. -/
def suitable (types : List Nat) (type_bitmask required_properties : Nat) (i : Nat) : Prop :=
  ∃ propertyFlags, types[i]? = some propertyFlags ∧ type_bitmask.testBit i = true ∧
    propertyFlags &&& required_properties = required_properties

/-- Modelled from the spec: `vkdf_memory_type_from_properties`, called by
`vkdf_create_buffer` and not among the sources: `select_memory_type` of §4.1 on
`ctx->phy_device_mem_props`. It returns whether a type was found and writes the index
through `mem_type_index`, which keeps its old value when none is found. -/
def vkdf_memory_type_from_properties (allowed_mem_types requirements_mask : Nat)
    (mem_type_index : Nat) : Prog (Bool × Nat) := fun ctx =>
  let found := select_memory_type ctx.phy_device_mem_props allowed_mem_types requirements_mask
  (Outcome.ok (found.isSome, found.getD mem_type_index),
   { ctx with log := ctx.log ++
      [Call.vkdf_memory_type_from_properties allowed_mem_types requirements_mask found] })

/-! ## The Vulkan entry points used by vkdf-buffer.cpp -/

/-- The entry point `vkCreateBuffer`: on success a new buffer object, whose handle is
written through `pBuffer`; on failure the pointee is not specified. -/
def vkCreateBuffer (flags size usage : Nat) : Prog (VkResult × Nat) := fun ctx =>
  let res := ctx.driver.createBuffer flags size usage
  (Outcome.ok (res, if res = VK_SUCCESS then ctx.next else ctx.driver.unspecified 0),
   { ctx with
     buffers :=
       if res = VK_SUCCESS then
         Function.update ctx.buffers ctx.next
           (some { flags := flags, size := size, usage := usage, bound := none })
       else ctx.buffers
     next := if res = VK_SUCCESS then ctx.next + 1 else ctx.next
     log := ctx.log ++ [Call.vkCreateBuffer flags size usage res] })

/-- The entry point `vkGetBufferMemoryRequirements`: what the driver requires for the
buffer object behind the handle. -/
def vkGetBufferMemoryRequirements (buf : Nat) : Prog VkMemoryRequirements := fun ctx =>
  (Outcome.ok
    (match ctx.buffers buf with
     | some b => ctx.driver.requirements b.flags b.size b.usage
     | none => { size := ctx.driver.unspecified 0, alignment := ctx.driver.unspecified 1,
                 memoryTypeBits := ctx.driver.unspecified 2 }),
   { ctx with log := ctx.log ++ [Call.vkGetBufferMemoryRequirements buf] })

/-- The entry point `vkAllocateMemory`: on success a new allocation of `allocationSize`
bytes carrying the property flags of memory type `memoryTypeIndex`, with unspecified
content; its handle is written through `pMemory`. -/
def vkAllocateMemory (allocationSize memoryTypeIndex : Nat) : Prog (VkResult × Nat) :=
  fun ctx =>
  let res := ctx.driver.allocateMemory allocationSize memoryTypeIndex
  (Outcome.ok (res, if res = VK_SUCCESS then ctx.next else ctx.driver.unspecified 0),
   { ctx with
     memory :=
       if res = VK_SUCCESS then
         Function.update ctx.memory ctx.next
           (some { allocationSize := allocationSize
                   propertyFlags := ctx.phy_device_mem_props.getD memoryTypeIndex 0
                   device := ctx.driver.unspecified
                   host := ctx.driver.unspecified
                   mapped := false })
       else ctx.memory
     next := if res = VK_SUCCESS then ctx.next + 1 else ctx.next
     log := ctx.log ++ [Call.vkAllocateMemory allocationSize memoryTypeIndex res] })

/-- The entry point `vkBindBufferMemory`. -/
def vkBindBufferMemory (buf mem memoryOffset : Nat) : Prog (VkResult × Unit) := fun ctx =>
  let res := ctx.driver.bindBufferMemory buf mem memoryOffset
  (Outcome.ok (res, ()),
   { ctx with
     buffers := fun h =>
       if res = VK_SUCCESS ∧ h = buf then
         (ctx.buffers h).map (fun b => { b with bound := some (mem, memoryOffset) })
       else ctx.buffers h
     log := ctx.log ++ [Call.vkBindBufferMemory buf mem memoryOffset res] })

/-- What `vkMapMemory` returns: a handle that names no allocation cannot be mapped,
otherwise the driver decides. -/
def mapResult (ctx : VkdfContext) (mem offset size : Nat) : VkResult :=
  match ctx.memory mem with
  | none => VK_ERROR_MEMORY_MAP_FAILED
  | some _ => ctx.driver.mapMemory mem offset size

/-- The allocation `m` once mapped: the host sees the device's content when the memory
type is host-coherent, and unspecified (stale) bytes otherwise, until it invalidates
them. -/
def DeviceMemory.map (m : DeviceMemory) (unspecified : Nat → Nat) : DeviceMemory :=
  { m with
    mapped := true
    host := if hasFlag m.propertyFlags VK_MEMORY_PROPERTY_HOST_COHERENT_BIT
            then m.device else unspecified }

/-- The allocation `m` after the host wrote byte `i` of `data` to address `offset + i`,
for `i < size`. Only addresses inside the allocation hold a byte; on host-coherent
memory the device sees the write at once. -/
def DeviceMemory.write (m : DeviceMemory) (offset size : Nat) (data : Nat → Nat) :
    DeviceMemory :=
  { m with
    host := fun addr =>
      if inRange offset size addr && decide (addr < m.allocationSize) then data (addr - offset)
      else m.host addr
    device := fun addr =>
      if hasFlag m.propertyFlags VK_MEMORY_PROPERTY_HOST_COHERENT_BIT &&
         (inRange offset size addr && decide (addr < m.allocationSize))
      then data (addr - offset)
      else m.device addr }

/-- The allocation `m` after a flush of the range: the device sees the host's bytes. -/
def DeviceMemory.flush (m : DeviceMemory) (offset size : Nat) : DeviceMemory :=
  { m with
    device := fun addr => if inRange offset size addr then m.host addr else m.device addr }

/-- The allocation `m` after an invalidate of the range: the host sees the device's
bytes. -/
def DeviceMemory.invalidate (m : DeviceMemory) (offset size : Nat) : DeviceMemory :=
  { m with
    host := fun addr => if inRange offset size addr then m.device addr else m.host addr }

/-- The byte the host reads at `addr` through a mapping; outside the allocation there is
no byte and what is read is not specified. -/
def DeviceMemory.read (m : DeviceMemory) (unspecified : Nat → Nat) (addr : Nat) : Nat :=
  if addr < m.allocationSize then m.host addr else unspecified addr

/-- The entry point `vkMapMemory`. The pointer written through `ppData` is the pair of
`mem` and `offset`, which the caller already holds. -/
def vkMapMemory (mem offset size : Nat) : Prog (VkResult × Unit) := fun ctx =>
  let res := mapResult ctx mem offset size
  (Outcome.ok (res, ()),
   { ctx with
     memory := fun h =>
       if res = VK_SUCCESS ∧ h = mem then
         (ctx.memory h).map (fun m => m.map ctx.driver.unspecified)
       else ctx.memory h
     log := ctx.log ++ [Call.vkMapMemory mem offset size res] })

/-- The host copy `memcpy(mapped_memory, data, size)` into the range mapped at `offset`
of `mem`. -/
def memcpy_to_mapped (mem offset size : Nat) (data : Nat → Nat) : Prog Unit := fun ctx =>
  (Outcome.ok (),
   { ctx with
     memory := fun h =>
       if h = mem then (ctx.memory h).map (fun m => m.write offset size data)
       else ctx.memory h
     log := ctx.log ++ [Call.memcpy_to_mapped mem offset ((List.range size).map data)] })

/-- The entry point `vkFlushMappedMemoryRanges` on the one range `(mem, offset, size)`. -/
def vkFlushMappedMemoryRanges (mem offset size : Nat) : Prog (VkResult × Unit) := fun ctx =>
  let res := ctx.driver.flushMappedMemoryRanges mem offset size
  (Outcome.ok (res, ()),
   { ctx with
     memory := fun h =>
       if res = VK_SUCCESS ∧ h = mem then (ctx.memory h).map (fun m => m.flush offset size)
       else ctx.memory h
     log := ctx.log ++ [Call.vkFlushMappedMemoryRanges mem offset size res] })

/-- The entry point `vkInvalidateMappedMemoryRanges` on the one range
`(mem, offset, size)`. -/
def vkInvalidateMappedMemoryRanges (mem offset size : Nat) : Prog (VkResult × Unit) :=
  fun ctx =>
  let res := ctx.driver.invalidateMappedMemoryRanges mem offset size
  (Outcome.ok (res, ()),
   { ctx with
     memory := fun h =>
       if res = VK_SUCCESS ∧ h = mem then
         (ctx.memory h).map (fun m => m.invalidate offset size)
       else ctx.memory h
     log := ctx.log ++ [Call.vkInvalidateMappedMemoryRanges mem offset size res] })

/-- The entry point `vkUnmapMemory`. -/
def vkUnmapMemory (mem : Nat) : Prog Unit := fun ctx =>
  (Outcome.ok (),
   { ctx with
     memory := fun h =>
       if h = mem then (ctx.memory h).map (fun m => { m with mapped := false })
       else ctx.memory h
     log := ctx.log ++ [Call.vkUnmapMemory mem] })

/-- The entry point `vkDestroyBuffer`. -/
def vkDestroyBuffer (buf : Nat) : Prog Unit := fun ctx =>
  (Outcome.ok (),
   { ctx with
     buffers := Function.update ctx.buffers buf none
     log := ctx.log ++ [Call.vkDestroyBuffer buf] })

/-- The entry point `vkFreeMemory`. -/
def vkFreeMemory (mem : Nat) : Prog Unit := fun ctx =>
  (Outcome.ok (),
   { ctx with
     memory := Function.update ctx.memory mem none
     log := ctx.log ++ [Call.vkFreeMemory mem] })

/-! ## vkdf-buffer.cpp -/

/-- The function `vkdf_create_buffer`. `ndebug` tells whether the file is compiled with
`NDEBUG`; `uninit` is the indeterminate value the uninitialised field
`alloc_info.memoryTypeIndex` holds before something is written to it. -/
def vkdf_create_buffer (ndebug : Bool) (uninit : Nat) (flags size usage mem_props : Nat) :
    Prog VkdfBuffer := do
  let buf ← VK_CHECK (vkCreateBuffer flags size usage)
  let mem_reqs ← vkGetBufferMemoryRequirements buf
  let allocationSize := mem_reqs.size
  let memoryTypeIndex ← assertCall ndebug
    (vkdf_memory_type_from_properties mem_reqs.memoryTypeBits mem_props uninit) uninit
  let mem ← VK_CHECK (vkAllocateMemory allocationSize memoryTypeIndex)
  VK_CHECK (vkBindBufferMemory buf mem 0)
  return { buf := buf, mem := mem, mem_reqs := mem_reqs, mem_props := mem_props }

/-- The function `vkdf_buffer_map_and_fill`; `data` gives byte `i` of the source. -/
def vkdf_buffer_map_and_fill (ndebug : Bool) (buf : VkdfBuffer) (offset size : Nat)
    (data : Nat → Nat) : Prog Unit := do
  assert ndebug (hasFlag buf.mem_props VK_MEMORY_PROPERTY_HOST_VISIBLE_BIT)
  VK_CHECK (vkMapMemory buf.mem offset size)
  assert ndebug (decide (buf.mem_reqs.size ≥ size))
  memcpy_to_mapped buf.mem offset size data
  if !(hasFlag buf.mem_props VK_MEMORY_PROPERTY_HOST_COHERENT_BIT) then
    VK_CHECK (vkFlushMappedMemoryRanges buf.mem offset size)
  vkUnmapMemory buf.mem

/-- The function `vkdf_destroy_buffer`. -/
def vkdf_destroy_buffer (buf : VkdfBuffer) : Prog Unit := do
  vkDestroyBuffer buf.buf
  vkFreeMemory buf.mem

/-- The host copy `memcpy(data, mapped_memory, size)` out of the range mapped at `offset`
of `mem`: the `size` bytes the host reads at `offset`, `offset + 1`, ... -/
def memcpy_from_mapped (mem offset size : Nat) : Prog (List Nat) := fun ctx =>
  let bytes := (List.range size).map (fun i =>
    match ctx.memory mem with
    | some m => m.read ctx.driver.unspecified (offset + i)
    | none => ctx.driver.unspecified (offset + i))
  (Outcome.ok bytes,
   { ctx with log := ctx.log ++ [Call.memcpy_from_mapped mem offset bytes] })

/-- Modelled from the spec: `vkdf_buffer_map_and_get`, called by the ssbo-triangle demo
and not among the sources. Per §4.2 it is symmetric to `vkdf_buffer_map_and_fill`: it
requires host-visibility, maps the range, and, if the memory is not host-coherent,
invalidates the mapped range before the copy; then it copies `size` bytes out and
unmaps. What it returns is the content of `data[0 .. size)` after the call. -/
def vkdf_buffer_map_and_get (ndebug : Bool) (buf : VkdfBuffer) (offset size : Nat) :
    Prog (List Nat) := do
  assert ndebug (hasFlag buf.mem_props VK_MEMORY_PROPERTY_HOST_VISIBLE_BIT)
  VK_CHECK (vkMapMemory buf.mem offset size)
  assert ndebug (decide (buf.mem_reqs.size ≥ size))
  if !(hasFlag buf.mem_props VK_MEMORY_PROPERTY_HOST_COHERENT_BIT) then
    VK_CHECK (vkInvalidateMappedMemoryRanges buf.mem offset size)
  let bytes ← memcpy_from_mapped buf.mem offset size
  vkUnmapMemory buf.mem
  return bytes

/-! ## vkdf-cmd-buffer.hpp -/

/-- The entry point `vkQueueSubmit` of one command buffer: on success the command buffer
is pending. -/
def vkQueueSubmit (cmd_buf : Nat) (wait_sem wait_stages signal_sem : List Nat) :
    Prog (VkResult × Unit) := fun ctx =>
  let res := ctx.driver.queueSubmit cmd_buf
  (Outcome.ok (res, ()),
   { ctx with
     cmd_bufs := fun h =>
       if res = VK_SUCCESS ∧ h = cmd_buf then
         (ctx.cmd_bufs h).map (fun c => { c with state := CommandBufferState.Pending })
       else ctx.cmd_bufs h
     log := ctx.log ++ [Call.vkQueueSubmit cmd_buf wait_sem wait_stages signal_sem res] })

/-- A failed caller precondition (spec §7 (b)). -/
def invalidArgument {α : Type} : Prog α := fun ctx => (Outcome.invalidArgument, ctx)

/-- The state of the command buffer behind the handle, if there is one. -/
def commandBufferState (cmd_buf : Nat) : Prog (Option CommandBufferState) := fun ctx =>
  (Outcome.ok ((ctx.cmd_bufs cmd_buf).map (fun c => c.state)), ctx)

/-- Modelled from the spec: `vkdf_command_buffer_execute`, of which only the declaration
is among the sources. The declaration passes each array as a pointer; here an array
argument is the list of the elements the call supplies, so the declared counts
`wait_sem_count` and `signal_sem_count` are the lengths of `wait_sem` and `signal_sem`.
Per §4.5 `submit(wait_semaphores[], wait_stage_masks[], signal_semaphores[])` has the
precondition `len(wait_semaphores) == len(wait_stage_masks)`, whose violation is an
`InvalidArgument` failure, and takes the command buffer from `Executable` to `Pending`; a
recording-state violation is an `InvalidArgument`-class failure too and a submission the
device rejects is fatal (§7). -/
def vkdf_command_buffer_execute (cmd_buf : Nat) (pipeline_stage_flags : List Nat)
    (wait_sem : List Nat) (signal_sem : List Nat) : Prog Unit := do
  if wait_sem.length ≠ pipeline_stage_flags.length then
    invalidArgument
  if (← commandBufferState cmd_buf) ≠ some CommandBufferState.Executable then
    invalidArgument
  VK_CHECK (vkQueueSubmit cmd_buf wait_sem pipeline_stage_flags signal_sem)

/-! ## Loops and arrays -/

/-- Read the context (`ctx->width` and the like). -/
def getContext : Prog VkdfContext := fun ctx => (Outcome.ok ctx, ctx)

/-- The array a call passes as a pointer together with a count: the first `count` of the
elements found at the pointer. For `vkdf_command_buffer_execute` the count of the stage
masks is `wait_sem_count`, as it is for `pWaitDstStageMask` of `vkQueueSubmit`. -/
def array (count : Nat) (elements : List Nat) : List Nat := elements.take count

/-- The pointer `NULL` passed for an array. -/
def NULL : List Nat := []

/-- A `for` loop over the elements of a list, in order; it stops where the body does. -/
def forEach {α : Type} : List α → (α → Prog Unit) → Prog Unit
  | [], _ => Prog.pure ()
  | x :: xs, body => Prog.bind (body x) (fun _ => forEach xs body)

/-- A `for` loop that fills an array: the results of the body, in order. -/
def collect {α β : Type} : List α → (α → Prog β) → Prog (List β)
  | [], _ => Prog.pure []
  | x :: xs, body =>
    Prog.bind (body x) (fun y => Prog.bind (collect xs body) (fun ys => Prog.pure (y :: ys)))

/-- Modelled from the spec: `vkdf_fatal` is not among the sources. Per the spec (fatal
device errors) it reports the cause and terminates the process; `res` is the result code
that led to it. -/
def vkdf_fatal {α : Type} (res : VkResult) : Prog α := fun ctx => (Outcome.fatal res, ctx)

/-! ## Command buffers: the device -/

/-- The device finishes executing a command buffer (spec §4.5): a pending command buffer
becomes executable again if it was recorded with simultaneous-use and invalid
otherwise. -/
def CommandBuffer.complete (c : CommandBuffer) : CommandBuffer :=
  if c.state = CommandBufferState.Pending then
    { c with state := if c.simultaneous_use then CommandBufferState.Executable
                      else CommandBufferState.Invalid }
  else c

/-- The device finishes all the work submitted to it. Not a call of the code: nothing is
logged. -/
def deviceFinishes : Prog Unit := fun ctx =>
  (Outcome.ok (), { ctx with cmd_bufs := fun h => (ctx.cmd_bufs h).map CommandBuffer.complete })

/-- The entry point `vkDeviceWaitIdle`: when it succeeds the device has finished all the
work submitted to it. -/
def vkDeviceWaitIdle : Prog VkResult := fun ctx =>
  (Outcome.ok ctx.driver.deviceWaitIdle,
   { ctx with
     cmd_bufs := fun h =>
       if ctx.driver.deviceWaitIdle = VK_SUCCESS then (ctx.cmd_bufs h).map CommandBuffer.complete
       else ctx.cmd_bufs h
     log := ctx.log ++ [Call.vkDeviceWaitIdle ctx.driver.deviceWaitIdle] })

/-- The entry point `vkAllocateCommandBuffers`: on success `commandBufferCount` new
command buffers of the pool, in the initial state, whose handles are written to the
array `pCommandBuffers`. -/
def vkAllocateCommandBuffers (commandPool level commandBufferCount : Nat) :
    Prog (VkResult × List Nat) := fun ctx =>
  let res := ctx.driver.allocateCommandBuffers commandPool commandBufferCount
  let cmd_bufs := if res = VK_SUCCESS then List.range' ctx.next commandBufferCount else []
  (Outcome.ok (res, cmd_bufs),
   { ctx with
     cmd_bufs := fun h =>
       if res = VK_SUCCESS ∧ ctx.next ≤ h ∧ h < ctx.next + commandBufferCount then
         some { state := CommandBufferState.Initial, simultaneous_use := false,
                pool := commandPool, commands := [] }
       else ctx.cmd_bufs h
     next := if res = VK_SUCCESS then ctx.next + commandBufferCount else ctx.next
     log := ctx.log ++
       [Call.vkAllocateCommandBuffers commandPool level commandBufferCount res cmd_bufs] })

/-- The entry point `vkBeginCommandBuffer` on a command buffer in the initial state: it
is recording, with the usage the flags declare. -/
def vkBeginCommandBuffer (cmd_buf flags : Nat) : Prog Unit := fun ctx =>
  (Outcome.ok (),
   { ctx with
     cmd_bufs := fun h =>
       if h = cmd_buf then
         (ctx.cmd_bufs h).map (fun c =>
           { c with
             state := CommandBufferState.Recording
             simultaneous_use := hasFlag flags VK_COMMAND_BUFFER_USAGE_SIMULTANEOUS_USE_BIT })
       else ctx.cmd_bufs h
     log := ctx.log ++ [Call.vkBeginCommandBuffer cmd_buf flags] })

/-- The entry point `vkEndCommandBuffer` on a recording command buffer: it is
executable. -/
def vkEndCommandBuffer (cmd_buf : Nat) : Prog Unit := fun ctx =>
  (Outcome.ok (),
   { ctx with
     cmd_bufs := fun h =>
       if h = cmd_buf then
         (ctx.cmd_bufs h).map (fun c => { c with state := CommandBufferState.Executable })
       else ctx.cmd_bufs h
     log := ctx.log ++ [Call.vkEndCommandBuffer cmd_buf] })

/-- The command is appended to what the command buffer has recorded. -/
def appendCommand (cmd_buf : Nat) (command : Command) : Prog Unit := fun ctx =>
  (Outcome.ok (),
   { ctx with
     cmd_bufs := fun h =>
       if h = cmd_buf then
         (ctx.cmd_bufs h).map (fun c => { c with commands := c.commands ++ [command] })
       else ctx.cmd_bufs h
     log := ctx.log ++ [Call.record cmd_buf command] })

/-- A `vkCmd...` entry point. Per spec §4.5 commands are recorded, in order, into a
command buffer that is in `Recording`; recording into any other is a recording-state
violation (§7 (b)). -/
def record (cmd_buf : Nat) (command : Command) : Prog Unit := do
  if (← commandBufferState cmd_buf) ≠ some CommandBufferState.Recording then
    invalidArgument
  appendCommand cmd_buf command

/-- The entry point `vkCmdBeginRenderPass`. -/
def vkCmdBeginRenderPass (cmd_buf : Nat) (renderPassBegin : VkRenderPassBeginInfo)
    (contents : Nat) : Prog Unit :=
  record cmd_buf (Command.vkCmdBeginRenderPass renderPassBegin contents)

/-- The entry point `vkCmdEndRenderPass`. -/
def vkCmdEndRenderPass (cmd_buf : Nat) : Prog Unit :=
  record cmd_buf Command.vkCmdEndRenderPass

/-- The entry point `vkCmdPipelineBarrier`. -/
def vkCmdPipelineBarrier (cmd_buf srcStageMask dstStageMask dependencyFlags : Nat)
    (memoryBarriers : List Nat) (bufferMemoryBarriers : List VkBufferMemoryBarrier)
    (imageMemoryBarriers : List VkImageMemoryBarrier) : Prog Unit :=
  record cmd_buf (Command.vkCmdPipelineBarrier srcStageMask dstStageMask dependencyFlags
    memoryBarriers bufferMemoryBarriers imageMemoryBarriers)

/-- The entry point `vkCmdCopyImageToBuffer`. -/
def vkCmdCopyImageToBuffer (cmd_buf srcImage srcImageLayout dstBuffer : Nat)
    (regions : List VkBufferImageCopy) : Prog Unit :=
  record cmd_buf (Command.vkCmdCopyImageToBuffer srcImage srcImageLayout dstBuffer regions)

/-- The entry point `vkCmdBindPipeline`. -/
def vkCmdBindPipeline (cmd_buf pipelineBindPoint pipeline : Nat) : Prog Unit :=
  record cmd_buf (Command.vkCmdBindPipeline pipelineBindPoint pipeline)

/-- The entry point `vkCmdBindDescriptorSets`. -/
def vkCmdBindDescriptorSets (cmd_buf pipelineBindPoint layout firstSet : Nat)
    (descriptorSets dynamicOffsets : List Nat) : Prog Unit :=
  record cmd_buf (Command.vkCmdBindDescriptorSets pipelineBindPoint layout firstSet
    descriptorSets dynamicOffsets)

/-- The entry point `vkCmdBindVertexBuffers`. -/
def vkCmdBindVertexBuffers (cmd_buf firstBinding : Nat) (buffers offsets : List Nat) :
    Prog Unit :=
  record cmd_buf (Command.vkCmdBindVertexBuffers firstBinding buffers offsets)

/-- The entry point `vkCmdSetViewport`. -/
def vkCmdSetViewport (cmd_buf firstViewport : Nat) (viewports : List (List Nat)) :
    Prog Unit :=
  record cmd_buf (Command.vkCmdSetViewport firstViewport viewports)

/-- The entry point `vkCmdSetScissor`. -/
def vkCmdSetScissor (cmd_buf firstScissor : Nat) (scissors : List (List Nat)) : Prog Unit :=
  record cmd_buf (Command.vkCmdSetScissor firstScissor scissors)

/-- The entry point `vkCmdDraw`. -/
def vkCmdDraw (cmd_buf vertexCount instanceCount firstVertex firstInstance : Nat) :
    Prog Unit :=
  record cmd_buf (Command.vkCmdDraw vertexCount instanceCount firstVertex firstInstance)

/-- The entry point `vkFreeCommandBuffers`. -/
def vkFreeCommandBuffers (commandPool : Nat) (cmd_bufs : List Nat) : Prog Unit := fun ctx =>
  (Outcome.ok (),
   { ctx with
     cmd_bufs := fun h => if h ∈ cmd_bufs then none else ctx.cmd_bufs h
     log := ctx.log ++ [Call.vkFreeCommandBuffers commandPool cmd_bufs] })

/-- Modelled from the spec: the explicit pool-level reset of §4.5, which no source file
calls: every command buffer of the pool is back in the initial state, with nothing
recorded. -/
def vkResetCommandPool (commandPool : Nat) : Prog Unit := fun ctx =>
  (Outcome.ok (),
   { ctx with
     cmd_bufs := fun h =>
       (ctx.cmd_bufs h).map (fun c =>
         if c.pool = commandPool then
           { c with state := CommandBufferState.Initial, simultaneous_use := false,
                    commands := [] }
         else c)
     log := ctx.log ++ [Call.vkResetCommandPool commandPool] })

/-! ## vkdf-cmd-buffer.hpp, continued -/

/-- Modelled from the spec: `vkdf_create_command_buffer`, of which only the declaration
is among the sources. Per §3 command buffers are allocated from a pool in batches: it
allocates `cmd_count` command buffers, which start in `Initial` (§4.5), and writes their
handles to the array `cmd_bufs`; an allocation the device rejects is fatal (§7). -/
def vkdf_create_command_buffer (cmd_pool level cmd_count : Nat) : Prog (List Nat) :=
  VK_CHECK (vkAllocateCommandBuffers cmd_pool level cmd_count)

/-- Modelled from the spec: `vkdf_command_buffer_begin`, of which only the declaration is
among the sources. Per §4.5 `begin(usage_flags)` takes the command buffer from `Initial`
to `Recording` and fails if it is not in `Initial`, an `InvalidArgument`-class failure
(§7 (b)). -/
def vkdf_command_buffer_begin (cmd_buf flags : Nat) : Prog Unit := do
  if (← commandBufferState cmd_buf) ≠ some CommandBufferState.Initial then
    invalidArgument
  vkBeginCommandBuffer cmd_buf flags

/-- Modelled from the spec: `vkdf_command_buffer_end`, of which only the declaration is
among the sources. Per §4.5 `end()` takes the command buffer from `Recording` to
`Executable` and fails if it is not in `Recording`, an `InvalidArgument`-class failure
(§7 (b)). -/
def vkdf_command_buffer_end (cmd_buf : Nat) : Prog Unit := do
  if (← commandBufferState cmd_buf) ≠ some CommandBufferState.Recording then
    invalidArgument
  vkEndCommandBuffer cmd_buf

/-! ## Barrier construction -/

/-- Modelled from the spec: `vkdf_create_image_subresource_range` is not among the
sources; it builds the resource scope of an image barrier (§3) from its arguments. -/
def vkdf_create_image_subresource_range (aspect base_level level_count base_layer
    layer_count : Nat) : VkImageSubresourceRange :=
  { aspectMask := aspect, baseMipLevel := base_level, levelCount := level_count,
    baseArrayLayer := base_layer, layerCount := layer_count }

/-- Modelled from the spec: `vkdf_create_image_barrier` is not among the sources; it
builds the image barrier descriptor of §3 (source access mask, destination access mask,
source layout, destination layout, resource scope) from its arguments. -/
def vkdf_create_image_barrier (src_access_mask dst_access_mask old_layout new_layout
    image : Nat) (subresource_range : VkImageSubresourceRange) : VkImageMemoryBarrier :=
  { srcAccessMask := src_access_mask, dstAccessMask := dst_access_mask,
    oldLayout := old_layout, newLayout := new_layout, image := image,
    subresourceRange := subresource_range }

/-- Modelled from the spec: `vkdf_create_buffer_barrier` is not among the sources; it
builds the buffer barrier descriptor of §3 (source access mask, destination access mask,
buffer, offset, size) from its arguments. -/
def vkdf_create_buffer_barrier (src_access_mask dst_access_mask buf offset size : Nat) :
    VkBufferMemoryBarrier :=
  { srcAccessMask := src_access_mask, dstAccessMask := dst_access_mask, buffer := buf,
    offset := offset, size := size }

/-- Modelled from the spec: `vkdf_color_clear_set` is not among the sources; the clear
value holds the four components of the colour. -/
def vkdf_color_clear_set (color : List Nat) : List Nat := color

/-! ## Device objects -/

/-- The creation of a device object of the kind: on success a new object, whose handle is
written through the out-pointer. -/
def createObject (kind : ObjectKind) (info : List Nat) : Prog (VkResult × Nat) := fun ctx =>
  let res := ctx.driver.create kind info
  let handle := if res = VK_SUCCESS then ctx.next else ctx.driver.unspecified 0
  (Outcome.ok (res, handle),
   { ctx with
     objects := fun h =>
       if res = VK_SUCCESS ∧ h = ctx.next then some { kind := kind, info := info }
       else ctx.objects h
     next := if res = VK_SUCCESS then ctx.next + 1 else ctx.next
     log := ctx.log ++ [Call.create kind info res handle] })

/-- The destruction of a device object. -/
def destroyObject (kind : ObjectKind) (handle : Nat) : Prog Unit := fun ctx =>
  (Outcome.ok (),
   { ctx with
     objects := fun h => if h = handle then none else ctx.objects h
     log := ctx.log ++ [Call.destroy kind handle] })

/-- The entry point `vkCreateRenderPass`. -/
def vkCreateRenderPass (info : List Nat) : Prog (VkResult × Nat) :=
  createObject ObjectKind.RenderPass info

/-- The entry point `vkCreatePipelineLayout`. -/
def vkCreatePipelineLayout (info : List Nat) : Prog (VkResult × Nat) :=
  createObject ObjectKind.PipelineLayout info

/-- The entry point `vkDestroyRenderPass`. -/
def vkDestroyRenderPass (render_pass : Nat) : Prog Unit :=
  destroyObject ObjectKind.RenderPass render_pass

/-- The entry point `vkDestroyFramebuffer`. -/
def vkDestroyFramebuffer (framebuffer : Nat) : Prog Unit :=
  destroyObject ObjectKind.Framebuffer framebuffer

/-- The entry point `vkDestroyCommandPool`. -/
def vkDestroyCommandPool (cmd_pool : Nat) : Prog Unit :=
  destroyObject ObjectKind.CommandPool cmd_pool

/-- The entry point `vkDestroyPipeline`. -/
def vkDestroyPipeline (pipeline : Nat) : Prog Unit :=
  destroyObject ObjectKind.Pipeline pipeline

/-- The entry point `vkDestroyPipelineLayout`. -/
def vkDestroyPipelineLayout (pipeline_layout : Nat) : Prog Unit :=
  destroyObject ObjectKind.PipelineLayout pipeline_layout

/-- The entry point `vkDestroyShaderModule`. -/
def vkDestroyShaderModule (shader_module : Nat) : Prog Unit :=
  destroyObject ObjectKind.ShaderModule shader_module

/-- The entry point `vkDestroySemaphore`. -/
def vkDestroySemaphore (semaphore : Nat) : Prog Unit :=
  destroyObject ObjectKind.Semaphore semaphore

/-- The entry point `vkDestroyDescriptorSetLayout`. -/
def vkDestroyDescriptorSetLayout (set_layout : Nat) : Prog Unit :=
  destroyObject ObjectKind.DescriptorSetLayout set_layout

/-- Modelled from the spec: the creation helpers of the framework that the demos call
and that are not among the sources (`vkdf_renderpass_simple_new`,
`vkdf_create_framebuffer`, `vkdf_create_gfx_command_pool`, `vkdf_create_shader_module`,
`vkdf_create_gfx_pipeline`, `vkdf_create_semaphore`,
`vkdf_create_buffer_descriptor_set_layout`). Each creates one device object of its kind
from its arguments and is fatal if the device rejects the creation (§7). -/
def vkdf_create (kind : ObjectKind) (info : List Nat) : Prog Nat :=
  VK_CHECK (createObject kind info)

/-- Modelled from the spec: `vkdf_renderpass_simple_new` (see `vkdf_create`). -/
def vkdf_renderpass_simple_new (color_format color_load color_store color_initial_layout
    color_final_layout depth_format depth_load depth_store depth_initial_layout
    depth_final_layout : Nat) : Prog Nat :=
  vkdf_create ObjectKind.RenderPass
    [color_format, color_load, color_store, color_initial_layout, color_final_layout,
     depth_format, depth_load, depth_store, depth_initial_layout, depth_final_layout]

/-- Modelled from the spec: `vkdf_create_framebuffer` (see `vkdf_create`). -/
def vkdf_create_framebuffer (render_pass image_view width height num_extra_attachments : Nat)
    (extra_attachments : List Nat) : Prog Nat :=
  vkdf_create ObjectKind.Framebuffer
    ([render_pass, image_view, width, height, num_extra_attachments] ++ extra_attachments)

/-- Modelled from the spec: `vkdf_create_framebuffers_for_swap_chain` is not among the
sources; it creates one framebuffer for each of the `swap_chain_length` images of the
swap chain (§6), each as `vkdf_create` does, and returns them as an array. -/
def vkdf_create_framebuffers_for_swap_chain (render_pass num_extra_attachments : Nat)
    (extra_attachments : List Nat) : Prog (List Nat) := do
  let ctx ← getContext
  collect (List.range ctx.swap_chain_length) (fun i =>
    vkdf_create ObjectKind.Framebuffer
      ([render_pass, i, ctx.width, ctx.height, num_extra_attachments] ++ extra_attachments))

/-- Modelled from the spec: `vkdf_create_gfx_command_pool`, of which only the declaration
is among the sources (see `vkdf_create`). -/
def vkdf_create_gfx_command_pool (flags : Nat) : Prog Nat :=
  vkdf_create ObjectKind.CommandPool [flags]

/-- Modelled from the spec: `vkdf_create_shader_module` (see `vkdf_create`); the file is
named by numbers. -/
def vkdf_create_shader_module (file : List Nat) : Prog Nat :=
  vkdf_create ObjectKind.ShaderModule file

/-- Modelled from the spec: `vkdf_create_gfx_pipeline` (see `vkdf_create`). -/
def vkdf_create_gfx_pipeline (info : List Nat) : Prog Nat :=
  vkdf_create ObjectKind.Pipeline info

/-- Modelled from the spec: `vkdf_create_semaphore` (see `vkdf_create`). -/
def vkdf_create_semaphore : Prog Nat :=
  vkdf_create ObjectKind.Semaphore []

/-! ## Images -/

/-- Modelled from the spec: the struct `VkdfImage` is not among the sources. Per §3 an
image resource has an image handle, a default view and owned memory (the demos read
`image`, `view` and `mem`); as for a buffer (§4.3: same discipline as §4.2) the memory
requirements and the memory-property flags are kept with it. -/
structure VkdfImage where
  image : Nat
  view : Nat
  mem : Nat
  mem_reqs : VkMemoryRequirements
  mem_props : Nat
deriving DecidableEq

/-- The entry point `vkGetImageMemoryRequirements`: what the driver requires for the image
behind the handle. -/
def vkGetImageMemoryRequirements (image : Nat) : Prog VkMemoryRequirements := fun ctx =>
  (Outcome.ok
    (match ctx.objects image with
     | some o => ctx.driver.imageRequirements o.info
     | none => { size := ctx.driver.unspecified 0, alignment := ctx.driver.unspecified 1,
                 memoryTypeBits := ctx.driver.unspecified 2 }),
   { ctx with log := ctx.log ++ [Call.vkGetImageMemoryRequirements image] })

/-- The entry point `vkBindImageMemory`. -/
def vkBindImageMemory (image mem memoryOffset : Nat) : Prog (VkResult × Unit) := fun ctx =>
  (Outcome.ok (ctx.driver.bindImageMemory image mem memoryOffset, ()),
   { ctx with
     log := ctx.log ++
       [Call.vkBindImageMemory image mem memoryOffset
          (ctx.driver.bindImageMemory image mem memoryOffset)] })

/-- Modelled from the spec: `vkdf_create_image_detailed` is not among the sources. Per
§4.3 it follows the allocation and bind discipline of §4.2 (`vkdf_create_buffer`): it
creates the image object from the extent, the format, the usage mask and the initial
layout, queries its memory requirements, selects a memory type against the requirement's
type bitmask, allocates, binds the image to the allocation at offset 0, and creates the
default view from the view type and the aspect mask. -/
def vkdf_create_image_detailed (ndebug : Bool) (uninit : Nat) (width height num_levels
    image_type format format_flags usage mem_props aspect_flags image_view_type
    initial_layout : Nat) : Prog VkdfImage := do
  let image ← VK_CHECK (createObject ObjectKind.Image
    [width, height, num_levels, image_type, format, format_flags, usage, initial_layout])
  let mem_reqs ← vkGetImageMemoryRequirements image
  let memoryTypeIndex ← assertCall ndebug
    (vkdf_memory_type_from_properties mem_reqs.memoryTypeBits mem_props uninit) uninit
  let mem ← VK_CHECK (vkAllocateMemory mem_reqs.size memoryTypeIndex)
  VK_CHECK (vkBindImageMemory image mem 0)
  let view ← VK_CHECK (createObject ObjectKind.ImageView
    [image, image_view_type, format, aspect_flags])
  return { image := image, view := view, mem := mem, mem_reqs := mem_reqs,
           mem_props := mem_props }

/-- Modelled from the spec: `vkdf_create_image` is not among the sources; it is
`vkdf_create_image_detailed` with the initial-layout policy "undefined" (§4.3). -/
def vkdf_create_image (ndebug : Bool) (uninit : Nat) (width height num_levels image_type
    format format_flags usage mem_props aspect_flags image_view_type : Nat) :
    Prog VkdfImage :=
  vkdf_create_image_detailed ndebug uninit width height num_levels image_type format
    format_flags usage mem_props aspect_flags image_view_type VK_IMAGE_LAYOUT_UNDEFINED

/-- Modelled from the spec: `vkdf_destroy_image` is not among the sources. Per §3 an image
has the ownership and lifecycle discipline of a buffer (handle before memory), with the
view destroyed alongside. -/
def vkdf_destroy_image (image : VkdfImage) : Prog Unit := do
  destroyObject ObjectKind.ImageView image.view
  destroyObject ObjectKind.Image image.image
  vkFreeMemory image.mem

/-- Modelled from the spec: `vkdf_image_map_and_fill` is not among the sources; per §4.3
it behaves as `vkdf_buffer_map_and_fill` (§4.2) on the memory of the image. -/
def vkdf_image_map_and_fill (ndebug : Bool) (image : VkdfImage) (offset size : Nat)
    (data : Nat → Nat) : Prog Unit := do
  assert ndebug (hasFlag image.mem_props VK_MEMORY_PROPERTY_HOST_VISIBLE_BIT)
  VK_CHECK (vkMapMemory image.mem offset size)
  assert ndebug (decide (image.mem_reqs.size ≥ size))
  memcpy_to_mapped image.mem offset size data
  if !(hasFlag image.mem_props VK_MEMORY_PROPERTY_HOST_COHERENT_BIT) then
    VK_CHECK (vkFlushMappedMemoryRanges image.mem offset size)
  vkUnmapMemory image.mem

/-- Modelled from the spec: `vkdf_image_map_and_get` is not among the sources; per §4.3 it
behaves as `vkdf_buffer_map_and_get` (§4.2) on the memory of the image. -/
def vkdf_image_map_and_get (ndebug : Bool) (image : VkdfImage) (offset size : Nat) :
    Prog (List Nat) := do
  assert ndebug (hasFlag image.mem_props VK_MEMORY_PROPERTY_HOST_VISIBLE_BIT)
  VK_CHECK (vkMapMemory image.mem offset size)
  assert ndebug (decide (image.mem_reqs.size ≥ size))
  if !(hasFlag image.mem_props VK_MEMORY_PROPERTY_HOST_COHERENT_BIT) then
    VK_CHECK (vkInvalidateMappedMemoryRanges image.mem offset size)
  let bytes ← memcpy_from_mapped image.mem offset size
  vkUnmapMemory image.mem
  return bytes

/-! ## Mapping memory by hand -/

/-- Modelled from the spec: `vkdf_memory_map` is not among the sources. It maps the range
of the allocation (§4.2), a map the device rejects being fatal as in
`vkdf_buffer_map_and_fill`; it is logged as one call of the framework. -/
def vkdf_memory_map (mem offset size : Nat) : Prog Unit :=
  VK_CHECK (fun ctx =>
    (Outcome.ok (mapResult ctx mem offset size, ()),
     { ctx with
       memory := fun h =>
         if mapResult ctx mem offset size = VK_SUCCESS ∧ h = mem then
           (ctx.memory h).map (fun m => m.map ctx.driver.unspecified)
         else ctx.memory h
       log := ctx.log ++
         [Call.vkdf_memory_map mem offset size (mapResult ctx mem offset size)] }))

/-- Modelled from the spec: `vkdf_memory_unmap` is not among the sources. Per §4.2 memory
that is not host-coherent is flushed over the range before it is unmapped; it is logged
as one call of the framework. -/
def vkdf_memory_unmap (mem mem_props offset size : Nat) : Prog Unit := fun ctx =>
  (Outcome.ok (),
   { ctx with
     memory := fun h =>
       if h = mem then
         (ctx.memory h).map (fun m =>
           { (if hasFlag mem_props VK_MEMORY_PROPERTY_HOST_COHERENT_BIT then m
              else m.flush offset size) with mapped := false })
       else ctx.memory h
     log := ctx.log ++ [Call.vkdf_memory_unmap mem mem_props offset size] })

/-- One `fwrite` of bytes that do not come out of mapped memory. -/
def fwrite (bytes : List Nat) : Prog Unit := fun ctx =>
  (Outcome.ok (), { ctx with log := ctx.log ++ [Call.fwrite none bytes] })

/-- One `fwrite` of `size` bytes read at `offset` of the mapped allocation `mem`. -/
def fwrite_mapped (mem offset size : Nat) : Prog Unit := fun ctx =>
  (Outcome.ok (),
   { ctx with
     log := ctx.log ++
       [Call.fwrite (some (mem, offset))
          ((List.range size).map (fun i =>
            match ctx.memory mem with
            | some m => m.read ctx.driver.unspecified (offset + i)
            | none => ctx.driver.unspecified (offset + i)))] })

/-- The call `fopen`; the file is taken to open. -/
def fopen : Prog Unit := fun ctx =>
  (Outcome.ok (), { ctx with log := ctx.log ++ [Call.fopen] })

/-- The call `fclose`. -/
def fclose : Prog Unit := fun ctx =>
  (Outcome.ok (), { ctx with log := ctx.log ++ [Call.fclose] })

/-- The call `fprintf(stdout, ...)`. -/
def fprintf (message : Message) : Prog Unit := fun ctx =>
  (Outcome.ok (), { ctx with log := ctx.log ++ [Call.fprintf message] })

/-! ## Descriptors (vkdf-descriptor.hpp) -/

/-- The entry point `vkCreateDescriptorPool`: on success a new pool for `maxSets` sets of
the descriptor type, with no set allocated. -/
def vkCreateDescriptorPool (type maxSets : Nat) : Prog (VkResult × Nat) := fun ctx =>
  let res := ctx.driver.createDescriptorPool type maxSets
  let pool := if res = VK_SUCCESS then ctx.next else ctx.driver.unspecified 0
  (Outcome.ok (res, pool),
   { ctx with
     descriptor_pools := fun h =>
       if res = VK_SUCCESS ∧ h = ctx.next then
         some { type := type, maxSets := maxSets, allocated := 0 }
       else ctx.descriptor_pools h
     next := if res = VK_SUCCESS then ctx.next + 1 else ctx.next
     log := ctx.log ++ [Call.vkCreateDescriptorPool type maxSets res pool] })

/-- What `vkAllocateDescriptorSets` returns: per spec §4.4 the allocation fails if the
capacity of the pool is exhausted (or there is no such pool), otherwise the driver
decides. -/
def allocateDescriptorSetsResult (ctx : VkdfContext) (descriptorPool count : Nat) :
    VkResult :=
  match ctx.descriptor_pools descriptorPool with
  | none => VK_ERROR_OUT_OF_POOL_MEMORY
  | some pool =>
    if pool.allocated + count ≤ pool.maxSets then
      ctx.driver.allocateDescriptorSets descriptorPool count
    else VK_ERROR_OUT_OF_POOL_MEMORY

/-- The entry point `vkAllocateDescriptorSets`: one set for each layout of the array
`pSetLayouts`, allocated from the pool; the handles are written to the array
`pDescriptorSets`. -/
def vkAllocateDescriptorSets (descriptorPool : Nat) (setLayouts : List Nat) :
    Prog (VkResult × List Nat) := fun ctx =>
  let res := allocateDescriptorSetsResult ctx descriptorPool setLayouts.length
  let sets := if res = VK_SUCCESS then List.range' ctx.next setLayouts.length else []
  (Outcome.ok (res, sets),
   { ctx with
     descriptor_pools := fun h =>
       if res = VK_SUCCESS ∧ h = descriptorPool then
         (ctx.descriptor_pools h).map (fun pool =>
           { pool with allocated := pool.allocated + setLayouts.length })
       else ctx.descriptor_pools h
     descriptor_sets := fun h =>
       if res = VK_SUCCESS ∧ ctx.next ≤ h ∧ h < ctx.next + setLayouts.length then
         some { pool := descriptorPool, layout := setLayouts.getD (h - ctx.next) 0,
                writes := [] }
       else ctx.descriptor_sets h
     next := if res = VK_SUCCESS then ctx.next + setLayouts.length else ctx.next
     log := ctx.log ++ [Call.vkAllocateDescriptorSets descriptorPool setLayouts res sets] })

/-- The entry point `vkFreeDescriptorSets`. -/
def vkFreeDescriptorSets (descriptorPool : Nat) (sets : List Nat) : Prog Unit := fun ctx =>
  (Outcome.ok (),
   { ctx with
     descriptor_pools := fun h =>
       if h = descriptorPool then
         (ctx.descriptor_pools h).map (fun pool =>
           { pool with allocated := pool.allocated - sets.length })
       else ctx.descriptor_pools h
     descriptor_sets := fun h => if h ∈ sets then none else ctx.descriptor_sets h
     log := ctx.log ++ [Call.vkFreeDescriptorSets descriptorPool sets] })

/-- The entry point `vkDestroyDescriptorPool`. -/
def vkDestroyDescriptorPool (descriptorPool : Nat) : Prog Unit := fun ctx =>
  (Outcome.ok (),
   { ctx with
     descriptor_pools := fun h => if h = descriptorPool then none else ctx.descriptor_pools h
     log := ctx.log ++ [Call.vkDestroyDescriptorPool descriptorPool] })

/-- Modelled from the spec: `vkdf_create_descriptor_pool`, of which only the declaration
`(ctx, type, count)` is among the sources. Per §4.4 `create_pool(type, capacity)` creates
a pool with capacity for `count` sets of the type; a creation the device rejects is fatal
(§7). -/
def vkdf_create_descriptor_pool (type count : Nat) : Prog Nat :=
  VK_CHECK (vkCreateDescriptorPool type count)

/-- Modelled from the spec: `vkdf_create_buffer_descriptor_set_layout` is called by the
ssbo-triangle demo and is neither defined nor declared among the sources
(vkdf-descriptor.hpp declares `vkdf_create_ubo_descriptor_set_layout(ctx, binding, count,
stages, is_dynamic)`). Per §4.4 `create_layout(binding, count, stages, type)` creates a
layout declaring the type and the stage visibility of the binding. -/
def vkdf_create_buffer_descriptor_set_layout (binding count stages type : Nat) : Prog Nat :=
  vkdf_create ObjectKind.DescriptorSetLayout [binding, count, stages, type]

/-- The binding of the set is rewritten. -/
def writeDescriptorSet (descriptor : Nat) (write : DescriptorWrite) : Prog Unit := fun ctx =>
  (Outcome.ok (),
   { ctx with
     descriptor_sets := fun h =>
       if h = descriptor then
         (ctx.descriptor_sets h).map (fun set => { set with writes := set.writes ++ [write] })
       else ctx.descriptor_sets h
     log := ctx.log ++
       [Call.vkdf_descriptor_set_buffer_update descriptor write.buffer write.binding
          write.count write.offsets write.ranges write.type] })

/-- Modelled from the spec: `vkdf_descriptor_set_buffer_update`, which is not defined
among the sources. Per §4.4 `update(set, binding, resource_reference, offset, range,
type)` rewrites the binding to point at the buffer, with the descriptor type as its last
argument, and the ssbo-triangle demo calls it so: `(ctx, descriptor, buffer, binding,
count, offsets, ranges, type)` with a `VK_DESCRIPTOR_TYPE_*` enumerator last, as it does
for `vkdf_create_buffer_descriptor_set_layout`. (The one declaration among the sources,
in vkdf-descriptor.hpp, has `bool is_dynamic` in the last place; that header goes with
`vkdf_create_ubo_descriptor_set_layout` and does not declare the layout function the demo
calls, so it is not the header of the framework the demo is written against.) The arrays
`offsets` and `ranges` have `count` elements. Per §3 the update is only valid after the
set has been allocated, so on a handle that names no set it is a caller precondition
violation (§7 (b)). -/
def vkdf_descriptor_set_buffer_update (descriptor buffer binding count : Nat)
    (offsets ranges : List Nat) (type : Nat) : Prog Unit := do
  let ctx ← getContext
  if (ctx.descriptor_sets descriptor).isNone then
    invalidArgument
  writeDescriptorSet descriptor
    { buffer := buffer, binding := binding, count := count, offsets := array count offsets,
      ranges := array count ranges, type := type }

/-! ## The build and the host memory of the demos -/

/-- How the demos are built and what is indeterminate in a run: whether `NDEBUG` is
defined, the value `uninit k` that the `k`-th uninitialised variable holds, and the bytes
`malloc a` that memory obtained from `malloc` holds at offset `a` before it is
written. -/
structure Build where
  ndebug : Bool
  uninit : Nat → Nat
  malloc : Nat → Nat

/-- Element `i` of an array the code indexes; outside the array what is read is not
specified. -/
def index (elements : List Nat) (i : Nat) (unspecified : Nat → Nat) : Nat :=
  elements.getD i (unspecified i)

/-- Byte `k` of a value stored little-endian. -/
def byteOf (value k : Nat) : Nat := value / 256 ^ k % 256

/-- The bytes of an array whose elements are `width` bytes wide. -/
def elementBytes (width : Nat) (elements : List Nat) : Nat → Nat := fun addr =>
  byteOf (elements.getD (addr / width) 0) (addr % width)

/-- The host memory after element `i` of an array of `width`-byte elements is set to
`value`. -/
def store (width : Nat) (memory : Nat → Nat) (i value : Nat) : Nat → Nat := fun addr =>
  if i * width ≤ addr ∧ addr < i * width + width then byteOf value (addr - i * width)
  else memory addr

/-- Element `i` of an array of `width`-byte elements held in host memory. -/
def load (width : Nat) (memory : Nat → Nat) (i : Nat) : Nat :=
  ((List.range width).map (fun k => memory (i * width + k) * 256 ^ k)).sum

/-- The array of `size` bytes a map-and-get has written to `data`, as host memory; the
bytes behind it are what they were. -/
def received (bytes : List Nat) (old : Nat → Nat) : Nat → Nat := fun addr =>
  if addr < bytes.length then bytes.getD addr 0 else old addr

/-- The C conversion of a `float`, given by its IEEE 754 binary32 pattern, to `ushort`:
the value is truncated toward zero (a negative or too large value is not defined in C and
gives what the arithmetic below gives). -/
def float_to_ushort (pattern : Nat) : Nat :=
  let exponent := pattern / 2 ^ 23 % 256
  let mantissa := pattern % 2 ^ 23
  if exponent < 127 then 0
  else (2 ^ 23 + mantissa) * 2 ^ (exponent - 127) / 2 ^ 23 % 2 ^ 16

/-- The C comparison `a != b` of two `float`s given by their IEEE 754 binary32 patterns: a
NaN differs from everything, the two zeros are equal, otherwise the patterns decide. -/
def float_ne (a b : Nat) : Bool :=
  let isNaN := fun (x : Nat) => x / 2 ^ 23 % 256 == 255 && x % 2 ^ 23 != 0
  let isZero := fun (x : Nat) => x % 2 ^ 31 == 0
  isNaN a || isNaN b || (a != b && !(isZero a && isZero b))

/-! ## demos/small-clear/main.cpp -/

namespace SmallClear

def WIDTH : Nat := 128

def HEIGHT : Nat := 128

/-- The struct `DemoResources` of the small-clear demo. -/
structure DemoResources where
  cmd_pool : Nat
  cmd_buf : Nat
  render_pass : Nat
  framebuffer : Nat
  color_image : VkdfImage
  color_buffer : VkdfBuffer
deriving DecidableEq

/-- The function `prepare_image_for_transfer`. -/
def prepare_image_for_transfer (cmd_buf image : Nat) : Prog Unit := do
  let range := vkdf_create_image_subresource_range VK_IMAGE_ASPECT_COLOR_BIT 0 1 0 1
  let barrier :=
    vkdf_create_image_barrier VK_ACCESS_SHADER_WRITE_BIT VK_ACCESS_TRANSFER_READ_BIT
      VK_IMAGE_LAYOUT_GENERAL VK_IMAGE_LAYOUT_GENERAL image range
  vkCmdPipelineBarrier cmd_buf VK_PIPELINE_STAGE_FRAGMENT_SHADER_BIT
    VK_PIPELINE_STAGE_TRANSFER_BIT 0 [] [] [barrier]

/-- The function `prepare_buffer_for_host_read`. -/
def prepare_buffer_for_host_read (cmd_buf buffer offset size : Nat) : Prog Unit := do
  let barrier :=
    vkdf_create_buffer_barrier VK_ACCESS_TRANSFER_WRITE_BIT VK_ACCESS_HOST_READ_BIT buffer
      offset size
  vkCmdPipelineBarrier cmd_buf VK_PIPELINE_STAGE_TRANSFER_BIT VK_PIPELINE_STAGE_HOST_BIT 0
    [] [barrier] []

/-- The function `record_command_buffer`; it returns `*res` as it leaves it. -/
def record_command_buffer (res : DemoResources) : Prog DemoResources := do
  let ctx ← getContext
  let cmd_bufs ← vkdf_create_command_buffer res.cmd_pool VK_COMMAND_BUFFER_LEVEL_PRIMARY 1
  let res : DemoResources :=
    { res with cmd_buf := index cmd_bufs 0 ctx.driver.unspecified }
  vkdf_command_buffer_begin res.cmd_buf VK_COMMAND_BUFFER_USAGE_SIMULTANEOUS_USE_BIT
  let clear_values := [vkdf_color_clear_set [1, 1, 0, 1]]
  let rp_begin : VkRenderPassBeginInfo :=
    { renderPass := res.render_pass, framebuffer := res.framebuffer,
      renderArea := [0, 0, ctx.width, ctx.height], clearValues := clear_values }
  vkCmdBeginRenderPass res.cmd_buf rp_begin VK_SUBPASS_CONTENTS_INLINE
  vkCmdEndRenderPass res.cmd_buf
  prepare_image_for_transfer res.cmd_buf res.color_image.image
  let region : VkBufferImageCopy :=
    { bufferOffset := 0, bufferRowLength := 0, bufferImageHeight := 0,
      imageSubresource := [VK_IMAGE_ASPECT_COLOR_BIT, 0, 0, 1], imageOffset := [0, 0, 0],
      imageExtent := [WIDTH, HEIGHT, 1] }
  vkCmdCopyImageToBuffer res.cmd_buf res.color_image.image VK_IMAGE_LAYOUT_GENERAL
    res.color_buffer.buf [region]
  prepare_buffer_for_host_read res.cmd_buf res.color_buffer.buf 0 VK_WHOLE_SIZE
  vkdf_command_buffer_end res.cmd_buf
  return res

/-- The function `init_resources` (the block under `#if 0` is not compiled); it returns
`*res` as it leaves it. The fields `ctx->width` and `ctx->height` are 32-bit unsigned,
so the product `4 * ctx->width * ctx->height` is taken modulo `2 ^ 32` before it is
multiplied by `sizeof(float)`. -/
def init_resources (build : Build) : Prog DemoResources := do
  let ctx ← getContext
  let color_image ←
    vkdf_create_image build.ndebug (build.uninit 0) ctx.width ctx.height 1 VK_IMAGE_TYPE_2D
      VK_FORMAT_R8G8B8A8_UNORM VK_FORMAT_FEATURE_COLOR_ATTACHMENT_BIT
      (VK_IMAGE_USAGE_COLOR_ATTACHMENT_BIT ||| VK_IMAGE_USAGE_TRANSFER_SRC_BIT)
      VK_MEMORY_PROPERTY_DEVICE_LOCAL_BIT VK_IMAGE_ASPECT_COLOR_BIT VK_IMAGE_VIEW_TYPE_2D
  let color_buffer ←
    vkdf_create_buffer build.ndebug (build.uninit 1) 0
      (4 * ctx.width * ctx.height % 2 ^ 32 * 4)
      (VK_BUFFER_USAGE_TRANSFER_SRC_BIT ||| VK_BUFFER_USAGE_TRANSFER_DST_BIT)
      VK_MEMORY_PROPERTY_HOST_VISIBLE_BIT
  let render_pass ←
    vkdf_renderpass_simple_new VK_FORMAT_R8G8B8A8_UNORM VK_ATTACHMENT_LOAD_OP_CLEAR
      VK_ATTACHMENT_STORE_OP_STORE VK_IMAGE_LAYOUT_UNDEFINED VK_IMAGE_LAYOUT_GENERAL
      VK_FORMAT_UNDEFINED VK_ATTACHMENT_LOAD_OP_DONT_CARE VK_ATTACHMENT_STORE_OP_DONT_CARE
      VK_IMAGE_LAYOUT_UNDEFINED VK_IMAGE_LAYOUT_UNDEFINED
  let framebuffer ←
    vkdf_create_framebuffer render_pass color_image.view ctx.width ctx.height 0 NULL
  let cmd_pool ← vkdf_create_gfx_command_pool 0
  record_command_buffer
    { cmd_pool := cmd_pool, cmd_buf := 0, render_pass := render_pass,
      framebuffer := framebuffer, color_image := color_image, color_buffer := color_buffer }

/-- The array `TGAhead` of `write_pixels_to_file`. -/
def TGAhead : List Nat := [0, 0, 2, 0, 0, 0, 0, 0, 0, 0, 0, 0, WIDTH, 0, HEIGHT, 0, 24, 0]

/-- The function `write_pixels_to_file`. The results of
`vkInvalidateMappedMemoryRanges` and of the file calls are not looked at by the code. -/
def write_pixels_to_file (res : DemoResources) : Prog Unit := do
  let image_bytes := WIDTH * HEIGHT * 4 * 1
  vkdf_memory_map res.color_buffer.mem 0 image_bytes
  let _ ← vkInvalidateMappedMemoryRanges res.color_buffer.mem 0 image_bytes
  fopen
  fwrite TGAhead
  forEach (List.range WIDTH) (fun i =>
    forEach (List.range HEIGHT) (fun j => do
      fwrite_mapped res.color_buffer.mem ((i * WIDTH + j) * 4 + 2) 1
      fwrite_mapped res.color_buffer.mem ((i * WIDTH + j) * 4 + 1) 1
      fwrite_mapped res.color_buffer.mem ((i * WIDTH + j) * 4 + 0) 1))
  fclose
  vkdf_memory_unmap res.color_buffer.mem res.color_buffer.mem_props 0 image_bytes

/-- The function `scene_render`. The result of `vkDeviceWaitIdle` is not looked at by the
code. -/
def scene_render (res : DemoResources) : Prog Unit := do
  let pipeline_stages := VK_PIPELINE_STAGE_COLOR_ATTACHMENT_OUTPUT_BIT
  vkdf_command_buffer_execute res.cmd_buf (array 0 [pipeline_stages]) (array 0 NULL)
    (array 0 NULL)
  let _ ← vkDeviceWaitIdle
  write_pixels_to_file res

/-- The function `cleanup_resources`. -/
def cleanup_resources (res : DemoResources) : Prog Unit := do
  vkdf_destroy_buffer res.color_buffer
  vkdf_destroy_image res.color_image
  vkDestroyRenderPass res.render_pass
  vkDestroyFramebuffer res.framebuffer
  vkFreeCommandBuffers res.cmd_pool (array 1 [res.cmd_buf])
  vkDestroyCommandPool res.cmd_pool

end SmallClear

/-! ## demos/ssbo-triangle/main.cpp -/

namespace SsboTriangle

def WIDTH : Nat := 1024

def HEIGHT : Nat := 768

def SSBO_BINDING : Nat := 3

def UBO_BINDING : Nat := 0

def VERTEX_INPUT_LOCATION : Nat := 0

/-- The macro `REFERENCE_VALUE`, `0.2f`, as its IEEE 754 binary32 pattern. -/
def REFERENCE_VALUE : Nat := 0x3E4CCCCD

/-- The variable `USHORT_REFERENCE_VALUE`, initialised with `REFERENCE_VALUE` converted to
`ushort`. -/
def USHORT_REFERENCE_VALUE : Nat := float_to_ushort REFERENCE_VALUE

def DEFAULT_SSBO_NUM_COMPONENTS : Nat := 1

def DEFAULT_IMAGE_NUM_COMPONENTS : Nat := 4

def DEFAULT_BITS : Nat := 32

/-- The struct `DemoResources` of the ssbo-triangle demo. The four matrices hold floating
point numbers that no call of the device depends on and are left out. The two feedback
arrays are given by their bytes. -/
structure DemoResources where
  cmd_pool : Nat
  offscreen_cmd_buf : Nat
  onscreen_cmd_bufs : List Nat
  vertex_buf : VkdfBuffer
  color_image : VkdfImage
  ubo : VkdfBuffer
  offscreen_render_pass : Nat
  onscreen_render_pass : Nat
  offscreen_draw_sem : Nat
  set_layout_ubo : Nat
  set_layout_ssbo : Nat
  pipeline_layout : Nat
  pipeline_offscreen : Nat
  pipeline_onscreen : Nat
  vs_module : Nat
  fs_module : Nat
  framebuffer : Nat
  onscreen_framebuffers : List Nat
  descriptor_pool_ubo : Nat
  descriptor_set_ubo : Nat
  ssbo : VkdfBuffer
  descriptor_pool_ssbo : Nat
  descriptor_set_ssbo : Nat
  bits : Nat
  bytes : Nat
  num_ssbo_components : Nat
  num_ssbo_elements : Nat
  ssbo_size : Nat
  num_image_components : Nat
  num_image_elements : Nat
  image_size : Nat
  num_pixels : Nat
  ssbo_feedback : Nat → Nat
  image_feedback : Nat → Nat

/-- What `memset(res, 0, sizeof(DemoResources))` leaves. -/
def DemoResources.zero : DemoResources :=
  let buffer : VkdfBuffer :=
    { buf := 0, mem := 0, mem_reqs := { size := 0, alignment := 0, memoryTypeBits := 0 },
      mem_props := 0 }
  { cmd_pool := 0, offscreen_cmd_buf := 0, onscreen_cmd_bufs := [], vertex_buf := buffer,
    color_image :=
      { image := 0, view := 0, mem := 0,
        mem_reqs := { size := 0, alignment := 0, memoryTypeBits := 0 }, mem_props := 0 },
    ubo := buffer, offscreen_render_pass := 0, onscreen_render_pass := 0,
    offscreen_draw_sem := 0, set_layout_ubo := 0, set_layout_ssbo := 0, pipeline_layout := 0,
    pipeline_offscreen := 0, pipeline_onscreen := 0, vs_module := 0, fs_module := 0,
    framebuffer := 0, onscreen_framebuffers := [], descriptor_pool_ubo := 0,
    descriptor_set_ubo := 0, ssbo := buffer, descriptor_pool_ssbo := 0,
    descriptor_set_ssbo := 0, bits := 0, bytes := 0, num_ssbo_components := 0,
    num_ssbo_elements := 0, ssbo_size := 0, num_image_components := 0,
    num_image_elements := 0, image_size := 0, num_pixels := 0, ssbo_feedback := fun _ => 0,
    image_feedback := fun _ => 0 }

/-- The array `vertex_data` of `create_vertex_buffer`: three `vec4` of `float`s, as IEEE
754 binary32 patterns (`-1.0f` is `0xBF800000`, `1.0f` is `0x3F800000`). -/
def vertex_data : List Nat :=
  [0xBF800000, 0xBF800000, 0, 0x3F800000,
   0x3F800000, 0xBF800000, 0, 0x3F800000,
   0, 0x3F800000, 0, 0x3F800000]

/-- The function `create_vertex_buffer`; `sizeof(vertex_data)` is 48. -/
def create_vertex_buffer (build : Build) : Prog VkdfBuffer := do
  let buf ←
    vkdf_create_buffer build.ndebug (build.uninit 1) 0 48 VK_BUFFER_USAGE_VERTEX_BUFFER_BIT
      VK_MEMORY_PROPERTY_HOST_VISIBLE_BIT
  vkdf_buffer_map_and_fill build.ndebug buf 0 48 (elementBytes 4 vertex_data)
  return buf

/-- The function `create_ubo`; `sizeof(mvp)` is 64. -/
def create_ubo (build : Build) : Prog VkdfBuffer := do
  let buf ←
    vkdf_create_buffer build.ndebug (build.uninit 2) 0 64 VK_BUFFER_USAGE_UNIFORM_BUFFER_BIT
      VK_MEMORY_PROPERTY_HOST_VISIBLE_BIT
  return buf

/-- The function `get_offscreen_format`. -/
def get_offscreen_format (res : DemoResources) : Nat :=
  if res.bits = 32 then VK_FORMAT_R32G32B32A32_SFLOAT else VK_FORMAT_R16G16B16A16_SFLOAT

/-- The numbers of a `VkRenderPassCreateInfo` with one attachment and one subpass, as the
two render pass functions fill it: the attachment description (format, samples, loadOp,
storeOp, stencilLoadOp, stencilStoreOp, initialLayout, finalLayout, flags), the colour
reference (attachment, layout) and the bind point of the subpass. -/
def rp_info (format loadOp finalLayout : Nat) : List Nat :=
  [format, VK_SAMPLE_COUNT_1_BIT, loadOp, VK_ATTACHMENT_STORE_OP_STORE,
   VK_ATTACHMENT_LOAD_OP_DONT_CARE, VK_ATTACHMENT_STORE_OP_DONT_CARE,
   VK_IMAGE_LAYOUT_UNDEFINED, finalLayout, 0,
   0, VK_IMAGE_LAYOUT_COLOR_ATTACHMENT_OPTIMAL, VK_PIPELINE_BIND_POINT_GRAPHICS]

/-- The function `create_offscreen_render_pass`. -/
def create_offscreen_render_pass (resources : DemoResources) : Prog Nat := do
  let (res, render_pass) ←
    vkCreateRenderPass
      (rp_info (get_offscreen_format resources) VK_ATTACHMENT_LOAD_OP_LOAD
        VK_IMAGE_LAYOUT_GENERAL)
  if res ≠ VK_SUCCESS then
    vkdf_fatal res
  return render_pass

/-- The function `create_onscreen_render_pass`. -/
def create_onscreen_render_pass : Prog Nat := do
  let ctx ← getContext
  let (res, render_pass) ←
    vkCreateRenderPass
      (rp_info ctx.surface_format VK_ATTACHMENT_LOAD_OP_CLEAR VK_IMAGE_LAYOUT_PRESENT_SRC_KHR)
  if res ≠ VK_SUCCESS then
    vkdf_fatal res
  return render_pass

/-- The function `offscreen_pass_commands`. -/
def offscreen_pass_commands (res : DemoResources) : Prog Unit := do
  let ctx ← getContext
  let rp_begin : VkRenderPassBeginInfo :=
    { renderPass := res.offscreen_render_pass, framebuffer := res.framebuffer,
      renderArea := [0, 0, ctx.width, ctx.height], clearValues := [] }
  vkCmdBeginRenderPass res.offscreen_cmd_buf rp_begin VK_SUBPASS_CONTENTS_INLINE
  vkCmdBindPipeline res.offscreen_cmd_buf VK_PIPELINE_BIND_POINT_GRAPHICS
    res.pipeline_offscreen
  let descriptor_sets := [res.descriptor_set_ssbo, res.descriptor_set_ubo]
  vkCmdBindDescriptorSets res.offscreen_cmd_buf VK_PIPELINE_BIND_POINT_GRAPHICS
    res.pipeline_layout 0 (array 2 descriptor_sets) (array 0 NULL)
  let offsets := [0]
  vkCmdBindVertexBuffers res.offscreen_cmd_buf 0 (array 1 [res.vertex_buf.buf])
    (array 1 offsets)
  let viewport := [0, 0, ctx.width, ctx.height, 0, 1]
  vkCmdSetViewport res.offscreen_cmd_buf 0 [viewport]
  let scissor := [0, 0, ctx.width, ctx.height]
  vkCmdSetScissor res.offscreen_cmd_buf 0 [scissor]
  vkCmdDraw res.offscreen_cmd_buf 3 1 0 0
  vkCmdEndRenderPass res.offscreen_cmd_buf

/-- The function `onscreen_pass_commands`. -/
def onscreen_pass_commands (res : DemoResources) (i : Nat) : Prog Unit := do
  let ctx ← getContext
  let clear_values := [[0, 0, 1, 1]]
  let cmd_buf := index res.onscreen_cmd_bufs i ctx.driver.unspecified
  let rp_begin : VkRenderPassBeginInfo :=
    { renderPass := res.onscreen_render_pass,
      framebuffer := index res.onscreen_framebuffers i ctx.driver.unspecified,
      renderArea := [0, 0, ctx.width, ctx.height], clearValues := clear_values }
  vkCmdBeginRenderPass cmd_buf rp_begin VK_SUBPASS_CONTENTS_INLINE
  vkCmdBindPipeline cmd_buf VK_PIPELINE_BIND_POINT_GRAPHICS res.pipeline_onscreen
  let descriptor_sets := [res.descriptor_set_ssbo, res.descriptor_set_ubo]
  vkCmdBindDescriptorSets cmd_buf VK_PIPELINE_BIND_POINT_GRAPHICS res.pipeline_layout 0
    (array 2 descriptor_sets) (array 0 NULL)
  let offsets := [0]
  vkCmdBindVertexBuffers cmd_buf 0 (array 1 [res.vertex_buf.buf]) (array 1 offsets)
  let viewport := [0, 0, ctx.width, ctx.height, 0, 1]
  vkCmdSetViewport cmd_buf 0 [viewport]
  let scissor := [0, 0, ctx.width, ctx.height]
  vkCmdSetScissor cmd_buf 0 [scissor]
  vkCmdDraw cmd_buf 3 1 0 0
  vkCmdEndRenderPass cmd_buf

/-- The function `create_pipeline_layout`; the info lists the two set layouts. -/
def create_pipeline_layout (resources : DemoResources) : Prog Nat := do
  let layouts := [resources.set_layout_ssbo, resources.set_layout_ubo]
  let (res, pipeline_layout) ← vkCreatePipelineLayout (array 2 layouts)
  if res ≠ VK_SUCCESS then
    vkdf_fatal res
  return pipeline_layout

/-- The function `create_descriptor_set`. On failure the call does not return; on success
the one handle written to `set` is returned. -/
def create_descriptor_set (pool layout : Nat) : Prog Nat := do
  let ctx ← getContext
  let (res, sets) ← vkAllocateDescriptorSets pool (array 1 [layout])
  if res ≠ VK_SUCCESS then
    vkdf_fatal res
  return index sets 0 ctx.driver.unspecified

/-- The loop of `create_ssbo` and of `create_color_image` that sets each of the `count`
elements of a feedback array to `REFERENCE_VALUE`, as a `float` when `bits` is 32 and
converted to `ushort` otherwise. -/
def fill_reference (bits count : Nat) (feedback : Nat → Nat) : Nat → Nat :=
  (List.range count).foldl
    (fun feedback i =>
      if bits = 32 then store 4 feedback i REFERENCE_VALUE
      else store 2 feedback i (float_to_ushort REFERENCE_VALUE))
    feedback

/-- The function `create_ssbo`; it returns the buffer and `*res` as it leaves it. -/
def create_ssbo (build : Build) (res : DemoResources) : Prog (VkdfBuffer × DemoResources) := do
  let buf ←
    vkdf_create_buffer build.ndebug (build.uninit 0) 0 res.ssbo_size
      VK_BUFFER_USAGE_STORAGE_BUFFER_BIT VK_MEMORY_PROPERTY_HOST_VISIBLE_BIT
  let res : DemoResources := { res with ssbo_feedback := build.malloc }
  let res : DemoResources :=
    { res with ssbo_feedback := fill_reference res.bits res.num_ssbo_elements res.ssbo_feedback }
  vkdf_buffer_map_and_fill build.ndebug buf 0 res.ssbo_size res.ssbo_feedback
  return (buf, res)

/-- The function `create_color_image`; it returns the image and `*res` as it leaves it. -/
def create_color_image (build : Build) (res : DemoResources) :
    Prog (VkdfImage × DemoResources) := do
  let ctx ← getContext
  let image ←
    vkdf_create_image_detailed build.ndebug (build.uninit 3) ctx.width ctx.height 1
      VK_IMAGE_TYPE_2D (get_offscreen_format res) VK_FORMAT_FEATURE_COLOR_ATTACHMENT_BIT
      (VK_IMAGE_USAGE_COLOR_ATTACHMENT_BIT ||| VK_IMAGE_USAGE_TRANSFER_SRC_BIT |||
        VK_IMAGE_USAGE_TRANSFER_DST_BIT)
      VK_MEMORY_PROPERTY_HOST_VISIBLE_BIT VK_IMAGE_ASPECT_COLOR_BIT VK_IMAGE_VIEW_TYPE_2D
      VK_IMAGE_LAYOUT_PREINITIALIZED
  let res : DemoResources := { res with image_feedback := build.malloc }
  let res : DemoResources :=
    { res with
      image_feedback := fill_reference res.bits res.num_image_elements res.image_feedback }
  vkdf_image_map_and_fill build.ndebug image 0 res.image_size res.image_feedback
  return (image, res)

/-- The arguments of `vkdf_create_gfx_pipeline` as `init_resources` passes them: the count
and the fields of the vertex binding (binding, input rate, stride `sizeof(VertexData)`),
the count and the fields of the attribute (binding, location, format, offset), the flag
`false`, the render pass, the pipeline layout, the topology, the cull mode and the two
shader modules. -/
def gfx_pipeline_info (render_pass pipeline_layout vs_module fs_module : Nat) : List Nat :=
  [1, 0, VK_VERTEX_INPUT_RATE_VERTEX, 16, 1, 0, VERTEX_INPUT_LOCATION,
   VK_FORMAT_R32G32B32A32_SFLOAT, 0, 0, render_pass, pipeline_layout,
   VK_PRIMITIVE_TOPOLOGY_TRIANGLE_LIST, VK_CULL_MODE_NONE, vs_module, fs_module]

/-- The function `init_resources`; it returns `*res` as it leaves it. The fields declared
`unsigned` are 32 bits wide. `init_matrices` only computes the matrices, which are left
out. The file `shader.vert.spv` is named `[0]` and the file `shader_<bits>bit.frag.spv`
is named `[1, bits]`. -/
def init_resources (build : Build) (bits : Nat) : Prog DemoResources := do
  assert build.ndebug (bits == 16 || bits == 32)
  let ctx ← getContext
  let res : DemoResources := DemoResources.zero
  let res : DemoResources := { res with bits := bits }
  let res : DemoResources := { res with bytes := bits / 8 }
  let res : DemoResources := { res with num_pixels := WIDTH * HEIGHT }
  -- SSBO
  let res : DemoResources := { res with num_ssbo_components := DEFAULT_SSBO_NUM_COMPONENTS }
  let res : DemoResources :=
    { res with num_ssbo_elements := res.num_pixels * res.num_ssbo_components % 2 ^ 32 }
  let res : DemoResources := { res with ssbo_size := res.num_ssbo_elements * res.bytes % 2 ^ 32 }
  let (ssbo, res) ← create_ssbo build res
  let res : DemoResources := { res with ssbo := ssbo }
  -- Vertex buffer
  let vertex_buf ← create_vertex_buffer build
  let res : DemoResources := { res with vertex_buf := vertex_buf }
  -- UBO (for MVP matrix)
  let ubo ← create_ubo build
  let res : DemoResources := { res with ubo := ubo }
  -- Shaders
  let vs_module ← vkdf_create_shader_module [0]
  let res : DemoResources := { res with vs_module := vs_module }
  let fs_module ← vkdf_create_shader_module [1, res.bits]
  let res : DemoResources := { res with fs_module := fs_module }
  -- Render pass
  let offscreen_render_pass ← create_offscreen_render_pass res
  let res : DemoResources := { res with offscreen_render_pass := offscreen_render_pass }
  let onscreen_render_pass ← create_onscreen_render_pass
  let res : DemoResources := { res with onscreen_render_pass := onscreen_render_pass }
  -- Color image used as offscreen rendering target
  let res : DemoResources := { res with num_image_components := DEFAULT_IMAGE_NUM_COMPONENTS }
  let res : DemoResources :=
    { res with num_image_elements := res.num_pixels * res.num_image_components % 2 ^ 32 }
  let res : DemoResources := { res with image_size := res.num_image_elements * res.bytes % 2 ^ 32 }
  let (color_image, res) ← create_color_image build res
  let res : DemoResources := { res with color_image := color_image }
  -- Framebuffers
  let framebuffer ←
    vkdf_create_framebuffer res.offscreen_render_pass res.color_image.view ctx.width
      ctx.height 0 NULL
  let res : DemoResources := { res with framebuffer := framebuffer }
  let onscreen_framebuffers ←
    vkdf_create_framebuffers_for_swap_chain res.onscreen_render_pass 0 NULL
  let res : DemoResources := { res with onscreen_framebuffers := onscreen_framebuffers }
  -- Descriptor pools
  let descriptor_pool_ubo ← vkdf_create_descriptor_pool VK_DESCRIPTOR_TYPE_UNIFORM_BUFFER 1
  let res : DemoResources := { res with descriptor_pool_ubo := descriptor_pool_ubo }
  let descriptor_pool_ssbo ← vkdf_create_descriptor_pool VK_DESCRIPTOR_TYPE_STORAGE_BUFFER 1
  let res : DemoResources := { res with descriptor_pool_ssbo := descriptor_pool_ssbo }
  -- Descriptor sets
  let set_layout_ubo ←
    vkdf_create_buffer_descriptor_set_layout UBO_BINDING 1 VK_SHADER_STAGE_VERTEX_BIT
      VK_DESCRIPTOR_TYPE_UNIFORM_BUFFER
  let res : DemoResources := { res with set_layout_ubo := set_layout_ubo }
  let descriptor_set_ubo ← create_descriptor_set res.descriptor_pool_ubo res.set_layout_ubo
  let res : DemoResources := { res with descriptor_set_ubo := descriptor_set_ubo }
  let set_layout_ssbo ←
    vkdf_create_buffer_descriptor_set_layout SSBO_BINDING 1 VK_SHADER_STAGE_FRAGMENT_BIT
      VK_DESCRIPTOR_TYPE_STORAGE_BUFFER
  let res : DemoResources := { res with set_layout_ssbo := set_layout_ssbo }
  let descriptor_set_ssbo ← create_descriptor_set res.descriptor_pool_ssbo res.set_layout_ssbo
  let res : DemoResources := { res with descriptor_set_ssbo := descriptor_set_ssbo }
  let ubo_offset := 0
  let ubo_size := 64
  vkdf_descriptor_set_buffer_update res.descriptor_set_ubo res.ubo.buf UBO_BINDING 1
    [ubo_offset] [ubo_size] VK_DESCRIPTOR_TYPE_UNIFORM_BUFFER
  let ssbo_offset := 0
  let ssbo_size := res.ssbo_size
  vkdf_descriptor_set_buffer_update res.descriptor_set_ssbo res.ssbo.buf SSBO_BINDING 1
    [ssbo_offset] [ssbo_size] VK_DESCRIPTOR_TYPE_STORAGE_BUFFER
  -- Pipeline
  let pipeline_layout ← create_pipeline_layout res
  let res : DemoResources := { res with pipeline_layout := pipeline_layout }
  let pipeline_offscreen ←
    vkdf_create_gfx_pipeline
      (gfx_pipeline_info res.offscreen_render_pass res.pipeline_layout res.vs_module
        res.fs_module)
  let res : DemoResources := { res with pipeline_offscreen := pipeline_offscreen }
  let pipeline_onscreen ←
    vkdf_create_gfx_pipeline
      (gfx_pipeline_info res.onscreen_render_pass res.pipeline_layout res.vs_module
        res.fs_module)
  let res : DemoResources := { res with pipeline_onscreen := pipeline_onscreen }
  -- Command pool
  let cmd_pool ← vkdf_create_gfx_command_pool 0
  let res : DemoResources := { res with cmd_pool := cmd_pool }
  -- Command buffer for offscreen rendering
  let cmd_bufs ← vkdf_create_command_buffer res.cmd_pool VK_COMMAND_BUFFER_LEVEL_PRIMARY 1
  let res : DemoResources := { res with offscreen_cmd_buf := index cmd_bufs 0 ctx.driver.unspecified }
  vkdf_command_buffer_begin res.offscreen_cmd_buf VK_COMMAND_BUFFER_USAGE_SIMULTANEOUS_USE_BIT
  offscreen_pass_commands res
  vkdf_command_buffer_end res.offscreen_cmd_buf
  -- Command buffers for presentation
  let onscreen_cmd_bufs ←
    vkdf_create_command_buffer res.cmd_pool VK_COMMAND_BUFFER_LEVEL_PRIMARY
      ctx.swap_chain_length
  let res : DemoResources := { res with onscreen_cmd_bufs := onscreen_cmd_bufs }
  forEach (List.range ctx.swap_chain_length) (fun i => do
    vkdf_command_buffer_begin (index res.onscreen_cmd_bufs i ctx.driver.unspecified)
      VK_COMMAND_BUFFER_USAGE_SIMULTANEOUS_USE_BIT
    onscreen_pass_commands res i
    vkdf_command_buffer_end (index res.onscreen_cmd_bufs i ctx.driver.unspecified))
  -- Offscreen rendering semaphore
  let offscreen_draw_sem ← vkdf_create_semaphore
  let res : DemoResources := { res with offscreen_draw_sem := offscreen_draw_sem }
  return res

/-- The function `scene_update`: `update_mvp` computes the matrix `mvp`, whose 64 bytes are
given here, and the UBO is filled with it. -/
def scene_update (build : Build) (res : DemoResources) (mvp : Nat → Nat) : Prog Unit :=
  vkdf_buffer_map_and_fill build.ndebug res.ubo 0 64 mvp

/-- The function `check_data_32bits`: it returns `count_different` and `count_painted`.
Per pixel the inner loop reads `num_image_components` elements of the image feedback
into `image_color`, whose components start out indeterminate; `image_color.r` is
component 0. `image_color` is a `glm::vec4` and has four components: with more than four
image components the inner loop of the first pixel writes `image_color[4]`, outside the
object, which is undefined behaviour; with at most four every write is to one of the four
components, which the function on the component index holds. The counters and indices are
`unsigned`, 32 bits wide. -/
def check_data_32bits (build : Build) (res : DemoResources)
    (image_feedback ssbo_feedback : Nat → Nat) : Prog (Nat × Nat) :=
  if 0 < res.num_pixels ∧ 4 < res.num_image_components then undefinedBehaviour
  else do
    let (index_image, index_ssbo, count_different, count_painted) :=
      (List.range res.num_pixels).foldl
        (fun (index_image, index_ssbo, count_different, count_painted) _ =>
          let image_color :=
            (List.range res.num_image_components).foldl
              (fun image_color component =>
                Function.update image_color component
                  (load 4 image_feedback ((index_image + component) % 2 ^ 32)))
              (fun component => build.uninit (4 + component))
          let index_image := (index_image + res.num_image_components) % 2 ^ 32
          let ssbo_color := load 4 ssbo_feedback index_ssbo
          let index_ssbo := (index_ssbo + 1) % 2 ^ 32
          let count_different :=
            if float_ne ssbo_color (image_color 0) then (count_different + 1) % 2 ^ 32
            else count_different
          let count_painted :=
            if float_ne (image_color 0) REFERENCE_VALUE then (count_painted + 1) % 2 ^ 32
            else count_painted
          (index_image, index_ssbo, count_different, count_painted))
        (0, 0, 0, 0)
    assert build.ndebug (index_image == res.num_image_elements)
    assert build.ndebug (index_ssbo == res.num_ssbo_elements)
    return (count_different, count_painted)

/-- The function `check_data_16bits`: as `check_data_32bits` on `ushort` elements, which
are compared as integers, the reference being `USHORT_REFERENCE_VALUE`; `image_color` is
the array `ushort image_color[4]`, and writing its element 4 is undefined behaviour. -/
def check_data_16bits (build : Build) (res : DemoResources)
    (image_feedback ssbo_feedback : Nat → Nat) : Prog (Nat × Nat) :=
  if 0 < res.num_pixels ∧ 4 < res.num_image_components then undefinedBehaviour
  else do
    let (index_image, index_ssbo, count_different, count_painted) :=
      (List.range res.num_pixels).foldl
        (fun (index_image, index_ssbo, count_different, count_painted) _ =>
          let image_color :=
            (List.range res.num_image_components).foldl
              (fun image_color component =>
                Function.update image_color component
                  (load 2 image_feedback ((index_image + component) % 2 ^ 32)))
              (fun component => build.uninit (4 + component))
          let index_image := (index_image + res.num_image_components) % 2 ^ 32
          let ssbo_color := load 2 ssbo_feedback index_ssbo
          let index_ssbo := (index_ssbo + 1) % 2 ^ 32
          let count_different :=
            if ssbo_color ≠ image_color 0 then (count_different + 1) % 2 ^ 32
            else count_different
          let count_painted :=
            if image_color 0 ≠ USHORT_REFERENCE_VALUE then (count_painted + 1) % 2 ^ 32
            else count_painted
          (index_image, index_ssbo, count_different, count_painted))
        (0, 0, 0, 0)
    assert build.ndebug (index_image == res.num_image_elements)
    assert build.ndebug (index_ssbo == res.num_ssbo_elements)
    return (count_different, count_painted)

/-- The function `check_outcome`; it returns `*res` as it leaves it (the two feedback
arrays hold what was read back). -/
def check_outcome (build : Build) (res : DemoResources) : Prog DemoResources := do
  let ssbo_bytes ← vkdf_buffer_map_and_get build.ndebug res.ssbo 0 res.ssbo_size
  let res : DemoResources := { res with ssbo_feedback := received ssbo_bytes res.ssbo_feedback }
  let image_bytes ← vkdf_image_map_and_get build.ndebug res.color_image 0 res.image_size
  let res : DemoResources := { res with image_feedback := received image_bytes res.image_feedback }
  let (count_different, count_painted) ←
    (if res.bits = 32 then check_data_32bits build res res.image_feedback res.ssbo_feedback
     else check_data_16bits build res res.image_feedback res.ssbo_feedback)
  let result := count_different == 0
  fprintf (Message.painted count_painted res.num_pixels)
  fprintf (Message.different count_different res.num_pixels)
  (if result then fprintf Message.correct else fprintf Message.wrong)
  return res

/-- The function `scene_render`. `count` is the value of its `static` variable when the
call starts; the call returns `*res` as it leaves it and the value of `count` it
leaves. -/
def scene_render (build : Build) (res : DemoResources) (count : Nat) :
    Prog (DemoResources × Nat) := do
  let pipeline_stage := VK_PIPELINE_STAGE_COLOR_ATTACHMENT_OUTPUT_BIT
  vkdf_command_buffer_execute res.offscreen_cmd_buf (array 0 [pipeline_stage]) (array 0 NULL)
    (array 1 [res.offscreen_draw_sem])
  let res ← (if count = 0 then check_outcome build res else pure res)
  let ctx ← getContext
  let copy_wait_sems :=
    [index ctx.acquired_sem ctx.swap_chain_index ctx.driver.unspecified,
     res.offscreen_draw_sem]
  let pipeline_stages_present :=
    [VK_PIPELINE_STAGE_COLOR_ATTACHMENT_OUTPUT_BIT,
     VK_PIPELINE_STAGE_COLOR_ATTACHMENT_OUTPUT_BIT]
  vkdf_command_buffer_execute
    (index res.onscreen_cmd_bufs ctx.swap_chain_index ctx.driver.unspecified)
    (array 2 pipeline_stages_present) (array 2 copy_wait_sems)
    (array 1 [index ctx.draw_sem ctx.swap_chain_index ctx.driver.unspecified])
  return (res, (count + 1) % 2 ^ 32)

/-- The function `destroy_pipeline_resources`. -/
def destroy_pipeline_resources (res : DemoResources) : Prog Unit := do
  vkDestroyPipeline res.pipeline_onscreen
  vkDestroyPipeline res.pipeline_offscreen
  vkDestroyPipelineLayout res.pipeline_layout

/-- The function `destroy_framebuffer_resources`. -/
def destroy_framebuffer_resources (res : DemoResources) : Prog Unit :=
  vkDestroyFramebuffer res.framebuffer

/-- The function `destroy_shader_resources`. -/
def destroy_shader_resources (res : DemoResources) : Prog Unit := do
  vkDestroyShaderModule res.vs_module
  vkDestroyShaderModule res.fs_module

/-- The function `destroy_command_buffer_resources`. -/
def destroy_command_buffer_resources (res : DemoResources) : Prog Unit := do
  let ctx ← getContext
  vkFreeCommandBuffers res.cmd_pool (array ctx.swap_chain_length res.onscreen_cmd_bufs)
  vkFreeCommandBuffers res.cmd_pool (array 1 [res.offscreen_cmd_buf])
  vkDestroyCommandPool res.cmd_pool

/-- The function `destroy_descriptor_resources`. -/
def destroy_descriptor_resources (res : DemoResources) : Prog Unit := do
  vkFreeDescriptorSets res.descriptor_pool_ubo (array 1 [res.descriptor_set_ubo])
  vkFreeDescriptorSets res.descriptor_pool_ssbo (array 1 [res.descriptor_set_ssbo])
  vkDestroyDescriptorSetLayout res.set_layout_ubo
  vkDestroyDescriptorSetLayout res.set_layout_ssbo
  vkDestroyDescriptorPool res.descriptor_pool_ubo
  vkDestroyDescriptorPool res.descriptor_pool_ssbo

/-- The function `destroy_ubo_resources`. -/
def destroy_ubo_resources (res : DemoResources) : Prog Unit := do
  vkDestroyBuffer res.ubo.buf
  vkFreeMemory res.ubo.mem

/-- The function `destroy_ssbo_resources`. -/
def destroy_ssbo_resources (res : DemoResources) : Prog Unit := do
  vkDestroyBuffer res.ssbo.buf
  vkFreeMemory res.ssbo.mem

/-- The function `destroy_feedback_data`: the two `free` calls release host memory and
make no call of the device. -/
def destroy_feedback_data (_res : DemoResources) : Prog Unit :=
  pure ()

/-- The function `cleanup_resources`. -/
def cleanup_resources (res : DemoResources) : Prog Unit := do
  vkDestroySemaphore res.offscreen_draw_sem
  destroy_pipeline_resources res
  vkDestroyRenderPass res.onscreen_render_pass
  vkDestroyRenderPass res.offscreen_render_pass
  vkdf_destroy_buffer res.vertex_buf
  destroy_descriptor_resources res
  destroy_ubo_resources res
  destroy_ssbo_resources res
  destroy_framebuffer_resources res
  destroy_shader_resources res
  destroy_command_buffer_resources res
  vkdf_destroy_image res.color_image
  destroy_feedback_data res

end SsboTriangle

/-! ## Properties of all runs -/

/-- What a call is about: a buffer object, an allocation being made or freed, the content
or the mapping of an allocation, the submission of work, the wait for the device, a
command buffer, an object of one of the kinds of `ObjectKind`, a descriptor pool or set,
the file the demo writes, or what it prints. -/
inductive Subject where
  | buffer
  | allocation
  | memory
  | queue
  | wait
  | commandBuffer
  | object (kind : ObjectKind)
  | descriptor
  | file
  | print
deriving DecidableEq

/-- The subject of each call. -/
def Call.subject : Call → Subject
  | .vkCreateBuffer _ _ _ _ => Subject.buffer
  | .vkGetBufferMemoryRequirements _ => Subject.buffer
  | .vkBindBufferMemory _ _ _ _ => Subject.buffer
  | .vkDestroyBuffer _ => Subject.buffer
  | .vkdf_memory_type_from_properties _ _ _ => Subject.allocation
  | .vkAllocateMemory _ _ _ => Subject.allocation
  | .vkFreeMemory _ => Subject.allocation
  | .vkMapMemory _ _ _ _ => Subject.memory
  | .memcpy_to_mapped _ _ _ => Subject.memory
  | .memcpy_from_mapped _ _ _ => Subject.memory
  | .vkFlushMappedMemoryRanges _ _ _ _ => Subject.memory
  | .vkInvalidateMappedMemoryRanges _ _ _ _ => Subject.memory
  | .vkUnmapMemory _ => Subject.memory
  | .vkdf_memory_map _ _ _ _ => Subject.memory
  | .vkdf_memory_unmap _ _ _ _ => Subject.memory
  | .vkQueueSubmit _ _ _ _ _ => Subject.queue
  | .vkDeviceWaitIdle _ => Subject.wait
  | .vkAllocateCommandBuffers _ _ _ _ _ => Subject.commandBuffer
  | .vkBeginCommandBuffer _ _ => Subject.commandBuffer
  | .vkEndCommandBuffer _ => Subject.commandBuffer
  | .record _ _ => Subject.commandBuffer
  | .vkResetCommandPool _ => Subject.commandBuffer
  | .vkFreeCommandBuffers _ _ => Subject.commandBuffer
  | .create kind _ _ _ => Subject.object kind
  | .destroy kind _ => Subject.object kind
  | .vkGetImageMemoryRequirements _ => Subject.object ObjectKind.Image
  | .vkBindImageMemory _ _ _ _ => Subject.object ObjectKind.Image
  | .vkCreateDescriptorPool _ _ _ _ => Subject.descriptor
  | .vkAllocateDescriptorSets _ _ _ _ => Subject.descriptor
  | .vkdf_descriptor_set_buffer_update _ _ _ _ _ _ _ => Subject.descriptor
  | .vkFreeDescriptorSets _ _ => Subject.descriptor
  | .vkDestroyDescriptorPool _ => Subject.descriptor
  | .fopen => Subject.file
  | .fwrite _ _ => Subject.file
  | .fclose => Subject.file
  | .fprintf _ => Subject.print

/-- The context `ctx'` comes out of `ctx` by calls whose subjects all satisfy `Q`: the log
has grown by such calls, the fields of the struct `VkdfContext` that the code only reads
are what they were, handles already given out are not given out again, and each table of
the device whose subject `Q` excludes is what it was. Allocations are neither made nor
freed unless `Q` allows the subject `allocation`. -/
structure Frame (Q : Subject → Prop) (ctx ctx' : VkdfContext) : Prop where
  log : ∃ calls, ctx'.log = ctx.log ++ calls ∧ ∀ c ∈ calls, Q c.subject
  phy_device_mem_props : ctx'.phy_device_mem_props = ctx.phy_device_mem_props
  driver : ctx'.driver = ctx.driver
  width : ctx'.width = ctx.width
  height : ctx'.height = ctx.height
  surface_format : ctx'.surface_format = ctx.surface_format
  swap_chain_length : ctx'.swap_chain_length = ctx.swap_chain_length
  swap_chain_index : ctx'.swap_chain_index = ctx.swap_chain_index
  acquired_sem : ctx'.acquired_sem = ctx.acquired_sem
  draw_sem : ctx'.draw_sem = ctx.draw_sem
  next : ctx.next ≤ ctx'.next
  buffers : ¬ Q Subject.buffer → ctx'.buffers = ctx.buffers
  live : ¬ Q Subject.allocation → ∀ h, (ctx'.memory h).isSome = (ctx.memory h).isSome
  memory : ¬ Q Subject.allocation → ¬ Q Subject.memory → ctx'.memory = ctx.memory
  cmd_bufs : ¬ Q Subject.commandBuffer → ¬ Q Subject.queue → ¬ Q Subject.wait →
    ctx'.cmd_bufs = ctx.cmd_bufs
  descriptor_pools : ¬ Q Subject.descriptor → ctx'.descriptor_pools = ctx.descriptor_pools
  descriptor_sets : ¬ Q Subject.descriptor → ctx'.descriptor_sets = ctx.descriptor_sets
  objects : (∀ kind, ¬ Q (Subject.object kind)) → ctx'.objects = ctx.objects

/-- Every run of `m`, however it ends, makes only calls whose subjects satisfy `Q` and
leaves everything else as it found it. -/
structure Touches {α : Type} (Q : Subject → Prop) (m : Prog α) : Prop where
  frame : ∀ ctx, Frame Q ctx (m ctx).2

/-- The call never ends as a violation of a caller precondition. -/
structure NeverInvalid {α : Type} (m : Prog α) : Prop where
  run : ∀ ctx, (m ctx).1 ≠ Outcome.invalidArgument

/-! ## Concrete devices -/

/-- A driver that accepts every call, reports three bytes more than the requested size
as a buffer's requirement, allows memory types 1 and 2 for every buffer and shows 255
wherever a byte is not specified. -/
def acceptingDriver : Driver :=
  { createBuffer := fun _ _ _ => VK_SUCCESS
    requirements := fun _ size _ => { size := size + 3, alignment := 1, memoryTypeBits := 6 }
    allocateMemory := fun _ _ => VK_SUCCESS
    bindBufferMemory := fun _ _ _ => VK_SUCCESS
    mapMemory := fun _ _ _ => VK_SUCCESS
    flushMappedMemoryRanges := fun _ _ _ => VK_SUCCESS
    invalidateMappedMemoryRanges := fun _ _ _ => VK_SUCCESS
    queueSubmit := fun _ => VK_SUCCESS
    unspecified := fun _ => 255
    allocateCommandBuffers := fun _ _ => VK_SUCCESS
    deviceWaitIdle := VK_SUCCESS
    create := fun _ _ => VK_SUCCESS
    imageRequirements := fun _ => { size := 64, alignment := 1, memoryTypeBits := 7 }
    bindImageMemory := fun _ _ _ => VK_SUCCESS
    createDescriptorPool := fun _ _ => VK_SUCCESS
    allocateDescriptorSets := fun _ _ => VK_SUCCESS }

/-- A driver like `acceptingDriver` that rejects every `vkMapMemory`. -/
def mapRejectingDriver : Driver :=
  { acceptingDriver with mapMemory := fun _ _ _ => VK_ERROR_MEMORY_MAP_FAILED }

/-- A four-byte allocation of a memory type with the given property flags. -/
def fourBytes (propertyFlags : Nat) : DeviceMemory :=
  { allocationSize := 4
    propertyFlags := propertyFlags
    device := fun _ => 0
    host := fun _ => 0
    mapped := false }

/-- A device with memory types device-local, host-visible and host-visible + coherent,
on which buffer 1 is bound to the four-byte allocation 2 of type 1 (not coherent), buffer
3 to the four-byte allocation 4 of type 2 (coherent), and command buffer 5 is executable
while command buffer 6 is still recording. -/
def exampleContext (driver : Driver) : VkdfContext :=
  { phy_device_mem_props :=
      [VK_MEMORY_PROPERTY_DEVICE_LOCAL_BIT, VK_MEMORY_PROPERTY_HOST_VISIBLE_BIT,
       VK_MEMORY_PROPERTY_HOST_VISIBLE_BIT ||| VK_MEMORY_PROPERTY_HOST_COHERENT_BIT]
    driver := driver
    buffers := fun h =>
      if h = 1 then some { flags := 0, size := 4, usage := 1, bound := some (2, 0) }
      else if h = 3 then some { flags := 0, size := 4, usage := 1, bound := some (4, 0) }
      else none
    memory := fun h =>
      if h = 2 then some (fourBytes VK_MEMORY_PROPERTY_HOST_VISIBLE_BIT)
      else if h = 4 then
        some (fourBytes (VK_MEMORY_PROPERTY_HOST_VISIBLE_BIT ||| VK_MEMORY_PROPERTY_HOST_COHERENT_BIT))
      else none
    cmd_bufs := fun h =>
      if h = 5 then
        some { state := CommandBufferState.Executable, simultaneous_use := true,
               pool := 0, commands := [] }
      else if h = 6 then
        some { state := CommandBufferState.Recording, simultaneous_use := true,
               pool := 0, commands := [] }
      else none
    next := 7
    log := []
    width := 128
    height := 128
    surface_format := 44
    swap_chain_length := 2
    swap_chain_index := 0
    acquired_sem := [11, 12]
    draw_sem := [13, 14]
    objects := fun _ => none
    descriptor_pools := fun _ => none
    descriptor_sets := fun _ => none }

/-- The buffer 1 of `exampleContext`, requested host-visible. -/
def hostVisibleBuffer : VkdfBuffer :=
  { buf := 1, mem := 2
    mem_reqs := { size := 4, alignment := 1, memoryTypeBits := 6 }
    mem_props := VK_MEMORY_PROPERTY_HOST_VISIBLE_BIT }

/-- The buffer 3 of `exampleContext`, requested host-visible and host-coherent. -/
def hostCoherentBuffer : VkdfBuffer :=
  { buf := 3, mem := 4
    mem_reqs := { size := 4, alignment := 1, memoryTypeBits := 4 }
    mem_props := VK_MEMORY_PROPERTY_HOST_VISIBLE_BIT ||| VK_MEMORY_PROPERTY_HOST_COHERENT_BIT }

/-- A buffer requested device-local only. -/
def deviceLocalBuffer : VkdfBuffer :=
  { buf := 1, mem := 2
    mem_reqs := { size := 4, alignment := 1, memoryTypeBits := 1 }
    mem_props := VK_MEMORY_PROPERTY_DEVICE_LOCAL_BIT }

/-- The buffer a `vkdf_create_buffer` of 5 bytes, host-visible, returns on
`exampleContext acceptingDriver`: the device requires 8 bytes for it. -/
def createdBuffer : VkdfBuffer :=
  { buf := 7, mem := 8
    mem_reqs := { size := 8, alignment := 1, memoryTypeBits := 6 }
    mem_props := VK_MEMORY_PROPERTY_HOST_VISIBLE_BIT }

/-- A device whose only memory type is device-local. -/
def deviceLocalOnlyContext : VkdfContext :=
  { exampleContext acceptingDriver with
    phy_device_mem_props := [VK_MEMORY_PROPERTY_DEVICE_LOCAL_BIT] }

/-- Source bytes 10, 11, 12, ... -/
def sourceBytes (i : Nat) : Nat := 10 + i

/-! ## What the claims about the demos speak of -/

/-- Whether the subject is a descriptor pool, a descriptor set or a descriptor set
layout. -/
def Subject.isDescriptor : Subject → Bool
  | .descriptor => true
  | .object ObjectKind.DescriptorSetLayout => true
  | _ => false

/-- Whether the call creates, allocates, updates or releases a descriptor pool, a
descriptor set or a descriptor set layout. -/
def Call.isDescriptor (c : Call) : Bool := c.subject.isDescriptor

/-- The commands the two pass functions of the ssbo-triangle demo record, in order: the
render pass is begun on the framebuffer with the clear values, the pipeline, the two
descriptor sets and the vertex buffer are bound, the viewport and the scissor are set to
the extent of the context, three vertices are drawn, and the render pass is ended. -/
def SsboTriangle.pass_commands (res : SsboTriangle.DemoResources) (ctx : VkdfContext)
    (render_pass framebuffer pipeline : Nat) (clearValues : List (List Nat)) : List Command :=
  [Command.vkCmdBeginRenderPass
     { renderPass := render_pass, framebuffer := framebuffer,
       renderArea := [0, 0, ctx.width, ctx.height], clearValues := clearValues }
     VK_SUBPASS_CONTENTS_INLINE,
   Command.vkCmdBindPipeline VK_PIPELINE_BIND_POINT_GRAPHICS pipeline,
   Command.vkCmdBindDescriptorSets VK_PIPELINE_BIND_POINT_GRAPHICS res.pipeline_layout 0
     [res.descriptor_set_ssbo, res.descriptor_set_ubo] [],
   Command.vkCmdBindVertexBuffers 0 [res.vertex_buf.buf] [0],
   Command.vkCmdSetViewport 0 [[0, 0, ctx.width, ctx.height, 0, 1]],
   Command.vkCmdSetScissor 0 [[0, 0, ctx.width, ctx.height]],
   Command.vkCmdDraw 3 1 0 0,
   Command.vkCmdEndRenderPass]

/-- The command buffer behind the handle is executable and was recorded with
simultaneous-use. -/
def Ready (ctx : VkdfContext) (cmd_buf : Nat) : Prop :=
  ∃ c, ctx.cmd_bufs cmd_buf = some c ∧ c.state = CommandBufferState.Executable ∧
    c.simultaneous_use = true

/-- The calls that record a command buffer: begin with the flags, the commands in order,
end. -/
def recording (cmd_buf flags : Nat) (commands : List Command) : List Call :=
  [Call.vkBeginCommandBuffer cmd_buf flags] ++ commands.map (Call.record cmd_buf) ++
    [Call.vkEndCommandBuffer cmd_buf]

/-- The device of the context accepts every call the demos make: each entry point returns
`VK_SUCCESS`, a buffer requires at least the size it was created with and can live in a
host-visible memory type, and an image requires at least `2 ^ 32` bytes, which is more
than the demos write to one, and can live in a host-visible and in a device-local memory
type. -/
structure Willing (ctx : VkdfContext) : Prop where
  createBuffer : ∀ flags size usage, ctx.driver.createBuffer flags size usage = VK_SUCCESS
  requirements_size : ∀ flags size usage,
    size ≤ (ctx.driver.requirements flags size usage).size
  requirements_type : ∀ flags size usage,
    (select_memory_type ctx.phy_device_mem_props
      (ctx.driver.requirements flags size usage).memoryTypeBits
      VK_MEMORY_PROPERTY_HOST_VISIBLE_BIT).isSome = true
  allocateMemory : ∀ size type, ctx.driver.allocateMemory size type = VK_SUCCESS
  bindBufferMemory : ∀ buf mem offset, ctx.driver.bindBufferMemory buf mem offset = VK_SUCCESS
  mapMemory : ∀ mem offset size, ctx.driver.mapMemory mem offset size = VK_SUCCESS
  flushMappedMemoryRanges : ∀ mem offset size,
    ctx.driver.flushMappedMemoryRanges mem offset size = VK_SUCCESS
  invalidateMappedMemoryRanges : ∀ mem offset size,
    ctx.driver.invalidateMappedMemoryRanges mem offset size = VK_SUCCESS
  queueSubmit : ∀ cmd_buf, ctx.driver.queueSubmit cmd_buf = VK_SUCCESS
  allocateCommandBuffers : ∀ pool count,
    ctx.driver.allocateCommandBuffers pool count = VK_SUCCESS
  create : ∀ kind info, ctx.driver.create kind info = VK_SUCCESS
  imageRequirements_size : ∀ info, 2 ^ 32 ≤ (ctx.driver.imageRequirements info).size
  imageRequirements_host : ∀ info,
    (select_memory_type ctx.phy_device_mem_props
      (ctx.driver.imageRequirements info).memoryTypeBits
      VK_MEMORY_PROPERTY_HOST_VISIBLE_BIT).isSome = true
  imageRequirements_device : ∀ info,
    (select_memory_type ctx.phy_device_mem_props
      (ctx.driver.imageRequirements info).memoryTypeBits
      VK_MEMORY_PROPERTY_DEVICE_LOCAL_BIT).isSome = true
  bindImageMemory : ∀ image mem offset,
    ctx.driver.bindImageMemory image mem offset = VK_SUCCESS
  createDescriptorPool : ∀ type count, ctx.driver.createDescriptorPool type count = VK_SUCCESS
  allocateDescriptorSets : ∀ pool count,
    ctx.driver.allocateDescriptorSets pool count = VK_SUCCESS

/-- Whether the call is a `vkDeviceWaitIdle`. -/
def Call.isWait (c : Call) : Bool := decide (c.subject = Subject.wait)

/-- Whether the call records a pipeline barrier into a command buffer. -/
def Call.recordsBarrier : Call → Bool
  | .record _ command => command.isBarrier
  | _ => false

/-- Whether the call creates a descriptor pool or allocates descriptor sets from one. -/
def Call.usesPool : Call → Bool
  | .vkCreateDescriptorPool _ _ _ _ => true
  | .vkAllocateDescriptorSets _ _ _ _ => true
  | _ => false

/-- A driver like `acceptingDriver` that requires `2 ^ 32` bytes for every image. -/
def roomyDriver : Driver :=
  { acceptingDriver with
    imageRequirements := fun _ => { size := 2 ^ 32, alignment := 1, memoryTypeBits := 7 } }

/-- A device like `exampleContext` on which no buffer and no allocation exists yet. -/
def freshContext (driver : Driver) : VkdfContext :=
  { exampleContext driver with buffers := fun _ => none, memory := fun _ => none }

/-- The context the ssbo-triangle demo starts from in the examples: `freshContext` on
`roomyDriver` with the window of the demo. -/
def ssboContext : VkdfContext :=
  { freshContext roomyDriver with width := 1024, height := 768 }

/-- A build with assertions in which every indeterminate value is 0. -/
def exampleBuild : Build :=
  { ndebug := false, uninit := fun _ => 0, malloc := fun _ => 0 }

/-- The resources `record_command_buffer` starts from in the examples. -/
def exampleResources : SmallClear.DemoResources :=
  { cmd_pool := 20, cmd_buf := 0, render_pass := 21, framebuffer := 22,
    color_image :=
      { image := 23, view := 24, mem := 25,
        mem_reqs := { size := 64, alignment := 1, memoryTypeBits := 7 },
        mem_props := VK_MEMORY_PROPERTY_DEVICE_LOCAL_BIT },
    color_buffer := hostVisibleBuffer }

/-- Whether the call is an `fwrite` of bytes read from the mapped allocation `mem`. -/
def Call.readsMapped (mem : Nat) : Call → Bool
  | .fwrite (some (m, _)) _ => m == mem
  | _ => false

/-- Whether the call destroys a buffer or frees an allocation. -/
def Call.releases : Call → Bool
  | .vkDestroyBuffer _ => true
  | .vkFreeMemory _ => true
  | _ => false

/-- The subjects whose calls leave buffers and allocations as they are. -/
def Subject.keepsBuffers (s : Subject) : Prop :=
  s ≠ Subject.buffer ∧ s ≠ Subject.allocation ∧ s ≠ Subject.memory

/-- The resources `init_resources` of small-clear returns on
`freshContext acceptingDriver`. -/
def smallClearResources : SmallClear.DemoResources :=
  { cmd_pool := 14, cmd_buf := 15, render_pass := 12, framebuffer := 13,
    color_image :=
      { image := 7, view := 9, mem := 8,
        mem_reqs := { size := 64, alignment := 1, memoryTypeBits := 7 },
        mem_props := VK_MEMORY_PROPERTY_DEVICE_LOCAL_BIT },
    color_buffer :=
      { buf := 10, mem := 11,
        mem_reqs := { size := 262147, alignment := 1, memoryTypeBits := 6 },
        mem_props := VK_MEMORY_PROPERTY_HOST_VISIBLE_BIT } }

/-- Resources of ssbo-triangle with the offscreen command buffer 5, the presentation
command buffers 8 and 9 and the semaphore 15. -/
def frameResources : SsboTriangle.DemoResources :=
  { SsboTriangle.DemoResources.zero with
    offscreen_cmd_buf := 5, onscreen_cmd_bufs := [8, 9], offscreen_draw_sem := 15 }

/-- A context in which the command buffers 5, 8 and 9 are executable. -/
def frameContext : VkdfContext :=
  { exampleContext acceptingDriver with
    cmd_bufs := fun h =>
      if h = 5 ∨ h = 8 ∨ h = 9 then
        some { state := CommandBufferState.Executable, simultaneous_use := true, pool := 0,
               commands := [] }
      else none }

/-- The accesses of the loop of `check_data_32bits` and of `check_data_16bits`, which index
alike: for each pixel, in order, the reads `image_color[component] =
image_feedback[index_image]` as pairs of the index read and the component written, and
the index `index_ssbo` at which `ssbo_feedback` is read; then the values of `index_image`
and of `index_ssbo` when the loop is left. The indices are `unsigned`, 32 bits wide. -/
def SsboTriangle.check_data_accesses (res : SsboTriangle.DemoResources) :
    List (List (Nat × Nat) × Nat) × Nat × Nat :=
  (List.range res.num_pixels).foldl
    (fun (accesses, index_image, index_ssbo) _ =>
      let (reads, index_image) :=
        (List.range res.num_image_components).foldl
          (fun (reads, index_image) component =>
            (reads ++ [(index_image, component)], (index_image + 1) % 2 ^ 32))
          ([], index_image)
      (accesses ++ [(reads, index_ssbo)], index_image, (index_ssbo + 1) % 2 ^ 32))
    ([], 0, 0)

/-- A resource record whose product `num_pixels * num_image_components` is `2 ^ 32`, which
wraps to 0 in `unsigned` arithmetic. -/
def wrappingResources : SsboTriangle.DemoResources :=
  { SsboTriangle.DemoResources.zero with
    bits := 32, num_pixels := 2 ^ 30, num_image_components := 4,
    num_image_elements := 2 ^ 30 * 4 % 2 ^ 32, num_ssbo_elements := 2 ^ 30 }

/-- The numbers of pixels, components and elements `init_resources` of ssbo-triangle
sets. -/
def screenResources : SsboTriangle.DemoResources :=
  { SsboTriangle.DemoResources.zero with
    bits := 32, num_pixels := 786432, num_image_components := 4,
    num_image_elements := 3145728, num_ssbo_elements := 786432 }

/-- A resource record of two pixels of four components. -/
def twoPixelResources : SsboTriangle.DemoResources :=
  { SsboTriangle.DemoResources.zero with
    bits := 32, num_pixels := 2, num_image_components := 4, num_image_elements := 8,
    num_ssbo_elements := 2 }

/-- An image of two pixels of four `float` components: the first pixel holds the
reference value 0.2f in its first component, the second holds 1.0f there. -/
def twoPixelImage : Nat → Nat :=
  elementBytes 4 [SsboTriangle.REFERENCE_VALUE, 0, 0, 0, 0x3F800000, 0, 0, 0]

/-- An SSBO of two `float` elements that both hold the reference value. -/
def twoPixelSsbo : Nat → Nat :=
  elementBytes 4 [SsboTriangle.REFERENCE_VALUE, SsboTriangle.REFERENCE_VALUE]

/-- A driver like `acceptingDriver` that allows only memory type 2, which is host-visible
and host-coherent, for every buffer. -/
def coherentOnlyDriver : Driver :=
  { acceptingDriver with
    requirements := fun _ size _ => { size := size + 3, alignment := 1, memoryTypeBits := 4 } }

/-- The buffer a `vkdf_create_buffer` of 5 bytes, host-visible, returns on
`exampleContext coherentOnlyDriver`. -/
def coherentTypeBuffer : VkdfBuffer :=
  { buf := 7, mem := 8
    mem_reqs := { size := 8, alignment := 1, memoryTypeBits := 4 }
    mem_props := VK_MEMORY_PROPERTY_HOST_VISIBLE_BIT }

/-- The bytes a call writes to the file the demo has opened. -/
def Call.fileBytes : Call → List Nat
  | .fwrite _ bytes => bytes
  | _ => []

/-- The byte the host reads at `addr` through the mapping of the allocation `mem`. -/
def VkdfContext.mappedByte (ctx : VkdfContext) (mem addr : Nat) : Nat :=
  match ctx.memory mem with
  | some m => m.read ctx.driver.unspecified addr
  | none => ctx.driver.unspecified addr

end Vkdf

/-! # Theorems -/

namespace Vkdf

/-! ## Running a `Prog` -/

theorem Prog.pure_run {α : Type} (a : α) (ctx : VkdfContext) :
    (Pure.pure a : Prog α) ctx = (Outcome.ok a, ctx) := rfl

theorem Prog.bind_run {α β : Type} (m : Prog α) (f : α → Prog β) (ctx : VkdfContext) :
    (m >>= f) ctx = Prog.bind m f ctx := rfl

/-! ## vkdf_buffer_map_and_fill -/

/-- C1: a successful `vkdf_buffer_map_and_fill` makes exactly these calls, in this order:
`vkMapMemory(mem, offset, size)`, the copy of the `size` source bytes to the start of the
mapped range, one `vkFlushMappedMemoryRanges` of `(mem, offset, size)` if and only if
`mem_props` lacks the host-coherent bit, and `vkUnmapMemory`. -/
theorem vkdf_buffer_map_and_fill_calls (ndebug : Bool) (ctx : VkdfContext) (buf : VkdfBuffer)
    (offset size : Nat) (data : Nat → Nat)
    (hok : (vkdf_buffer_map_and_fill ndebug buf offset size data ctx).1 = Outcome.ok ()) :
    (vkdf_buffer_map_and_fill ndebug buf offset size data ctx).2.log =
      ctx.log ++
        [Call.vkMapMemory buf.mem offset size VK_SUCCESS,
         Call.memcpy_to_mapped buf.mem offset ((List.range size).map data)] ++
        (if hasFlag buf.mem_props VK_MEMORY_PROPERTY_HOST_COHERENT_BIT then []
         else [Call.vkFlushMappedMemoryRanges buf.mem offset size VK_SUCCESS]) ++
        [Call.vkUnmapMemory buf.mem] := by
  revert hok
  simp only [vkdf_buffer_map_and_fill, bind, Prog.bind, VK_CHECK, assert, vkMapMemory,
    memcpy_to_mapped]
  cases ndebug <;>
    cases hv : hasFlag buf.mem_props VK_MEMORY_PROPERTY_HOST_VISIBLE_BIT <;>
    cases hc : hasFlag buf.mem_props VK_MEMORY_PROPERTY_HOST_COHERENT_BIT <;>
    by_cases hr : mapResult ctx buf.mem offset size = VK_SUCCESS <;>
    by_cases hs : size ≤ buf.mem_reqs.size <;>
    by_cases hf : ctx.driver.flushMappedMemoryRanges buf.mem offset size = VK_SUCCESS <;>
    simp [hv, hc, hr, hs, hf, Prog.pure, abort, Prog.bind, VK_CHECK,
      vkFlushMappedMemoryRanges, vkUnmapMemory, pure]

/-- C1, at a concrete input: the fill of the non-coherent buffer of `exampleContext`
succeeds and maps, copies, flushes and unmaps. -/
theorem vkdf_buffer_map_and_fill_calls_witness :
    (vkdf_buffer_map_and_fill false hostVisibleBuffer 0 4 sourceBytes
      (exampleContext acceptingDriver)).1 = Outcome.ok () ∧
    (vkdf_buffer_map_and_fill false hostVisibleBuffer 0 4 sourceBytes
      (exampleContext acceptingDriver)).2.log =
      [Call.vkMapMemory 2 0 4 VK_SUCCESS, Call.memcpy_to_mapped 2 0 [10, 11, 12, 13],
       Call.vkFlushMappedMemoryRanges 2 0 4 VK_SUCCESS, Call.vkUnmapMemory 2] :=
  ⟨by decide,
   vkdf_buffer_map_and_fill_calls false (exampleContext acceptingDriver) hostVisibleBuffer 0 4
     sourceBytes (by decide)⟩

/-- C2: in a build with assertions, `vkdf_buffer_map_and_fill` on a buffer whose
`mem_props` lack the host-visible bit stops at the first assertion with the context
untouched (no map, copy, flush or unmap); on a buffer whose `mem_props` include the bit
the assertion passes and the next thing that happens is the `vkMapMemory` call. -/
theorem vkdf_buffer_map_and_fill_host_visible_assert (ctx : VkdfContext) (buf : VkdfBuffer)
    (offset size : Nat) (data : Nat → Nat) :
    (hasFlag buf.mem_props VK_MEMORY_PROPERTY_HOST_VISIBLE_BIT = false →
      vkdf_buffer_map_and_fill false buf offset size data ctx = (Outcome.assertion, ctx)) ∧
    (hasFlag buf.mem_props VK_MEMORY_PROPERTY_HOST_VISIBLE_BIT = true →
      ∃ rest, (vkdf_buffer_map_and_fill false buf offset size data ctx).2.log =
        ctx.log ++
          Call.vkMapMemory buf.mem offset size (mapResult ctx buf.mem offset size) :: rest) := by
  simp only [vkdf_buffer_map_and_fill, bind, Prog.bind, VK_CHECK, assert, vkMapMemory,
    memcpy_to_mapped]
  constructor
  · intro hv
    simp [hv, abort]
  · intro hv
    cases hc : hasFlag buf.mem_props VK_MEMORY_PROPERTY_HOST_COHERENT_BIT <;>
      by_cases hr : mapResult ctx buf.mem offset size = VK_SUCCESS <;>
      by_cases hs : size ≤ buf.mem_reqs.size <;>
      by_cases hf : ctx.driver.flushMappedMemoryRanges buf.mem offset size = VK_SUCCESS <;>
      simp [hv, hc, hr, hs, hf, Prog.pure, abort, Prog.bind, VK_CHECK,
        vkFlushMappedMemoryRanges, vkUnmapMemory, pure]

/-- C2, at concrete inputs: the device-local buffer is refused before anything happens,
and the fill of the host-visible buffer starts with the map. -/
theorem vkdf_buffer_map_and_fill_host_visible_assert_witness :
    vkdf_buffer_map_and_fill false deviceLocalBuffer 0 4 sourceBytes
        (exampleContext acceptingDriver) =
      (Outcome.assertion, exampleContext acceptingDriver) ∧
    ∃ rest, (vkdf_buffer_map_and_fill false hostVisibleBuffer 0 4 sourceBytes
        (exampleContext acceptingDriver)).2.log =
      (exampleContext acceptingDriver).log ++
        Call.vkMapMemory 2 0 4 (mapResult (exampleContext acceptingDriver) 2 0 4) :: rest :=
  ⟨(vkdf_buffer_map_and_fill_host_visible_assert (exampleContext acceptingDriver)
      deviceLocalBuffer 0 4 sourceBytes).1 (by decide),
   (vkdf_buffer_map_and_fill_host_visible_assert (exampleContext acceptingDriver)
      hostVisibleBuffer 0 4 sourceBytes).2 (by decide)⟩

/-- C3, as stated, fails: on a host-visible buffer of allocated size 4, a fill of 8 bytes
whose `vkMapMemory` the device rejects ends in the fatal device error of `VK_CHECK`, not
in an assertion failure, although `size` exceeds the allocated size. -/
theorem vkdf_buffer_map_and_fill_size_assert_counterexample :
    hasFlag hostVisibleBuffer.mem_props VK_MEMORY_PROPERTY_HOST_VISIBLE_BIT = true ∧
    8 > hostVisibleBuffer.mem_reqs.size ∧
    (vkdf_buffer_map_and_fill false hostVisibleBuffer 0 8 sourceBytes
      (exampleContext mapRejectingDriver)).1 = Outcome.fatal VK_ERROR_MEMORY_MAP_FAILED ∧
    ¬ ((vkdf_buffer_map_and_fill false hostVisibleBuffer 0 8 sourceBytes
        (exampleContext mapRejectingDriver)).1 = Outcome.assertion ↔
       8 > hostVisibleBuffer.mem_reqs.size) := by
  decide

/-- C3, amended: on a host-visible buffer. In a build with assertions, if the
`vkMapMemory` call succeeds, `vkdf_buffer_map_and_fill` ends in an assertion failure if
and only if `size` exceeds `mem_reqs.size`, and then the map is the only call made: no
byte is copied. In either build, if the device rejects the map, the call ends in the
fatal device error of `VK_CHECK` carrying the result of the map, whatever the size, and
the rejected map is the only call made. In a build with `NDEBUG` no call ends in an
assertion failure. -/
theorem vkdf_buffer_map_and_fill_size_assert (ndebug : Bool) (ctx : VkdfContext)
    (buf : VkdfBuffer) (offset size : Nat) (data : Nat → Nat)
    (hv : hasFlag buf.mem_props VK_MEMORY_PROPERTY_HOST_VISIBLE_BIT = true) :
    (mapResult ctx buf.mem offset size = VK_SUCCESS →
      ((vkdf_buffer_map_and_fill false buf offset size data ctx).1 = Outcome.assertion ↔
        size > buf.mem_reqs.size) ∧
      (size > buf.mem_reqs.size →
        (vkdf_buffer_map_and_fill false buf offset size data ctx).2.log =
          ctx.log ++ [Call.vkMapMemory buf.mem offset size VK_SUCCESS])) ∧
    (mapResult ctx buf.mem offset size ≠ VK_SUCCESS →
      (vkdf_buffer_map_and_fill ndebug buf offset size data ctx).1 =
        Outcome.fatal (mapResult ctx buf.mem offset size) ∧
      (vkdf_buffer_map_and_fill ndebug buf offset size data ctx).2.log =
        ctx.log ++
          [Call.vkMapMemory buf.mem offset size (mapResult ctx buf.mem offset size)]) ∧
    (vkdf_buffer_map_and_fill true buf offset size data ctx).1 ≠ Outcome.assertion := by
  refine ⟨fun hmap => ?_, fun hmap => ?_, ?_⟩
  · simp only [vkdf_buffer_map_and_fill, bind, Prog.bind, VK_CHECK, assert, vkMapMemory,
      memcpy_to_mapped]
    cases hc : hasFlag buf.mem_props VK_MEMORY_PROPERTY_HOST_COHERENT_BIT <;>
      by_cases hs : size ≤ buf.mem_reqs.size <;>
      by_cases hf : ctx.driver.flushMappedMemoryRanges buf.mem offset size = VK_SUCCESS <;>
      simp [hv, hc, hmap, hs, hf, Prog.pure, abort, Prog.bind, VK_CHECK,
        vkFlushMappedMemoryRanges, vkUnmapMemory, pure] <;>
      omega
  · cases ndebug <;>
      simp [vkdf_buffer_map_and_fill, bind, Prog.bind, VK_CHECK, assert, vkMapMemory,
        memcpy_to_mapped, hv, hmap, Prog.pure, abort, pure]
  · simp only [vkdf_buffer_map_and_fill, bind, Prog.bind, VK_CHECK, assert, vkMapMemory,
      memcpy_to_mapped]
    cases hc : hasFlag buf.mem_props VK_MEMORY_PROPERTY_HOST_COHERENT_BIT <;>
      by_cases hmap : mapResult ctx buf.mem offset size = VK_SUCCESS <;>
      by_cases hf : ctx.driver.flushMappedMemoryRanges buf.mem offset size = VK_SUCCESS <;>
      simp [hv, hc, hmap, hf, Prog.pure, abort, Prog.bind, VK_CHECK,
        vkFlushMappedMemoryRanges, vkUnmapMemory, pure]

/-- C3 amended, at concrete inputs: the device maps 8 bytes of the buffer of allocated
size 4, the assertion on the size fails, and nothing is copied; on the device that
rejects the map the same call, compiled with `NDEBUG`, ends in the fatal error. -/
theorem vkdf_buffer_map_and_fill_size_assert_witness :
    (((vkdf_buffer_map_and_fill false hostVisibleBuffer 0 8 sourceBytes
        (exampleContext acceptingDriver)).1 = Outcome.assertion ↔
      8 > hostVisibleBuffer.mem_reqs.size) ∧
    (8 > hostVisibleBuffer.mem_reqs.size →
      (vkdf_buffer_map_and_fill false hostVisibleBuffer 0 8 sourceBytes
        (exampleContext acceptingDriver)).2.log =
        (exampleContext acceptingDriver).log ++ [Call.vkMapMemory 2 0 8 VK_SUCCESS])) ∧
    ((vkdf_buffer_map_and_fill true hostVisibleBuffer 0 8 sourceBytes
        (exampleContext mapRejectingDriver)).1 =
        Outcome.fatal (mapResult (exampleContext mapRejectingDriver) 2 0 8) ∧
      (vkdf_buffer_map_and_fill true hostVisibleBuffer 0 8 sourceBytes
        (exampleContext mapRejectingDriver)).2.log =
        (exampleContext mapRejectingDriver).log ++
          [Call.vkMapMemory 2 0 8 (mapResult (exampleContext mapRejectingDriver) 2 0 8)]) :=
  ⟨(vkdf_buffer_map_and_fill_size_assert false (exampleContext acceptingDriver)
      hostVisibleBuffer 0 8 sourceBytes (by decide)).1 (by decide),
   (vkdf_buffer_map_and_fill_size_assert true (exampleContext mapRejectingDriver)
      hostVisibleBuffer 0 8 sourceBytes (by decide)).2.1 (by decide)⟩

/-! ## vkdf_create_buffer -/

/-- C4: a `vkdf_create_buffer` that returns a buffer. In a build with assertions it made
exactly the calls create buffer object, query its memory requirements, select a memory
type, allocate, bind, in this order; the selection ran on the queried `memoryTypeBits`
and the caller's `mem_props` and its index went to the allocation. In a build with
`NDEBUG` it made exactly the calls create buffer object, query its memory requirements,
allocate, bind: no memory type was selected, and the allocation was given the
indeterminate value of `alloc_info.memoryTypeIndex`. In either build the allocation size
is the queried requirement's size and the buffer is bound to the allocation at offset 0,
also in the state of the device. -/
theorem vkdf_create_buffer_sequence (ndebug : Bool) (uninit : Nat) (ctx : VkdfContext)
    (flags size usage mem_props : Nat) (buffer : VkdfBuffer)
    (hok : (vkdf_create_buffer ndebug uninit flags size usage mem_props ctx).1 =
      Outcome.ok buffer) :
    buffer.mem_reqs = ctx.driver.requirements flags size usage ∧
    (ndebug = false → ∃ index,
      select_memory_type ctx.phy_device_mem_props buffer.mem_reqs.memoryTypeBits mem_props =
        some index ∧
      (vkdf_create_buffer ndebug uninit flags size usage mem_props ctx).2.log =
        ctx.log ++
          [Call.vkCreateBuffer flags size usage VK_SUCCESS,
           Call.vkGetBufferMemoryRequirements buffer.buf,
           Call.vkdf_memory_type_from_properties buffer.mem_reqs.memoryTypeBits mem_props
             (some index),
           Call.vkAllocateMemory buffer.mem_reqs.size index VK_SUCCESS,
           Call.vkBindBufferMemory buffer.buf buffer.mem 0 VK_SUCCESS]) ∧
    (ndebug = true →
      (vkdf_create_buffer ndebug uninit flags size usage mem_props ctx).2.log =
        ctx.log ++
          [Call.vkCreateBuffer flags size usage VK_SUCCESS,
           Call.vkGetBufferMemoryRequirements buffer.buf,
           Call.vkAllocateMemory buffer.mem_reqs.size uninit VK_SUCCESS,
           Call.vkBindBufferMemory buffer.buf buffer.mem 0 VK_SUCCESS]) ∧
    ((vkdf_create_buffer ndebug uninit flags size usage mem_props ctx).2.memory
        buffer.mem).map (fun m => m.allocationSize) = some buffer.mem_reqs.size ∧
    ((vkdf_create_buffer ndebug uninit flags size usage mem_props ctx).2.buffers
        buffer.buf).map (fun b => b.bound) = some (some (buffer.mem, 0)) := by
  revert hok
  by_cases h1 : ctx.driver.createBuffer flags size usage = VK_SUCCESS
  · cases ndebug with
    | true =>
      by_cases h2 : ctx.driver.allocateMemory (ctx.driver.requirements flags size usage).size
          uninit = VK_SUCCESS
      · by_cases h3 : ctx.driver.bindBufferMemory ctx.next (ctx.next + 1) 0 = VK_SUCCESS
        · simp [vkdf_create_buffer, bind, Prog.bind, VK_CHECK, assertCall, vkCreateBuffer,
            vkGetBufferMemoryRequirements, vkdf_memory_type_from_properties, vkAllocateMemory,
            vkBindBufferMemory, Prog.pure, abort, pure, h1, h2, h3]
          rintro rfl
          simp
        · simp [vkdf_create_buffer, bind, Prog.bind, VK_CHECK, assertCall, vkCreateBuffer,
            vkGetBufferMemoryRequirements, vkdf_memory_type_from_properties, vkAllocateMemory,
            vkBindBufferMemory, Prog.pure, abort, pure, h1, h2, h3]
      · simp [vkdf_create_buffer, bind, Prog.bind, VK_CHECK, assertCall, vkCreateBuffer,
          vkGetBufferMemoryRequirements, vkdf_memory_type_from_properties, vkAllocateMemory,
          vkBindBufferMemory, Prog.pure, abort, pure, h1, h2]
    | false =>
      cases hsel : select_memory_type ctx.phy_device_mem_props
          (ctx.driver.requirements flags size usage).memoryTypeBits mem_props with
      | none =>
        simp [vkdf_create_buffer, bind, Prog.bind, VK_CHECK, assertCall, vkCreateBuffer,
          vkGetBufferMemoryRequirements, vkdf_memory_type_from_properties, vkAllocateMemory,
          vkBindBufferMemory, Prog.pure, abort, pure, h1, hsel]
      | some index =>
        by_cases h2 : ctx.driver.allocateMemory (ctx.driver.requirements flags size usage).size
            index = VK_SUCCESS
        · by_cases h3 : ctx.driver.bindBufferMemory ctx.next (ctx.next + 1) 0 = VK_SUCCESS
          · simp [vkdf_create_buffer, bind, Prog.bind, VK_CHECK, assertCall, vkCreateBuffer,
              vkGetBufferMemoryRequirements, vkdf_memory_type_from_properties, vkAllocateMemory,
              vkBindBufferMemory, Prog.pure, abort, pure, h1, hsel, h2, h3]
            rintro rfl
            simp [hsel]
          · simp [vkdf_create_buffer, bind, Prog.bind, VK_CHECK, assertCall, vkCreateBuffer,
              vkGetBufferMemoryRequirements, vkdf_memory_type_from_properties, vkAllocateMemory,
              vkBindBufferMemory, Prog.pure, abort, pure, h1, hsel, h2, h3]
        · simp [vkdf_create_buffer, bind, Prog.bind, VK_CHECK, assertCall, vkCreateBuffer,
            vkGetBufferMemoryRequirements, vkdf_memory_type_from_properties, vkAllocateMemory,
            vkBindBufferMemory, Prog.pure, abort, pure, h1, hsel, h2]
  · cases ndebug <;>
    simp [vkdf_create_buffer, bind, Prog.bind, VK_CHECK, assertCall, vkCreateBuffer,
      vkGetBufferMemoryRequirements, vkdf_memory_type_from_properties, vkAllocateMemory,
      vkBindBufferMemory, Prog.pure, abort, pure, h1]

/-- C4, at concrete inputs: 5 bytes are requested, the device requires 8, and 8 are
allocated; with assertions from memory type 1, the lowest host-visible type the
requirement allows, and with `NDEBUG` from the indeterminate index 77, without a
selection. -/
theorem vkdf_create_buffer_sequence_witness :
    ((vkdf_create_buffer false 0 0 5 1 VK_MEMORY_PROPERTY_HOST_VISIBLE_BIT
      (exampleContext acceptingDriver)).1 = Outcome.ok createdBuffer ∧
     ∃ index,
      select_memory_type (exampleContext acceptingDriver).phy_device_mem_props
        createdBuffer.mem_reqs.memoryTypeBits VK_MEMORY_PROPERTY_HOST_VISIBLE_BIT =
        some index ∧
      (vkdf_create_buffer false 0 0 5 1 VK_MEMORY_PROPERTY_HOST_VISIBLE_BIT
        (exampleContext acceptingDriver)).2.log =
        (exampleContext acceptingDriver).log ++
          [Call.vkCreateBuffer 0 5 1 VK_SUCCESS,
           Call.vkGetBufferMemoryRequirements createdBuffer.buf,
           Call.vkdf_memory_type_from_properties createdBuffer.mem_reqs.memoryTypeBits
             VK_MEMORY_PROPERTY_HOST_VISIBLE_BIT (some index),
           Call.vkAllocateMemory createdBuffer.mem_reqs.size index VK_SUCCESS,
           Call.vkBindBufferMemory createdBuffer.buf createdBuffer.mem 0 VK_SUCCESS]) ∧
    ((vkdf_create_buffer true 77 0 5 1 VK_MEMORY_PROPERTY_HOST_VISIBLE_BIT
      (exampleContext acceptingDriver)).1 = Outcome.ok createdBuffer ∧
     (vkdf_create_buffer true 77 0 5 1 VK_MEMORY_PROPERTY_HOST_VISIBLE_BIT
        (exampleContext acceptingDriver)).2.log =
        (exampleContext acceptingDriver).log ++
          [Call.vkCreateBuffer 0 5 1 VK_SUCCESS,
           Call.vkGetBufferMemoryRequirements createdBuffer.buf,
           Call.vkAllocateMemory createdBuffer.mem_reqs.size 77 VK_SUCCESS,
           Call.vkBindBufferMemory createdBuffer.buf createdBuffer.mem 0 VK_SUCCESS]) :=
  ⟨⟨by decide,
    (vkdf_create_buffer_sequence false 0 (exampleContext acceptingDriver) 0 5 1
      VK_MEMORY_PROPERTY_HOST_VISIBLE_BIT createdBuffer (by decide)).2.1 rfl⟩,
   ⟨by decide,
    (vkdf_create_buffer_sequence true 77 (exampleContext acceptingDriver) 0 5 1
      VK_MEMORY_PROPERTY_HOST_VISIBLE_BIT createdBuffer (by decide)).2.2.1 rfl⟩⟩

/-- C5: in either build, `vkdf_create_buffer` ends in the fatal device error if and only
if one of the calls it made was rejected by the device; only the last call made can be a
rejected one (nothing of the creation sequence follows a rejected call), it is then
`vkCreateBuffer`, `vkAllocateMemory` or `vkBindBufferMemory`, and the outcome is the
fatal error carrying its result, so no buffer is returned. -/
theorem vkdf_create_buffer_fatal_iff (ndebug : Bool) (uninit : Nat) (ctx : VkdfContext)
    (flags size usage mem_props : Nat) :
    ∃ calls,
      (vkdf_create_buffer ndebug uninit flags size usage mem_props ctx).2.log =
        ctx.log ++ calls ∧
      ((∃ res, (vkdf_create_buffer ndebug uninit flags size usage mem_props ctx).1 =
          Outcome.fatal res) ↔ ∃ c ∈ calls, c.rejected) ∧
      (∀ c ∈ calls.dropLast, ¬ c.rejected) ∧
      (∀ c, calls.getLast? = some c → c.rejected →
        (vkdf_create_buffer ndebug uninit flags size usage mem_props ctx).1 =
          Outcome.fatal c.result ∧
        ((∃ f s u r, c = Call.vkCreateBuffer f s u r) ∨
         (∃ s i r, c = Call.vkAllocateMemory s i r) ∨
         (∃ b m o r, c = Call.vkBindBufferMemory b m o r))) := by
  by_cases h1 : ctx.driver.createBuffer flags size usage = VK_SUCCESS
  · cases ndebug with
    | true =>
      by_cases h2 : ctx.driver.allocateMemory (ctx.driver.requirements flags size usage).size
          uninit = VK_SUCCESS
      · by_cases h3 : ctx.driver.bindBufferMemory ctx.next (ctx.next + 1) 0 = VK_SUCCESS
        · refine ⟨[Call.vkCreateBuffer flags size usage VK_SUCCESS,
            Call.vkGetBufferMemoryRequirements ctx.next,
            Call.vkAllocateMemory (ctx.driver.requirements flags size usage).size uninit
              VK_SUCCESS,
            Call.vkBindBufferMemory ctx.next (ctx.next + 1) 0 VK_SUCCESS], ?_, ?_, ?_, ?_⟩ <;>
          simp [vkdf_create_buffer, bind, Prog.bind, VK_CHECK, assertCall, vkCreateBuffer,
      vkGetBufferMemoryRequirements, vkdf_memory_type_from_properties, vkAllocateMemory,
      vkBindBufferMemory, Prog.pure, abort, pure, Call.rejected, Call.result, h1, h2, h3]
        · refine ⟨[Call.vkCreateBuffer flags size usage VK_SUCCESS,
            Call.vkGetBufferMemoryRequirements ctx.next,
            Call.vkAllocateMemory (ctx.driver.requirements flags size usage).size uninit
              VK_SUCCESS,
            Call.vkBindBufferMemory ctx.next (ctx.next + 1) 0
              (ctx.driver.bindBufferMemory ctx.next (ctx.next + 1) 0)], ?_, ?_, ?_, ?_⟩ <;>
          simp [vkdf_create_buffer, bind, Prog.bind, VK_CHECK, assertCall, vkCreateBuffer,
      vkGetBufferMemoryRequirements, vkdf_memory_type_from_properties, vkAllocateMemory,
      vkBindBufferMemory, Prog.pure, abort, pure, Call.rejected, Call.result, h1, h2, h3]
      · refine ⟨[Call.vkCreateBuffer flags size usage VK_SUCCESS,
          Call.vkGetBufferMemoryRequirements ctx.next,
          Call.vkAllocateMemory (ctx.driver.requirements flags size usage).size uninit
            (ctx.driver.allocateMemory (ctx.driver.requirements flags size usage).size
              uninit)], ?_, ?_, ?_, ?_⟩ <;>
        simp [vkdf_create_buffer, bind, Prog.bind, VK_CHECK, assertCall, vkCreateBuffer,
      vkGetBufferMemoryRequirements, vkdf_memory_type_from_properties, vkAllocateMemory,
      vkBindBufferMemory, Prog.pure, abort, pure, Call.rejected, Call.result, h1, h2]
    | false =>
      cases hsel : select_memory_type ctx.phy_device_mem_props
          (ctx.driver.requirements flags size usage).memoryTypeBits mem_props with
      | none =>
        refine ⟨[Call.vkCreateBuffer flags size usage VK_SUCCESS,
          Call.vkGetBufferMemoryRequirements ctx.next,
          Call.vkdf_memory_type_from_properties
            (ctx.driver.requirements flags size usage).memoryTypeBits mem_props none],
          ?_, ?_, ?_, ?_⟩ <;>
        simp [vkdf_create_buffer, bind, Prog.bind, VK_CHECK, assertCall, vkCreateBuffer,
      vkGetBufferMemoryRequirements, vkdf_memory_type_from_properties, vkAllocateMemory,
      vkBindBufferMemory, Prog.pure, abort, pure, Call.rejected, Call.result, h1, hsel]
      | some index =>
        by_cases h2 : ctx.driver.allocateMemory
            (ctx.driver.requirements flags size usage).size index = VK_SUCCESS
        · by_cases h3 : ctx.driver.bindBufferMemory ctx.next (ctx.next + 1) 0 = VK_SUCCESS
          · refine ⟨[Call.vkCreateBuffer flags size usage VK_SUCCESS,
              Call.vkGetBufferMemoryRequirements ctx.next,
              Call.vkdf_memory_type_from_properties
                (ctx.driver.requirements flags size usage).memoryTypeBits mem_props
                (some index),
              Call.vkAllocateMemory (ctx.driver.requirements flags size usage).size index
                VK_SUCCESS,
              Call.vkBindBufferMemory ctx.next (ctx.next + 1) 0 VK_SUCCESS],
              ?_, ?_, ?_, ?_⟩ <;>
            simp [vkdf_create_buffer, bind, Prog.bind, VK_CHECK, assertCall, vkCreateBuffer,
      vkGetBufferMemoryRequirements, vkdf_memory_type_from_properties, vkAllocateMemory,
      vkBindBufferMemory, Prog.pure, abort, pure, Call.rejected, Call.result, h1, hsel, h2, h3]
          · refine ⟨[Call.vkCreateBuffer flags size usage VK_SUCCESS,
              Call.vkGetBufferMemoryRequirements ctx.next,
              Call.vkdf_memory_type_from_properties
                (ctx.driver.requirements flags size usage).memoryTypeBits mem_props
                (some index),
              Call.vkAllocateMemory (ctx.driver.requirements flags size usage).size index
                VK_SUCCESS,
              Call.vkBindBufferMemory ctx.next (ctx.next + 1) 0
                (ctx.driver.bindBufferMemory ctx.next (ctx.next + 1) 0)],
              ?_, ?_, ?_, ?_⟩ <;>
            simp [vkdf_create_buffer, bind, Prog.bind, VK_CHECK, assertCall, vkCreateBuffer,
      vkGetBufferMemoryRequirements, vkdf_memory_type_from_properties, vkAllocateMemory,
      vkBindBufferMemory, Prog.pure, abort, pure, Call.rejected, Call.result, h1, hsel, h2, h3]
        · refine ⟨[Call.vkCreateBuffer flags size usage VK_SUCCESS,
            Call.vkGetBufferMemoryRequirements ctx.next,
            Call.vkdf_memory_type_from_properties
              (ctx.driver.requirements flags size usage).memoryTypeBits mem_props
              (some index),
            Call.vkAllocateMemory (ctx.driver.requirements flags size usage).size index
              (ctx.driver.allocateMemory (ctx.driver.requirements flags size usage).size
                index)], ?_, ?_, ?_, ?_⟩ <;>
          simp [vkdf_create_buffer, bind, Prog.bind, VK_CHECK, assertCall, vkCreateBuffer,
      vkGetBufferMemoryRequirements, vkdf_memory_type_from_properties, vkAllocateMemory,
      vkBindBufferMemory, Prog.pure, abort, pure, Call.rejected, Call.result, h1, hsel, h2]
  · refine ⟨[Call.vkCreateBuffer flags size usage
      (ctx.driver.createBuffer flags size usage)], ?_, ?_, ?_, ?_⟩ <;>
    simp [vkdf_create_buffer, bind, Prog.bind, VK_CHECK, assertCall, vkCreateBuffer,
      vkGetBufferMemoryRequirements, vkdf_memory_type_from_properties, vkAllocateMemory,
      vkBindBufferMemory, Prog.pure, abort, pure, Call.rejected, Call.result, h1]

/-- C6, the code at the failing input: on a device whose only memory type is
device-local, a host-visible buffer has no suitable memory type. Compiled with `NDEBUG`,
`vkdf_create_buffer` does not run the selection, calls `vkAllocateMemory` with the
indeterminate index (here 77) and returns a buffer; compiled with assertions it stops at
the assertion without allocating. -/
theorem vkdf_create_buffer_ndebug_allocates_unselected :
    select_memory_type deviceLocalOnlyContext.phy_device_mem_props
      (deviceLocalOnlyContext.driver.requirements 0 5 1).memoryTypeBits
      VK_MEMORY_PROPERTY_HOST_VISIBLE_BIT = none ∧
    (vkdf_create_buffer true 77 0 5 1 VK_MEMORY_PROPERTY_HOST_VISIBLE_BIT
      deviceLocalOnlyContext).1 = Outcome.ok createdBuffer ∧
    (vkdf_create_buffer true 77 0 5 1 VK_MEMORY_PROPERTY_HOST_VISIBLE_BIT
      deviceLocalOnlyContext).2.log =
      [Call.vkCreateBuffer 0 5 1 VK_SUCCESS, Call.vkGetBufferMemoryRequirements 7,
       Call.vkAllocateMemory 8 77 VK_SUCCESS, Call.vkBindBufferMemory 7 8 0 VK_SUCCESS] ∧
    (vkdf_create_buffer false 77 0 5 1 VK_MEMORY_PROPERTY_HOST_VISIBLE_BIT
      deviceLocalOnlyContext).1 = Outcome.assertion ∧
    (vkdf_create_buffer false 77 0 5 1 VK_MEMORY_PROPERTY_HOST_VISIBLE_BIT
      deviceLocalOnlyContext).2.log =
      [Call.vkCreateBuffer 0 5 1 VK_SUCCESS, Call.vkGetBufferMemoryRequirements 7,
       Call.vkdf_memory_type_from_properties 6 VK_MEMORY_PROPERTY_HOST_VISIBLE_BIT none] := by
  decide

/-! ## vkdf_destroy_buffer -/

/-- C7: `vkdf_destroy_buffer` always returns and makes exactly two calls,
`vkDestroyBuffer` of the buffer object first and `vkFreeMemory` of its allocation second;
afterwards neither the buffer object nor the allocation exists. -/
theorem vkdf_destroy_buffer_calls (ctx : VkdfContext) (buf : VkdfBuffer) :
    (vkdf_destroy_buffer buf ctx).1 = Outcome.ok () ∧
    (vkdf_destroy_buffer buf ctx).2.log =
      ctx.log ++ [Call.vkDestroyBuffer buf.buf, Call.vkFreeMemory buf.mem] ∧
    (vkdf_destroy_buffer buf ctx).2.buffers buf.buf = none ∧
    (vkdf_destroy_buffer buf ctx).2.memory buf.mem = none := by
  simp [vkdf_destroy_buffer, bind, Prog.bind, vkDestroyBuffer, vkFreeMemory]

/-! ## Memory type selection -/

/-- What the scan from index `k` returns is `k` plus a position of the rest of the table
whose type satisfies the request. -/
theorem select_memory_type_from_sound (type_bitmask required_properties : Nat)
    (types : List Nat) (k i : Nat)
    (h : select_memory_type_from type_bitmask required_properties types k = some i) :
    ∃ j propertyFlags, i = k + j ∧ types[j]? = some propertyFlags ∧
      type_bitmask.testBit (k + j) = true ∧
      propertyFlags &&& required_properties = required_properties := by
  induction types generalizing k with
  | nil => simp [select_memory_type_from] at h
  | cons propertyFlags rest ih =>
    unfold select_memory_type_from at h
    split at h
    · rename_i hc
      simp only [Bool.and_eq_true, beq_iff_eq] at hc
      refine ⟨0, propertyFlags, ?_, by simp, ?_, hc.2⟩
      · simp only [Option.some.injEq] at h
        omega
      · simpa using hc.1
    · obtain ⟨j, pf, hi, hj, hb, hs⟩ := ih (k + 1) h
      refine ⟨j + 1, pf, by omega, by simpa using hj, ?_, hs⟩
      rw [← hb]
      congr 1
      omega

/-- No position before the one the scan returns satisfies the request. -/
theorem select_memory_type_from_least (type_bitmask required_properties : Nat)
    (types : List Nat) (k i : Nat)
    (h : select_memory_type_from type_bitmask required_properties types k = some i)
    (j propertyFlags : Nat) (hj : types[j]? = some propertyFlags)
    (hb : type_bitmask.testBit (k + j) = true)
    (hs : propertyFlags &&& required_properties = required_properties) :
    i ≤ k + j := by
  induction types generalizing k j with
  | nil => simp [select_memory_type_from] at h
  | cons head rest ih =>
    unfold select_memory_type_from at h
    split at h
    · simp only [Option.some.injEq] at h
      omega
    · rename_i hc
      cases j with
      | zero =>
        exfalso
        apply hc
        simp only [List.getElem?_cons_zero, Option.some.injEq] at hj
        subst hj
        simpa [hs] using hb
      | succ j =>
        have := ih (k + 1) h j (by simpa using hj) (by rw [← hb]; congr 1; omega)
        omega

/-- If some position satisfies the request, the scan returns an index. -/
theorem select_memory_type_from_complete (type_bitmask required_properties : Nat)
    (types : List Nat) (k : Nat) (j propertyFlags : Nat)
    (hj : types[j]? = some propertyFlags)
    (hb : type_bitmask.testBit (k + j) = true)
    (hs : propertyFlags &&& required_properties = required_properties) :
    ∃ i, select_memory_type_from type_bitmask required_properties types k = some i := by
  induction types generalizing k j with
  | nil => simp at hj
  | cons head rest ih =>
    unfold select_memory_type_from
    split
    · exact ⟨k, rfl⟩
    · cases j with
      | zero =>
        rename_i hc
        exfalso
        apply hc
        simp only [List.getElem?_cons_zero, Option.some.injEq] at hj
        subst hj
        simpa [hs] using hb
      | succ j =>
        exact ih (k + 1) j (by simpa using hj) (by rw [← hb]; congr 1; omega)

/-- C8: `select_memory_type` returns index `i` exactly when `i` is the lowest index whose
bit is set in `type_bitmask` and whose flags are a superset of `required_properties`; it
fails (`none`, the failure `NoSuitableMemoryType`) exactly when no index is; and it fails
whenever some required flag is absent from both entries of a two-entry table. -/
theorem select_memory_type_lowest (types : List Nat) (type_bitmask required_properties : Nat) :
    (∀ i, select_memory_type types type_bitmask required_properties = some i ↔
      suitable types type_bitmask required_properties i ∧
      ∀ j, j < i → ¬ suitable types type_bitmask required_properties j) ∧
    (select_memory_type types type_bitmask required_properties = none ↔
      ∀ i, ¬ suitable types type_bitmask required_properties i) ∧
    (∀ flags0 flags1 bit, required_properties.testBit bit = true →
      flags0.testBit bit = false → flags1.testBit bit = false →
      select_memory_type [flags0, flags1] type_bitmask required_properties = none) := by
  have sound : ∀ (ts : List Nat) (i : Nat),
      select_memory_type ts type_bitmask required_properties = some i →
      suitable ts type_bitmask required_properties i := by
    intro ts i h
    obtain ⟨j, pf, hi, hj, hb, hs⟩ :=
      select_memory_type_from_sound type_bitmask required_properties ts 0 i h
    have hij : i = j := by omega
    subst hij
    exact ⟨pf, hj, by simpa using hb, hs⟩
  have absent : ∀ flags bit, required_properties.testBit bit = true →
      flags.testBit bit = false → flags &&& required_properties ≠ required_properties := by
    intro flags bit hr hf heq
    have h := Nat.testBit_and flags required_properties bit
    rw [heq, hr, hf] at h
    simp at h
  refine ⟨fun i => ⟨fun h => ⟨sound types i h, ?_⟩, ?_⟩, ⟨?_, ?_⟩, ?_⟩
  · rintro j hlt ⟨pf, hj, hb, hs⟩
    have := select_memory_type_from_least type_bitmask required_properties types 0 i h j pf hj
      (by simpa using hb) hs
    omega
  · rintro ⟨⟨pf, hi, hb, hs⟩, hmin⟩
    obtain ⟨i2, h2⟩ := select_memory_type_from_complete type_bitmask required_properties
      types 0 i pf hi (by simpa using hb) hs
    have hle := select_memory_type_from_least type_bitmask required_properties types 0 i2 h2
      i pf hi (by simpa using hb) hs
    have hs2 := sound types i2 h2
    have : i2 = i := by
      by_contra hne
      exact hmin i2 (by omega) hs2
    rw [← this]
    exact h2
  · intro h i hsuit
    obtain ⟨pf, hi, hb, hs⟩ := hsuit
    obtain ⟨i2, h2⟩ := select_memory_type_from_complete type_bitmask required_properties
      types 0 i pf hi (by simpa using hb) hs
    unfold select_memory_type at h
    rw [h] at h2
    exact Option.noConfusion h2
  · intro h
    cases hsel : select_memory_type types type_bitmask required_properties with
    | none => rfl
    | some i => exact absurd (sound types i hsel) (h i)
  · intro flags0 flags1 bit hr h0 h1
    simp [select_memory_type, select_memory_type_from, absent flags0 bit hr h0,
      absent flags1 bit hr h1]

/-- C8, at a concrete input: on the table of `exampleContext` the lowest host-visible
type among types 1 and 2 is selected, and a request for the host-cached flag, which
neither entry of a two-entry table has, fails. -/
theorem select_memory_type_lowest_witness :
    select_memory_type (exampleContext acceptingDriver).phy_device_mem_props 6
      VK_MEMORY_PROPERTY_HOST_VISIBLE_BIT = some 1 ∧
    select_memory_type [VK_MEMORY_PROPERTY_DEVICE_LOCAL_BIT, VK_MEMORY_PROPERTY_HOST_VISIBLE_BIT]
      3 VK_MEMORY_PROPERTY_HOST_CACHED_BIT = none :=
  ⟨by decide,
   (select_memory_type_lowest [] 3 VK_MEMORY_PROPERTY_HOST_CACHED_BIT).2.2
     VK_MEMORY_PROPERTY_DEVICE_LOCAL_BIT VK_MEMORY_PROPERTY_HOST_VISIBLE_BIT 3
     (by decide) (by decide) (by decide)⟩

/-- A flag of a set of flags is a flag of every superset. -/
theorem hasFlag_of_superset (flags required bit : Nat) (hsup : flags &&& required = required)
    (h : hasFlag required bit = true) : hasFlag flags bit = true := by
  simp only [hasFlag, bne_iff_ne, ne_eq] at h ⊢
  intro hzero
  apply h
  rw [← hsup, Nat.and_assoc, Nat.and_comm required bit, ← Nat.and_assoc, hzero]
  exact Nat.zero_and required

/-- In a build with assertions, the buffer a `vkdf_create_buffer` returns names an
allocation that is not mapped, has the size `mem_reqs.size` and comes from a memory type
whose flags are a superset of the recorded `mem_props`, which are the requested ones. -/
theorem vkdf_create_buffer_allocation (uninit : Nat) (ctx : VkdfContext)
    (flags size usage mem_props : Nat) (buffer : VkdfBuffer)
    (hok : (vkdf_create_buffer false uninit flags size usage mem_props ctx).1 =
      Outcome.ok buffer) :
    buffer.mem_props = mem_props ∧
    ∃ m, (vkdf_create_buffer false uninit flags size usage mem_props ctx).2.memory
        buffer.mem = some m ∧
      m.allocationSize = buffer.mem_reqs.size ∧ m.mapped = false ∧
      m.propertyFlags &&& buffer.mem_props = buffer.mem_props := by
  revert hok
  by_cases h1 : ctx.driver.createBuffer flags size usage = VK_SUCCESS
  · cases hsel : select_memory_type ctx.phy_device_mem_props
        (ctx.driver.requirements flags size usage).memoryTypeBits mem_props with
    | none =>
      simp [vkdf_create_buffer, bind, Prog.bind, VK_CHECK, assertCall, vkCreateBuffer,
        vkGetBufferMemoryRequirements, vkdf_memory_type_from_properties, vkAllocateMemory,
        vkBindBufferMemory, Prog.pure, abort, pure, h1, hsel]
    | some index =>
      obtain ⟨j, pf, hi, hj, -, hs⟩ := select_memory_type_from_sound _ _ _ 0 index hsel
      have hij : index = j := by omega
      subst hij
      by_cases h2 : ctx.driver.allocateMemory (ctx.driver.requirements flags size usage).size
          index = VK_SUCCESS
      · by_cases h3 : ctx.driver.bindBufferMemory ctx.next (ctx.next + 1) 0 = VK_SUCCESS
        · simp [vkdf_create_buffer, bind, Prog.bind, VK_CHECK, assertCall, vkCreateBuffer,
            vkGetBufferMemoryRequirements, vkdf_memory_type_from_properties, vkAllocateMemory,
            vkBindBufferMemory, Prog.pure, abort, pure, h1, hsel, h2, h3]
          rintro rfl
          simp [List.getD, hj, hs]
        · simp [vkdf_create_buffer, bind, Prog.bind, VK_CHECK, assertCall, vkCreateBuffer,
            vkGetBufferMemoryRequirements, vkdf_memory_type_from_properties, vkAllocateMemory,
            vkBindBufferMemory, Prog.pure, abort, pure, h1, hsel, h2, h3]
      · simp [vkdf_create_buffer, bind, Prog.bind, VK_CHECK, assertCall, vkCreateBuffer,
          vkGetBufferMemoryRequirements, vkdf_memory_type_from_properties, vkAllocateMemory,
          vkBindBufferMemory, Prog.pure, abort, pure, h1, hsel, h2]
  · simp [vkdf_create_buffer, bind, Prog.bind, VK_CHECK, assertCall, vkCreateBuffer,
      vkGetBufferMemoryRequirements, vkdf_memory_type_from_properties, vkAllocateMemory,
      vkBindBufferMemory, Prog.pure, abort, pure, h1]

/-! ## Round trip through a mapping -/

/-- C9, as stated, fails: the host-visible buffer of `exampleContext` has allocated size
4, and 4 bytes written at offset 1 do not come back: the last of them lies outside the
allocation, where no byte is stored. What is read back in its place is what the device
shows there, whatever was written: on the example device 255 for the written 13, and on
a device that shows `unspecified 4` there that value for every `data`, so that a fill
with `data 3` different from it does not come back on any device. -/
theorem map_and_fill_map_and_get_counterexample :
    4 ≤ hostVisibleBuffer.mem_reqs.size ∧
    (vkdf_buffer_map_and_fill false hostVisibleBuffer 1 4 sourceBytes
      (exampleContext acceptingDriver)).1 = Outcome.ok () ∧
    (vkdf_buffer_map_and_get false hostVisibleBuffer 1 4
      (vkdf_buffer_map_and_fill false hostVisibleBuffer 1 4 sourceBytes
        (exampleContext acceptingDriver)).2).1 = Outcome.ok [10, 11, 12, 255] ∧
    (List.range 4).map sourceBytes = [10, 11, 12, 13] ∧
    ∀ (unspecified data : Nat → Nat),
      (vkdf_buffer_map_and_fill false hostVisibleBuffer 1 4 data
        (exampleContext { acceptingDriver with unspecified := unspecified })).1 =
        Outcome.ok () ∧
      (vkdf_buffer_map_and_get false hostVisibleBuffer 1 4
        (vkdf_buffer_map_and_fill false hostVisibleBuffer 1 4 data
          (exampleContext { acceptingDriver with unspecified := unspecified })).2).1 =
        Outcome.ok [data 0, data 1, data 2, unspecified 4] := by
  refine ⟨by decide, by decide, by decide, by decide, fun unspecified data => ⟨rfl, rfl⟩⟩

/-- C9, amended: take a buffer requested host-visible whose allocation has the size
`mem_reqs.size` and is host-coherent if the buffer was requested so, and a range with
`offset + n ≤ mem_reqs.size`. If the device accepts the map, the flush and the
invalidate of the range, then `vkdf_buffer_map_and_fill` of `n` bytes succeeds and
`vkdf_buffer_map_and_get` of `n` bytes at the same offset, run next, succeeds and returns
exactly the bytes written, whether the memory is coherent or not. -/
theorem map_and_fill_map_and_get_roundtrip (ndebug : Bool) (ctx : VkdfContext)
    (buf : VkdfBuffer) (offset n : Nat) (data : Nat → Nat) (m : DeviceMemory)
    (hm : ctx.memory buf.mem = some m)
    (halloc : m.allocationSize = buf.mem_reqs.size)
    (hvis : hasFlag buf.mem_props VK_MEMORY_PROPERTY_HOST_VISIBLE_BIT = true)
    (hcoh : hasFlag buf.mem_props VK_MEMORY_PROPERTY_HOST_COHERENT_BIT = true →
      hasFlag m.propertyFlags VK_MEMORY_PROPERTY_HOST_COHERENT_BIT = true)
    (hbound : offset + n ≤ buf.mem_reqs.size)
    (hmap : ctx.driver.mapMemory buf.mem offset n = VK_SUCCESS)
    (hflush : ctx.driver.flushMappedMemoryRanges buf.mem offset n = VK_SUCCESS)
    (hinv : ctx.driver.invalidateMappedMemoryRanges buf.mem offset n = VK_SUCCESS) :
    (vkdf_buffer_map_and_fill ndebug buf offset n data ctx).1 = Outcome.ok () ∧
    (vkdf_buffer_map_and_get ndebug buf offset n
      (vkdf_buffer_map_and_fill ndebug buf offset n data ctx).2).1 =
      Outcome.ok ((List.range n).map data) := by
  have hsize : n ≤ buf.mem_reqs.size := by omega
  have hbyte : ∀ i, i < n →
      (inRange offset n (offset + i) = true ∧ offset + i < m.allocationSize ∧
        offset + i - offset = i) := by
    intro i hi
    refine ⟨by simp [inRange]; omega, by omega, by omega⟩
  cases ndebug <;>
    cases hc : hasFlag buf.mem_props VK_MEMORY_PROPERTY_HOST_COHERENT_BIT <;>
    cases hmc : hasFlag m.propertyFlags VK_MEMORY_PROPERTY_HOST_COHERENT_BIT <;>
    simp_all [vkdf_buffer_map_and_fill, vkdf_buffer_map_and_get, bind, Prog.bind, VK_CHECK,
      assert, vkMapMemory, memcpy_to_mapped, memcpy_from_mapped, vkFlushMappedMemoryRanges,
      vkInvalidateMappedMemoryRanges, vkUnmapMemory, Prog.pure, abort, pure, mapResult,
      DeviceMemory.map, DeviceMemory.write, DeviceMemory.flush, DeviceMemory.invalidate,
      DeviceMemory.read]

/-- C9 amended, at concrete inputs: three bytes at offset 1 of the four-byte buffers of
`exampleContext` come back, from the memory that is not coherent and from the one that
is. -/
theorem map_and_fill_map_and_get_roundtrip_witness :
    ((vkdf_buffer_map_and_fill false hostVisibleBuffer 1 3 sourceBytes
        (exampleContext acceptingDriver)).1 = Outcome.ok () ∧
     (vkdf_buffer_map_and_get false hostVisibleBuffer 1 3
        (vkdf_buffer_map_and_fill false hostVisibleBuffer 1 3 sourceBytes
          (exampleContext acceptingDriver)).2).1 =
        Outcome.ok ((List.range 3).map sourceBytes)) ∧
    ((vkdf_buffer_map_and_fill false hostCoherentBuffer 1 3 sourceBytes
        (exampleContext acceptingDriver)).1 = Outcome.ok () ∧
     (vkdf_buffer_map_and_get false hostCoherentBuffer 1 3
        (vkdf_buffer_map_and_fill false hostCoherentBuffer 1 3 sourceBytes
          (exampleContext acceptingDriver)).2).1 =
        Outcome.ok ((List.range 3).map sourceBytes)) :=
  ⟨map_and_fill_map_and_get_roundtrip false (exampleContext acceptingDriver)
     hostVisibleBuffer 1 3 sourceBytes (fourBytes VK_MEMORY_PROPERTY_HOST_VISIBLE_BIT)
     rfl rfl (by decide) (by decide) (by decide) rfl rfl rfl,
   map_and_fill_map_and_get_roundtrip false (exampleContext acceptingDriver)
     hostCoherentBuffer 1 3 sourceBytes
     (fourBytes (VK_MEMORY_PROPERTY_HOST_VISIBLE_BIT ||| VK_MEMORY_PROPERTY_HOST_COHERENT_BIT))
     rfl rfl (by decide) (by decide) (by decide) rfl rfl rfl⟩

/-! ## vkdf_command_buffer_execute -/

/-- C10: when the number of wait semaphores differs from the number of wait stage masks,
`vkdf_command_buffer_execute` fails with `InvalidArgument` and leaves the context
untouched, so no `vkQueueSubmit` is made; when the numbers are equal the arrays are
accepted: on an executable command buffer the one call made is the `vkQueueSubmit` of the
whole arrays, and the call returns if the device accepts the submission. -/
theorem vkdf_command_buffer_execute_wait_arrays (ctx : VkdfContext) (cmd_buf : Nat)
    (pipeline_stage_flags wait_sem signal_sem : List Nat) :
    (wait_sem.length ≠ pipeline_stage_flags.length →
      vkdf_command_buffer_execute cmd_buf pipeline_stage_flags wait_sem signal_sem ctx =
        (Outcome.invalidArgument, ctx)) ∧
    (wait_sem.length = pipeline_stage_flags.length →
      (ctx.cmd_bufs cmd_buf).map (fun c => c.state) = some CommandBufferState.Executable →
      (vkdf_command_buffer_execute cmd_buf pipeline_stage_flags wait_sem signal_sem ctx).2.log =
        ctx.log ++ [Call.vkQueueSubmit cmd_buf wait_sem pipeline_stage_flags signal_sem
          (ctx.driver.queueSubmit cmd_buf)] ∧
      (ctx.driver.queueSubmit cmd_buf = VK_SUCCESS →
        (vkdf_command_buffer_execute cmd_buf pipeline_stage_flags wait_sem signal_sem ctx).1 =
          Outcome.ok ())) := by
  constructor
  · intro hne
    simp [vkdf_command_buffer_execute, bind, Prog.bind, invalidArgument, hne]
  · intro heq hstate
    by_cases hres : ctx.driver.queueSubmit cmd_buf = VK_SUCCESS <;>
      simp [vkdf_command_buffer_execute, bind, Prog.bind, invalidArgument, heq, hstate,
        commandBufferState, VK_CHECK, vkQueueSubmit, hres, Prog.pure, pure]

/-- C10, at concrete inputs: two wait semaphores with one stage mask are refused, and two
wait semaphores with two stage masks are submitted. -/
theorem vkdf_command_buffer_execute_wait_arrays_witness :
    vkdf_command_buffer_execute 5 [1024] [8, 9] [10] (exampleContext acceptingDriver) =
      (Outcome.invalidArgument, exampleContext acceptingDriver) ∧
    (vkdf_command_buffer_execute 5 [1024, 1024] [8, 9] [10]
      (exampleContext acceptingDriver)).2.log =
      (exampleContext acceptingDriver).log ++
        [Call.vkQueueSubmit 5 [8, 9] [1024, 1024] [10]
          ((exampleContext acceptingDriver).driver.queueSubmit 5)] ∧
    ((exampleContext acceptingDriver).driver.queueSubmit 5 = VK_SUCCESS →
      (vkdf_command_buffer_execute 5 [1024, 1024] [8, 9] [10]
        (exampleContext acceptingDriver)).1 = Outcome.ok ()) :=
  ⟨(vkdf_command_buffer_execute_wait_arrays (exampleContext acceptingDriver) 5 [1024] [8, 9]
     [10]).1 (by decide),
   (vkdf_command_buffer_execute_wait_arrays (exampleContext acceptingDriver) 5 [1024, 1024]
     [8, 9] [10]).2 (by decide) (by decide)⟩

/-! ## The demos -/

/-! ## Runs that return -/

theorem Prog.bind_eq_ok {α β : Type} (m : Prog α) (f : α → Prog β) (ctx ctx' : VkdfContext)
    (b : β) :
    (m >>= f) ctx = (Outcome.ok b, ctx') ↔
      ∃ a ctx1, m ctx = (Outcome.ok a, ctx1) ∧ f a ctx1 = (Outcome.ok b, ctx') := by
  show Prog.bind m f ctx = _ ↔ _
  unfold Prog.bind
  rcases h : m ctx with ⟨o, c⟩
  cases o with
  | ok a =>
    constructor
    · intro h'
      exact ⟨a, c, rfl, h'⟩
    · rintro ⟨a', c', h1, h2⟩
      simp only [Prod.mk.injEq, Outcome.ok.injEq] at h1
      obtain ⟨rfl, rfl⟩ := h1
      exact h2
  | _ => simp

theorem Prog.pure_eq_ok {α : Type} (a b : α) (ctx ctx' : VkdfContext) :
    (Pure.pure a : Prog α) ctx = (Outcome.ok b, ctx') ↔ b = a ∧ ctx' = ctx := by
  show Prog.pure a ctx = _ ↔ _
  simp only [Prog.pure, Prod.mk.injEq, Outcome.ok.injEq]
  constructor <;> rintro ⟨rfl, rfl⟩ <;> exact ⟨rfl, rfl⟩

theorem VK_CHECK_eq_ok {α : Type} (call : Prog (VkResult × α)) (ctx ctx' : VkdfContext)
    (a : α) :
    VK_CHECK call ctx = (Outcome.ok a, ctx') ↔ call ctx = (Outcome.ok (VK_SUCCESS, a), ctx') := by
  unfold VK_CHECK
  rcases h : call ctx with ⟨o, c⟩
  cases o with
  | ok r =>
    obtain ⟨res, out⟩ := r
    by_cases hr : res = VK_SUCCESS <;> simp [hr]
  | _ => simp

/-! ## Frames -/

theorem Frame.refl (Q : Subject → Prop) (ctx : VkdfContext) : Frame Q ctx ctx :=
  { log := ⟨[], by simp, by simp⟩
    phy_device_mem_props := rfl, driver := rfl, width := rfl, height := rfl,
    surface_format := rfl, swap_chain_length := rfl, swap_chain_index := rfl,
    acquired_sem := rfl, draw_sem := rfl, next := le_refl _
    buffers := fun _ => rfl, live := fun _ _ => rfl, memory := fun _ _ => rfl
    cmd_bufs := fun _ _ _ => rfl, descriptor_pools := fun _ => rfl
    descriptor_sets := fun _ => rfl, objects := fun _ => rfl }

theorem Frame.trans {Q : Subject → Prop} {a b c : VkdfContext} (h1 : Frame Q a b)
    (h2 : Frame Q b c) : Frame Q a c := by
  obtain ⟨calls1, hl1, hq1⟩ := h1.log
  obtain ⟨calls2, hl2, hq2⟩ := h2.log
  exact
    { log := ⟨calls1 ++ calls2, by rw [hl2, hl1, List.append_assoc], fun x hx => by
        rcases List.mem_append.mp hx with hx | hx
        · exact hq1 x hx
        · exact hq2 x hx⟩
      phy_device_mem_props := h2.phy_device_mem_props.trans h1.phy_device_mem_props
      driver := h2.driver.trans h1.driver
      width := h2.width.trans h1.width
      height := h2.height.trans h1.height
      surface_format := h2.surface_format.trans h1.surface_format
      swap_chain_length := h2.swap_chain_length.trans h1.swap_chain_length
      swap_chain_index := h2.swap_chain_index.trans h1.swap_chain_index
      acquired_sem := h2.acquired_sem.trans h1.acquired_sem
      draw_sem := h2.draw_sem.trans h1.draw_sem
      next := le_trans h1.next h2.next
      buffers := fun h => (h2.buffers h).trans (h1.buffers h)
      live := fun h x => (h2.live h x).trans (h1.live h x)
      memory := fun h h' => (h2.memory h h').trans (h1.memory h h')
      cmd_bufs := fun h h' h'' => (h2.cmd_bufs h h' h'').trans (h1.cmd_bufs h h' h'')
      descriptor_pools := fun h => (h2.descriptor_pools h).trans (h1.descriptor_pools h)
      descriptor_sets := fun h => (h2.descriptor_sets h).trans (h1.descriptor_sets h)
      objects := fun h => (h2.objects h).trans (h1.objects h) }

theorem Frame.mono {Q Q' : Subject → Prop} {a b : VkdfContext} (h : Frame Q a b)
    (hq : ∀ s, Q s → Q' s) : Frame Q' a b := by
  obtain ⟨calls, hl, hc⟩ := h.log
  exact
    { log := ⟨calls, hl, fun x hx => hq _ (hc x hx)⟩
      phy_device_mem_props := h.phy_device_mem_props, driver := h.driver, width := h.width
      height := h.height, surface_format := h.surface_format
      swap_chain_length := h.swap_chain_length, swap_chain_index := h.swap_chain_index
      acquired_sem := h.acquired_sem, draw_sem := h.draw_sem, next := h.next
      buffers := fun n => h.buffers (fun q => n (hq _ q))
      live := fun n => h.live (fun q => n (hq _ q))
      memory := fun n n' => h.memory (fun q => n (hq _ q)) (fun q => n' (hq _ q))
      cmd_bufs := fun n n' n'' =>
        h.cmd_bufs (fun q => n (hq _ q)) (fun q => n' (hq _ q)) (fun q => n'' (hq _ q))
      descriptor_pools := fun n => h.descriptor_pools (fun q => n (hq _ q))
      descriptor_sets := fun n => h.descriptor_sets (fun q => n (hq _ q))
      objects := fun n => h.objects (fun k q => n k (hq _ q)) }

theorem Touches.run {α : Type} {Q : Subject → Prop} {m : Prog α} (h : Touches Q m)
    {ctx ctx' : VkdfContext} {o : Outcome α} (hm : m ctx = (o, ctx')) : Frame Q ctx ctx' := by
  have := h.frame ctx
  rw [hm] at this
  exact this

theorem Touches.pure {α : Type} {Q : Subject → Prop} (a : α) :
    Touches Q (Pure.pure a : Prog α) :=
  ⟨fun ctx => Frame.refl Q ctx⟩

theorem Touches.pure' {α : Type} {Q : Subject → Prop} (a : α) : Touches Q (Prog.pure a) :=
  ⟨fun ctx => Frame.refl Q ctx⟩

theorem Touches.bind {α β : Type} {Q : Subject → Prop} {m : Prog α} {f : α → Prog β}
    (hm : Touches Q m) (hf : ∀ a, Touches Q (f a)) : Touches Q (m >>= f) := by
  constructor
  intro ctx
  have h1 := hm.frame ctx
  show Frame Q ctx (Prog.bind m f ctx).2
  unfold Prog.bind
  rcases h : m ctx with ⟨o, c⟩
  rw [h] at h1
  cases o with
  | ok a => exact h1.trans ((hf a).frame c)
  | _ => exact h1

theorem Touches.bind' {α β : Type} {Q : Subject → Prop} {m : Prog α} {f : α → Prog β}
    (hm : Touches Q m) (hf : ∀ a, Touches Q (f a)) : Touches Q (Prog.bind m f) :=
  Touches.bind hm hf

theorem Touches.VK_CHECK {α : Type} {Q : Subject → Prop} {call : Prog (VkResult × α)}
    (h : Touches Q call) : Touches Q (VK_CHECK call) := by
  constructor
  intro ctx
  have h1 := h.frame ctx
  unfold Vkdf.VK_CHECK
  rcases h : call ctx with ⟨o, c⟩
  rw [h] at h1
  cases o with
  | ok r =>
    obtain ⟨res, out⟩ := r
    by_cases hr : res = VK_SUCCESS <;> simp only [hr, if_true, if_false] <;> exact h1
  | _ => exact h1

theorem Touches.abort {α : Type} {Q : Subject → Prop} : Touches Q (abort : Prog α) :=
  ⟨fun ctx => Frame.refl Q ctx⟩

theorem Touches.undefinedBehaviour {α : Type} {Q : Subject → Prop} :
    Touches Q (undefinedBehaviour : Prog α) :=
  ⟨fun ctx => Frame.refl Q ctx⟩

theorem Touches.invalidArgument {α : Type} {Q : Subject → Prop} :
    Touches Q (invalidArgument : Prog α) :=
  ⟨fun ctx => Frame.refl Q ctx⟩

theorem Touches.vkdf_fatal {α : Type} {Q : Subject → Prop} (res : VkResult) :
    Touches Q (vkdf_fatal res : Prog α) :=
  ⟨fun ctx => Frame.refl Q ctx⟩

theorem Touches.getContext {Q : Subject → Prop} : Touches Q getContext :=
  ⟨fun ctx => Frame.refl Q ctx⟩

theorem Touches.commandBufferState {Q : Subject → Prop} (cmd_buf : Nat) :
    Touches Q (commandBufferState cmd_buf) :=
  ⟨fun ctx => Frame.refl Q ctx⟩

theorem Touches.ite {α : Type} {Q : Subject → Prop} {c : Prop} [Decidable c]
    {m1 m2 : Prog α} (h1 : Touches Q m1) (h2 : Touches Q m2) :
    Touches Q (if c then m1 else m2) := by
  split
  · exact h1
  · exact h2

theorem Touches.assert {Q : Subject → Prop} (ndebug cond : Bool) :
    Touches Q (assert ndebug cond) := by
  unfold Vkdf.assert
  exact Touches.ite (Touches.pure' _) (Touches.ite (Touches.pure' _) Touches.abort)

theorem Touches.assertCall {α : Type} {Q : Subject → Prop} {ndebug : Bool}
    {call : Prog (Bool × α)} {old : α} (h : Touches Q call) :
    Touches Q (assertCall ndebug call old) := by
  unfold Vkdf.assertCall
  exact Touches.ite (Touches.pure' _)
    (Touches.bind' h (fun r => Touches.ite (Touches.pure' _) Touches.abort))

theorem Touches.forEach {α : Type} {Q : Subject → Prop} (xs : List α) {body : α → Prog Unit}
    (h : ∀ x, Touches Q (body x)) : Touches Q (forEach xs body) := by
  induction xs with
  | nil => exact Touches.pure' _
  | cons x xs ih => exact Touches.bind' (h x) (fun _ => ih)

theorem Touches.collect {α β : Type} {Q : Subject → Prop} (xs : List α) {body : α → Prog β}
    (h : ∀ x, Touches Q (body x)) : Touches Q (collect xs body) := by
  induction xs with
  | nil => exact Touches.pure' _
  | cons x xs ih =>
    exact Touches.bind' (h x) (fun _ => Touches.bind' ih (fun _ => Touches.pure' _))

/-! ## The subjects of the entry points -/

set_option linter.unusedTactic false

set_option linter.unreachableTactic false

theorem Touches.vkCreateBuffer {Q : Subject → Prop} (flags size usage : Nat) (h : Q Subject.buffer) :
    Touches Q (vkCreateBuffer flags size usage) := by
  refine ⟨fun ctx => ?_⟩
  constructor <;>
    first
    | exact ⟨[_], rfl, by simpa [Call.subject] using h⟩
    | rfl
    | exact fun _ => rfl
    | exact fun _ _ => rfl
    | exact fun _ _ _ => rfl
    | exact fun hn => absurd h hn
    | exact fun hn _ => absurd h hn
    | exact fun _ hn => absurd h hn
    | exact fun hn _ _ => absurd h hn
    | exact fun _ hn _ => absurd h hn
    | exact fun _ _ hn => absurd h hn
    | exact fun hn => absurd h (hn _)
    | (simp only [Vkdf.vkCreateBuffer]; split <;> omega)
    | (intro _ x; simp only [Vkdf.vkCreateBuffer]; split <;> simp)

theorem Touches.vkGetBufferMemoryRequirements {Q : Subject → Prop} (buf : Nat) (h : Q Subject.buffer) :
    Touches Q (vkGetBufferMemoryRequirements buf) := by
  refine ⟨fun ctx => ?_⟩
  constructor <;>
    first
    | exact ⟨[_], rfl, by simpa [Call.subject] using h⟩
    | rfl
    | exact fun _ => rfl
    | exact fun _ _ => rfl
    | exact fun _ _ _ => rfl
    | exact fun hn => absurd h hn
    | exact fun hn _ => absurd h hn
    | exact fun _ hn => absurd h hn
    | exact fun hn _ _ => absurd h hn
    | exact fun _ hn _ => absurd h hn
    | exact fun _ _ hn => absurd h hn
    | exact fun hn => absurd h (hn _)
    | (simp only [Vkdf.vkGetBufferMemoryRequirements]; split <;> omega)
    | (intro _ x; simp only [Vkdf.vkGetBufferMemoryRequirements]; split <;> simp)

theorem Touches.vkdf_memory_type_from_properties {Q : Subject → Prop} (allowed_mem_types requirements_mask mem_type_index : Nat) (h : Q Subject.allocation) :
    Touches Q (vkdf_memory_type_from_properties allowed_mem_types requirements_mask mem_type_index) := by
  refine ⟨fun ctx => ?_⟩
  constructor <;>
    first
    | exact ⟨[_], rfl, by simpa [Call.subject] using h⟩
    | rfl
    | exact fun _ => rfl
    | exact fun _ _ => rfl
    | exact fun _ _ _ => rfl
    | exact fun hn => absurd h hn
    | exact fun hn _ => absurd h hn
    | exact fun _ hn => absurd h hn
    | exact fun hn _ _ => absurd h hn
    | exact fun _ hn _ => absurd h hn
    | exact fun _ _ hn => absurd h hn
    | exact fun hn => absurd h (hn _)
    | (simp only [Vkdf.vkdf_memory_type_from_properties]; split <;> omega)
    | (intro _ x; simp only [Vkdf.vkdf_memory_type_from_properties]; split <;> simp)

theorem Touches.vkAllocateMemory {Q : Subject → Prop} (allocationSize memoryTypeIndex : Nat) (h : Q Subject.allocation) :
    Touches Q (vkAllocateMemory allocationSize memoryTypeIndex) := by
  refine ⟨fun ctx => ?_⟩
  constructor <;>
    first
    | exact ⟨[_], rfl, by simpa [Call.subject] using h⟩
    | rfl
    | exact fun _ => rfl
    | exact fun _ _ => rfl
    | exact fun _ _ _ => rfl
    | exact fun hn => absurd h hn
    | exact fun hn _ => absurd h hn
    | exact fun _ hn => absurd h hn
    | exact fun hn _ _ => absurd h hn
    | exact fun _ hn _ => absurd h hn
    | exact fun _ _ hn => absurd h hn
    | exact fun hn => absurd h (hn _)
    | (simp only [Vkdf.vkAllocateMemory]; split <;> omega)
    | (intro _ x; simp only [Vkdf.vkAllocateMemory]; split <;> simp)

theorem Touches.vkBindBufferMemory {Q : Subject → Prop} (buf mem memoryOffset : Nat) (h : Q Subject.buffer) :
    Touches Q (vkBindBufferMemory buf mem memoryOffset) := by
  refine ⟨fun ctx => ?_⟩
  constructor <;>
    first
    | exact ⟨[_], rfl, by simpa [Call.subject] using h⟩
    | rfl
    | exact fun _ => rfl
    | exact fun _ _ => rfl
    | exact fun _ _ _ => rfl
    | exact fun hn => absurd h hn
    | exact fun hn _ => absurd h hn
    | exact fun _ hn => absurd h hn
    | exact fun hn _ _ => absurd h hn
    | exact fun _ hn _ => absurd h hn
    | exact fun _ _ hn => absurd h hn
    | exact fun hn => absurd h (hn _)
    | (simp only [Vkdf.vkBindBufferMemory]; split <;> omega)
    | (intro _ x; simp only [Vkdf.vkBindBufferMemory]; split <;> simp)

theorem Touches.vkMapMemory {Q : Subject → Prop} (mem offset size : Nat) (h : Q Subject.memory) :
    Touches Q (vkMapMemory mem offset size) := by
  refine ⟨fun ctx => ?_⟩
  constructor <;>
    first
    | exact ⟨[_], rfl, by simpa [Call.subject] using h⟩
    | rfl
    | exact fun _ => rfl
    | exact fun _ _ => rfl
    | exact fun _ _ _ => rfl
    | exact fun hn => absurd h hn
    | exact fun hn _ => absurd h hn
    | exact fun _ hn => absurd h hn
    | exact fun hn _ _ => absurd h hn
    | exact fun _ hn _ => absurd h hn
    | exact fun _ _ hn => absurd h hn
    | exact fun hn => absurd h (hn _)
    | (simp only [Vkdf.vkMapMemory]; split <;> omega)
    | (intro _ x; simp only [Vkdf.vkMapMemory]; split <;> simp)

theorem Touches.memcpy_to_mapped {Q : Subject → Prop} (mem offset size : Nat) (data : Nat → Nat) (h : Q Subject.memory) :
    Touches Q (memcpy_to_mapped mem offset size data) := by
  refine ⟨fun ctx => ?_⟩
  constructor <;>
    first
    | exact ⟨[_], rfl, by simpa [Call.subject] using h⟩
    | rfl
    | exact fun _ => rfl
    | exact fun _ _ => rfl
    | exact fun _ _ _ => rfl
    | exact fun hn => absurd h hn
    | exact fun hn _ => absurd h hn
    | exact fun _ hn => absurd h hn
    | exact fun hn _ _ => absurd h hn
    | exact fun _ hn _ => absurd h hn
    | exact fun _ _ hn => absurd h hn
    | exact fun hn => absurd h (hn _)
    | (simp only [Vkdf.memcpy_to_mapped]; split <;> omega)
    | (intro _ x; simp only [Vkdf.memcpy_to_mapped]; split <;> simp)

theorem Touches.vkFlushMappedMemoryRanges {Q : Subject → Prop} (mem offset size : Nat) (h : Q Subject.memory) :
    Touches Q (vkFlushMappedMemoryRanges mem offset size) := by
  refine ⟨fun ctx => ?_⟩
  constructor <;>
    first
    | exact ⟨[_], rfl, by simpa [Call.subject] using h⟩
    | rfl
    | exact fun _ => rfl
    | exact fun _ _ => rfl
    | exact fun _ _ _ => rfl
    | exact fun hn => absurd h hn
    | exact fun hn _ => absurd h hn
    | exact fun _ hn => absurd h hn
    | exact fun hn _ _ => absurd h hn
    | exact fun _ hn _ => absurd h hn
    | exact fun _ _ hn => absurd h hn
    | exact fun hn => absurd h (hn _)
    | (simp only [Vkdf.vkFlushMappedMemoryRanges]; split <;> omega)
    | (intro _ x; simp only [Vkdf.vkFlushMappedMemoryRanges]; split <;> simp)

theorem Touches.vkInvalidateMappedMemoryRanges {Q : Subject → Prop} (mem offset size : Nat) (h : Q Subject.memory) :
    Touches Q (vkInvalidateMappedMemoryRanges mem offset size) := by
  refine ⟨fun ctx => ?_⟩
  constructor <;>
    first
    | exact ⟨[_], rfl, by simpa [Call.subject] using h⟩
    | rfl
    | exact fun _ => rfl
    | exact fun _ _ => rfl
    | exact fun _ _ _ => rfl
    | exact fun hn => absurd h hn
    | exact fun hn _ => absurd h hn
    | exact fun _ hn => absurd h hn
    | exact fun hn _ _ => absurd h hn
    | exact fun _ hn _ => absurd h hn
    | exact fun _ _ hn => absurd h hn
    | exact fun hn => absurd h (hn _)
    | (simp only [Vkdf.vkInvalidateMappedMemoryRanges]; split <;> omega)
    | (intro _ x; simp only [Vkdf.vkInvalidateMappedMemoryRanges]; split <;> simp)

theorem Touches.vkUnmapMemory {Q : Subject → Prop} (mem : Nat) (h : Q Subject.memory) :
    Touches Q (vkUnmapMemory mem) := by
  refine ⟨fun ctx => ?_⟩
  constructor <;>
    first
    | exact ⟨[_], rfl, by simpa [Call.subject] using h⟩
    | rfl
    | exact fun _ => rfl
    | exact fun _ _ => rfl
    | exact fun _ _ _ => rfl
    | exact fun hn => absurd h hn
    | exact fun hn _ => absurd h hn
    | exact fun _ hn => absurd h hn
    | exact fun hn _ _ => absurd h hn
    | exact fun _ hn _ => absurd h hn
    | exact fun _ _ hn => absurd h hn
    | exact fun hn => absurd h (hn _)
    | (simp only [Vkdf.vkUnmapMemory]; split <;> omega)
    | (intro _ x; simp only [Vkdf.vkUnmapMemory]; split <;> simp)

theorem Touches.vkDestroyBuffer {Q : Subject → Prop} (buf : Nat) (h : Q Subject.buffer) :
    Touches Q (vkDestroyBuffer buf) := by
  refine ⟨fun ctx => ?_⟩
  constructor <;>
    first
    | exact ⟨[_], rfl, by simpa [Call.subject] using h⟩
    | rfl
    | exact fun _ => rfl
    | exact fun _ _ => rfl
    | exact fun _ _ _ => rfl
    | exact fun hn => absurd h hn
    | exact fun hn _ => absurd h hn
    | exact fun _ hn => absurd h hn
    | exact fun hn _ _ => absurd h hn
    | exact fun _ hn _ => absurd h hn
    | exact fun _ _ hn => absurd h hn
    | exact fun hn => absurd h (hn _)
    | (simp only [Vkdf.vkDestroyBuffer]; split <;> omega)
    | (intro _ x; simp only [Vkdf.vkDestroyBuffer]; split <;> simp)

theorem Touches.vkFreeMemory {Q : Subject → Prop} (mem : Nat) (h : Q Subject.allocation) :
    Touches Q (vkFreeMemory mem) := by
  refine ⟨fun ctx => ?_⟩
  constructor <;>
    first
    | exact ⟨[_], rfl, by simpa [Call.subject] using h⟩
    | rfl
    | exact fun _ => rfl
    | exact fun _ _ => rfl
    | exact fun _ _ _ => rfl
    | exact fun hn => absurd h hn
    | exact fun hn _ => absurd h hn
    | exact fun _ hn => absurd h hn
    | exact fun hn _ _ => absurd h hn
    | exact fun _ hn _ => absurd h hn
    | exact fun _ _ hn => absurd h hn
    | exact fun hn => absurd h (hn _)
    | (simp only [Vkdf.vkFreeMemory]; split <;> omega)
    | (intro _ x; simp only [Vkdf.vkFreeMemory]; split <;> simp)

theorem Touches.memcpy_from_mapped {Q : Subject → Prop} (mem offset size : Nat) (h : Q Subject.memory) :
    Touches Q (memcpy_from_mapped mem offset size) := by
  refine ⟨fun ctx => ?_⟩
  constructor <;>
    first
    | exact ⟨[_], rfl, by simpa [Call.subject] using h⟩
    | rfl
    | exact fun _ => rfl
    | exact fun _ _ => rfl
    | exact fun _ _ _ => rfl
    | exact fun hn => absurd h hn
    | exact fun hn _ => absurd h hn
    | exact fun _ hn => absurd h hn
    | exact fun hn _ _ => absurd h hn
    | exact fun _ hn _ => absurd h hn
    | exact fun _ _ hn => absurd h hn
    | exact fun hn => absurd h (hn _)
    | (simp only [Vkdf.memcpy_from_mapped]; split <;> omega)
    | (intro _ x; simp only [Vkdf.memcpy_from_mapped]; split <;> simp)

theorem Touches.vkQueueSubmit {Q : Subject → Prop} (cmd_buf : Nat) (wait_sem wait_stages signal_sem : List Nat) (h : Q Subject.queue) :
    Touches Q (vkQueueSubmit cmd_buf wait_sem wait_stages signal_sem) := by
  refine ⟨fun ctx => ?_⟩
  constructor <;>
    first
    | exact ⟨[_], rfl, by simpa [Call.subject] using h⟩
    | rfl
    | exact fun _ => rfl
    | exact fun _ _ => rfl
    | exact fun _ _ _ => rfl
    | exact fun hn => absurd h hn
    | exact fun hn _ => absurd h hn
    | exact fun _ hn => absurd h hn
    | exact fun hn _ _ => absurd h hn
    | exact fun _ hn _ => absurd h hn
    | exact fun _ _ hn => absurd h hn
    | exact fun hn => absurd h (hn _)
    | (simp only [Vkdf.vkQueueSubmit]; split <;> omega)
    | (intro _ x; simp only [Vkdf.vkQueueSubmit]; split <;> simp)

theorem Touches.vkDeviceWaitIdle {Q : Subject → Prop} (h : Q Subject.wait) :
    Touches Q vkDeviceWaitIdle := by
  refine ⟨fun ctx => ?_⟩
  constructor <;>
    first
    | exact ⟨[_], rfl, by simpa [Call.subject] using h⟩
    | rfl
    | exact fun _ => rfl
    | exact fun _ _ => rfl
    | exact fun _ _ _ => rfl
    | exact fun hn => absurd h hn
    | exact fun hn _ => absurd h hn
    | exact fun _ hn => absurd h hn
    | exact fun hn _ _ => absurd h hn
    | exact fun _ hn _ => absurd h hn
    | exact fun _ _ hn => absurd h hn
    | exact fun hn => absurd h (hn _)
    | (simp only [Vkdf.vkDeviceWaitIdle]; split <;> omega)
    | (intro _ x; simp only [Vkdf.vkDeviceWaitIdle]; split <;> simp)

theorem Touches.vkAllocateCommandBuffers {Q : Subject → Prop} (commandPool level commandBufferCount : Nat) (h : Q Subject.commandBuffer) :
    Touches Q (vkAllocateCommandBuffers commandPool level commandBufferCount) := by
  refine ⟨fun ctx => ?_⟩
  constructor <;>
    first
    | exact ⟨[_], rfl, by simpa [Call.subject] using h⟩
    | rfl
    | exact fun _ => rfl
    | exact fun _ _ => rfl
    | exact fun _ _ _ => rfl
    | exact fun hn => absurd h hn
    | exact fun hn _ => absurd h hn
    | exact fun _ hn => absurd h hn
    | exact fun hn _ _ => absurd h hn
    | exact fun _ hn _ => absurd h hn
    | exact fun _ _ hn => absurd h hn
    | exact fun hn => absurd h (hn _)
    | (simp only [Vkdf.vkAllocateCommandBuffers]; split <;> omega)
    | (intro _ x; simp only [Vkdf.vkAllocateCommandBuffers]; split <;> simp)

theorem Touches.vkBeginCommandBuffer {Q : Subject → Prop} (cmd_buf flags : Nat) (h : Q Subject.commandBuffer) :
    Touches Q (vkBeginCommandBuffer cmd_buf flags) := by
  refine ⟨fun ctx => ?_⟩
  constructor <;>
    first
    | exact ⟨[_], rfl, by simpa [Call.subject] using h⟩
    | rfl
    | exact fun _ => rfl
    | exact fun _ _ => rfl
    | exact fun _ _ _ => rfl
    | exact fun hn => absurd h hn
    | exact fun hn _ => absurd h hn
    | exact fun _ hn => absurd h hn
    | exact fun hn _ _ => absurd h hn
    | exact fun _ hn _ => absurd h hn
    | exact fun _ _ hn => absurd h hn
    | exact fun hn => absurd h (hn _)
    | (simp only [Vkdf.vkBeginCommandBuffer]; split <;> omega)
    | (intro _ x; simp only [Vkdf.vkBeginCommandBuffer]; split <;> simp)

theorem Touches.vkEndCommandBuffer {Q : Subject → Prop} (cmd_buf : Nat) (h : Q Subject.commandBuffer) :
    Touches Q (vkEndCommandBuffer cmd_buf) := by
  refine ⟨fun ctx => ?_⟩
  constructor <;>
    first
    | exact ⟨[_], rfl, by simpa [Call.subject] using h⟩
    | rfl
    | exact fun _ => rfl
    | exact fun _ _ => rfl
    | exact fun _ _ _ => rfl
    | exact fun hn => absurd h hn
    | exact fun hn _ => absurd h hn
    | exact fun _ hn => absurd h hn
    | exact fun hn _ _ => absurd h hn
    | exact fun _ hn _ => absurd h hn
    | exact fun _ _ hn => absurd h hn
    | exact fun hn => absurd h (hn _)
    | (simp only [Vkdf.vkEndCommandBuffer]; split <;> omega)
    | (intro _ x; simp only [Vkdf.vkEndCommandBuffer]; split <;> simp)

theorem Touches.appendCommand {Q : Subject → Prop} (cmd_buf : Nat) (command : Command) (h : Q Subject.commandBuffer) :
    Touches Q (appendCommand cmd_buf command) := by
  refine ⟨fun ctx => ?_⟩
  constructor <;>
    first
    | exact ⟨[_], rfl, by simpa [Call.subject] using h⟩
    | rfl
    | exact fun _ => rfl
    | exact fun _ _ => rfl
    | exact fun _ _ _ => rfl
    | exact fun hn => absurd h hn
    | exact fun hn _ => absurd h hn
    | exact fun _ hn => absurd h hn
    | exact fun hn _ _ => absurd h hn
    | exact fun _ hn _ => absurd h hn
    | exact fun _ _ hn => absurd h hn
    | exact fun hn => absurd h (hn _)
    | (simp only [Vkdf.appendCommand]; split <;> omega)
    | (intro _ x; simp only [Vkdf.appendCommand]; split <;> simp)

theorem Touches.vkFreeCommandBuffers {Q : Subject → Prop} (commandPool : Nat) (cmd_bufs : List Nat) (h : Q Subject.commandBuffer) :
    Touches Q (vkFreeCommandBuffers commandPool cmd_bufs) := by
  refine ⟨fun ctx => ?_⟩
  constructor <;>
    first
    | exact ⟨[_], rfl, by simpa [Call.subject] using h⟩
    | rfl
    | exact fun _ => rfl
    | exact fun _ _ => rfl
    | exact fun _ _ _ => rfl
    | exact fun hn => absurd h hn
    | exact fun hn _ => absurd h hn
    | exact fun _ hn => absurd h hn
    | exact fun hn _ _ => absurd h hn
    | exact fun _ hn _ => absurd h hn
    | exact fun _ _ hn => absurd h hn
    | exact fun hn => absurd h (hn _)
    | (simp only [Vkdf.vkFreeCommandBuffers]; split <;> omega)
    | (intro _ x; simp only [Vkdf.vkFreeCommandBuffers]; split <;> simp)

theorem Touches.vkResetCommandPool {Q : Subject → Prop} (commandPool : Nat) (h : Q Subject.commandBuffer) :
    Touches Q (vkResetCommandPool commandPool) := by
  refine ⟨fun ctx => ?_⟩
  constructor <;>
    first
    | exact ⟨[_], rfl, by simpa [Call.subject] using h⟩
    | rfl
    | exact fun _ => rfl
    | exact fun _ _ => rfl
    | exact fun _ _ _ => rfl
    | exact fun hn => absurd h hn
    | exact fun hn _ => absurd h hn
    | exact fun _ hn => absurd h hn
    | exact fun hn _ _ => absurd h hn
    | exact fun _ hn _ => absurd h hn
    | exact fun _ _ hn => absurd h hn
    | exact fun hn => absurd h (hn _)
    | (simp only [Vkdf.vkResetCommandPool]; split <;> omega)
    | (intro _ x; simp only [Vkdf.vkResetCommandPool]; split <;> simp)

theorem Touches.createObject {Q : Subject → Prop} (kind : ObjectKind) (info : List Nat) (h : Q (Subject.object kind)) :
    Touches Q (createObject kind info) := by
  refine ⟨fun ctx => ?_⟩
  constructor <;>
    first
    | exact ⟨[_], rfl, by simpa [Call.subject] using h⟩
    | rfl
    | exact fun _ => rfl
    | exact fun _ _ => rfl
    | exact fun _ _ _ => rfl
    | exact fun hn => absurd h hn
    | exact fun hn _ => absurd h hn
    | exact fun _ hn => absurd h hn
    | exact fun hn _ _ => absurd h hn
    | exact fun _ hn _ => absurd h hn
    | exact fun _ _ hn => absurd h hn
    | exact fun hn => absurd h (hn _)
    | (simp only [Vkdf.createObject]; split <;> omega)
    | (intro _ x; simp only [Vkdf.createObject]; split <;> simp)

theorem Touches.destroyObject {Q : Subject → Prop} (kind : ObjectKind) (handle : Nat) (h : Q (Subject.object kind)) :
    Touches Q (destroyObject kind handle) := by
  refine ⟨fun ctx => ?_⟩
  constructor <;>
    first
    | exact ⟨[_], rfl, by simpa [Call.subject] using h⟩
    | rfl
    | exact fun _ => rfl
    | exact fun _ _ => rfl
    | exact fun _ _ _ => rfl
    | exact fun hn => absurd h hn
    | exact fun hn _ => absurd h hn
    | exact fun _ hn => absurd h hn
    | exact fun hn _ _ => absurd h hn
    | exact fun _ hn _ => absurd h hn
    | exact fun _ _ hn => absurd h hn
    | exact fun hn => absurd h (hn _)
    | (simp only [Vkdf.destroyObject]; split <;> omega)
    | (intro _ x; simp only [Vkdf.destroyObject]; split <;> simp)

theorem Touches.vkGetImageMemoryRequirements {Q : Subject → Prop} (image : Nat) (h : Q (Subject.object ObjectKind.Image)) :
    Touches Q (vkGetImageMemoryRequirements image) := by
  refine ⟨fun ctx => ?_⟩
  constructor <;>
    first
    | exact ⟨[_], rfl, by simpa [Call.subject] using h⟩
    | rfl
    | exact fun _ => rfl
    | exact fun _ _ => rfl
    | exact fun _ _ _ => rfl
    | exact fun hn => absurd h hn
    | exact fun hn _ => absurd h hn
    | exact fun _ hn => absurd h hn
    | exact fun hn _ _ => absurd h hn
    | exact fun _ hn _ => absurd h hn
    | exact fun _ _ hn => absurd h hn
    | exact fun hn => absurd h (hn _)
    | (simp only [Vkdf.vkGetImageMemoryRequirements]; split <;> omega)
    | (intro _ x; simp only [Vkdf.vkGetImageMemoryRequirements]; split <;> simp)

theorem Touches.vkBindImageMemory {Q : Subject → Prop} (image mem memoryOffset : Nat) (h : Q (Subject.object ObjectKind.Image)) :
    Touches Q (vkBindImageMemory image mem memoryOffset) := by
  refine ⟨fun ctx => ?_⟩
  constructor <;>
    first
    | exact ⟨[_], rfl, by simpa [Call.subject] using h⟩
    | rfl
    | exact fun _ => rfl
    | exact fun _ _ => rfl
    | exact fun _ _ _ => rfl
    | exact fun hn => absurd h hn
    | exact fun hn _ => absurd h hn
    | exact fun _ hn => absurd h hn
    | exact fun hn _ _ => absurd h hn
    | exact fun _ hn _ => absurd h hn
    | exact fun _ _ hn => absurd h hn
    | exact fun hn => absurd h (hn _)
    | (simp only [Vkdf.vkBindImageMemory]; split <;> omega)
    | (intro _ x; simp only [Vkdf.vkBindImageMemory]; split <;> simp)

theorem Touches.vkdf_memory_unmap {Q : Subject → Prop} (mem mem_props offset size : Nat) (h : Q Subject.memory) :
    Touches Q (vkdf_memory_unmap mem mem_props offset size) := by
  refine ⟨fun ctx => ?_⟩
  constructor <;>
    first
    | exact ⟨[_], rfl, by simpa [Call.subject] using h⟩
    | rfl
    | exact fun _ => rfl
    | exact fun _ _ => rfl
    | exact fun _ _ _ => rfl
    | exact fun hn => absurd h hn
    | exact fun hn _ => absurd h hn
    | exact fun _ hn => absurd h hn
    | exact fun hn _ _ => absurd h hn
    | exact fun _ hn _ => absurd h hn
    | exact fun _ _ hn => absurd h hn
    | exact fun hn => absurd h (hn _)
    | (simp only [Vkdf.vkdf_memory_unmap]; split <;> omega)
    | (intro _ x; simp only [Vkdf.vkdf_memory_unmap]; split <;> simp)

theorem Touches.fwrite {Q : Subject → Prop} (bytes : List Nat) (h : Q Subject.file) :
    Touches Q (fwrite bytes) := by
  refine ⟨fun ctx => ?_⟩
  constructor <;>
    first
    | exact ⟨[_], rfl, by simpa [Call.subject] using h⟩
    | rfl
    | exact fun _ => rfl
    | exact fun _ _ => rfl
    | exact fun _ _ _ => rfl
    | exact fun hn => absurd h hn
    | exact fun hn _ => absurd h hn
    | exact fun _ hn => absurd h hn
    | exact fun hn _ _ => absurd h hn
    | exact fun _ hn _ => absurd h hn
    | exact fun _ _ hn => absurd h hn
    | exact fun hn => absurd h (hn _)
    | (simp only [Vkdf.fwrite]; split <;> omega)
    | (intro _ x; simp only [Vkdf.fwrite]; split <;> simp)

theorem Touches.fwrite_mapped {Q : Subject → Prop} (mem offset size : Nat) (h : Q Subject.file) :
    Touches Q (fwrite_mapped mem offset size) := by
  refine ⟨fun ctx => ?_⟩
  constructor <;>
    first
    | exact ⟨[_], rfl, by simpa [Call.subject] using h⟩
    | rfl
    | exact fun _ => rfl
    | exact fun _ _ => rfl
    | exact fun _ _ _ => rfl
    | exact fun hn => absurd h hn
    | exact fun hn _ => absurd h hn
    | exact fun _ hn => absurd h hn
    | exact fun hn _ _ => absurd h hn
    | exact fun _ hn _ => absurd h hn
    | exact fun _ _ hn => absurd h hn
    | exact fun hn => absurd h (hn _)
    | (simp only [Vkdf.fwrite_mapped]; split <;> omega)
    | (intro _ x; simp only [Vkdf.fwrite_mapped]; split <;> simp)

theorem Touches.fopen {Q : Subject → Prop} (h : Q Subject.file) :
    Touches Q fopen := by
  refine ⟨fun ctx => ?_⟩
  constructor <;>
    first
    | exact ⟨[_], rfl, by simpa [Call.subject] using h⟩
    | rfl
    | exact fun _ => rfl
    | exact fun _ _ => rfl
    | exact fun _ _ _ => rfl
    | exact fun hn => absurd h hn
    | exact fun hn _ => absurd h hn
    | exact fun _ hn => absurd h hn
    | exact fun hn _ _ => absurd h hn
    | exact fun _ hn _ => absurd h hn
    | exact fun _ _ hn => absurd h hn
    | exact fun hn => absurd h (hn _)
    | (simp only [Vkdf.fopen]; split <;> omega)
    | (intro _ x; simp only [Vkdf.fopen]; split <;> simp)

theorem Touches.fclose {Q : Subject → Prop} (h : Q Subject.file) :
    Touches Q fclose := by
  refine ⟨fun ctx => ?_⟩
  constructor <;>
    first
    | exact ⟨[_], rfl, by simpa [Call.subject] using h⟩
    | rfl
    | exact fun _ => rfl
    | exact fun _ _ => rfl
    | exact fun _ _ _ => rfl
    | exact fun hn => absurd h hn
    | exact fun hn _ => absurd h hn
    | exact fun _ hn => absurd h hn
    | exact fun hn _ _ => absurd h hn
    | exact fun _ hn _ => absurd h hn
    | exact fun _ _ hn => absurd h hn
    | exact fun hn => absurd h (hn _)
    | (simp only [Vkdf.fclose]; split <;> omega)
    | (intro _ x; simp only [Vkdf.fclose]; split <;> simp)

theorem Touches.fprintf {Q : Subject → Prop} (message : Message) (h : Q Subject.print) :
    Touches Q (fprintf message) := by
  refine ⟨fun ctx => ?_⟩
  constructor <;>
    first
    | exact ⟨[_], rfl, by simpa [Call.subject] using h⟩
    | rfl
    | exact fun _ => rfl
    | exact fun _ _ => rfl
    | exact fun _ _ _ => rfl
    | exact fun hn => absurd h hn
    | exact fun hn _ => absurd h hn
    | exact fun _ hn => absurd h hn
    | exact fun hn _ _ => absurd h hn
    | exact fun _ hn _ => absurd h hn
    | exact fun _ _ hn => absurd h hn
    | exact fun hn => absurd h (hn _)
    | (simp only [Vkdf.fprintf]; split <;> omega)
    | (intro _ x; simp only [Vkdf.fprintf]; split <;> simp)

theorem Touches.vkCreateDescriptorPool {Q : Subject → Prop} (type maxSets : Nat) (h : Q Subject.descriptor) :
    Touches Q (vkCreateDescriptorPool type maxSets) := by
  refine ⟨fun ctx => ?_⟩
  constructor <;>
    first
    | exact ⟨[_], rfl, by simpa [Call.subject] using h⟩
    | rfl
    | exact fun _ => rfl
    | exact fun _ _ => rfl
    | exact fun _ _ _ => rfl
    | exact fun hn => absurd h hn
    | exact fun hn _ => absurd h hn
    | exact fun _ hn => absurd h hn
    | exact fun hn _ _ => absurd h hn
    | exact fun _ hn _ => absurd h hn
    | exact fun _ _ hn => absurd h hn
    | exact fun hn => absurd h (hn _)
    | (simp only [Vkdf.vkCreateDescriptorPool]; split <;> omega)
    | (intro _ x; simp only [Vkdf.vkCreateDescriptorPool]; split <;> simp)

theorem Touches.vkAllocateDescriptorSets {Q : Subject → Prop} (descriptorPool : Nat) (setLayouts : List Nat) (h : Q Subject.descriptor) :
    Touches Q (vkAllocateDescriptorSets descriptorPool setLayouts) := by
  refine ⟨fun ctx => ?_⟩
  constructor <;>
    first
    | exact ⟨[_], rfl, by simpa [Call.subject] using h⟩
    | rfl
    | exact fun _ => rfl
    | exact fun _ _ => rfl
    | exact fun _ _ _ => rfl
    | exact fun hn => absurd h hn
    | exact fun hn _ => absurd h hn
    | exact fun _ hn => absurd h hn
    | exact fun hn _ _ => absurd h hn
    | exact fun _ hn _ => absurd h hn
    | exact fun _ _ hn => absurd h hn
    | exact fun hn => absurd h (hn _)
    | (simp only [Vkdf.vkAllocateDescriptorSets]; split <;> omega)
    | (intro _ x; simp only [Vkdf.vkAllocateDescriptorSets]; split <;> simp)

theorem Touches.vkFreeDescriptorSets {Q : Subject → Prop} (descriptorPool : Nat) (sets : List Nat) (h : Q Subject.descriptor) :
    Touches Q (vkFreeDescriptorSets descriptorPool sets) := by
  refine ⟨fun ctx => ?_⟩
  constructor <;>
    first
    | exact ⟨[_], rfl, by simpa [Call.subject] using h⟩
    | rfl
    | exact fun _ => rfl
    | exact fun _ _ => rfl
    | exact fun _ _ _ => rfl
    | exact fun hn => absurd h hn
    | exact fun hn _ => absurd h hn
    | exact fun _ hn => absurd h hn
    | exact fun hn _ _ => absurd h hn
    | exact fun _ hn _ => absurd h hn
    | exact fun _ _ hn => absurd h hn
    | exact fun hn => absurd h (hn _)
    | (simp only [Vkdf.vkFreeDescriptorSets]; split <;> omega)
    | (intro _ x; simp only [Vkdf.vkFreeDescriptorSets]; split <;> simp)

theorem Touches.vkDestroyDescriptorPool {Q : Subject → Prop} (descriptorPool : Nat) (h : Q Subject.descriptor) :
    Touches Q (vkDestroyDescriptorPool descriptorPool) := by
  refine ⟨fun ctx => ?_⟩
  constructor <;>
    first
    | exact ⟨[_], rfl, by simpa [Call.subject] using h⟩
    | rfl
    | exact fun _ => rfl
    | exact fun _ _ => rfl
    | exact fun _ _ _ => rfl
    | exact fun hn => absurd h hn
    | exact fun hn _ => absurd h hn
    | exact fun _ hn => absurd h hn
    | exact fun hn _ _ => absurd h hn
    | exact fun _ hn _ => absurd h hn
    | exact fun _ _ hn => absurd h hn
    | exact fun hn => absurd h (hn _)
    | (simp only [Vkdf.vkDestroyDescriptorPool]; split <;> omega)
    | (intro _ x; simp only [Vkdf.vkDestroyDescriptorPool]; split <;> simp)

theorem Touches.writeDescriptorSet {Q : Subject → Prop} (descriptor : Nat) (write : DescriptorWrite) (h : Q Subject.descriptor) :
    Touches Q (writeDescriptorSet descriptor write) := by
  refine ⟨fun ctx => ?_⟩
  constructor <;>
    first
    | exact ⟨[_], rfl, by simpa [Call.subject] using h⟩
    | rfl
    | exact fun _ => rfl
    | exact fun _ _ => rfl
    | exact fun _ _ _ => rfl
    | exact fun hn => absurd h hn
    | exact fun hn _ => absurd h hn
    | exact fun _ hn => absurd h hn
    | exact fun hn _ _ => absurd h hn
    | exact fun _ hn _ => absurd h hn
    | exact fun _ _ hn => absurd h hn
    | exact fun hn => absurd h (hn _)
    | (simp only [Vkdf.writeDescriptorSet]; split <;> omega)
    | (intro _ x; simp only [Vkdf.writeDescriptorSet]; split <;> simp)

set_option linter.unusedTactic false
set_option linter.unreachableTactic false
/-! ## The subjects of the functions -/

theorem Touches.vkdf_create_buffer {Q : Subject → Prop} (ndebug : Bool) (uninit flags size usage mem_props : Nat) (h0 : Q Subject.buffer) (h1 : Q Subject.allocation) :
    Touches Q (vkdf_create_buffer ndebug uninit flags size usage mem_props) := by
  unfold Vkdf.vkdf_create_buffer
  repeat' first
    | intro _
    | assumption
    | dsimp only
    | split
    | apply Touches.vkCreateBuffer
    | apply Touches.vkGetBufferMemoryRequirements
    | apply Touches.vkdf_memory_type_from_properties
    | apply Touches.vkAllocateMemory
    | apply Touches.vkBindBufferMemory
    | apply Touches.VK_CHECK
    | apply Touches.assertCall
    | apply Touches.assert
    | apply Touches.pure
    | apply Touches.ite
    | apply Touches.forEach
    | apply Touches.collect
    | apply Touches.bind

theorem Touches.vkdf_buffer_map_and_fill {Q : Subject → Prop} (ndebug : Bool) (buf : VkdfBuffer) (offset size : Nat) (data : Nat → Nat) (h0 : Q Subject.memory) :
    Touches Q (vkdf_buffer_map_and_fill ndebug buf offset size data) := by
  unfold Vkdf.vkdf_buffer_map_and_fill
  repeat' first
    | intro _
    | assumption
    | dsimp only
    | split
    | apply Touches.vkMapMemory
    | apply Touches.memcpy_to_mapped
    | apply Touches.vkFlushMappedMemoryRanges
    | apply Touches.vkUnmapMemory
    | apply Touches.VK_CHECK
    | apply Touches.assertCall
    | apply Touches.assert
    | apply Touches.pure
    | apply Touches.ite
    | apply Touches.forEach
    | apply Touches.collect
    | apply Touches.bind

theorem Touches.vkdf_destroy_buffer {Q : Subject → Prop} (buf : VkdfBuffer) (h0 : Q Subject.buffer) (h1 : Q Subject.allocation) :
    Touches Q (vkdf_destroy_buffer buf) := by
  unfold Vkdf.vkdf_destroy_buffer
  repeat' first
    | intro _
    | assumption
    | dsimp only
    | split
    | apply Touches.vkDestroyBuffer
    | apply Touches.vkFreeMemory
    | apply Touches.VK_CHECK
    | apply Touches.assertCall
    | apply Touches.assert
    | apply Touches.pure
    | apply Touches.ite
    | apply Touches.forEach
    | apply Touches.collect
    | apply Touches.bind

theorem Touches.vkdf_buffer_map_and_get {Q : Subject → Prop} (ndebug : Bool) (buf : VkdfBuffer) (offset size : Nat) (h0 : Q Subject.memory) :
    Touches Q (vkdf_buffer_map_and_get ndebug buf offset size) := by
  unfold Vkdf.vkdf_buffer_map_and_get
  repeat' first
    | intro _
    | assumption
    | dsimp only
    | split
    | apply Touches.vkMapMemory
    | apply Touches.memcpy_from_mapped
    | apply Touches.vkInvalidateMappedMemoryRanges
    | apply Touches.vkUnmapMemory
    | apply Touches.VK_CHECK
    | apply Touches.assertCall
    | apply Touches.assert
    | apply Touches.pure
    | apply Touches.ite
    | apply Touches.forEach
    | apply Touches.collect
    | apply Touches.bind

theorem Touches.vkdf_command_buffer_execute {Q : Subject → Prop} (cmd_buf : Nat) (pipeline_stage_flags wait_sem signal_sem : List Nat) (h0 : Q Subject.queue) :
    Touches Q (vkdf_command_buffer_execute cmd_buf pipeline_stage_flags wait_sem signal_sem) := by
  unfold Vkdf.vkdf_command_buffer_execute
  repeat' first
    | intro _
    | assumption
    | dsimp only
    | split
    | apply Touches.vkQueueSubmit
    | apply Touches.commandBufferState
    | apply Touches.invalidArgument
    | apply Touches.VK_CHECK
    | apply Touches.assertCall
    | apply Touches.assert
    | apply Touches.pure
    | apply Touches.ite
    | apply Touches.forEach
    | apply Touches.collect
    | apply Touches.bind

theorem Touches.record {Q : Subject → Prop} (cmd_buf : Nat) (command : Command) (h0 : Q Subject.commandBuffer) :
    Touches Q (record cmd_buf command) := by
  unfold Vkdf.record
  repeat' first
    | intro _
    | assumption
    | dsimp only
    | split
    | apply Touches.appendCommand
    | apply Touches.commandBufferState
    | apply Touches.invalidArgument
    | apply Touches.VK_CHECK
    | apply Touches.assertCall
    | apply Touches.assert
    | apply Touches.pure
    | apply Touches.ite
    | apply Touches.forEach
    | apply Touches.collect
    | apply Touches.bind

theorem Touches.vkCmdBeginRenderPass {Q : Subject → Prop} (cmd_buf : Nat) (renderPassBegin : VkRenderPassBeginInfo) (contents : Nat) (h0 : Q Subject.commandBuffer) :
    Touches Q (vkCmdBeginRenderPass cmd_buf renderPassBegin contents) := by
  unfold Vkdf.vkCmdBeginRenderPass
  repeat' first
    | intro _
    | assumption
    | dsimp only
    | split
    | apply Touches.record
    | apply Touches.VK_CHECK
    | apply Touches.assertCall
    | apply Touches.assert
    | apply Touches.pure
    | apply Touches.ite
    | apply Touches.forEach
    | apply Touches.collect
    | apply Touches.bind

theorem Touches.vkCmdEndRenderPass {Q : Subject → Prop} (cmd_buf : Nat) (h0 : Q Subject.commandBuffer) :
    Touches Q (vkCmdEndRenderPass cmd_buf) := by
  unfold Vkdf.vkCmdEndRenderPass
  repeat' first
    | intro _
    | assumption
    | dsimp only
    | split
    | apply Touches.record
    | apply Touches.VK_CHECK
    | apply Touches.assertCall
    | apply Touches.assert
    | apply Touches.pure
    | apply Touches.ite
    | apply Touches.forEach
    | apply Touches.collect
    | apply Touches.bind

theorem Touches.vkCmdPipelineBarrier {Q : Subject → Prop} (cmd_buf srcStageMask dstStageMask dependencyFlags : Nat) (memoryBarriers : List Nat) (bufferMemoryBarriers : List VkBufferMemoryBarrier) (imageMemoryBarriers : List VkImageMemoryBarrier) (h0 : Q Subject.commandBuffer) :
    Touches Q (vkCmdPipelineBarrier cmd_buf srcStageMask dstStageMask dependencyFlags memoryBarriers bufferMemoryBarriers imageMemoryBarriers) := by
  unfold Vkdf.vkCmdPipelineBarrier
  repeat' first
    | intro _
    | assumption
    | dsimp only
    | split
    | apply Touches.record
    | apply Touches.VK_CHECK
    | apply Touches.assertCall
    | apply Touches.assert
    | apply Touches.pure
    | apply Touches.ite
    | apply Touches.forEach
    | apply Touches.collect
    | apply Touches.bind

theorem Touches.vkCmdCopyImageToBuffer {Q : Subject → Prop} (cmd_buf srcImage srcImageLayout dstBuffer : Nat) (regions : List VkBufferImageCopy) (h0 : Q Subject.commandBuffer) :
    Touches Q (vkCmdCopyImageToBuffer cmd_buf srcImage srcImageLayout dstBuffer regions) := by
  unfold Vkdf.vkCmdCopyImageToBuffer
  repeat' first
    | intro _
    | assumption
    | dsimp only
    | split
    | apply Touches.record
    | apply Touches.VK_CHECK
    | apply Touches.assertCall
    | apply Touches.assert
    | apply Touches.pure
    | apply Touches.ite
    | apply Touches.forEach
    | apply Touches.collect
    | apply Touches.bind

theorem Touches.vkCmdBindPipeline {Q : Subject → Prop} (cmd_buf pipelineBindPoint pipeline : Nat) (h0 : Q Subject.commandBuffer) :
    Touches Q (vkCmdBindPipeline cmd_buf pipelineBindPoint pipeline) := by
  unfold Vkdf.vkCmdBindPipeline
  repeat' first
    | intro _
    | assumption
    | dsimp only
    | split
    | apply Touches.record
    | apply Touches.VK_CHECK
    | apply Touches.assertCall
    | apply Touches.assert
    | apply Touches.pure
    | apply Touches.ite
    | apply Touches.forEach
    | apply Touches.collect
    | apply Touches.bind

theorem Touches.vkCmdBindDescriptorSets {Q : Subject → Prop} (cmd_buf pipelineBindPoint layout firstSet : Nat) (descriptorSets dynamicOffsets : List Nat) (h0 : Q Subject.commandBuffer) :
    Touches Q (vkCmdBindDescriptorSets cmd_buf pipelineBindPoint layout firstSet descriptorSets dynamicOffsets) := by
  unfold Vkdf.vkCmdBindDescriptorSets
  repeat' first
    | intro _
    | assumption
    | dsimp only
    | split
    | apply Touches.record
    | apply Touches.VK_CHECK
    | apply Touches.assertCall
    | apply Touches.assert
    | apply Touches.pure
    | apply Touches.ite
    | apply Touches.forEach
    | apply Touches.collect
    | apply Touches.bind

theorem Touches.vkCmdBindVertexBuffers {Q : Subject → Prop} (cmd_buf firstBinding : Nat) (buffers offsets : List Nat) (h0 : Q Subject.commandBuffer) :
    Touches Q (vkCmdBindVertexBuffers cmd_buf firstBinding buffers offsets) := by
  unfold Vkdf.vkCmdBindVertexBuffers
  repeat' first
    | intro _
    | assumption
    | dsimp only
    | split
    | apply Touches.record
    | apply Touches.VK_CHECK
    | apply Touches.assertCall
    | apply Touches.assert
    | apply Touches.pure
    | apply Touches.ite
    | apply Touches.forEach
    | apply Touches.collect
    | apply Touches.bind

theorem Touches.vkCmdSetViewport {Q : Subject → Prop} (cmd_buf firstViewport : Nat) (viewports : List (List Nat)) (h0 : Q Subject.commandBuffer) :
    Touches Q (vkCmdSetViewport cmd_buf firstViewport viewports) := by
  unfold Vkdf.vkCmdSetViewport
  repeat' first
    | intro _
    | assumption
    | dsimp only
    | split
    | apply Touches.record
    | apply Touches.VK_CHECK
    | apply Touches.assertCall
    | apply Touches.assert
    | apply Touches.pure
    | apply Touches.ite
    | apply Touches.forEach
    | apply Touches.collect
    | apply Touches.bind

theorem Touches.vkCmdSetScissor {Q : Subject → Prop} (cmd_buf firstScissor : Nat) (scissors : List (List Nat)) (h0 : Q Subject.commandBuffer) :
    Touches Q (vkCmdSetScissor cmd_buf firstScissor scissors) := by
  unfold Vkdf.vkCmdSetScissor
  repeat' first
    | intro _
    | assumption
    | dsimp only
    | split
    | apply Touches.record
    | apply Touches.VK_CHECK
    | apply Touches.assertCall
    | apply Touches.assert
    | apply Touches.pure
    | apply Touches.ite
    | apply Touches.forEach
    | apply Touches.collect
    | apply Touches.bind

theorem Touches.vkCmdDraw {Q : Subject → Prop} (cmd_buf vertexCount instanceCount firstVertex firstInstance : Nat) (h0 : Q Subject.commandBuffer) :
    Touches Q (vkCmdDraw cmd_buf vertexCount instanceCount firstVertex firstInstance) := by
  unfold Vkdf.vkCmdDraw
  repeat' first
    | intro _
    | assumption
    | dsimp only
    | split
    | apply Touches.record
    | apply Touches.VK_CHECK
    | apply Touches.assertCall
    | apply Touches.assert
    | apply Touches.pure
    | apply Touches.ite
    | apply Touches.forEach
    | apply Touches.collect
    | apply Touches.bind

theorem Touches.vkdf_create_command_buffer {Q : Subject → Prop} (cmd_pool level cmd_count : Nat) (h0 : Q Subject.commandBuffer) :
    Touches Q (vkdf_create_command_buffer cmd_pool level cmd_count) := by
  unfold Vkdf.vkdf_create_command_buffer
  repeat' first
    | intro _
    | assumption
    | dsimp only
    | split
    | apply Touches.vkAllocateCommandBuffers
    | apply Touches.VK_CHECK
    | apply Touches.assertCall
    | apply Touches.assert
    | apply Touches.pure
    | apply Touches.ite
    | apply Touches.forEach
    | apply Touches.collect
    | apply Touches.bind

theorem Touches.vkdf_command_buffer_begin {Q : Subject → Prop} (cmd_buf flags : Nat) (h0 : Q Subject.commandBuffer) :
    Touches Q (vkdf_command_buffer_begin cmd_buf flags) := by
  unfold Vkdf.vkdf_command_buffer_begin
  repeat' first
    | intro _
    | assumption
    | dsimp only
    | split
    | apply Touches.vkBeginCommandBuffer
    | apply Touches.commandBufferState
    | apply Touches.invalidArgument
    | apply Touches.VK_CHECK
    | apply Touches.assertCall
    | apply Touches.assert
    | apply Touches.pure
    | apply Touches.ite
    | apply Touches.forEach
    | apply Touches.collect
    | apply Touches.bind

theorem Touches.vkdf_command_buffer_end {Q : Subject → Prop} (cmd_buf : Nat) (h0 : Q Subject.commandBuffer) :
    Touches Q (vkdf_command_buffer_end cmd_buf) := by
  unfold Vkdf.vkdf_command_buffer_end
  repeat' first
    | intro _
    | assumption
    | dsimp only
    | split
    | apply Touches.vkEndCommandBuffer
    | apply Touches.commandBufferState
    | apply Touches.invalidArgument
    | apply Touches.VK_CHECK
    | apply Touches.assertCall
    | apply Touches.assert
    | apply Touches.pure
    | apply Touches.ite
    | apply Touches.forEach
    | apply Touches.collect
    | apply Touches.bind

theorem Touches.vkCreateRenderPass {Q : Subject → Prop} (info : List Nat) (h0 : Q (Subject.object ObjectKind.RenderPass)) :
    Touches Q (vkCreateRenderPass info) := by
  unfold Vkdf.vkCreateRenderPass
  repeat' first
    | intro _
    | assumption
    | dsimp only
    | split
    | apply Touches.createObject
    | apply Touches.VK_CHECK
    | apply Touches.assertCall
    | apply Touches.assert
    | apply Touches.pure
    | apply Touches.ite
    | apply Touches.forEach
    | apply Touches.collect
    | apply Touches.bind

theorem Touches.vkCreatePipelineLayout {Q : Subject → Prop} (info : List Nat) (h0 : Q (Subject.object ObjectKind.PipelineLayout)) :
    Touches Q (vkCreatePipelineLayout info) := by
  unfold Vkdf.vkCreatePipelineLayout
  repeat' first
    | intro _
    | assumption
    | dsimp only
    | split
    | apply Touches.createObject
    | apply Touches.VK_CHECK
    | apply Touches.assertCall
    | apply Touches.assert
    | apply Touches.pure
    | apply Touches.ite
    | apply Touches.forEach
    | apply Touches.collect
    | apply Touches.bind

theorem Touches.vkDestroyRenderPass {Q : Subject → Prop} (render_pass : Nat) (h0 : Q (Subject.object ObjectKind.RenderPass)) :
    Touches Q (vkDestroyRenderPass render_pass) := by
  unfold Vkdf.vkDestroyRenderPass
  repeat' first
    | intro _
    | assumption
    | dsimp only
    | split
    | apply Touches.destroyObject
    | apply Touches.VK_CHECK
    | apply Touches.assertCall
    | apply Touches.assert
    | apply Touches.pure
    | apply Touches.ite
    | apply Touches.forEach
    | apply Touches.collect
    | apply Touches.bind

theorem Touches.vkDestroyFramebuffer {Q : Subject → Prop} (framebuffer : Nat) (h0 : Q (Subject.object ObjectKind.Framebuffer)) :
    Touches Q (vkDestroyFramebuffer framebuffer) := by
  unfold Vkdf.vkDestroyFramebuffer
  repeat' first
    | intro _
    | assumption
    | dsimp only
    | split
    | apply Touches.destroyObject
    | apply Touches.VK_CHECK
    | apply Touches.assertCall
    | apply Touches.assert
    | apply Touches.pure
    | apply Touches.ite
    | apply Touches.forEach
    | apply Touches.collect
    | apply Touches.bind

theorem Touches.vkDestroyCommandPool {Q : Subject → Prop} (cmd_pool : Nat) (h0 : Q (Subject.object ObjectKind.CommandPool)) :
    Touches Q (vkDestroyCommandPool cmd_pool) := by
  unfold Vkdf.vkDestroyCommandPool
  repeat' first
    | intro _
    | assumption
    | dsimp only
    | split
    | apply Touches.destroyObject
    | apply Touches.VK_CHECK
    | apply Touches.assertCall
    | apply Touches.assert
    | apply Touches.pure
    | apply Touches.ite
    | apply Touches.forEach
    | apply Touches.collect
    | apply Touches.bind

theorem Touches.vkDestroyPipeline {Q : Subject → Prop} (pipeline : Nat) (h0 : Q (Subject.object ObjectKind.Pipeline)) :
    Touches Q (vkDestroyPipeline pipeline) := by
  unfold Vkdf.vkDestroyPipeline
  repeat' first
    | intro _
    | assumption
    | dsimp only
    | split
    | apply Touches.destroyObject
    | apply Touches.VK_CHECK
    | apply Touches.assertCall
    | apply Touches.assert
    | apply Touches.pure
    | apply Touches.ite
    | apply Touches.forEach
    | apply Touches.collect
    | apply Touches.bind

theorem Touches.vkDestroyPipelineLayout {Q : Subject → Prop} (pipeline_layout : Nat) (h0 : Q (Subject.object ObjectKind.PipelineLayout)) :
    Touches Q (vkDestroyPipelineLayout pipeline_layout) := by
  unfold Vkdf.vkDestroyPipelineLayout
  repeat' first
    | intro _
    | assumption
    | dsimp only
    | split
    | apply Touches.destroyObject
    | apply Touches.VK_CHECK
    | apply Touches.assertCall
    | apply Touches.assert
    | apply Touches.pure
    | apply Touches.ite
    | apply Touches.forEach
    | apply Touches.collect
    | apply Touches.bind

theorem Touches.vkDestroyShaderModule {Q : Subject → Prop} (shader_module : Nat) (h0 : Q (Subject.object ObjectKind.ShaderModule)) :
    Touches Q (vkDestroyShaderModule shader_module) := by
  unfold Vkdf.vkDestroyShaderModule
  repeat' first
    | intro _
    | assumption
    | dsimp only
    | split
    | apply Touches.destroyObject
    | apply Touches.VK_CHECK
    | apply Touches.assertCall
    | apply Touches.assert
    | apply Touches.pure
    | apply Touches.ite
    | apply Touches.forEach
    | apply Touches.collect
    | apply Touches.bind

theorem Touches.vkDestroySemaphore {Q : Subject → Prop} (semaphore : Nat) (h0 : Q (Subject.object ObjectKind.Semaphore)) :
    Touches Q (vkDestroySemaphore semaphore) := by
  unfold Vkdf.vkDestroySemaphore
  repeat' first
    | intro _
    | assumption
    | dsimp only
    | split
    | apply Touches.destroyObject
    | apply Touches.VK_CHECK
    | apply Touches.assertCall
    | apply Touches.assert
    | apply Touches.pure
    | apply Touches.ite
    | apply Touches.forEach
    | apply Touches.collect
    | apply Touches.bind

theorem Touches.vkDestroyDescriptorSetLayout {Q : Subject → Prop} (set_layout : Nat) (h0 : Q (Subject.object ObjectKind.DescriptorSetLayout)) :
    Touches Q (vkDestroyDescriptorSetLayout set_layout) := by
  unfold Vkdf.vkDestroyDescriptorSetLayout
  repeat' first
    | intro _
    | assumption
    | dsimp only
    | split
    | apply Touches.destroyObject
    | apply Touches.VK_CHECK
    | apply Touches.assertCall
    | apply Touches.assert
    | apply Touches.pure
    | apply Touches.ite
    | apply Touches.forEach
    | apply Touches.collect
    | apply Touches.bind

theorem Touches.vkdf_create {Q : Subject → Prop} (kind : ObjectKind) (info : List Nat) (h0 : Q (Subject.object kind)) :
    Touches Q (vkdf_create kind info) := by
  unfold Vkdf.vkdf_create
  repeat' first
    | intro _
    | assumption
    | dsimp only
    | split
    | apply Touches.createObject
    | apply Touches.VK_CHECK
    | apply Touches.assertCall
    | apply Touches.assert
    | apply Touches.pure
    | apply Touches.ite
    | apply Touches.forEach
    | apply Touches.collect
    | apply Touches.bind

theorem Touches.vkdf_renderpass_simple_new {Q : Subject → Prop} (color_format color_load color_store color_initial_layout color_final_layout depth_format depth_load depth_store depth_initial_layout depth_final_layout : Nat) (h0 : Q (Subject.object ObjectKind.RenderPass)) :
    Touches Q (vkdf_renderpass_simple_new color_format color_load color_store color_initial_layout color_final_layout depth_format depth_load depth_store depth_initial_layout depth_final_layout) := by
  unfold Vkdf.vkdf_renderpass_simple_new
  repeat' first
    | intro _
    | assumption
    | dsimp only
    | split
    | apply Touches.vkdf_create
    | apply Touches.VK_CHECK
    | apply Touches.assertCall
    | apply Touches.assert
    | apply Touches.pure
    | apply Touches.ite
    | apply Touches.forEach
    | apply Touches.collect
    | apply Touches.bind

theorem Touches.vkdf_create_framebuffer {Q : Subject → Prop} (render_pass image_view width height num_extra_attachments : Nat) (extra_attachments : List Nat) (h0 : Q (Subject.object ObjectKind.Framebuffer)) :
    Touches Q (vkdf_create_framebuffer render_pass image_view width height num_extra_attachments extra_attachments) := by
  unfold Vkdf.vkdf_create_framebuffer
  repeat' first
    | intro _
    | assumption
    | dsimp only
    | split
    | apply Touches.vkdf_create
    | apply Touches.VK_CHECK
    | apply Touches.assertCall
    | apply Touches.assert
    | apply Touches.pure
    | apply Touches.ite
    | apply Touches.forEach
    | apply Touches.collect
    | apply Touches.bind

theorem Touches.vkdf_create_framebuffers_for_swap_chain {Q : Subject → Prop} (render_pass num_extra_attachments : Nat) (extra_attachments : List Nat) (h0 : Q (Subject.object ObjectKind.Framebuffer)) :
    Touches Q (vkdf_create_framebuffers_for_swap_chain render_pass num_extra_attachments extra_attachments) := by
  unfold Vkdf.vkdf_create_framebuffers_for_swap_chain
  repeat' first
    | intro _
    | assumption
    | dsimp only
    | split
    | apply Touches.vkdf_create
    | apply Touches.getContext
    | apply Touches.VK_CHECK
    | apply Touches.assertCall
    | apply Touches.assert
    | apply Touches.pure
    | apply Touches.ite
    | apply Touches.forEach
    | apply Touches.collect
    | apply Touches.bind

theorem Touches.vkdf_create_gfx_command_pool {Q : Subject → Prop} (flags : Nat) (h0 : Q (Subject.object ObjectKind.CommandPool)) :
    Touches Q (vkdf_create_gfx_command_pool flags) := by
  unfold Vkdf.vkdf_create_gfx_command_pool
  repeat' first
    | intro _
    | assumption
    | dsimp only
    | split
    | apply Touches.vkdf_create
    | apply Touches.VK_CHECK
    | apply Touches.assertCall
    | apply Touches.assert
    | apply Touches.pure
    | apply Touches.ite
    | apply Touches.forEach
    | apply Touches.collect
    | apply Touches.bind

theorem Touches.vkdf_create_shader_module {Q : Subject → Prop} (file : List Nat) (h0 : Q (Subject.object ObjectKind.ShaderModule)) :
    Touches Q (vkdf_create_shader_module file) := by
  unfold Vkdf.vkdf_create_shader_module
  repeat' first
    | intro _
    | assumption
    | dsimp only
    | split
    | apply Touches.vkdf_create
    | apply Touches.VK_CHECK
    | apply Touches.assertCall
    | apply Touches.assert
    | apply Touches.pure
    | apply Touches.ite
    | apply Touches.forEach
    | apply Touches.collect
    | apply Touches.bind

theorem Touches.vkdf_create_gfx_pipeline {Q : Subject → Prop} (info : List Nat) (h0 : Q (Subject.object ObjectKind.Pipeline)) :
    Touches Q (vkdf_create_gfx_pipeline info) := by
  unfold Vkdf.vkdf_create_gfx_pipeline
  repeat' first
    | intro _
    | assumption
    | dsimp only
    | split
    | apply Touches.vkdf_create
    | apply Touches.VK_CHECK
    | apply Touches.assertCall
    | apply Touches.assert
    | apply Touches.pure
    | apply Touches.ite
    | apply Touches.forEach
    | apply Touches.collect
    | apply Touches.bind

theorem Touches.vkdf_create_semaphore {Q : Subject → Prop} (h0 : Q (Subject.object ObjectKind.Semaphore)) :
    Touches Q vkdf_create_semaphore := by
  unfold Vkdf.vkdf_create_semaphore
  repeat' first
    | intro _
    | assumption
    | dsimp only
    | split
    | apply Touches.vkdf_create
    | apply Touches.VK_CHECK
    | apply Touches.assertCall
    | apply Touches.assert
    | apply Touches.pure
    | apply Touches.ite
    | apply Touches.forEach
    | apply Touches.collect
    | apply Touches.bind

theorem Touches.vkdf_create_image_detailed {Q : Subject → Prop} (ndebug : Bool) (uninit width height num_levels image_type format format_flags usage mem_props aspect_flags image_view_type initial_layout : Nat) (h0 : Q (Subject.object ObjectKind.Image)) (h1 : Q (Subject.object ObjectKind.ImageView)) (h2 : Q Subject.allocation) :
    Touches Q (vkdf_create_image_detailed ndebug uninit width height num_levels image_type format format_flags usage mem_props aspect_flags image_view_type initial_layout) := by
  unfold Vkdf.vkdf_create_image_detailed
  repeat' first
    | intro _
    | assumption
    | dsimp only
    | split
    | apply Touches.createObject
    | apply Touches.vkGetImageMemoryRequirements
    | apply Touches.vkdf_memory_type_from_properties
    | apply Touches.vkAllocateMemory
    | apply Touches.vkBindImageMemory
    | apply Touches.VK_CHECK
    | apply Touches.assertCall
    | apply Touches.assert
    | apply Touches.pure
    | apply Touches.ite
    | apply Touches.forEach
    | apply Touches.collect
    | apply Touches.bind

theorem Touches.vkdf_create_image {Q : Subject → Prop} (ndebug : Bool) (uninit width height num_levels image_type format format_flags usage mem_props aspect_flags image_view_type : Nat) (h0 : Q (Subject.object ObjectKind.Image)) (h1 : Q (Subject.object ObjectKind.ImageView)) (h2 : Q Subject.allocation) :
    Touches Q (vkdf_create_image ndebug uninit width height num_levels image_type format format_flags usage mem_props aspect_flags image_view_type) := by
  unfold Vkdf.vkdf_create_image
  repeat' first
    | intro _
    | assumption
    | dsimp only
    | split
    | apply Touches.vkdf_create_image_detailed
    | apply Touches.VK_CHECK
    | apply Touches.assertCall
    | apply Touches.assert
    | apply Touches.pure
    | apply Touches.ite
    | apply Touches.forEach
    | apply Touches.collect
    | apply Touches.bind

theorem Touches.vkdf_destroy_image {Q : Subject → Prop} (image : VkdfImage) (h0 : Q (Subject.object ObjectKind.Image)) (h1 : Q (Subject.object ObjectKind.ImageView)) (h2 : Q Subject.allocation) :
    Touches Q (vkdf_destroy_image image) := by
  unfold Vkdf.vkdf_destroy_image
  repeat' first
    | intro _
    | assumption
    | dsimp only
    | split
    | apply Touches.destroyObject
    | apply Touches.vkFreeMemory
    | apply Touches.VK_CHECK
    | apply Touches.assertCall
    | apply Touches.assert
    | apply Touches.pure
    | apply Touches.ite
    | apply Touches.forEach
    | apply Touches.collect
    | apply Touches.bind

theorem Touches.vkdf_image_map_and_fill {Q : Subject → Prop} (ndebug : Bool) (image : VkdfImage) (offset size : Nat) (data : Nat → Nat) (h0 : Q Subject.memory) :
    Touches Q (vkdf_image_map_and_fill ndebug image offset size data) := by
  unfold Vkdf.vkdf_image_map_and_fill
  repeat' first
    | intro _
    | assumption
    | dsimp only
    | split
    | apply Touches.vkMapMemory
    | apply Touches.memcpy_to_mapped
    | apply Touches.vkFlushMappedMemoryRanges
    | apply Touches.vkUnmapMemory
    | apply Touches.VK_CHECK
    | apply Touches.assertCall
    | apply Touches.assert
    | apply Touches.pure
    | apply Touches.ite
    | apply Touches.forEach
    | apply Touches.collect
    | apply Touches.bind

theorem Touches.vkdf_image_map_and_get {Q : Subject → Prop} (ndebug : Bool) (image : VkdfImage) (offset size : Nat) (h0 : Q Subject.memory) :
    Touches Q (vkdf_image_map_and_get ndebug image offset size) := by
  unfold Vkdf.vkdf_image_map_and_get
  repeat' first
    | intro _
    | assumption
    | dsimp only
    | split
    | apply Touches.vkMapMemory
    | apply Touches.memcpy_from_mapped
    | apply Touches.vkInvalidateMappedMemoryRanges
    | apply Touches.vkUnmapMemory
    | apply Touches.VK_CHECK
    | apply Touches.assertCall
    | apply Touches.assert
    | apply Touches.pure
    | apply Touches.ite
    | apply Touches.forEach
    | apply Touches.collect
    | apply Touches.bind

theorem Touches.vkdf_create_descriptor_pool {Q : Subject → Prop} (type count : Nat) (h0 : Q Subject.descriptor) :
    Touches Q (vkdf_create_descriptor_pool type count) := by
  unfold Vkdf.vkdf_create_descriptor_pool
  repeat' first
    | intro _
    | assumption
    | dsimp only
    | split
    | apply Touches.vkCreateDescriptorPool
    | apply Touches.VK_CHECK
    | apply Touches.assertCall
    | apply Touches.assert
    | apply Touches.pure
    | apply Touches.ite
    | apply Touches.forEach
    | apply Touches.collect
    | apply Touches.bind

theorem Touches.vkdf_create_buffer_descriptor_set_layout {Q : Subject → Prop} (binding count stages type : Nat) (h0 : Q (Subject.object ObjectKind.DescriptorSetLayout)) :
    Touches Q (vkdf_create_buffer_descriptor_set_layout binding count stages type) := by
  unfold Vkdf.vkdf_create_buffer_descriptor_set_layout
  repeat' first
    | intro _
    | assumption
    | dsimp only
    | split
    | apply Touches.vkdf_create
    | apply Touches.VK_CHECK
    | apply Touches.assertCall
    | apply Touches.assert
    | apply Touches.pure
    | apply Touches.ite
    | apply Touches.forEach
    | apply Touches.collect
    | apply Touches.bind

theorem Touches.vkdf_descriptor_set_buffer_update {Q : Subject → Prop} (descriptor buffer binding count : Nat) (offsets ranges : List Nat) (type : Nat) (h0 : Q Subject.descriptor) :
    Touches Q (vkdf_descriptor_set_buffer_update descriptor buffer binding count offsets ranges type) := by
  unfold Vkdf.vkdf_descriptor_set_buffer_update
  repeat' first
    | intro _
    | assumption
    | dsimp only
    | split
    | apply Touches.writeDescriptorSet
    | apply Touches.getContext
    | apply Touches.invalidArgument
    | apply Touches.VK_CHECK
    | apply Touches.assertCall
    | apply Touches.assert
    | apply Touches.pure
    | apply Touches.ite
    | apply Touches.forEach
    | apply Touches.collect
    | apply Touches.bind

theorem Touches.SmallClear.prepare_image_for_transfer {Q : Subject → Prop} (cmd_buf image : Nat) (h0 : Q Subject.commandBuffer) :
    Touches Q (SmallClear.prepare_image_for_transfer cmd_buf image) := by
  unfold Vkdf.SmallClear.prepare_image_for_transfer
  repeat' first
    | intro _
    | assumption
    | dsimp only
    | split
    | apply Touches.vkCmdPipelineBarrier
    | apply Touches.VK_CHECK
    | apply Touches.assertCall
    | apply Touches.assert
    | apply Touches.pure
    | apply Touches.ite
    | apply Touches.forEach
    | apply Touches.collect
    | apply Touches.bind

theorem Touches.SmallClear.prepare_buffer_for_host_read {Q : Subject → Prop} (cmd_buf buffer offset size : Nat) (h0 : Q Subject.commandBuffer) :
    Touches Q (SmallClear.prepare_buffer_for_host_read cmd_buf buffer offset size) := by
  unfold Vkdf.SmallClear.prepare_buffer_for_host_read
  repeat' first
    | intro _
    | assumption
    | dsimp only
    | split
    | apply Touches.vkCmdPipelineBarrier
    | apply Touches.VK_CHECK
    | apply Touches.assertCall
    | apply Touches.assert
    | apply Touches.pure
    | apply Touches.ite
    | apply Touches.forEach
    | apply Touches.collect
    | apply Touches.bind

theorem Touches.SmallClear.record_command_buffer {Q : Subject → Prop} (res : SmallClear.DemoResources) (h0 : Q Subject.commandBuffer) :
    Touches Q (SmallClear.record_command_buffer res) := by
  unfold Vkdf.SmallClear.record_command_buffer
  repeat' first
    | intro _
    | assumption
    | dsimp only
    | split
    | apply Touches.getContext
    | apply Touches.vkdf_create_command_buffer
    | apply Touches.vkdf_command_buffer_begin
    | apply Touches.vkCmdBeginRenderPass
    | apply Touches.vkCmdEndRenderPass
    | apply Touches.SmallClear.prepare_image_for_transfer
    | apply Touches.vkCmdCopyImageToBuffer
    | apply Touches.SmallClear.prepare_buffer_for_host_read
    | apply Touches.vkdf_command_buffer_end
    | apply Touches.VK_CHECK
    | apply Touches.assertCall
    | apply Touches.assert
    | apply Touches.pure
    | apply Touches.ite
    | apply Touches.forEach
    | apply Touches.collect
    | apply Touches.bind

theorem Touches.SmallClear.cleanup_resources {Q : Subject → Prop} (res : SmallClear.DemoResources) (h0 : Q Subject.buffer) (h1 : Q Subject.allocation) (h2 : Q (Subject.object ObjectKind.Image)) (h3 : Q (Subject.object ObjectKind.ImageView)) (h4 : Q (Subject.object ObjectKind.RenderPass)) (h5 : Q (Subject.object ObjectKind.Framebuffer)) (h6 : Q Subject.commandBuffer) (h7 : Q (Subject.object ObjectKind.CommandPool)) :
    Touches Q (SmallClear.cleanup_resources res) := by
  unfold Vkdf.SmallClear.cleanup_resources
  repeat' first
    | intro _
    | assumption
    | dsimp only
    | split
    | apply Touches.vkdf_destroy_buffer
    | apply Touches.vkdf_destroy_image
    | apply Touches.vkDestroyRenderPass
    | apply Touches.vkDestroyFramebuffer
    | apply Touches.vkFreeCommandBuffers
    | apply Touches.vkDestroyCommandPool
    | apply Touches.VK_CHECK
    | apply Touches.assertCall
    | apply Touches.assert
    | apply Touches.pure
    | apply Touches.ite
    | apply Touches.forEach
    | apply Touches.collect
    | apply Touches.bind

theorem Touches.SsboTriangle.create_vertex_buffer {Q : Subject → Prop} (build : Build) (h0 : Q Subject.buffer) (h1 : Q Subject.allocation) (h2 : Q Subject.memory) :
    Touches Q (SsboTriangle.create_vertex_buffer build) := by
  unfold Vkdf.SsboTriangle.create_vertex_buffer
  repeat' first
    | intro _
    | assumption
    | dsimp only
    | split
    | apply Touches.vkdf_create_buffer
    | apply Touches.vkdf_buffer_map_and_fill
    | apply Touches.VK_CHECK
    | apply Touches.assertCall
    | apply Touches.assert
    | apply Touches.pure
    | apply Touches.ite
    | apply Touches.forEach
    | apply Touches.collect
    | apply Touches.bind

theorem Touches.SsboTriangle.create_ubo {Q : Subject → Prop} (build : Build) (h0 : Q Subject.buffer) (h1 : Q Subject.allocation) :
    Touches Q (SsboTriangle.create_ubo build) := by
  unfold Vkdf.SsboTriangle.create_ubo
  repeat' first
    | intro _
    | assumption
    | dsimp only
    | split
    | apply Touches.vkdf_create_buffer
    | apply Touches.VK_CHECK
    | apply Touches.assertCall
    | apply Touches.assert
    | apply Touches.pure
    | apply Touches.ite
    | apply Touches.forEach
    | apply Touches.collect
    | apply Touches.bind

theorem Touches.SsboTriangle.create_offscreen_render_pass {Q : Subject → Prop} (resources : SsboTriangle.DemoResources) (h0 : Q (Subject.object ObjectKind.RenderPass)) :
    Touches Q (SsboTriangle.create_offscreen_render_pass resources) := by
  unfold Vkdf.SsboTriangle.create_offscreen_render_pass
  repeat' first
    | intro _
    | assumption
    | dsimp only
    | split
    | apply Touches.vkCreateRenderPass
    | apply Touches.vkdf_fatal
    | apply Touches.VK_CHECK
    | apply Touches.assertCall
    | apply Touches.assert
    | apply Touches.pure
    | apply Touches.ite
    | apply Touches.forEach
    | apply Touches.collect
    | apply Touches.bind

theorem Touches.SsboTriangle.create_onscreen_render_pass {Q : Subject → Prop} (h0 : Q (Subject.object ObjectKind.RenderPass)) :
    Touches Q SsboTriangle.create_onscreen_render_pass := by
  unfold Vkdf.SsboTriangle.create_onscreen_render_pass
  repeat' first
    | intro _
    | assumption
    | dsimp only
    | split
    | apply Touches.vkCreateRenderPass
    | apply Touches.vkdf_fatal
    | apply Touches.getContext
    | apply Touches.VK_CHECK
    | apply Touches.assertCall
    | apply Touches.assert
    | apply Touches.pure
    | apply Touches.ite
    | apply Touches.forEach
    | apply Touches.collect
    | apply Touches.bind

theorem Touches.SsboTriangle.offscreen_pass_commands {Q : Subject → Prop} (res : SsboTriangle.DemoResources) (h0 : Q Subject.commandBuffer) :
    Touches Q (SsboTriangle.offscreen_pass_commands res) := by
  unfold Vkdf.SsboTriangle.offscreen_pass_commands
  repeat' first
    | intro _
    | assumption
    | dsimp only
    | split
    | apply Touches.getContext
    | apply Touches.vkCmdBeginRenderPass
    | apply Touches.vkCmdBindPipeline
    | apply Touches.vkCmdBindDescriptorSets
    | apply Touches.vkCmdBindVertexBuffers
    | apply Touches.vkCmdSetViewport
    | apply Touches.vkCmdSetScissor
    | apply Touches.vkCmdDraw
    | apply Touches.vkCmdEndRenderPass
    | apply Touches.VK_CHECK
    | apply Touches.assertCall
    | apply Touches.assert
    | apply Touches.pure
    | apply Touches.ite
    | apply Touches.forEach
    | apply Touches.collect
    | apply Touches.bind

theorem Touches.SsboTriangle.onscreen_pass_commands {Q : Subject → Prop} (res : SsboTriangle.DemoResources) (i : Nat) (h0 : Q Subject.commandBuffer) :
    Touches Q (SsboTriangle.onscreen_pass_commands res i) := by
  unfold Vkdf.SsboTriangle.onscreen_pass_commands
  repeat' first
    | intro _
    | assumption
    | dsimp only
    | split
    | apply Touches.getContext
    | apply Touches.vkCmdBeginRenderPass
    | apply Touches.vkCmdBindPipeline
    | apply Touches.vkCmdBindDescriptorSets
    | apply Touches.vkCmdBindVertexBuffers
    | apply Touches.vkCmdSetViewport
    | apply Touches.vkCmdSetScissor
    | apply Touches.vkCmdDraw
    | apply Touches.vkCmdEndRenderPass
    | apply Touches.VK_CHECK
    | apply Touches.assertCall
    | apply Touches.assert
    | apply Touches.pure
    | apply Touches.ite
    | apply Touches.forEach
    | apply Touches.collect
    | apply Touches.bind

theorem Touches.SsboTriangle.create_pipeline_layout {Q : Subject → Prop} (resources : SsboTriangle.DemoResources) (h0 : Q (Subject.object ObjectKind.PipelineLayout)) :
    Touches Q (SsboTriangle.create_pipeline_layout resources) := by
  unfold Vkdf.SsboTriangle.create_pipeline_layout
  repeat' first
    | intro _
    | assumption
    | dsimp only
    | split
    | apply Touches.vkCreatePipelineLayout
    | apply Touches.vkdf_fatal
    | apply Touches.VK_CHECK
    | apply Touches.assertCall
    | apply Touches.assert
    | apply Touches.pure
    | apply Touches.ite
    | apply Touches.forEach
    | apply Touches.collect
    | apply Touches.bind

theorem Touches.SsboTriangle.create_descriptor_set {Q : Subject → Prop} (pool layout : Nat) (h0 : Q Subject.descriptor) :
    Touches Q (SsboTriangle.create_descriptor_set pool layout) := by
  unfold Vkdf.SsboTriangle.create_descriptor_set
  repeat' first
    | intro _
    | assumption
    | dsimp only
    | split
    | apply Touches.vkAllocateDescriptorSets
    | apply Touches.vkdf_fatal
    | apply Touches.getContext
    | apply Touches.VK_CHECK
    | apply Touches.assertCall
    | apply Touches.assert
    | apply Touches.pure
    | apply Touches.ite
    | apply Touches.forEach
    | apply Touches.collect
    | apply Touches.bind

theorem Touches.SsboTriangle.create_ssbo {Q : Subject → Prop} (build : Build) (res : SsboTriangle.DemoResources) (h0 : Q Subject.buffer) (h1 : Q Subject.allocation) (h2 : Q Subject.memory) :
    Touches Q (SsboTriangle.create_ssbo build res) := by
  unfold Vkdf.SsboTriangle.create_ssbo
  repeat' first
    | intro _
    | assumption
    | dsimp only
    | split
    | apply Touches.vkdf_create_buffer
    | apply Touches.vkdf_buffer_map_and_fill
    | apply Touches.VK_CHECK
    | apply Touches.assertCall
    | apply Touches.assert
    | apply Touches.pure
    | apply Touches.ite
    | apply Touches.forEach
    | apply Touches.collect
    | apply Touches.bind

theorem Touches.SsboTriangle.create_color_image {Q : Subject → Prop} (build : Build) (res : SsboTriangle.DemoResources) (h0 : Q (Subject.object ObjectKind.Image)) (h1 : Q (Subject.object ObjectKind.ImageView)) (h2 : Q Subject.allocation) (h3 : Q Subject.memory) :
    Touches Q (SsboTriangle.create_color_image build res) := by
  unfold Vkdf.SsboTriangle.create_color_image
  repeat' first
    | intro _
    | assumption
    | dsimp only
    | split
    | apply Touches.vkdf_create_image_detailed
    | apply Touches.vkdf_image_map_and_fill
    | apply Touches.getContext
    | apply Touches.VK_CHECK
    | apply Touches.assertCall
    | apply Touches.assert
    | apply Touches.pure
    | apply Touches.ite
    | apply Touches.forEach
    | apply Touches.collect
    | apply Touches.bind

theorem Touches.SsboTriangle.scene_update {Q : Subject → Prop} (build : Build) (res : SsboTriangle.DemoResources) (mvp : Nat → Nat) (h0 : Q Subject.memory) :
    Touches Q (SsboTriangle.scene_update build res mvp) := by
  unfold Vkdf.SsboTriangle.scene_update
  repeat' first
    | intro _
    | assumption
    | dsimp only
    | split
    | apply Touches.vkdf_buffer_map_and_fill
    | apply Touches.VK_CHECK
    | apply Touches.assertCall
    | apply Touches.assert
    | apply Touches.pure
    | apply Touches.ite
    | apply Touches.forEach
    | apply Touches.collect
    | apply Touches.bind

theorem Touches.SsboTriangle.check_data_32bits {Q : Subject → Prop} (build : Build) (res : SsboTriangle.DemoResources) (image_feedback ssbo_feedback : Nat → Nat) :
    Touches Q (SsboTriangle.check_data_32bits build res image_feedback ssbo_feedback) := by
  unfold Vkdf.SsboTriangle.check_data_32bits
  repeat' first
    | intro _
    | assumption
    | dsimp only
    | split
    | exact Touches.undefinedBehaviour
    | apply Touches.VK_CHECK
    | apply Touches.assertCall
    | apply Touches.assert
    | apply Touches.pure
    | apply Touches.ite
    | apply Touches.forEach
    | apply Touches.collect
    | apply Touches.bind

theorem Touches.SsboTriangle.check_data_16bits {Q : Subject → Prop} (build : Build) (res : SsboTriangle.DemoResources) (image_feedback ssbo_feedback : Nat → Nat) :
    Touches Q (SsboTriangle.check_data_16bits build res image_feedback ssbo_feedback) := by
  unfold Vkdf.SsboTriangle.check_data_16bits
  repeat' first
    | intro _
    | assumption
    | dsimp only
    | split
    | exact Touches.undefinedBehaviour
    | apply Touches.VK_CHECK
    | apply Touches.assertCall
    | apply Touches.assert
    | apply Touches.pure
    | apply Touches.ite
    | apply Touches.forEach
    | apply Touches.collect
    | apply Touches.bind

theorem Touches.SsboTriangle.check_outcome {Q : Subject → Prop} (build : Build) (res : SsboTriangle.DemoResources) (h0 : Q Subject.memory) (h1 : Q Subject.print) :
    Touches Q (SsboTriangle.check_outcome build res) := by
  unfold Vkdf.SsboTriangle.check_outcome
  refine Touches.bind (Touches.vkdf_buffer_map_and_get _ _ _ _ h0) (fun _ => ?_)
  refine Touches.bind (Touches.vkdf_image_map_and_get _ _ _ _ h0) (fun _ => ?_)
  refine Touches.bind (Touches.ite (Touches.SsboTriangle.check_data_32bits _ _ _ _)
    (Touches.SsboTriangle.check_data_16bits _ _ _ _)) (fun counts => ?_)
  repeat' first
    | intro _
    | assumption
    | dsimp only
    | split
    | apply Touches.fprintf
    | apply Touches.pure
    | apply Touches.ite
    | apply Touches.bind

theorem Touches.SsboTriangle.scene_render {Q : Subject → Prop} (build : Build) (res : SsboTriangle.DemoResources) (count : Nat) (h0 : Q Subject.queue) (h1 : Q Subject.memory) (h2 : Q Subject.print) :
    Touches Q (SsboTriangle.scene_render build res count) := by
  unfold Vkdf.SsboTriangle.scene_render
  repeat' first
    | intro _
    | assumption
    | dsimp only
    | split
    | apply Touches.vkdf_command_buffer_execute
    | apply Touches.SsboTriangle.check_outcome
    | apply Touches.getContext
    | apply Touches.VK_CHECK
    | apply Touches.assertCall
    | apply Touches.assert
    | apply Touches.pure
    | apply Touches.ite
    | apply Touches.forEach
    | apply Touches.collect
    | apply Touches.bind

theorem Touches.SsboTriangle.destroy_pipeline_resources {Q : Subject → Prop} (res : SsboTriangle.DemoResources) (h0 : Q (Subject.object ObjectKind.Pipeline)) (h1 : Q (Subject.object ObjectKind.PipelineLayout)) :
    Touches Q (SsboTriangle.destroy_pipeline_resources res) := by
  unfold Vkdf.SsboTriangle.destroy_pipeline_resources
  repeat' first
    | intro _
    | assumption
    | dsimp only
    | split
    | apply Touches.vkDestroyPipeline
    | apply Touches.vkDestroyPipelineLayout
    | apply Touches.VK_CHECK
    | apply Touches.assertCall
    | apply Touches.assert
    | apply Touches.pure
    | apply Touches.ite
    | apply Touches.forEach
    | apply Touches.collect
    | apply Touches.bind

theorem Touches.SsboTriangle.destroy_framebuffer_resources {Q : Subject → Prop} (res : SsboTriangle.DemoResources) (h0 : Q (Subject.object ObjectKind.Framebuffer)) :
    Touches Q (SsboTriangle.destroy_framebuffer_resources res) := by
  unfold Vkdf.SsboTriangle.destroy_framebuffer_resources
  repeat' first
    | intro _
    | assumption
    | dsimp only
    | split
    | apply Touches.vkDestroyFramebuffer
    | apply Touches.VK_CHECK
    | apply Touches.assertCall
    | apply Touches.assert
    | apply Touches.pure
    | apply Touches.ite
    | apply Touches.forEach
    | apply Touches.collect
    | apply Touches.bind

theorem Touches.SsboTriangle.destroy_shader_resources {Q : Subject → Prop} (res : SsboTriangle.DemoResources) (h0 : Q (Subject.object ObjectKind.ShaderModule)) :
    Touches Q (SsboTriangle.destroy_shader_resources res) := by
  unfold Vkdf.SsboTriangle.destroy_shader_resources
  repeat' first
    | intro _
    | assumption
    | dsimp only
    | split
    | apply Touches.vkDestroyShaderModule
    | apply Touches.VK_CHECK
    | apply Touches.assertCall
    | apply Touches.assert
    | apply Touches.pure
    | apply Touches.ite
    | apply Touches.forEach
    | apply Touches.collect
    | apply Touches.bind

theorem Touches.SsboTriangle.destroy_command_buffer_resources {Q : Subject → Prop} (res : SsboTriangle.DemoResources) (h0 : Q Subject.commandBuffer) (h1 : Q (Subject.object ObjectKind.CommandPool)) :
    Touches Q (SsboTriangle.destroy_command_buffer_resources res) := by
  unfold Vkdf.SsboTriangle.destroy_command_buffer_resources
  repeat' first
    | intro _
    | assumption
    | dsimp only
    | split
    | apply Touches.vkFreeCommandBuffers
    | apply Touches.vkDestroyCommandPool
    | apply Touches.getContext
    | apply Touches.VK_CHECK
    | apply Touches.assertCall
    | apply Touches.assert
    | apply Touches.pure
    | apply Touches.ite
    | apply Touches.forEach
    | apply Touches.collect
    | apply Touches.bind

theorem Touches.SsboTriangle.destroy_descriptor_resources {Q : Subject → Prop} (res : SsboTriangle.DemoResources) (h0 : Q Subject.descriptor) (h1 : Q (Subject.object ObjectKind.DescriptorSetLayout)) :
    Touches Q (SsboTriangle.destroy_descriptor_resources res) := by
  unfold Vkdf.SsboTriangle.destroy_descriptor_resources
  repeat' first
    | intro _
    | assumption
    | dsimp only
    | split
    | apply Touches.vkFreeDescriptorSets
    | apply Touches.vkDestroyDescriptorSetLayout
    | apply Touches.vkDestroyDescriptorPool
    | apply Touches.VK_CHECK
    | apply Touches.assertCall
    | apply Touches.assert
    | apply Touches.pure
    | apply Touches.ite
    | apply Touches.forEach
    | apply Touches.collect
    | apply Touches.bind

theorem Touches.SsboTriangle.destroy_ubo_resources {Q : Subject → Prop} (res : SsboTriangle.DemoResources) (h0 : Q Subject.buffer) (h1 : Q Subject.allocation) :
    Touches Q (SsboTriangle.destroy_ubo_resources res) := by
  unfold Vkdf.SsboTriangle.destroy_ubo_resources
  repeat' first
    | intro _
    | assumption
    | dsimp only
    | split
    | apply Touches.vkDestroyBuffer
    | apply Touches.vkFreeMemory
    | apply Touches.VK_CHECK
    | apply Touches.assertCall
    | apply Touches.assert
    | apply Touches.pure
    | apply Touches.ite
    | apply Touches.forEach
    | apply Touches.collect
    | apply Touches.bind

theorem Touches.SsboTriangle.destroy_ssbo_resources {Q : Subject → Prop} (res : SsboTriangle.DemoResources) (h0 : Q Subject.buffer) (h1 : Q Subject.allocation) :
    Touches Q (SsboTriangle.destroy_ssbo_resources res) := by
  unfold Vkdf.SsboTriangle.destroy_ssbo_resources
  repeat' first
    | intro _
    | assumption
    | dsimp only
    | split
    | apply Touches.vkDestroyBuffer
    | apply Touches.vkFreeMemory
    | apply Touches.VK_CHECK
    | apply Touches.assertCall
    | apply Touches.assert
    | apply Touches.pure
    | apply Touches.ite
    | apply Touches.forEach
    | apply Touches.collect
    | apply Touches.bind

theorem Touches.SsboTriangle.destroy_feedback_data {Q : Subject → Prop} (res : SsboTriangle.DemoResources) :
    Touches Q (SsboTriangle.destroy_feedback_data res) := by
  unfold Vkdf.SsboTriangle.destroy_feedback_data
  repeat' first
    | intro _
    | assumption
    | dsimp only
    | split
    | apply Touches.VK_CHECK
    | apply Touches.assertCall
    | apply Touches.assert
    | apply Touches.pure
    | apply Touches.ite
    | apply Touches.forEach
    | apply Touches.collect
    | apply Touches.bind

theorem Frame.filter_log {Q : Subject → Prop} {a b : VkdfContext} (h : Frame Q a b)
    (p : Call → Bool) (hp : ∀ c, Q c.subject → p c = false) :
    b.log.filter p = a.log.filter p := by
  obtain ⟨calls, hl, hc⟩ := h.log
  rw [hl, List.filter_append]
  have : calls.filter p = [] := by
    rw [List.filter_eq_nil_iff]
    intro c hcm
    simp [hp c (hc c hcm)]
  rw [this, List.append_nil]

theorem vkdf_create_descriptor_pool_inv (type count pool : Nat) (ctx ctx' : VkdfContext)
    (h : vkdf_create_descriptor_pool type count ctx = (Outcome.ok pool, ctx')) :
    pool = ctx.next ∧ ctx'.next = ctx.next + 1 ∧
    ctx'.log = ctx.log ++ [Call.vkCreateDescriptorPool type count VK_SUCCESS pool] ∧
    (∀ p, ctx'.descriptor_pools p =
      if p = pool then some { type := type, maxSets := count, allocated := 0 }
      else ctx.descriptor_pools p) ∧
    ctx'.descriptor_sets = ctx.descriptor_sets := by
  by_cases hr : ctx.driver.createDescriptorPool type count = VK_SUCCESS <;>
    simp [vkdf_create_descriptor_pool, VK_CHECK, vkCreateDescriptorPool, hr] at h
  obtain ⟨rfl, rfl⟩ := h
  simp [hr]

theorem vkdf_create_inv (kind : ObjectKind) (info : List Nat) (handle : Nat)
    (ctx ctx' : VkdfContext) (h : vkdf_create kind info ctx = (Outcome.ok handle, ctx')) :
    handle = ctx.next ∧ ctx'.next = ctx.next + 1 ∧
    ctx'.log = ctx.log ++ [Call.create kind info VK_SUCCESS handle] := by
  by_cases hr : ctx.driver.create kind info = VK_SUCCESS <;>
    simp [vkdf_create, VK_CHECK, createObject, hr] at h
  obtain ⟨rfl, rfl⟩ := h
  simp [hr]

theorem SsboTriangle.create_descriptor_set_inv (pool layout set : Nat) (ctx ctx' : VkdfContext)
    (h : SsboTriangle.create_descriptor_set pool layout ctx = (Outcome.ok set, ctx')) :
    set = ctx.next ∧ ctx'.next = ctx.next + 1 ∧
    ctx'.log = ctx.log ++ [Call.vkAllocateDescriptorSets pool [layout] VK_SUCCESS [set]] ∧
    (∀ p, ctx'.descriptor_pools p =
      if p = pool then
        (ctx.descriptor_pools p).map (fun d => { d with allocated := d.allocated + 1 })
      else ctx.descriptor_pools p) ∧
    (∀ s, ctx'.descriptor_sets s =
      if s = set then some { pool := pool, layout := layout, writes := [] }
      else ctx.descriptor_sets s) ∧
    ∃ d, ctx.descriptor_pools pool = some d ∧ d.allocated + 1 ≤ d.maxSets := by
  by_cases hr : allocateDescriptorSetsResult ctx pool 1 = VK_SUCCESS <;>
    simp [SsboTriangle.create_descriptor_set, bind, Prog.bind, getContext, vkdf_fatal,
      vkAllocateDescriptorSets, array, index, pure, Prog.pure, hr] at h
  obtain ⟨rfl, rfl⟩ := h
  refine ⟨rfl, by simp [hr], by simp [hr], by simp [hr], fun s => ?_, ?_⟩
  · by_cases hs : s = ctx.next
    · simp [hr, hs]
    · have : ¬ (ctx.next ≤ s ∧ s < ctx.next + 1) := by omega
      simp [hr, hs, this]
  · unfold allocateDescriptorSetsResult at hr
    cases hd : ctx.descriptor_pools pool with
    | none => simp [hd, VK_ERROR_OUT_OF_POOL_MEMORY, VK_SUCCESS] at hr
    | some d =>
      by_cases hcap : d.allocated + 1 ≤ d.maxSets
      · exact ⟨d, rfl, hcap⟩
      · simp [hd, hcap, VK_ERROR_OUT_OF_POOL_MEMORY, VK_SUCCESS] at hr

theorem vkdf_descriptor_set_buffer_update_inv (descriptor buffer binding count : Nat)
    (offsets ranges : List Nat) (type : Nat) (ctx ctx' : VkdfContext) (u : Unit)
    (h : vkdf_descriptor_set_buffer_update descriptor buffer binding count offsets ranges
      type ctx = (Outcome.ok u, ctx')) :
    (ctx.descriptor_sets descriptor).isSome = true ∧ ctx'.next = ctx.next ∧
    ctx'.log = ctx.log ++
      [Call.vkdf_descriptor_set_buffer_update descriptor buffer binding count
        (array count offsets) (array count ranges) type] ∧
    ctx'.descriptor_pools = ctx.descriptor_pools ∧
    ∀ s, (ctx'.descriptor_sets s).isSome = (ctx.descriptor_sets s).isSome := by
  cases hs : ctx.descriptor_sets descriptor <;>
    simp [vkdf_descriptor_set_buffer_update, bind, Prog.bind, getContext, invalidArgument,
      writeDescriptorSet, pure, Prog.pure, hs] at h
  subst h
  refine ⟨rfl, rfl, rfl, rfl, fun s => ?_⟩
  by_cases hd : s = descriptor <;> simp [hd, hs]

section
open SsboTriangle

theorem SsboTriangle.init_resources_descriptor_calls (build : Build) (bits : Nat)
    (ctx ctx' : VkdfContext) (res : DemoResources)
    (h : init_resources build bits ctx = (Outcome.ok res, ctx')) :
    ctx'.log.filter Call.isDescriptor = ctx.log.filter Call.isDescriptor ++
      [Call.vkCreateDescriptorPool VK_DESCRIPTOR_TYPE_UNIFORM_BUFFER 1 VK_SUCCESS
         res.descriptor_pool_ubo,
       Call.vkCreateDescriptorPool VK_DESCRIPTOR_TYPE_STORAGE_BUFFER 1 VK_SUCCESS
         res.descriptor_pool_ssbo,
       Call.create ObjectKind.DescriptorSetLayout
         [UBO_BINDING, 1, VK_SHADER_STAGE_VERTEX_BIT, VK_DESCRIPTOR_TYPE_UNIFORM_BUFFER]
         VK_SUCCESS res.set_layout_ubo,
       Call.vkAllocateDescriptorSets res.descriptor_pool_ubo [res.set_layout_ubo] VK_SUCCESS
         [res.descriptor_set_ubo],
       Call.create ObjectKind.DescriptorSetLayout
         [SSBO_BINDING, 1, VK_SHADER_STAGE_FRAGMENT_BIT, VK_DESCRIPTOR_TYPE_STORAGE_BUFFER]
         VK_SUCCESS res.set_layout_ssbo,
       Call.vkAllocateDescriptorSets res.descriptor_pool_ssbo [res.set_layout_ssbo] VK_SUCCESS
         [res.descriptor_set_ssbo],
       Call.vkdf_descriptor_set_buffer_update res.descriptor_set_ubo res.ubo.buf UBO_BINDING 1
         [0] [64] VK_DESCRIPTOR_TYPE_UNIFORM_BUFFER,
       Call.vkdf_descriptor_set_buffer_update res.descriptor_set_ssbo res.ssbo.buf
         SSBO_BINDING 1 [0] [res.ssbo_size] VK_DESCRIPTOR_TYPE_STORAGE_BUFFER] ∧
    res.descriptor_pool_ubo ≠ res.descriptor_pool_ssbo ∧
    res.descriptor_set_ubo ≠ res.descriptor_set_ssbo := by
  simp only [init_resources, Prog.bind_eq_ok, Prod.exists, Prog.pure_eq_ok] at h
  obtain ⟨_, c1, h1, h⟩ := h
  obtain ⟨_, c2, h2, h⟩ := h
  obtain ⟨ssbo, r3, c3, h3, h⟩ := h
  obtain ⟨vertex_buf, c4, h4, h⟩ := h
  obtain ⟨ubo, c5, h5, h⟩ := h
  obtain ⟨vs_module, c6, h6, h⟩ := h
  obtain ⟨fs_module, c7, h7, h⟩ := h
  obtain ⟨offscreen_render_pass, c8, h8, h⟩ := h
  obtain ⟨onscreen_render_pass, c9, h9, h⟩ := h
  obtain ⟨color_image, r10, c10, h10, h⟩ := h
  obtain ⟨framebuffer, c11, h11, h⟩ := h
  obtain ⟨onscreen_framebuffers, c12, h12, h⟩ := h
  obtain ⟨pool_ubo, c13, h13, h⟩ := h
  obtain ⟨pool_ssbo, c14, h14, h⟩ := h
  obtain ⟨layout_ubo, c15, h15, h⟩ := h
  obtain ⟨set_ubo, c16, h16, h⟩ := h
  obtain ⟨layout_ssbo, c17, h17, h⟩ := h
  obtain ⟨set_ssbo, c18, h18, h⟩ := h
  obtain ⟨_, c19, h19, h⟩ := h
  obtain ⟨_, c20, h20, h⟩ := h
  obtain ⟨pipeline_layout, c21, h21, h⟩ := h
  obtain ⟨pipeline_offscreen, c22, h22, h⟩ := h
  obtain ⟨pipeline_onscreen, c23, h23, h⟩ := h
  obtain ⟨cmd_pool, c24, h24, h⟩ := h
  obtain ⟨cmd_bufs, c25, h25, h⟩ := h
  obtain ⟨_, c26, h26, h⟩ := h
  obtain ⟨_, c27, h27, h⟩ := h
  obtain ⟨_, c28, h28, h⟩ := h
  obtain ⟨onscreen_cmd_bufs, c29, h29, h⟩ := h
  obtain ⟨_, c30, h30, h⟩ := h
  obtain ⟨offscreen_draw_sem, c31, h31, h⟩ := h
  obtain ⟨rfl, rfl⟩ := h
  have e1 := (Touches.run (Q := fun s => s.isDescriptor = false) (Touches.assert _ _)
    h1).filter_log Call.isDescriptor (fun _ hc => hc)
  have e2 := (Touches.run (Q := fun s => s.isDescriptor = false) Touches.getContext
    h2).filter_log Call.isDescriptor (fun _ hc => hc)
  have e3 := (Touches.run (Q := fun s => s.isDescriptor = false)
    (Touches.SsboTriangle.create_ssbo _ _ rfl rfl rfl) h3).filter_log Call.isDescriptor
    (fun _ hc => hc)
  have e4 := (Touches.run (Q := fun s => s.isDescriptor = false)
    (Touches.SsboTriangle.create_vertex_buffer _ rfl rfl rfl) h4).filter_log
    Call.isDescriptor (fun _ hc => hc)
  have e5 := (Touches.run (Q := fun s => s.isDescriptor = false)
    (Touches.SsboTriangle.create_ubo _ rfl rfl) h5).filter_log Call.isDescriptor
    (fun _ hc => hc)
  have e6 := (Touches.run (Q := fun s => s.isDescriptor = false)
    (Touches.vkdf_create_shader_module _ rfl) h6).filter_log Call.isDescriptor
    (fun _ hc => hc)
  have e7 := (Touches.run (Q := fun s => s.isDescriptor = false)
    (Touches.vkdf_create_shader_module _ rfl) h7).filter_log Call.isDescriptor
    (fun _ hc => hc)
  have e8 := (Touches.run (Q := fun s => s.isDescriptor = false)
    (Touches.SsboTriangle.create_offscreen_render_pass _ rfl) h8).filter_log
    Call.isDescriptor (fun _ hc => hc)
  have e9 := (Touches.run (Q := fun s => s.isDescriptor = false)
    (Touches.SsboTriangle.create_onscreen_render_pass rfl) h9).filter_log
    Call.isDescriptor (fun _ hc => hc)
  have e10 := (Touches.run (Q := fun s => s.isDescriptor = false)
    (Touches.SsboTriangle.create_color_image _ _ rfl rfl rfl rfl) h10).filter_log
    Call.isDescriptor (fun _ hc => hc)
  have e11 := (Touches.run (Q := fun s => s.isDescriptor = false)
    (Touches.vkdf_create_framebuffer _ _ _ _ _ _ rfl) h11).filter_log
    Call.isDescriptor (fun _ hc => hc)
  have e12 := (Touches.run (Q := fun s => s.isDescriptor = false)
    (Touches.vkdf_create_framebuffers_for_swap_chain _ _ _ rfl) h12).filter_log
    Call.isDescriptor (fun _ hc => hc)
  obtain ⟨rfl, n13, l13, -⟩ := vkdf_create_descriptor_pool_inv _ _ _ _ _ h13
  obtain ⟨rfl, n14, l14, -⟩ := vkdf_create_descriptor_pool_inv _ _ _ _ _ h14
  obtain ⟨rfl, n15, l15⟩ := vkdf_create_inv _ _ _ _ _ h15
  obtain ⟨rfl, n16, l16, -⟩ := SsboTriangle.create_descriptor_set_inv _ _ _ _ _ h16
  obtain ⟨rfl, n17, l17⟩ := vkdf_create_inv _ _ _ _ _ h17
  obtain ⟨rfl, n18, l18, -⟩ := SsboTriangle.create_descriptor_set_inv _ _ _ _ _ h18
  obtain ⟨-, -, l19, -⟩ := vkdf_descriptor_set_buffer_update_inv _ _ _ _ _ _ _ _ _ _ h19
  obtain ⟨-, -, l20, -⟩ := vkdf_descriptor_set_buffer_update_inv _ _ _ _ _ _ _ _ _ _ h20
  have e21 := (Touches.run (Q := fun s => s.isDescriptor = false)
    (Touches.SsboTriangle.create_pipeline_layout _ rfl) h21).filter_log
    Call.isDescriptor (fun _ hc => hc)
  have e22 := (Touches.run (Q := fun s => s.isDescriptor = false)
    (Touches.vkdf_create_gfx_pipeline _ rfl) h22).filter_log Call.isDescriptor
    (fun _ hc => hc)
  have e23 := (Touches.run (Q := fun s => s.isDescriptor = false)
    (Touches.vkdf_create_gfx_pipeline _ rfl) h23).filter_log Call.isDescriptor
    (fun _ hc => hc)
  have e24 := (Touches.run (Q := fun s => s.isDescriptor = false)
    (Touches.vkdf_create_gfx_command_pool _ rfl) h24).filter_log Call.isDescriptor
    (fun _ hc => hc)
  have e25 := (Touches.run (Q := fun s => s.isDescriptor = false)
    (Touches.vkdf_create_command_buffer _ _ _ rfl) h25).filter_log Call.isDescriptor
    (fun _ hc => hc)
  have e26 := (Touches.run (Q := fun s => s.isDescriptor = false)
    (Touches.vkdf_command_buffer_begin _ _ rfl) h26).filter_log Call.isDescriptor
    (fun _ hc => hc)
  have e27 := (Touches.run (Q := fun s => s.isDescriptor = false)
    (Touches.SsboTriangle.offscreen_pass_commands _ rfl) h27).filter_log
    Call.isDescriptor (fun _ hc => hc)
  have e28 := (Touches.run (Q := fun s => s.isDescriptor = false)
    (Touches.vkdf_command_buffer_end _ rfl) h28).filter_log Call.isDescriptor
    (fun _ hc => hc)
  have e29 := (Touches.run (Q := fun s => s.isDescriptor = false)
    (Touches.vkdf_create_command_buffer _ _ _ rfl) h29).filter_log Call.isDescriptor
    (fun _ hc => hc)
  have e30 := (Touches.run (Q := fun s => s.isDescriptor = false)
    (Touches.forEach _ (fun _ => Touches.bind (Touches.vkdf_command_buffer_begin _ _ rfl)
      (fun _ => Touches.bind (Touches.SsboTriangle.onscreen_pass_commands _ _ rfl)
        (fun _ => Touches.vkdf_command_buffer_end _ rfl)))) h30).filter_log
    Call.isDescriptor (fun _ hc => hc)
  have e31 := (Touches.run (Q := fun s => s.isDescriptor = false)
    (Touches.vkdf_create_semaphore rfl) h31).filter_log Call.isDescriptor
    (fun _ hc => hc)
  refine ⟨?_, ?_, ?_⟩
  · rw [e31, e30, e29, e28, e27, e26, e25, e24, e23, e22, e21, l20, l19, l18, l17, l16, l15,
      l14, l13]
    simp only [List.filter_append, List.append_assoc]
    rw [e12, e11, e10, e9, e8, e7, e6, e5, e4, e3, e2, e1]
    simp [Call.isDescriptor, Call.subject, Subject.isDescriptor, array,
      VK_DESCRIPTOR_TYPE_UNIFORM_BUFFER, VK_DESCRIPTOR_TYPE_STORAGE_BUFFER]
  · show c12.next ≠ c13.next
    omega
  · show c15.next ≠ c17.next
    omega

end

/-! ## Command buffer steps -/

theorem vkdf_create_command_buffer_inv (cmd_pool level cmd_count : Nat) (cmd_bufs : List Nat)
    (ctx ctx' : VkdfContext)
    (h : vkdf_create_command_buffer cmd_pool level cmd_count ctx = (Outcome.ok cmd_bufs, ctx')) :
    cmd_bufs = List.range' ctx.next cmd_count ∧ ctx'.next = ctx.next + cmd_count ∧
    ctx'.log = ctx.log ++
      [Call.vkAllocateCommandBuffers cmd_pool level cmd_count VK_SUCCESS cmd_bufs] ∧
    ∀ b, ctx'.cmd_bufs b =
      if ctx.next ≤ b ∧ b < ctx.next + cmd_count then
        some { state := CommandBufferState.Initial, simultaneous_use := false,
               pool := cmd_pool, commands := [] }
      else ctx.cmd_bufs b := by
  by_cases hr : ctx.driver.allocateCommandBuffers cmd_pool cmd_count = VK_SUCCESS <;>
    simp [vkdf_create_command_buffer, VK_CHECK, vkAllocateCommandBuffers, hr] at h
  obtain ⟨rfl, rfl⟩ := h
  simp [hr]

theorem vkdf_command_buffer_begin_inv (cmd_buf flags : Nat) (ctx ctx' : VkdfContext) (u : Unit)
    (h : vkdf_command_buffer_begin cmd_buf flags ctx = (Outcome.ok u, ctx')) :
    ∃ c, ctx.cmd_bufs cmd_buf = some c ∧ c.state = CommandBufferState.Initial ∧
      ctx'.next = ctx.next ∧ ctx'.log = ctx.log ++ [Call.vkBeginCommandBuffer cmd_buf flags] ∧
      ∀ b, ctx'.cmd_bufs b =
        if b = cmd_buf then
          some { c with
            state := CommandBufferState.Recording
            simultaneous_use := hasFlag flags VK_COMMAND_BUFFER_USAGE_SIMULTANEOUS_USE_BIT }
        else ctx.cmd_bufs b := by
  cases hc : ctx.cmd_bufs cmd_buf with
  | none =>
    simp [vkdf_command_buffer_begin, bind, Prog.bind, commandBufferState, invalidArgument,
      hc] at h
  | some c =>
    by_cases hs : c.state = CommandBufferState.Initial <;>
      simp [vkdf_command_buffer_begin, bind, Prog.bind, commandBufferState, invalidArgument,
        vkBeginCommandBuffer, pure, Prog.pure, hc, hs] at h
    subst h
    refine ⟨c, rfl, hs, rfl, rfl, fun b => ?_⟩
    by_cases hb : b = cmd_buf <;> simp [hb, hc]

theorem vkdf_command_buffer_end_inv (cmd_buf : Nat) (ctx ctx' : VkdfContext) (u : Unit)
    (h : vkdf_command_buffer_end cmd_buf ctx = (Outcome.ok u, ctx')) :
    ∃ c, ctx.cmd_bufs cmd_buf = some c ∧ c.state = CommandBufferState.Recording ∧
      ctx'.next = ctx.next ∧ ctx'.log = ctx.log ++ [Call.vkEndCommandBuffer cmd_buf] ∧
      ∀ b, ctx'.cmd_bufs b =
        if b = cmd_buf then some { c with state := CommandBufferState.Executable }
        else ctx.cmd_bufs b := by
  cases hc : ctx.cmd_bufs cmd_buf with
  | none =>
    simp [vkdf_command_buffer_end, bind, Prog.bind, commandBufferState, invalidArgument,
      hc] at h
  | some c =>
    by_cases hs : c.state = CommandBufferState.Recording <;>
      simp [vkdf_command_buffer_end, bind, Prog.bind, commandBufferState, invalidArgument,
        vkEndCommandBuffer, pure, Prog.pure, hc, hs] at h
    subst h
    refine ⟨c, rfl, hs, rfl, rfl, fun b => ?_⟩
    by_cases hb : b = cmd_buf <;> simp [hb, hc]

theorem record_inv (cmd_buf : Nat) (command : Command) (ctx ctx' : VkdfContext) (u : Unit)
    (h : record cmd_buf command ctx = (Outcome.ok u, ctx')) :
    ∃ c, ctx.cmd_bufs cmd_buf = some c ∧ c.state = CommandBufferState.Recording ∧
      ctx'.next = ctx.next ∧ ctx'.width = ctx.width ∧ ctx'.height = ctx.height ∧
      ctx'.driver = ctx.driver ∧
      ctx'.log = ctx.log ++ [Call.record cmd_buf command] ∧
      ∀ b, ctx'.cmd_bufs b =
        if b = cmd_buf then some { c with commands := c.commands ++ [command] }
        else ctx.cmd_bufs b := by
  cases hc : ctx.cmd_bufs cmd_buf with
  | none =>
    simp [record, bind, Prog.bind, commandBufferState, invalidArgument, hc] at h
  | some c =>
    by_cases hs : c.state = CommandBufferState.Recording <;>
      simp [record, bind, Prog.bind, commandBufferState, invalidArgument,
        appendCommand, pure, Prog.pure, hc, hs] at h
    subst h
    refine ⟨c, rfl, hs, rfl, rfl, rfl, rfl, rfl, fun b => ?_⟩
    by_cases hb : b = cmd_buf <;> simp [hb, hc]

theorem Prog.bind_pure_unit (m : Prog Unit) : Prog.bind m (fun _ => Prog.pure ()) = m := by
  funext ctx
  unfold Prog.bind
  rcases h : m ctx with ⟨o, c⟩
  cases o <;> rfl

theorem forEach_record_inv (cmd_buf : Nat) (commands : List Command) :
    ∀ (ctx ctx' : VkdfContext) (c : CommandBuffer) (u : Unit),
      ctx.cmd_bufs cmd_buf = some c →
      forEach commands (record cmd_buf) ctx = (Outcome.ok u, ctx') →
      ctx'.next = ctx.next ∧ ctx'.width = ctx.width ∧ ctx'.height = ctx.height ∧
      ctx'.driver = ctx.driver ∧
      ctx'.log = ctx.log ++ commands.map (Call.record cmd_buf) ∧
      ∀ b, ctx'.cmd_bufs b =
        if b = cmd_buf then some { c with commands := c.commands ++ commands }
        else ctx.cmd_bufs b := by
  induction commands with
  | nil =>
    intro ctx ctx' c u hc h
    simp only [forEach, Prog.pure, Prod.mk.injEq, Outcome.ok.injEq] at h
    obtain ⟨-, rfl⟩ := h
    refine ⟨rfl, rfl, rfl, rfl, by simp, fun b => ?_⟩
    by_cases hb : b = cmd_buf <;> simp [hb, hc]
  | cons command commands ih =>
    intro ctx ctx' c u hc h
    rw [forEach] at h
    have h' : (record cmd_buf command >>= fun _ => forEach commands (record cmd_buf)) ctx =
        (Outcome.ok u, ctx') := h
    rw [Prog.bind_eq_ok] at h'
    obtain ⟨_, c1, h1, h2⟩ := h'
    obtain ⟨c0, hc0, -, n1, w1, e1, d1, l1, s1⟩ := record_inv _ _ _ _ _ h1
    rw [hc] at hc0
    obtain rfl := Option.some.inj hc0
    have hc1 : c1.cmd_bufs cmd_buf = some { c with commands := c.commands ++ [command] } := by
      rw [s1]
      simp
    obtain ⟨n2, w2, e2, d2, l2, s2⟩ := ih c1 ctx' _ _ hc1 h2
    refine ⟨n2.trans n1, w2.trans w1, e2.trans e1, d2.trans d1, ?_, fun b => ?_⟩
    · rw [l2, l1]
      simp
    · rw [s2, s1]
      by_cases hb : b = cmd_buf <;> simp [hb]

theorem SsboTriangle.offscreen_pass_commands_eq (res : SsboTriangle.DemoResources) :
    SsboTriangle.offscreen_pass_commands res =
      (getContext >>= fun ctx =>
        forEach
          (SsboTriangle.pass_commands res ctx res.offscreen_render_pass res.framebuffer
            res.pipeline_offscreen [])
          (record res.offscreen_cmd_buf)) := by
  simp only [SsboTriangle.offscreen_pass_commands, SsboTriangle.pass_commands, forEach,
    Prog.bind_pure_unit, vkCmdBeginRenderPass, vkCmdBindPipeline, vkCmdBindDescriptorSets,
    vkCmdBindVertexBuffers, vkCmdSetViewport, vkCmdSetScissor, vkCmdDraw, vkCmdEndRenderPass,
    array, NULL, List.take]
  rfl

theorem SsboTriangle.onscreen_pass_commands_eq (res : SsboTriangle.DemoResources) (i : Nat) :
    SsboTriangle.onscreen_pass_commands res i =
      (getContext >>= fun ctx =>
        forEach
          (SsboTriangle.pass_commands res ctx res.onscreen_render_pass
            (index res.onscreen_framebuffers i ctx.driver.unspecified) res.pipeline_onscreen
            [[0, 0, 1, 1]])
          (record (index res.onscreen_cmd_bufs i ctx.driver.unspecified))) := by
  simp only [SsboTriangle.onscreen_pass_commands, SsboTriangle.pass_commands, forEach,
    Prog.bind_pure_unit, vkCmdBeginRenderPass, vkCmdBindPipeline, vkCmdBindDescriptorSets,
    vkCmdBindVertexBuffers, vkCmdSetViewport, vkCmdSetScissor, vkCmdDraw, vkCmdEndRenderPass,
    array, NULL, List.take]
  rfl

theorem getContext_eq_ok (a ctx ctx' : VkdfContext) :
    getContext ctx = (Outcome.ok a, ctx') ↔ ctx = a ∧ ctx = ctx' := by
  simp only [getContext, Prod.mk.injEq, Outcome.ok.injEq]

theorem recording_inv (cmd_buf flags : Nat) (commands : VkdfContext → List Command)
    (target : VkdfContext → Nat) (pass : Prog Unit)
    (hpass : pass = (getContext >>= fun ctx => forEach (commands ctx) (record (target ctx))))
    (c0 c1 c2 c3 : VkdfContext) (u1 u2 u3 : Unit)
    (h1 : vkdf_command_buffer_begin cmd_buf flags c0 = (Outcome.ok u1, c1))
    (h2 : pass c1 = (Outcome.ok u2, c2))
    (h3 : vkdf_command_buffer_end cmd_buf c2 = (Outcome.ok u3, c3))
    (ht : target c1 = cmd_buf) :
    ∃ c, c0.cmd_bufs cmd_buf = some c ∧ c.state = CommandBufferState.Initial ∧
      c3.next = c0.next ∧
      c3.log = c0.log ++ recording cmd_buf flags (commands c1) ∧
      ∀ b, c3.cmd_bufs b =
        if b = cmd_buf then
          some { state := CommandBufferState.Executable
                 simultaneous_use := hasFlag flags VK_COMMAND_BUFFER_USAGE_SIMULTANEOUS_USE_BIT
                 pool := c.pool
                 commands := c.commands ++ commands c1 }
        else c0.cmd_bufs b := by
  obtain ⟨c, hc, hi, n1, l1, s1⟩ := vkdf_command_buffer_begin_inv _ _ _ _ _ h1
  rw [hpass, Prog.bind_eq_ok] at h2
  obtain ⟨_, _, hg, h2⟩ := h2
  obtain ⟨rfl, rfl⟩ := (getContext_eq_ok _ _ _).mp hg
  rw [ht] at h2
  have hc1 := s1 cmd_buf
  rw [if_pos rfl] at hc1
  obtain ⟨n2, -, -, -, l2, s2⟩ := forEach_record_inv _ _ _ _ _ _ hc1 h2
  obtain ⟨c', hc', -, n3, l3, s3⟩ := vkdf_command_buffer_end_inv _ _ _ _ h3
  have hc2 := s2 cmd_buf
  rw [if_pos rfl, hc'] at hc2
  obtain rfl := Option.some.inj hc2
  refine ⟨c, hc, hi, by omega, ?_, fun b => ?_⟩
  · rw [l3, l2, l1]
    simp [recording]
  · rw [s3, s2, s1]
    by_cases hb : b = cmd_buf <;> simp [hb]

section
open SsboTriangle

end

section
open SsboTriangle

theorem Frame.of_true {Q : Subject → Prop} {a b : VkdfContext} (h : Frame Q a b) :
    Frame (fun _ => True) a b :=
  h.mono (fun _ _ => trivial)

end

theorem Willing.of_frame {Q : Subject → Prop} {a b : VkdfContext} (h : Frame Q a b)
    (w : Willing a) : Willing b := by
  have hd := h.driver
  have hp := h.phy_device_mem_props
  constructor <;> intros <;> rw [hd] <;> try rw [hp]
  · exact w.createBuffer _ _ _
  · exact w.requirements_size _ _ _
  · exact w.requirements_type _ _ _
  · exact w.allocateMemory _ _
  · exact w.bindBufferMemory _ _ _
  · exact w.mapMemory _ _ _
  · exact w.flushMappedMemoryRanges _ _ _
  · exact w.invalidateMappedMemoryRanges _ _ _
  · exact w.queueSubmit _
  · exact w.allocateCommandBuffers _ _
  · exact w.create _ _
  · exact w.imageRequirements_size _
  · exact w.imageRequirements_host _
  · exact w.imageRequirements_device _
  · exact w.bindImageMemory _ _ _
  · exact w.createDescriptorPool _ _
  · exact w.allocateDescriptorSets _ _

theorem Prog.returns_of_fst {α : Type} {m : Prog α} {ctx : VkdfContext} {a : α}
    (h : (m ctx).1 = Outcome.ok a) : m ctx = (Outcome.ok a, (m ctx).2) :=
  Prod.ext h rfl

theorem Prog.bind_returns {α β : Type} {m : Prog α} {f : α → Prog β} {ctx c1 : VkdfContext}
    {a : α} (h1 : m ctx = (Outcome.ok a, c1)) (h2 : ∃ b c2, f a c1 = (Outcome.ok b, c2)) :
    ∃ b c2, (m >>= f) ctx = (Outcome.ok b, c2) := by
  obtain ⟨b, c2, h2⟩ := h2
  exact ⟨b, c2, (Prog.bind_eq_ok _ _ _ _ _).mpr ⟨a, c1, h1, h2⟩⟩

theorem Prog.bind_returns_of {α β : Type} {m : Prog α} {f : α → Prog β} {ctx : VkdfContext}
    (h1 : ∃ a c1, m ctx = (Outcome.ok a, c1))
    (h2 : ∀ a c1, m ctx = (Outcome.ok a, c1) → ∃ b c2, f a c1 = (Outcome.ok b, c2)) :
    ∃ b c2, (m >>= f) ctx = (Outcome.ok b, c2) := by
  obtain ⟨a, c1, h1⟩ := h1
  exact Prog.bind_returns h1 (h2 a c1 h1)

theorem vkdf_create_buffer_returns (ndebug : Bool) (uninit flags size usage : Nat)
    (ctx : VkdfContext) (w : Willing ctx) :
    ∃ ctx', vkdf_create_buffer ndebug uninit flags size usage
        VK_MEMORY_PROPERTY_HOST_VISIBLE_BIT ctx =
        (Outcome.ok
          { buf := ctx.next, mem := ctx.next + 1,
            mem_reqs := ctx.driver.requirements flags size usage,
            mem_props := VK_MEMORY_PROPERTY_HOST_VISIBLE_BIT }, ctx') ∧
      (ctx'.memory (ctx.next + 1)).isSome = true := by
  have h1 := w.createBuffer flags size usage
  have h2 := w.requirements_type flags size usage
  have h4 := w.allocateMemory
  have h5 := w.bindBufferMemory
  cases hsel : select_memory_type ctx.phy_device_mem_props
      (ctx.driver.requirements flags size usage).memoryTypeBits
      VK_MEMORY_PROPERTY_HOST_VISIBLE_BIT with
  | none => simp [hsel] at h2
  | some index =>
    refine ⟨_, Prod.ext ?_ rfl, ?_⟩ <;> cases ndebug <;>
      simp [vkdf_create_buffer, bind, Prog.bind, VK_CHECK, assertCall, vkCreateBuffer,
        vkGetBufferMemoryRequirements, vkdf_memory_type_from_properties, vkAllocateMemory,
        vkBindBufferMemory, Prog.pure, abort, pure, h1, hsel, h4, h5]

theorem vkdf_buffer_map_and_fill_returns (ndebug : Bool) (buf : VkdfBuffer)
    (offset size : Nat) (data : Nat → Nat) (ctx : VkdfContext) (w : Willing ctx)
    (hv : buf.mem_props = VK_MEMORY_PROPERTY_HOST_VISIBLE_BIT)
    (hs : size ≤ buf.mem_reqs.size) (hm : (ctx.memory buf.mem).isSome = true) :
    ∃ ctx', vkdf_buffer_map_and_fill ndebug buf offset size data ctx = (Outcome.ok (), ctx') := by
  have h1 := w.mapMemory
  have h2 := w.flushMappedMemoryRanges
  obtain ⟨m, hm⟩ := Option.isSome_iff_exists.mp hm
  have h24 : (2 : Nat) &&& 4 = 0 := by decide
  refine ⟨_, Prod.ext ?_ rfl⟩
  cases ndebug <;>
    simp [vkdf_buffer_map_and_fill, bind, Prog.bind, VK_CHECK, assert, vkMapMemory,
      memcpy_to_mapped, vkFlushMappedMemoryRanges, vkUnmapMemory, mapResult, Prog.pure, abort,
      pure, h1, h2, hm, hv, hs, hasFlag, VK_MEMORY_PROPERTY_HOST_VISIBLE_BIT,
      VK_MEMORY_PROPERTY_HOST_COHERENT_BIT, h24]

theorem vkdf_create_returns (kind : ObjectKind) (info : List Nat) (ctx : VkdfContext)
    (w : Willing ctx) : ∃ ctx', vkdf_create kind info ctx = (Outcome.ok ctx.next, ctx') := by
  refine ⟨_, Prod.ext ?_ rfl⟩
  simp [vkdf_create, VK_CHECK, createObject, w.create]

theorem SsboTriangle.create_offscreen_render_pass_returns (res : SsboTriangle.DemoResources)
    (ctx : VkdfContext) (w : Willing ctx) :
    ∃ ctx', SsboTriangle.create_offscreen_render_pass res ctx = (Outcome.ok ctx.next, ctx') := by
  refine ⟨_, Prod.ext ?_ rfl⟩
  simp [SsboTriangle.create_offscreen_render_pass, vkCreateRenderPass, bind, Prog.bind,
    createObject, vkdf_fatal, pure, Prog.pure, w.create]

theorem SsboTriangle.create_onscreen_render_pass_returns (ctx : VkdfContext) (w : Willing ctx) :
    ∃ ctx', SsboTriangle.create_onscreen_render_pass ctx = (Outcome.ok ctx.next, ctx') := by
  refine ⟨_, Prod.ext ?_ rfl⟩
  simp [SsboTriangle.create_onscreen_render_pass, vkCreateRenderPass, bind, Prog.bind,
    getContext, createObject, vkdf_fatal, pure, Prog.pure, w.create]

theorem SsboTriangle.create_pipeline_layout_returns (res : SsboTriangle.DemoResources)
    (ctx : VkdfContext) (w : Willing ctx) :
    ∃ ctx', SsboTriangle.create_pipeline_layout res ctx = (Outcome.ok ctx.next, ctx') := by
  refine ⟨_, Prod.ext ?_ rfl⟩
  simp [SsboTriangle.create_pipeline_layout, vkCreatePipelineLayout, bind, Prog.bind,
    createObject, vkdf_fatal, pure, Prog.pure, w.create]

theorem vkdf_create_descriptor_pool_returns (type count : Nat) (ctx : VkdfContext)
    (w : Willing ctx) :
    ∃ ctx', vkdf_create_descriptor_pool type count ctx = (Outcome.ok ctx.next, ctx') := by
  refine ⟨_, Prod.ext ?_ rfl⟩
  simp [vkdf_create_descriptor_pool, VK_CHECK, vkCreateDescriptorPool, w.createDescriptorPool]

theorem SsboTriangle.create_descriptor_set_returns (pool layout : Nat) (ctx : VkdfContext)
    (w : Willing ctx) (d : DescriptorPool) (hd : ctx.descriptor_pools pool = some d)
    (hcap : d.allocated + 1 ≤ d.maxSets) :
    ∃ ctx', SsboTriangle.create_descriptor_set pool layout ctx = (Outcome.ok ctx.next, ctx') := by
  refine ⟨_, Prod.ext ?_ rfl⟩
  simp [SsboTriangle.create_descriptor_set, bind, Prog.bind, getContext, vkdf_fatal,
    vkAllocateDescriptorSets, allocateDescriptorSetsResult, array, index, pure, Prog.pure,
    w.allocateDescriptorSets, hd, hcap]

theorem vkdf_descriptor_set_buffer_update_returns (descriptor buffer binding count : Nat)
    (offsets ranges : List Nat) (type : Nat) (ctx : VkdfContext)
    (hs : (ctx.descriptor_sets descriptor).isSome = true) :
    ∃ ctx', vkdf_descriptor_set_buffer_update descriptor buffer binding count offsets ranges
      type ctx = (Outcome.ok (), ctx') := by
  obtain ⟨s, hs⟩ := Option.isSome_iff_exists.mp hs
  refine ⟨_, Prod.ext ?_ rfl⟩
  simp [vkdf_descriptor_set_buffer_update, bind, Prog.bind, getContext, invalidArgument,
    writeDescriptorSet, pure, Prog.pure, hs]

theorem vkdf_create_command_buffer_returns (cmd_pool level cmd_count : Nat) (ctx : VkdfContext)
    (w : Willing ctx) :
    ∃ ctx', vkdf_create_command_buffer cmd_pool level cmd_count ctx =
      (Outcome.ok (List.range' ctx.next cmd_count), ctx') := by
  refine ⟨_, Prod.ext ?_ rfl⟩
  simp [vkdf_create_command_buffer, VK_CHECK, vkAllocateCommandBuffers,
    w.allocateCommandBuffers]

theorem vkdf_command_buffer_begin_returns (cmd_buf flags : Nat) (ctx : VkdfContext)
    (c : CommandBuffer) (hc : ctx.cmd_bufs cmd_buf = some c)
    (hs : c.state = CommandBufferState.Initial) :
    ∃ ctx', vkdf_command_buffer_begin cmd_buf flags ctx = (Outcome.ok (), ctx') := by
  refine ⟨_, Prod.ext ?_ rfl⟩
  simp [vkdf_command_buffer_begin, bind, Prog.bind, commandBufferState, invalidArgument,
    vkBeginCommandBuffer, pure, Prog.pure, hc, hs]

theorem vkdf_command_buffer_end_returns (cmd_buf : Nat) (ctx : VkdfContext)
    (c : CommandBuffer) (hc : ctx.cmd_bufs cmd_buf = some c)
    (hs : c.state = CommandBufferState.Recording) :
    ∃ ctx', vkdf_command_buffer_end cmd_buf ctx = (Outcome.ok (), ctx') := by
  refine ⟨_, Prod.ext ?_ rfl⟩
  simp [vkdf_command_buffer_end, bind, Prog.bind, commandBufferState, invalidArgument,
    vkEndCommandBuffer, pure, Prog.pure, hc, hs]

theorem record_returns (cmd_buf : Nat) (command : Command) (ctx : VkdfContext)
    (c : CommandBuffer) (hc : ctx.cmd_bufs cmd_buf = some c)
    (hs : c.state = CommandBufferState.Recording) :
    ∃ ctx', record cmd_buf command ctx = (Outcome.ok (), ctx') := by
  refine ⟨_, Prod.ext ?_ rfl⟩
  simp [record, bind, Prog.bind, commandBufferState, invalidArgument, appendCommand, pure,
    Prog.pure, hc, hs]

theorem forEach_record_returns (cmd_buf : Nat) (commands : List Command) :
    ∀ (ctx : VkdfContext) (c : CommandBuffer), ctx.cmd_bufs cmd_buf = some c →
      c.state = CommandBufferState.Recording →
      ∃ ctx', forEach commands (record cmd_buf) ctx = (Outcome.ok (), ctx') := by
  induction commands with
  | nil => exact fun ctx _ _ _ => ⟨ctx, rfl⟩
  | cons command commands ih =>
    intro ctx c hc hs
    obtain ⟨c1, h1⟩ := record_returns cmd_buf command ctx c hc hs
    obtain ⟨c0, hc0, -, -, -, -, -, -, s1⟩ := record_inv _ _ _ _ _ h1
    rw [hc] at hc0
    obtain rfl := Option.some.inj hc0
    have hc1 := s1 cmd_buf
    rw [if_pos rfl] at hc1
    obtain ⟨c2, h2⟩ := ih c1 _ hc1 hs
    exact ⟨c2, (Prog.bind_eq_ok _ _ _ _ _).mpr ⟨(), c1, h1, h2⟩⟩

theorem pass_returns (target : VkdfContext → Nat) (commands : VkdfContext → List Command)
    (pass : Prog Unit)
    (hpass : pass = (getContext >>= fun ctx => forEach (commands ctx) (record (target ctx))))
    (ctx : VkdfContext) (c : CommandBuffer) (hc : ctx.cmd_bufs (target ctx) = some c)
    (hs : c.state = CommandBufferState.Recording) :
    ∃ ctx', pass ctx = (Outcome.ok (), ctx') := by
  obtain ⟨c2, h2⟩ := forEach_record_returns (target ctx) (commands ctx) ctx c hc hs
  exact ⟨c2, by rw [hpass]; exact (Prog.bind_eq_ok _ _ _ _ _).mpr ⟨ctx, ctx, rfl, h2⟩⟩

theorem recording_returns (cmd_buf flags : Nat) (commands : VkdfContext → List Command)
    (target : VkdfContext → Nat) (pass : Prog Unit)
    (hpass : pass = (getContext >>= fun ctx => forEach (commands ctx) (record (target ctx))))
    (c0 : VkdfContext) (c : CommandBuffer) (hc : c0.cmd_bufs cmd_buf = some c)
    (hs : c.state = CommandBufferState.Initial)
    (ht : ∀ c1 : VkdfContext, c1.driver = c0.driver → target c1 = cmd_buf) :
    ∃ c1 c2 c3, vkdf_command_buffer_begin cmd_buf flags c0 = (Outcome.ok (), c1) ∧
      pass c1 = (Outcome.ok (), c2) ∧ vkdf_command_buffer_end cmd_buf c2 = (Outcome.ok (), c3) := by
  obtain ⟨c1, h1⟩ := vkdf_command_buffer_begin_returns cmd_buf flags c0 c hc hs
  obtain ⟨c', hc', -, -, -, s1⟩ := vkdf_command_buffer_begin_inv _ _ _ _ _ h1
  have f1 := Touches.run (Touches.vkdf_command_buffer_begin (Q := fun _ => True) _ _
    trivial) h1
  have hc1 := s1 cmd_buf
  rw [if_pos rfl] at hc1
  have ht1 := ht c1 f1.driver
  obtain ⟨c2, h2⟩ := pass_returns target commands pass hpass c1 _ (by rw [ht1]; exact hc1) rfl
  have h2' := h2
  rw [hpass, Prog.bind_eq_ok] at h2'
  obtain ⟨_, _, hg, h2'⟩ := h2'
  obtain ⟨rfl, rfl⟩ := (getContext_eq_ok _ _ _).mp hg
  rw [ht1] at h2'
  obtain ⟨-, -, -, -, -, s2⟩ := forEach_record_inv _ _ _ _ _ _ hc1 h2'
  have hc2 := s2 cmd_buf
  rw [if_pos rfl] at hc2
  obtain ⟨c3, h3⟩ := vkdf_command_buffer_end_returns cmd_buf c2 _ hc2 rfl
  exact ⟨c1, c2, c3, h1, h2, h3⟩

theorem index_range' (n len i : Nat) (unspecified : Nat → Nat) (h : i < len) :
    index (List.range' n len) i unspecified = n + i := by
  simp [index, List.getD, h]

theorem index_congr (elements : List Nat) (i : Nat) (u u' : Nat → Nat)
    (h : i < elements.length) : index elements i u = index elements i u' := by
  simp [index, List.getD, h]

theorem SsboTriangle.onscreen_loop_returns (res : SsboTriangle.DemoResources)
    (cmd_bufs : List Nat) (hbufs : res.onscreen_cmd_bufs = cmd_bufs)
    (unspecified : Nat → Nat) (indices : List Nat) :
    ∀ (ctx : VkdfContext), (∀ i ∈ indices, i < cmd_bufs.length) →
      (indices.map (fun i => index cmd_bufs i unspecified)).Nodup →
      (∀ i ∈ indices, ∃ c, ctx.cmd_bufs (index cmd_bufs i unspecified) = some c ∧
        c.state = CommandBufferState.Initial) →
      ∃ ctx',
        forEach indices (fun i => do
          vkdf_command_buffer_begin (index cmd_bufs i unspecified)
            VK_COMMAND_BUFFER_USAGE_SIMULTANEOUS_USE_BIT
          SsboTriangle.onscreen_pass_commands res i
          vkdf_command_buffer_end (index cmd_bufs i unspecified)) ctx =
          (Outcome.ok (), ctx') := by
  subst hbufs
  induction indices with
  | nil => exact fun ctx _ _ _ => ⟨ctx, rfl⟩
  | cons i indices ih =>
    intro ctx hlen hn hall
    obtain ⟨c, hc, hi⟩ := hall i (List.mem_cons_self _ _)
    have hlt := hlen i (List.mem_cons_self _ _)
    obtain ⟨c1, c2, c3, h1, h2, h3⟩ := recording_returns
      (index res.onscreen_cmd_bufs i unspecified) VK_COMMAND_BUFFER_USAGE_SIMULTANEOUS_USE_BIT
      (fun ctx => SsboTriangle.pass_commands res ctx res.onscreen_render_pass
        (index res.onscreen_framebuffers i ctx.driver.unspecified) res.pipeline_onscreen
        [[0, 0, 1, 1]])
      (fun ctx => index res.onscreen_cmd_bufs i ctx.driver.unspecified)
      (SsboTriangle.onscreen_pass_commands res i) (SsboTriangle.onscreen_pass_commands_eq res i)
      ctx c hc hi (fun c1 _ => index_congr _ _ _ _ hlt)
    obtain ⟨_, _, _, _, _, s3⟩ := recording_inv
      (index res.onscreen_cmd_bufs i unspecified) VK_COMMAND_BUFFER_USAGE_SIMULTANEOUS_USE_BIT
      (fun ctx => SsboTriangle.pass_commands res ctx res.onscreen_render_pass
        (index res.onscreen_framebuffers i ctx.driver.unspecified) res.pipeline_onscreen
        [[0, 0, 1, 1]])
      (fun ctx => index res.onscreen_cmd_bufs i ctx.driver.unspecified)
      (SsboTriangle.onscreen_pass_commands res i) (SsboTriangle.onscreen_pass_commands_eq res i)
      ctx c1 c2 c3 _ _ _ h1 h2 h3 (index_congr _ _ _ _ hlt)
    rw [List.map_cons, List.nodup_cons] at hn
    obtain ⟨c4, h4⟩ := ih c3 (fun j hj => hlen j (List.mem_cons_of_mem _ hj)) hn.2
      (fun j hj => by
        obtain ⟨cj, hcj, hij⟩ := hall j (List.mem_cons_of_mem _ hj)
        have hne : index res.onscreen_cmd_bufs j unspecified ≠
            index res.onscreen_cmd_bufs i unspecified := by
          intro he
          exact hn.1 (List.mem_map.mpr ⟨j, hj, he⟩)
        exact ⟨cj, by rw [s3, if_neg hne, hcj], hij⟩)
    refine ⟨c4, ?_⟩
    rw [forEach]
    exact (Prog.bind_eq_ok _ _ _ _ _).mpr ⟨(), c3,
      (Prog.bind_eq_ok _ _ _ _ _).mpr ⟨(), c1, h1,
        (Prog.bind_eq_ok _ _ _ _ _).mpr ⟨(), c2, h2, h3⟩⟩, h4⟩

theorem collect_returns {α β : Type} (xs : List α) (body : α → Prog β)
    (ht : ∀ x, Touches (fun _ => True) (body x))
    (hr : ∀ x ctx, Willing ctx → ∃ y ctx', body x ctx = (Outcome.ok y, ctx')) :
    ∀ ctx, Willing ctx → ∃ ys ctx', collect xs body ctx = (Outcome.ok ys, ctx') := by
  induction xs with
  | nil => exact fun ctx _ => ⟨[], ctx, rfl⟩
  | cons x xs ih =>
    intro ctx w
    obtain ⟨y, c1, h1⟩ := hr x ctx w
    obtain ⟨ys, c2, h2⟩ := ih c1 (Willing.of_frame (Touches.run (ht x) h1) w)
    refine ⟨y :: ys, c2, ?_⟩
    rw [collect]
    exact (Prog.bind_eq_ok _ _ _ _ _).mpr ⟨y, c1, h1,
      (Prog.bind_eq_ok _ _ _ _ _).mpr ⟨ys, c2, h2, rfl⟩⟩

theorem vkdf_create_framebuffers_for_swap_chain_returns (render_pass num_extra_attachments : Nat)
    (extra_attachments : List Nat) (ctx : VkdfContext) (w : Willing ctx) :
    ∃ framebuffers ctx',
      vkdf_create_framebuffers_for_swap_chain render_pass num_extra_attachments
        extra_attachments ctx = (Outcome.ok framebuffers, ctx') := by
  unfold vkdf_create_framebuffers_for_swap_chain
  refine Prog.bind_returns (show getContext ctx = (Outcome.ok ctx, ctx) from rfl) ?_
  exact collect_returns _ _ (fun _ => Touches.vkdf_create _ _ trivial)
    (fun x c wc => ⟨_, vkdf_create_returns _ _ c wc⟩) ctx w

theorem SsboTriangle.create_ssbo_returns (build : Build) (res : SsboTriangle.DemoResources)
    (ctx : VkdfContext) (w : Willing ctx) :
    ∃ b ctx', SsboTriangle.create_ssbo build res ctx = (Outcome.ok b, ctx') := by
  unfold SsboTriangle.create_ssbo
  obtain ⟨c1, h1, hm⟩ := vkdf_create_buffer_returns build.ndebug (build.uninit 0) 0
    res.ssbo_size VK_BUFFER_USAGE_STORAGE_BUFFER_BIT ctx w
  have w1 := Willing.of_frame (Touches.run (Touches.vkdf_create_buffer (Q := fun _ => True)
    _ _ _ _ _ _ trivial trivial) h1) w
  refine Prog.bind_returns h1 ?_
  dsimp only
  obtain ⟨c2, h2⟩ := vkdf_buffer_map_and_fill_returns build.ndebug
    { buf := ctx.next, mem := ctx.next + 1,
      mem_reqs := ctx.driver.requirements 0 res.ssbo_size VK_BUFFER_USAGE_STORAGE_BUFFER_BIT,
      mem_props := VK_MEMORY_PROPERTY_HOST_VISIBLE_BIT } 0 res.ssbo_size
    (SsboTriangle.fill_reference res.bits res.num_ssbo_elements build.malloc) c1 w1 rfl
    (w.requirements_size _ _ _) hm
  refine Prog.bind_returns h2 ?_
  exact ⟨_, _, rfl⟩

theorem SsboTriangle.create_vertex_buffer_returns (build : Build) (ctx : VkdfContext)
    (w : Willing ctx) :
    ∃ b ctx', SsboTriangle.create_vertex_buffer build ctx = (Outcome.ok b, ctx') := by
  unfold SsboTriangle.create_vertex_buffer
  obtain ⟨c1, h1, hm⟩ := vkdf_create_buffer_returns build.ndebug (build.uninit 1) 0
    48 VK_BUFFER_USAGE_VERTEX_BUFFER_BIT ctx w
  have w1 := Willing.of_frame (Touches.run (Touches.vkdf_create_buffer (Q := fun _ => True)
    _ _ _ _ _ _ trivial trivial) h1) w
  refine Prog.bind_returns h1 ?_
  dsimp only
  obtain ⟨c2, h2⟩ := vkdf_buffer_map_and_fill_returns build.ndebug
    { buf := ctx.next, mem := ctx.next + 1,
      mem_reqs := ctx.driver.requirements 0 48 VK_BUFFER_USAGE_VERTEX_BUFFER_BIT,
      mem_props := VK_MEMORY_PROPERTY_HOST_VISIBLE_BIT } 0 48
    (elementBytes 4 SsboTriangle.vertex_data) c1 w1 rfl
    (w.requirements_size _ _ _) hm
  refine Prog.bind_returns h2 ?_
  exact ⟨_, _, rfl⟩

theorem SsboTriangle.create_ubo_returns (build : Build) (ctx : VkdfContext)
    (w : Willing ctx) :
    ∃ b ctx', SsboTriangle.create_ubo build ctx = (Outcome.ok b, ctx') := by
  unfold SsboTriangle.create_ubo
  obtain ⟨c1, h1, hm⟩ := vkdf_create_buffer_returns build.ndebug (build.uninit 2) 0
    64 VK_BUFFER_USAGE_UNIFORM_BUFFER_BIT ctx w
  refine Prog.bind_returns h1 ?_
  exact ⟨_, _, rfl⟩

theorem vkdf_create_image_detailed_returns (ndebug : Bool) (uninit width height num_levels
    image_type format format_flags usage aspect_flags image_view_type initial_layout : Nat)
    (ctx : VkdfContext) (w : Willing ctx) :
    ∃ ctx', vkdf_create_image_detailed ndebug uninit width height num_levels image_type
        format format_flags usage VK_MEMORY_PROPERTY_HOST_VISIBLE_BIT aspect_flags
        image_view_type initial_layout ctx =
        (Outcome.ok
          { image := ctx.next, view := ctx.next + 2, mem := ctx.next + 1,
            mem_reqs := ctx.driver.imageRequirements
              [width, height, num_levels, image_type, format, format_flags, usage,
                initial_layout],
            mem_props := VK_MEMORY_PROPERTY_HOST_VISIBLE_BIT }, ctx') ∧
      (ctx'.memory (ctx.next + 1)).isSome = true := by
  have h1 := w.create
  have h2 := w.imageRequirements_host
    [width, height, num_levels, image_type, format, format_flags, usage, initial_layout]
  have h4 := w.allocateMemory
  have h5 := w.bindImageMemory
  cases hsel : select_memory_type ctx.phy_device_mem_props
      (ctx.driver.imageRequirements
        [width, height, num_levels, image_type, format, format_flags, usage,
          initial_layout]).memoryTypeBits
      VK_MEMORY_PROPERTY_HOST_VISIBLE_BIT with
  | none => simp [hsel] at h2
  | some index =>
    refine ⟨_, Prod.ext ?_ rfl, ?_⟩ <;> cases ndebug <;>
      simp [vkdf_create_image_detailed, bind, Prog.bind, VK_CHECK, assertCall, createObject,
        vkGetImageMemoryRequirements, vkdf_memory_type_from_properties, vkAllocateMemory,
        vkBindImageMemory, Prog.pure, abort, pure, h1, hsel, h4, h5]

theorem vkdf_image_map_and_fill_returns (ndebug : Bool) (image : VkdfImage)
    (offset size : Nat) (data : Nat → Nat) (ctx : VkdfContext) (w : Willing ctx)
    (hv : image.mem_props = VK_MEMORY_PROPERTY_HOST_VISIBLE_BIT)
    (hs : size ≤ image.mem_reqs.size) (hm : (ctx.memory image.mem).isSome = true) :
    ∃ ctx', vkdf_image_map_and_fill ndebug image offset size data ctx =
      (Outcome.ok (), ctx') := by
  have h1 := w.mapMemory
  have h2 := w.flushMappedMemoryRanges
  obtain ⟨m, hm⟩ := Option.isSome_iff_exists.mp hm
  have h24 : (2 : Nat) &&& 4 = 0 := by decide
  refine ⟨_, Prod.ext ?_ rfl⟩
  cases ndebug <;>
    simp [vkdf_image_map_and_fill, bind, Prog.bind, VK_CHECK, assert, vkMapMemory,
      memcpy_to_mapped, vkFlushMappedMemoryRanges, vkUnmapMemory, mapResult, Prog.pure, abort,
      pure, h1, h2, hm, hv, hs, hasFlag, VK_MEMORY_PROPERTY_HOST_VISIBLE_BIT,
      VK_MEMORY_PROPERTY_HOST_COHERENT_BIT, h24]

theorem SsboTriangle.create_color_image_returns (build : Build)
    (res : SsboTriangle.DemoResources) (hsize : res.image_size < 2 ^ 32) (ctx : VkdfContext)
    (w : Willing ctx) :
    ∃ b ctx', SsboTriangle.create_color_image build res ctx = (Outcome.ok b, ctx') := by
  unfold SsboTriangle.create_color_image
  refine Prog.bind_returns (show getContext ctx = (Outcome.ok ctx, ctx) from rfl) ?_
  dsimp only
  obtain ⟨c1, h1, hm⟩ := vkdf_create_image_detailed_returns build.ndebug (build.uninit 3)
    ctx.width ctx.height 1 VK_IMAGE_TYPE_2D (SsboTriangle.get_offscreen_format res)
    VK_FORMAT_FEATURE_COLOR_ATTACHMENT_BIT
    (VK_IMAGE_USAGE_COLOR_ATTACHMENT_BIT ||| VK_IMAGE_USAGE_TRANSFER_SRC_BIT |||
      VK_IMAGE_USAGE_TRANSFER_DST_BIT)
    VK_IMAGE_ASPECT_COLOR_BIT VK_IMAGE_VIEW_TYPE_2D VK_IMAGE_LAYOUT_PREINITIALIZED ctx w
  have w1 := Willing.of_frame (Touches.run (Touches.vkdf_create_image_detailed
    (Q := fun _ => True) _ _ _ _ _ _ _ _ _ _ _ _ _ trivial trivial trivial) h1) w
  refine Prog.bind_returns h1 ?_
  dsimp only
  have hreq := w.imageRequirements_size
    [ctx.width, ctx.height, 1, VK_IMAGE_TYPE_2D, SsboTriangle.get_offscreen_format res,
      VK_FORMAT_FEATURE_COLOR_ATTACHMENT_BIT,
      VK_IMAGE_USAGE_COLOR_ATTACHMENT_BIT ||| VK_IMAGE_USAGE_TRANSFER_SRC_BIT |||
        VK_IMAGE_USAGE_TRANSFER_DST_BIT, VK_IMAGE_LAYOUT_PREINITIALIZED]
  obtain ⟨c2, h2⟩ := vkdf_image_map_and_fill_returns build.ndebug
    { image := ctx.next, view := ctx.next + 2, mem := ctx.next + 1,
      mem_reqs := ctx.driver.imageRequirements
        [ctx.width, ctx.height, 1, VK_IMAGE_TYPE_2D, SsboTriangle.get_offscreen_format res,
          VK_FORMAT_FEATURE_COLOR_ATTACHMENT_BIT,
          VK_IMAGE_USAGE_COLOR_ATTACHMENT_BIT ||| VK_IMAGE_USAGE_TRANSFER_SRC_BIT |||
            VK_IMAGE_USAGE_TRANSFER_DST_BIT, VK_IMAGE_LAYOUT_PREINITIALIZED],
      mem_props := VK_MEMORY_PROPERTY_HOST_VISIBLE_BIT } 0 res.image_size
    (SsboTriangle.fill_reference res.bits res.num_image_elements build.malloc) c1 w1 rfl
    (by dsimp only; omega) hm
  refine Prog.bind_returns h2 ?_
  exact ⟨_, _, rfl⟩

theorem Prog.bind_returns_unit {β : Type} {m : Prog Unit} {f : Unit → Prog β}
    {ctx : VkdfContext} (h1 : ∃ c1, m ctx = (Outcome.ok (), c1))
    (h2 : ∀ c1, m ctx = (Outcome.ok (), c1) → ∃ b c2, f () c1 = (Outcome.ok b, c2)) :
    ∃ b c2, (m >>= f) ctx = (Outcome.ok b, c2) := by
  obtain ⟨c1, h1⟩ := h1
  exact Prog.bind_returns h1 (h2 c1 h1)

theorem recording_bind_returns {β : Type} (cmd_buf flags : Nat)
    (commands : VkdfContext → List Command) (target : VkdfContext → Nat) (pass : Prog Unit)
    (hpass : pass = (getContext >>= fun ctx => forEach (commands ctx) (record (target ctx))))
    (c0 : VkdfContext) (w : Willing c0) (c : CommandBuffer)
    (hc : c0.cmd_bufs cmd_buf = some c) (hs : c.state = CommandBufferState.Initial)
    (ht : ∀ c1 : VkdfContext, c1.driver = c0.driver → target c1 = cmd_buf)
    (f : Unit → Prog β)
    (h : ∀ c3, Willing c3 → c3.next = c0.next → ∃ b c', f () c3 = (Outcome.ok b, c')) :
    ∃ b c',
      (vkdf_command_buffer_begin cmd_buf flags >>= fun _ =>
        pass >>= fun _ => vkdf_command_buffer_end cmd_buf >>= f) c0 = (Outcome.ok b, c') := by
  obtain ⟨c1, c2, c3, h1, h2, h3⟩ :=
    recording_returns cmd_buf flags commands target pass hpass c0 c hc hs ht
  have f1 := Touches.run (Touches.vkdf_command_buffer_begin (Q := fun _ => True) _ _
    trivial) h1
  obtain ⟨_, _, _, n3, _, _⟩ := recording_inv cmd_buf flags commands target pass hpass
    c0 c1 c2 c3 _ _ _ h1 h2 h3 (ht c1 f1.driver)
  have f2 : Frame (fun _ => True) c1 c2 := by
    have := Touches.run (Q := fun _ => True) (m := pass) (by
      rw [hpass]
      exact Touches.bind Touches.getContext (fun ctx =>
        Touches.forEach _ (fun x => Touches.record _ _ trivial))) h2
    exact this
  have f3 := Touches.run (Touches.vkdf_command_buffer_end (Q := fun _ => True) _ trivial) h3
  have w3 := Willing.of_frame (f1.trans (f2.trans f3)) w
  exact Prog.bind_returns h1 (Prog.bind_returns h2 (Prog.bind_returns h3 (h c3 w3 n3)))

theorem index_range'_nodup (n len : Nat) (unspecified : Nat → Nat) :
    ((List.range len).map (fun i => index (List.range' n len) i unspecified)).Nodup := by
  have h : ∀ i ∈ List.range len, index (List.range' n len) i unspecified = n + i :=
    fun i hi => index_range' _ _ _ _ (List.mem_range.mp hi)
  rw [List.map_congr_left h, ← List.range'_eq_map_range]
  exact List.nodup_range' n len

section
open SsboTriangle

set_option maxHeartbeats 1600000 in
theorem SsboTriangle.init_resources_returns (build : Build) (bits : Nat)
    (hbits : bits = 16 ∨ bits = 32) (ctx : VkdfContext) (w : Willing ctx) :
    ∃ res ctx', init_resources build bits ctx = (Outcome.ok res, ctx') := by
  unfold init_resources
  have h1 : assert build.ndebug (bits == 16 || bits == 32) ctx = (Outcome.ok (), ctx) := by
    rcases hbits with rfl | rfl <;> simp [assert, Prog.pure]
  refine Prog.bind_returns h1 ?_
  refine Prog.bind_returns (show getContext ctx = (Outcome.ok ctx, ctx) from rfl) ?_
  dsimp only
  -- buffers
  obtain ⟨⟨ssbo, r3⟩, c3, h3⟩ := create_ssbo_returns build _ ctx w
  have w3 := Willing.of_frame (Touches.run (Q := fun _ => True)
    (Touches.SsboTriangle.create_ssbo _ _ trivial trivial trivial) h3) w
  refine Prog.bind_returns h3 ?_
  dsimp only
  obtain ⟨vertex_buf, c4, h4⟩ := create_vertex_buffer_returns build c3 w3
  have w4 := Willing.of_frame (Touches.run (Q := fun _ => True)
    (Touches.SsboTriangle.create_vertex_buffer _ trivial trivial trivial) h4) w3
  refine Prog.bind_returns h4 ?_
  dsimp only
  obtain ⟨ubo, c5, h5⟩ := create_ubo_returns build c4 w4
  have w5 := Willing.of_frame (Touches.run (Q := fun _ => True)
    (Touches.SsboTriangle.create_ubo _ trivial trivial) h5) w4
  refine Prog.bind_returns h5 ?_
  dsimp only
  -- shader modules and render passes
  obtain ⟨c6, h6⟩ := vkdf_create_returns ObjectKind.ShaderModule [0] c5 w5
  have w6 := Willing.of_frame (Touches.run (Q := fun _ => True)
    (Touches.vkdf_create _ _ trivial) h6) w5
  refine Prog.bind_returns h6 ?_
  dsimp only
  obtain ⟨c7, h7⟩ := vkdf_create_returns ObjectKind.ShaderModule [1, r3.bits] c6 w6
  have w7 := Willing.of_frame (Touches.run (Q := fun _ => True)
    (Touches.vkdf_create _ _ trivial) h7) w6
  refine Prog.bind_returns h7 ?_
  dsimp only
  obtain ⟨c8, h8⟩ := create_offscreen_render_pass_returns _ c7 w7
  have w8 := Willing.of_frame (Touches.run (Q := fun _ => True)
    (Touches.SsboTriangle.create_offscreen_render_pass _ trivial) h8) w7
  refine Prog.bind_returns h8 ?_
  dsimp only
  obtain ⟨c9, h9⟩ := create_onscreen_render_pass_returns c8 w8
  have w9 := Willing.of_frame (Touches.run (Q := fun _ => True)
    (Touches.SsboTriangle.create_onscreen_render_pass trivial) h9) w8
  refine Prog.bind_returns h9 ?_
  dsimp only
  -- colour image and framebuffers
  refine Prog.bind_returns_of (create_color_image_returns build _
    (Nat.mod_lt _ (Nat.two_pow_pos 32)) c9 w9) ?_
  rintro ⟨color_image, r10⟩ c10 h10
  have w10 := Willing.of_frame (Touches.run (Q := fun _ => True)
    (Touches.SsboTriangle.create_color_image _ _ trivial trivial trivial trivial) h10) w9
  dsimp only
  obtain ⟨c11, h11⟩ := vkdf_create_returns ObjectKind.Framebuffer
    ([r10.offscreen_render_pass, color_image.view, ctx.width, ctx.height, 0] ++ NULL) c10 w10
  have w11 := Willing.of_frame (Touches.run (Q := fun _ => True)
    (Touches.vkdf_create _ _ trivial) h11) w10
  refine Prog.bind_returns h11 ?_
  dsimp only
  obtain ⟨onscreen_framebuffers, c12, h12⟩ :=
    vkdf_create_framebuffers_for_swap_chain_returns r10.onscreen_render_pass 0 NULL c11 w11
  have w12 := Willing.of_frame (Touches.run (Q := fun _ => True)
    (Touches.vkdf_create_framebuffers_for_swap_chain _ _ _ trivial) h12) w11
  refine Prog.bind_returns h12 ?_
  dsimp only
  -- descriptors
  obtain ⟨c13, h13⟩ := vkdf_create_descriptor_pool_returns VK_DESCRIPTOR_TYPE_UNIFORM_BUFFER 1
    c12 w12
  have w13 := Willing.of_frame (Touches.run (Q := fun _ => True)
    (Touches.vkdf_create_descriptor_pool _ _ trivial) h13) w12
  obtain ⟨-, n13, -, p13, s13⟩ := vkdf_create_descriptor_pool_inv _ _ _ _ _ h13
  refine Prog.bind_returns h13 ?_
  dsimp only
  obtain ⟨c14, h14⟩ := vkdf_create_descriptor_pool_returns VK_DESCRIPTOR_TYPE_STORAGE_BUFFER 1
    c13 w13
  have w14 := Willing.of_frame (Touches.run (Q := fun _ => True)
    (Touches.vkdf_create_descriptor_pool _ _ trivial) h14) w13
  obtain ⟨-, n14, -, p14, s14⟩ := vkdf_create_descriptor_pool_inv _ _ _ _ _ h14
  refine Prog.bind_returns h14 ?_
  dsimp only
  obtain ⟨c15, h15⟩ := vkdf_create_returns ObjectKind.DescriptorSetLayout
    [UBO_BINDING, 1, VK_SHADER_STAGE_VERTEX_BIT, VK_DESCRIPTOR_TYPE_UNIFORM_BUFFER] c14 w14
  have w15 := Willing.of_frame (Touches.run (Q := fun _ => True)
    (Touches.vkdf_create _ _ trivial) h15) w14
  have f15 := Touches.run (Q := fun s => s ≠ Subject.descriptor)
    (Touches.vkdf_create _ _ (by simp)) h15
  have p15 := f15.descriptor_pools (by simp)
  have s15 := f15.descriptor_sets (by simp)
  refine Prog.bind_returns h15 ?_
  dsimp only
  have hp16 : c15.descriptor_pools c12.next =
      some { type := VK_DESCRIPTOR_TYPE_UNIFORM_BUFFER, maxSets := 1, allocated := 0 } := by
    rw [p15, p14, if_neg (by omega), p13, if_pos rfl]
  obtain ⟨c16, h16⟩ := create_descriptor_set_returns c12.next c14.next c15 w15 _ hp16
    (by decide)
  have w16 := Willing.of_frame (Touches.run (Q := fun _ => True)
    (Touches.SsboTriangle.create_descriptor_set _ _ trivial) h16) w15
  obtain ⟨-, n16, -, p16, s16, -⟩ := create_descriptor_set_inv _ _ _ _ _ h16
  refine Prog.bind_returns h16 ?_
  dsimp only
  obtain ⟨c17, h17⟩ := vkdf_create_returns ObjectKind.DescriptorSetLayout
    [SSBO_BINDING, 1, VK_SHADER_STAGE_FRAGMENT_BIT, VK_DESCRIPTOR_TYPE_STORAGE_BUFFER] c16 w16
  have w17 := Willing.of_frame (Touches.run (Q := fun _ => True)
    (Touches.vkdf_create _ _ trivial) h17) w16
  have f17 := Touches.run (Q := fun s => s ≠ Subject.descriptor)
    (Touches.vkdf_create _ _ (by simp)) h17
  have p17 := f17.descriptor_pools (by simp)
  have s17 := f17.descriptor_sets (by simp)
  refine Prog.bind_returns h17 ?_
  dsimp only
  have hp18 : c17.descriptor_pools c13.next =
      some { type := VK_DESCRIPTOR_TYPE_STORAGE_BUFFER, maxSets := 1, allocated := 0 } := by
    rw [p17, p16, if_neg (by omega), p15, p14, if_pos rfl]
  obtain ⟨c18, h18⟩ := create_descriptor_set_returns c13.next c16.next c17 w17 _ hp18
    (by decide)
  have w18 := Willing.of_frame (Touches.run (Q := fun _ => True)
    (Touches.SsboTriangle.create_descriptor_set _ _ trivial) h18) w17
  obtain ⟨-, n18, -, p18, s18, -⟩ := create_descriptor_set_inv _ _ _ _ _ h18
  refine Prog.bind_returns h18 ?_
  dsimp only
  have hs19 : (c18.descriptor_sets c15.next).isSome = true := by
    rw [s18]
    split
    · rfl
    · rw [s17, s16, if_pos rfl]
      rfl
  obtain ⟨c19, h19⟩ := vkdf_descriptor_set_buffer_update_returns c15.next r10.ubo.buf
    UBO_BINDING 1 [0] [64] VK_DESCRIPTOR_TYPE_UNIFORM_BUFFER c18 hs19
  have w19 := Willing.of_frame (Touches.run (Q := fun _ => True)
    (Touches.vkdf_descriptor_set_buffer_update _ _ _ _ _ _ _ trivial) h19) w18
  obtain ⟨-, n19, -, p19, s19⟩ := vkdf_descriptor_set_buffer_update_inv _ _ _ _ _ _ _ _ _ _ h19
  refine Prog.bind_returns h19 ?_
  dsimp only
  have hs20 : (c19.descriptor_sets c17.next).isSome = true := by
    rw [s19, s18, if_pos rfl]
    rfl
  obtain ⟨c20, h20⟩ := vkdf_descriptor_set_buffer_update_returns c17.next r10.ssbo.buf
    SSBO_BINDING 1 [0] [r10.ssbo_size] VK_DESCRIPTOR_TYPE_STORAGE_BUFFER c19 hs20
  have w20 := Willing.of_frame (Touches.run (Q := fun _ => True)
    (Touches.vkdf_descriptor_set_buffer_update _ _ _ _ _ _ _ trivial) h20) w19
  refine Prog.bind_returns h20 ?_
  dsimp only
  -- pipelines and the command pool
  obtain ⟨c21, h21⟩ := create_pipeline_layout_returns _ c20 w20
  have w21 := Willing.of_frame (Touches.run (Q := fun _ => True)
    (Touches.SsboTriangle.create_pipeline_layout _ trivial) h21) w20
  refine Prog.bind_returns h21 ?_
  dsimp only
  obtain ⟨c22, h22⟩ := vkdf_create_returns ObjectKind.Pipeline
    (gfx_pipeline_info r10.offscreen_render_pass c20.next r10.vs_module r10.fs_module) c21 w21
  have w22 := Willing.of_frame (Touches.run (Q := fun _ => True)
    (Touches.vkdf_create _ _ trivial) h22) w21
  refine Prog.bind_returns h22 ?_
  dsimp only
  obtain ⟨c23, h23⟩ := vkdf_create_returns ObjectKind.Pipeline
    (gfx_pipeline_info r10.onscreen_render_pass c20.next r10.vs_module r10.fs_module) c22 w22
  have w23 := Willing.of_frame (Touches.run (Q := fun _ => True)
    (Touches.vkdf_create _ _ trivial) h23) w22
  refine Prog.bind_returns h23 ?_
  dsimp only
  obtain ⟨c24, h24⟩ := vkdf_create_returns ObjectKind.CommandPool [0] c23 w23
  have w24 := Willing.of_frame (Touches.run (Q := fun _ => True)
    (Touches.vkdf_create _ _ trivial) h24) w23
  refine Prog.bind_returns h24 ?_
  dsimp only
  -- command buffers
  obtain ⟨c25, h25⟩ := vkdf_create_command_buffer_returns c23.next
    VK_COMMAND_BUFFER_LEVEL_PRIMARY 1 c24 w24
  have w25 := Willing.of_frame (Touches.run (Q := fun _ => True)
    (Touches.vkdf_create_command_buffer _ _ _ trivial) h25) w24
  obtain ⟨-, n25, -, s25⟩ := vkdf_create_command_buffer_inv _ _ _ _ _ _ h25
  refine Prog.bind_returns h25 ?_
  dsimp only
  have hoff : index (List.range' c24.next 1) 0 ctx.driver.unspecified = c24.next :=
    index_range' _ _ _ _ (by decide)
  simp only [hoff]
  have hc25 := s25 c24.next
  rw [if_pos (by omega)] at hc25
  refine recording_bind_returns _ _ _ _ _ (by exact offscreen_pass_commands_eq _) c25 w25 _
    hc25 rfl (fun _ _ => rfl) _ ?_
  intro c28 w28 n28
  dsimp only
  obtain ⟨c29, h29⟩ := vkdf_create_command_buffer_returns c23.next
    VK_COMMAND_BUFFER_LEVEL_PRIMARY ctx.swap_chain_length c28 w28
  have f29 := Touches.run (Q := fun _ => True)
    (Touches.vkdf_create_command_buffer _ _ _ trivial) h29
  have w29 := Willing.of_frame f29 w28
  obtain ⟨-, n29, -, s29⟩ := vkdf_create_command_buffer_inv _ _ _ _ _ _ h29
  refine Prog.bind_returns h29 ?_
  dsimp only
  refine Prog.bind_returns_unit
    (by
      refine onscreen_loop_returns _ _ (by rfl) _ _ c29 ?_ (index_range'_nodup _ _ _) ?_
      · intro i hi
        rw [List.length_range']
        exact List.mem_range.mp hi
      · intro i hi
        have hlt := List.mem_range.mp hi
        refine ⟨{ state := CommandBufferState.Initial, simultaneous_use := false,
                  pool := c23.next, commands := [] }, ?_, rfl⟩
        rw [s29, index_range' _ _ _ _ hlt, if_pos ⟨by omega, by omega⟩]) ?_
  intro c30 h30
  have w30 := Willing.of_frame (Touches.run (Q := fun _ => True)
    (Touches.forEach _ (fun _ => Touches.bind (Touches.vkdf_command_buffer_begin _ _ trivial)
      (fun _ => Touches.bind (Touches.SsboTriangle.onscreen_pass_commands _ _ trivial)
        (fun _ => Touches.vkdf_command_buffer_end _ trivial)))) h30) w29
  obtain ⟨c31, h31⟩ := vkdf_create_returns ObjectKind.Semaphore [] c30 w30
  refine Prog.bind_returns h31 ?_
  exact ⟨_, _, rfl⟩

end

section
open SsboTriangle

theorem ssboContext_willing : Willing ssboContext :=
  { createBuffer := fun _ _ _ => rfl
    requirements_size := fun _ size _ => Nat.le_add_right size 3
    requirements_type := fun _ _ _ =>
      (by decide : (select_memory_type ssboContext.phy_device_mem_props 6
        VK_MEMORY_PROPERTY_HOST_VISIBLE_BIT).isSome = true)
    allocateMemory := fun _ _ => rfl
    bindBufferMemory := fun _ _ _ => rfl
    mapMemory := fun _ _ _ => rfl
    flushMappedMemoryRanges := fun _ _ _ => rfl
    invalidateMappedMemoryRanges := fun _ _ _ => rfl
    queueSubmit := fun _ => rfl
    allocateCommandBuffers := fun _ _ => rfl
    create := fun _ _ => rfl
    imageRequirements_size := fun _ => Nat.le_refl _
    imageRequirements_host := fun _ =>
      (by decide : (select_memory_type ssboContext.phy_device_mem_props 7
        VK_MEMORY_PROPERTY_HOST_VISIBLE_BIT).isSome = true)
    imageRequirements_device := fun _ =>
      (by decide : (select_memory_type ssboContext.phy_device_mem_props 7
        VK_MEMORY_PROPERTY_DEVICE_LOCAL_BIT).isSome = true)
    bindImageMemory := fun _ _ _ => rfl
    createDescriptorPool := fun _ _ => rfl
    allocateDescriptorSets := fun _ _ => rfl }

theorem Call.isDescriptor_of_usesPool (c : Call) (h : c.usesPool = true) :
    c.isDescriptor = true := by
  cases c <;> first | rfl | cases h

theorem List.filter_of_filter {α : Type} (p q : α → Bool) (h : ∀ a, p a = true → q a = true)
    (l : List α) : (l.filter q).filter p = l.filter p := by
  rw [List.filter_filter]
  congr 1
  funext a
  cases hp : p a
  · simp
  · simp [h a hp]

/-- C17: `create_descriptor_set` makes exactly one call, an allocation of one set of the
given layout from the given pool; it ends in the fatal error exactly when that allocation
is rejected and returns the allocated set otherwise. A run of `init_resources` that
returns has created each of the two pools with capacity 1 and allocated exactly one set
from each, the two pools being different. -/
theorem create_descriptor_set_one_set_per_pool :
    (∀ (pool layout : Nat) (ctx : VkdfContext),
      (create_descriptor_set pool layout ctx).2.log = ctx.log ++
        [Call.vkAllocateDescriptorSets pool [layout] (allocateDescriptorSetsResult ctx pool 1)
          (if allocateDescriptorSetsResult ctx pool 1 = VK_SUCCESS then [ctx.next]
           else [])] ∧
      (create_descriptor_set pool layout ctx).1 =
        (if allocateDescriptorSetsResult ctx pool 1 = VK_SUCCESS then Outcome.ok ctx.next
         else Outcome.fatal (allocateDescriptorSetsResult ctx pool 1)) ∧
      (create_descriptor_set pool layout ctx).2.descriptor_sets ctx.next =
        (if allocateDescriptorSetsResult ctx pool 1 = VK_SUCCESS then
          some { pool := pool, layout := layout, writes := [] }
         else ctx.descriptor_sets ctx.next)) ∧
    (∀ (build : Build) (bits : Nat) (ctx ctx' : VkdfContext) (res : DemoResources),
      init_resources build bits ctx = (Outcome.ok res, ctx') →
      ctx'.log.filter Call.usesPool = ctx.log.filter Call.usesPool ++
        [Call.vkCreateDescriptorPool VK_DESCRIPTOR_TYPE_UNIFORM_BUFFER 1 VK_SUCCESS
           res.descriptor_pool_ubo,
         Call.vkCreateDescriptorPool VK_DESCRIPTOR_TYPE_STORAGE_BUFFER 1 VK_SUCCESS
           res.descriptor_pool_ssbo,
         Call.vkAllocateDescriptorSets res.descriptor_pool_ubo [res.set_layout_ubo]
           VK_SUCCESS [res.descriptor_set_ubo],
         Call.vkAllocateDescriptorSets res.descriptor_pool_ssbo [res.set_layout_ssbo]
           VK_SUCCESS [res.descriptor_set_ssbo]] ∧
      res.descriptor_pool_ubo ≠ res.descriptor_pool_ssbo) := by
  refine ⟨fun pool layout ctx => ?_, fun build bits ctx ctx' res h => ?_⟩
  · by_cases hr : allocateDescriptorSetsResult ctx pool 1 = VK_SUCCESS <;>
      simp [create_descriptor_set, bind, Prog.bind, getContext, vkdf_fatal,
        vkAllocateDescriptorSets, array, index, pure, Prog.pure, hr]
  · obtain ⟨hcalls, hpools, -⟩ := init_resources_descriptor_calls build bits ctx ctx' res h
    refine ⟨?_, hpools⟩
    have := congrArg (List.filter Call.usesPool) hcalls
    rw [List.filter_of_filter _ _ Call.isDescriptor_of_usesPool, List.filter_append,
      List.filter_of_filter _ _ Call.isDescriptor_of_usesPool] at this
    rw [this]
    rfl

theorem create_descriptor_set_one_set_per_pool_witness :
    ∃ res ctx', init_resources exampleBuild 32 ssboContext = (Outcome.ok res, ctx') ∧
      ctx'.log.filter Call.usesPool = ssboContext.log.filter Call.usesPool ++
        [Call.vkCreateDescriptorPool VK_DESCRIPTOR_TYPE_UNIFORM_BUFFER 1 VK_SUCCESS
           res.descriptor_pool_ubo,
         Call.vkCreateDescriptorPool VK_DESCRIPTOR_TYPE_STORAGE_BUFFER 1 VK_SUCCESS
           res.descriptor_pool_ssbo,
         Call.vkAllocateDescriptorSets res.descriptor_pool_ubo [res.set_layout_ubo]
           VK_SUCCESS [res.descriptor_set_ubo],
         Call.vkAllocateDescriptorSets res.descriptor_pool_ssbo [res.set_layout_ssbo]
           VK_SUCCESS [res.descriptor_set_ssbo]] ∧
      res.descriptor_pool_ubo ≠ res.descriptor_pool_ssbo := by
  obtain ⟨res, ctx', h⟩ :=
    init_resources_returns exampleBuild 32 (Or.inr rfl) ssboContext ssboContext_willing
  exact ⟨res, ctx', h, create_descriptor_set_one_set_per_pool.2 _ _ _ _ _ h⟩

/-- C20: a run of `init_resources` that returns has made exactly these calls on descriptor
pools, layouts and sets, in this order. For each of the two sets the creation of its
pool, the creation of its layout and its update were given the same descriptor type,
uniform buffer for the one and storage buffer for the other, and the two types differ;
each update names the binding of the layout its set was allocated with; the two sets are
different sets; and both updates follow both allocations. -/
theorem init_resources_descriptor_types (build : Build) (bits : Nat)
    (ctx ctx' : VkdfContext) (res : DemoResources)
    (h : init_resources build bits ctx = (Outcome.ok res, ctx')) :
    ctx'.log.filter Call.isDescriptor = ctx.log.filter Call.isDescriptor ++
      [Call.vkCreateDescriptorPool VK_DESCRIPTOR_TYPE_UNIFORM_BUFFER 1 VK_SUCCESS
         res.descriptor_pool_ubo,
       Call.vkCreateDescriptorPool VK_DESCRIPTOR_TYPE_STORAGE_BUFFER 1 VK_SUCCESS
         res.descriptor_pool_ssbo,
       Call.create ObjectKind.DescriptorSetLayout
         [UBO_BINDING, 1, VK_SHADER_STAGE_VERTEX_BIT, VK_DESCRIPTOR_TYPE_UNIFORM_BUFFER]
         VK_SUCCESS res.set_layout_ubo,
       Call.vkAllocateDescriptorSets res.descriptor_pool_ubo [res.set_layout_ubo] VK_SUCCESS
         [res.descriptor_set_ubo],
       Call.create ObjectKind.DescriptorSetLayout
         [SSBO_BINDING, 1, VK_SHADER_STAGE_FRAGMENT_BIT, VK_DESCRIPTOR_TYPE_STORAGE_BUFFER]
         VK_SUCCESS res.set_layout_ssbo,
       Call.vkAllocateDescriptorSets res.descriptor_pool_ssbo [res.set_layout_ssbo] VK_SUCCESS
         [res.descriptor_set_ssbo],
       Call.vkdf_descriptor_set_buffer_update res.descriptor_set_ubo res.ubo.buf UBO_BINDING 1
         [0] [64] VK_DESCRIPTOR_TYPE_UNIFORM_BUFFER,
       Call.vkdf_descriptor_set_buffer_update res.descriptor_set_ssbo res.ssbo.buf
         SSBO_BINDING 1 [0] [res.ssbo_size] VK_DESCRIPTOR_TYPE_STORAGE_BUFFER] ∧
    res.descriptor_pool_ubo ≠ res.descriptor_pool_ssbo ∧
    res.descriptor_set_ubo ≠ res.descriptor_set_ssbo ∧
    VK_DESCRIPTOR_TYPE_UNIFORM_BUFFER ≠ VK_DESCRIPTOR_TYPE_STORAGE_BUFFER := by
  obtain ⟨hcalls, hpools, hsets⟩ := init_resources_descriptor_calls build bits ctx ctx' res h
  exact ⟨hcalls, hpools, hsets, by decide⟩

theorem init_resources_descriptor_types_witness :
    ∃ res ctx', init_resources exampleBuild 32 ssboContext = (Outcome.ok res, ctx') ∧
      ctx'.log.filter Call.isDescriptor =
        [Call.vkCreateDescriptorPool VK_DESCRIPTOR_TYPE_UNIFORM_BUFFER 1 VK_SUCCESS
           res.descriptor_pool_ubo,
         Call.vkCreateDescriptorPool VK_DESCRIPTOR_TYPE_STORAGE_BUFFER 1 VK_SUCCESS
           res.descriptor_pool_ssbo,
         Call.create ObjectKind.DescriptorSetLayout
           [UBO_BINDING, 1, VK_SHADER_STAGE_VERTEX_BIT, VK_DESCRIPTOR_TYPE_UNIFORM_BUFFER]
           VK_SUCCESS res.set_layout_ubo,
         Call.vkAllocateDescriptorSets res.descriptor_pool_ubo [res.set_layout_ubo]
           VK_SUCCESS [res.descriptor_set_ubo],
         Call.create ObjectKind.DescriptorSetLayout
           [SSBO_BINDING, 1, VK_SHADER_STAGE_FRAGMENT_BIT, VK_DESCRIPTOR_TYPE_STORAGE_BUFFER]
           VK_SUCCESS res.set_layout_ssbo,
         Call.vkAllocateDescriptorSets res.descriptor_pool_ssbo [res.set_layout_ssbo]
           VK_SUCCESS [res.descriptor_set_ssbo],
         Call.vkdf_descriptor_set_buffer_update res.descriptor_set_ubo res.ubo.buf
           UBO_BINDING 1 [0] [64] VK_DESCRIPTOR_TYPE_UNIFORM_BUFFER,
         Call.vkdf_descriptor_set_buffer_update res.descriptor_set_ssbo res.ssbo.buf
           SSBO_BINDING 1 [0] [res.ssbo_size] VK_DESCRIPTOR_TYPE_STORAGE_BUFFER] := by
  obtain ⟨res, ctx', h⟩ :=
    init_resources_returns exampleBuild 32 (Or.inr rfl) ssboContext ssboContext_willing
  exact ⟨res, ctx', h, (init_resources_descriptor_types _ _ _ _ _ h).1⟩

end

section
open SsboTriangle

theorem record_filter_log (p : Call → Bool) (cmd_buf : Nat) (command : Command)
    (hp : p (Call.record cmd_buf command) = false) (ctx : VkdfContext) :
    (record cmd_buf command ctx).2.log.filter p = ctx.log.filter p := by
  cases hc : ctx.cmd_bufs cmd_buf with
  | none =>
    simp [record, bind, Prog.bind, commandBufferState, invalidArgument, hc]
  | some c =>
    by_cases hs : c.state = CommandBufferState.Recording <;>
      simp [record, bind, Prog.bind, commandBufferState, invalidArgument,
        appendCommand, pure, Prog.pure, hc, hs, List.filter_append, hp]

theorem forEach_record_filter_log (p : Call → Bool) (cmd_buf : Nat) (commands : List Command)
    (hp : ∀ command ∈ commands, p (Call.record cmd_buf command) = false) :
    ∀ ctx : VkdfContext,
      (forEach commands (record cmd_buf) ctx).2.log.filter p = ctx.log.filter p := by
  induction commands with
  | nil => exact fun _ => rfl
  | cons command commands ih =>
    intro ctx
    have h1 := record_filter_log p cmd_buf command (hp _ (List.mem_cons_self _ _)) ctx
    have h2 := ih (fun c hc => hp c (List.mem_cons_of_mem _ hc))
    rw [forEach]
    unfold Prog.bind
    rcases h : record cmd_buf command ctx with ⟨o, c1⟩
    rw [h] at h1
    cases o with
    | ok a => exact (h2 c1).trans h1
    | assertion => exact h1
    | fatal r => exact h1
    | invalidArgument => exact h1
    | undefined => exact h1

/-- C15: no frame of the ssbo-triangle demo waits for the device: whatever the frame,
`scene_render` makes no `vkDeviceWaitIdle` call, also not the first frame, in which
`check_outcome` maps and reads the SSBO and the colour image right after the submission;
and `offscreen_pass_commands`, which records the submitted command buffer, records no
barrier. -/
theorem ssbo_triangle_readback_without_precursor (build : Build) (res : DemoResources)
    (count : Nat) (ctx : VkdfContext) :
    (scene_render build res count ctx).2.log.filter Call.isWait = ctx.log.filter Call.isWait ∧
    (offscreen_pass_commands res ctx).2.log.filter Call.recordsBarrier =
      ctx.log.filter Call.recordsBarrier := by
  constructor
  · exact ((Touches.SsboTriangle.scene_render (Q := fun s => s ≠ Subject.wait) build res count
      (by simp) (by simp) (by simp)).frame ctx).filter_log Call.isWait
      (fun c hc => by simpa [Call.isWait] using hc)
  · rw [offscreen_pass_commands_eq]
    exact forEach_record_filter_log Call.recordsBarrier res.offscreen_cmd_buf _
      (fun command hc => by
        simp only [pass_commands, List.mem_cons, List.mem_singleton, List.not_mem_nil,
          or_false] at hc
        rcases hc with rfl | rfl | rfl | rfl | rfl | rfl | rfl | rfl <;> rfl) ctx

end

section
open SsboTriangle

theorem vkdf_command_buffer_execute_ready (cmd_buf : Nat) (stages wait signal : List Nat)
    (ctx : VkdfContext) (hr : Ready ctx cmd_buf) (hl : wait.length = stages.length) :
    (vkdf_command_buffer_execute cmd_buf stages wait signal ctx).1 =
      (if ctx.driver.queueSubmit cmd_buf = VK_SUCCESS then Outcome.ok ()
       else Outcome.fatal (ctx.driver.queueSubmit cmd_buf)) ∧
    (ctx.driver.queueSubmit cmd_buf = VK_SUCCESS →
      ((vkdf_command_buffer_execute cmd_buf stages wait signal ctx).2.cmd_bufs cmd_buf).map
          (fun c => c.state) = some CommandBufferState.Pending ∧
      Ready (deviceFinishes (vkdf_command_buffer_execute cmd_buf stages wait signal ctx).2).2
        cmd_buf) := by
  obtain ⟨c, hc, hs, hu⟩ := hr
  by_cases hq : ctx.driver.queueSubmit cmd_buf = VK_SUCCESS
  · refine ⟨?_, fun _ => ⟨?_, ⟨{ c with state := CommandBufferState.Executable }, ?_, rfl, hu⟩⟩⟩ <;>
      simp [vkdf_command_buffer_execute, bind, Prog.bind, commandBufferState,
        invalidArgument, Prog.pure, pure, VK_CHECK, vkQueueSubmit, deviceFinishes,
        CommandBuffer.complete, hl, hc, hs, hq, hu]
  · refine ⟨?_, fun h => absurd h hq⟩
    simp [vkdf_command_buffer_execute, bind, Prog.bind, commandBufferState,
      invalidArgument, Prog.pure, pure, VK_CHECK, vkQueueSubmit, hl, hc, hs, hq]

end

section
open SsboTriangle

theorem vkdf_command_buffer_execute_eq_ok (cmd_buf : Nat) (stages wait signal : List Nat)
    (ctx ctx' : VkdfContext) (u : Unit)
    (h : vkdf_command_buffer_execute cmd_buf stages wait signal ctx = (Outcome.ok u, ctx')) :
    wait.length = stages.length ∧
    (ctx.cmd_bufs cmd_buf).map (fun c => c.state) = some CommandBufferState.Executable ∧
    ctx' = (vkQueueSubmit cmd_buf wait stages signal ctx).2 ∧
    ctx.driver.queueSubmit cmd_buf = VK_SUCCESS := by
  by_cases hl : wait.length = stages.length
  · by_cases hs : (ctx.cmd_bufs cmd_buf).map (fun c => c.state) =
        some CommandBufferState.Executable
    · by_cases hq : ctx.driver.queueSubmit cmd_buf = VK_SUCCESS
      · simp [vkdf_command_buffer_execute, bind, Prog.bind, commandBufferState,
          invalidArgument, Prog.pure, pure, VK_CHECK, vkQueueSubmit, hl, hs, hq] at h
        simp [vkQueueSubmit, hl, hs, hq, h]
      · simp [vkdf_command_buffer_execute, bind, Prog.bind, commandBufferState,
          invalidArgument, Prog.pure, pure, VK_CHECK, vkQueueSubmit, hl, hs, hq] at h
    · simp [vkdf_command_buffer_execute, bind, Prog.bind, commandBufferState,
        invalidArgument, Prog.pure, pure, VK_CHECK, vkQueueSubmit, hl, hs] at h
  · simp [vkdf_command_buffer_execute, bind, Prog.bind, commandBufferState,
      invalidArgument, Prog.pure, pure, VK_CHECK, vkQueueSubmit, hl] at h

theorem forEach_logs {α : Type} (P : Call → Prop) (xs : List α) (body : α → Prog Unit)
    (hb : ∀ x ctx, ∃ calls ctx', body x ctx = (Outcome.ok (), ctx') ∧
      ctx'.log = ctx.log ++ calls ∧ ∀ c ∈ calls, P c) :
    ∀ ctx, ∃ calls ctx', forEach xs body ctx = (Outcome.ok (), ctx') ∧
      ctx'.log = ctx.log ++ calls ∧ ∀ c ∈ calls, P c := by
  induction xs with
  | nil => exact fun ctx => ⟨[], ctx, rfl, by simp, by simp⟩
  | cons x xs ih =>
    intro ctx
    obtain ⟨calls1, c1, h1, l1, p1⟩ := hb x ctx
    obtain ⟨calls2, c2, h2, l2, p2⟩ := ih c1
    refine ⟨calls1 ++ calls2, c2, ?_, by rw [l2, l1, List.append_assoc], fun c hc => ?_⟩
    · rw [forEach]
      exact (Prog.bind_eq_ok _ _ _ _ _).mpr ⟨(), c1, h1, h2⟩
    · rcases List.mem_append.mp hc with hc | hc
      · exact p1 c hc
      · exact p2 c hc

theorem bind_logs (P : Call → Prop) (m : Prog Unit) (f : Unit → Prog Unit)
    (hm : ∀ ctx, ∃ calls ctx', m ctx = (Outcome.ok (), ctx') ∧
      ctx'.log = ctx.log ++ calls ∧ ∀ c ∈ calls, P c)
    (hf : ∀ ctx, ∃ calls ctx', f () ctx = (Outcome.ok (), ctx') ∧
      ctx'.log = ctx.log ++ calls ∧ ∀ c ∈ calls, P c) :
    ∀ ctx, ∃ calls ctx', (m >>= f) ctx = (Outcome.ok (), ctx') ∧
      ctx'.log = ctx.log ++ calls ∧ ∀ c ∈ calls, P c := by
  intro ctx
  obtain ⟨calls1, c1, h1, l1, p1⟩ := hm ctx
  obtain ⟨calls2, c2, h2, l2, p2⟩ := hf c1
  refine ⟨calls1 ++ calls2, c2, (Prog.bind_eq_ok _ _ _ _ _).mpr ⟨(), c1, h1, h2⟩,
    by rw [l2, l1, List.append_assoc], fun c hc => ?_⟩
  rcases List.mem_append.mp hc with hc | hc
  · exact p1 c hc
  · exact p2 c hc

theorem fwrite_mapped_logs (mem offset size : Nat) (ctx : VkdfContext) :
    ∃ calls ctx', fwrite_mapped mem offset size ctx = (Outcome.ok (), ctx') ∧
      ctx'.log = ctx.log ++ calls ∧ ∀ c ∈ calls, c.readsMapped mem = true :=
  ⟨[Call.fwrite (some (mem, offset))
      ((List.range size).map (fun i =>
        match ctx.memory mem with
        | some m => m.read ctx.driver.unspecified (offset + i)
        | none => ctx.driver.unspecified (offset + i)))], _, rfl, rfl, by
    simp [Call.readsMapped]⟩

theorem SmallClear.pixel_logs (mem : Nat) (i j : Nat) (ctx : VkdfContext) :
    ∃ reads ctx',
        (do
          fwrite_mapped mem ((i * SmallClear.WIDTH + j) * 4 + 2) 1
          fwrite_mapped mem ((i * SmallClear.WIDTH + j) * 4 + 1) 1
          fwrite_mapped mem ((i * SmallClear.WIDTH + j) * 4 + 0) 1 : Prog Unit) ctx =
        (Outcome.ok (), ctx') ∧
      ctx'.log = ctx.log ++ reads ∧ ∀ c ∈ reads, c.readsMapped mem = true :=
    bind_logs _ _ _ (fwrite_mapped_logs _ _ _)
      (bind_logs _ _ _ (fwrite_mapped_logs _ _ _) (fwrite_mapped_logs _ _ _)) ctx

theorem SmallClear.row_logs (mem : Nat) (i : Nat) (ctx : VkdfContext) :
    ∃ reads ctx',
        forEach (List.range SmallClear.HEIGHT) (fun j => do
          fwrite_mapped mem ((i * SmallClear.WIDTH + j) * 4 + 2) 1
          fwrite_mapped mem ((i * SmallClear.WIDTH + j) * 4 + 1) 1
          fwrite_mapped mem ((i * SmallClear.WIDTH + j) * 4 + 0) 1) ctx =
        (Outcome.ok (), ctx') ∧
      ctx'.log = ctx.log ++ reads ∧ ∀ c ∈ reads, c.readsMapped mem = true :=
  forEach_logs _ _ _ (fun j c => SmallClear.pixel_logs mem i j c) ctx

theorem SmallClear.pixel_loop_logs (mem : Nat) (ctx : VkdfContext) :
    ∃ reads ctx',
      forEach (List.range SmallClear.WIDTH) (fun i =>
        forEach (List.range SmallClear.HEIGHT) (fun j => do
          fwrite_mapped mem ((i * SmallClear.WIDTH + j) * 4 + 2) 1
          fwrite_mapped mem ((i * SmallClear.WIDTH + j) * 4 + 1) 1
          fwrite_mapped mem ((i * SmallClear.WIDTH + j) * 4 + 0) 1)) ctx =
        (Outcome.ok (), ctx') ∧
      ctx'.log = ctx.log ++ reads ∧ ∀ c ∈ reads, c.readsMapped mem = true :=
  forEach_logs _ _ _ (fun i c => SmallClear.row_logs mem i c) ctx

theorem vkdf_command_buffer_execute_log (cmd_buf : Nat) (stages wait signal : List Nat)
    (ctx ctx' : VkdfContext) (u : Unit)
    (h : vkdf_command_buffer_execute cmd_buf stages wait signal ctx = (Outcome.ok u, ctx')) :
    ctx'.log = ctx.log ++ [Call.vkQueueSubmit cmd_buf wait stages signal VK_SUCCESS] := by
  obtain ⟨-, -, rfl, hq⟩ := vkdf_command_buffer_execute_eq_ok _ _ _ _ _ _ _ h
  simp [vkQueueSubmit, hq]

/-- C16: a call of `scene_render` of small-clear that returns has made exactly these
calls, in this order: the submission of the command buffer, `vkDeviceWaitIdle`, the map
of the 65536 bytes of the colour buffer, the invalidate of the range `[0, 65536)`,
`fopen`, the `fwrite` of the header, `fwrite`s of bytes of the mapped buffer and nothing
else, `fclose` and the unmap. -/
theorem small_clear_scene_render_order (res : SmallClear.DemoResources)
    (ctx ctx' : VkdfContext) (h : SmallClear.scene_render res ctx = (Outcome.ok (), ctx')) :
    ∃ waited invalidated reads,
      ctx'.log = ctx.log ++
        [Call.vkQueueSubmit res.cmd_buf [] [] [] VK_SUCCESS,
         Call.vkDeviceWaitIdle waited,
         Call.vkdf_memory_map res.color_buffer.mem 0 65536 VK_SUCCESS,
         Call.vkInvalidateMappedMemoryRanges res.color_buffer.mem 0 65536 invalidated,
         Call.fopen,
         Call.fwrite none SmallClear.TGAhead] ++ reads ++
        [Call.fclose,
         Call.vkdf_memory_unmap res.color_buffer.mem res.color_buffer.mem_props 0 65536] ∧
      ∀ c ∈ reads, c.readsMapped res.color_buffer.mem = true := by
  simp only [SmallClear.scene_render, SmallClear.write_pixels_to_file, Prog.bind_eq_ok] at h
  obtain ⟨_, c1, h1, _, c2, h2, _, c3, h3, _, c4, h4, _, c5, h5, _, c6, h6, _, c7, h7, _, c8,
    h8, h9⟩ := h
  have l1 := vkdf_command_buffer_execute_log _ _ _ _ _ _ _ h1
  have l2 : c2.log = c1.log ++ [Call.vkDeviceWaitIdle c1.driver.deviceWaitIdle] := by
    simp only [vkDeviceWaitIdle, Prod.mk.injEq, Outcome.ok.injEq] at h2
    rw [← h2.2]
  have l3 : c3.log = c2.log ++
      [Call.vkdf_memory_map res.color_buffer.mem 0 (SmallClear.WIDTH * SmallClear.HEIGHT * 4 * 1)
        VK_SUCCESS] := by
    simp only [vkdf_memory_map, VK_CHECK_eq_ok, Prod.mk.injEq, Outcome.ok.injEq] at h3
    rw [← h3.2, ← h3.1.1]
  have l4 : c4.log = c3.log ++
      [Call.vkInvalidateMappedMemoryRanges res.color_buffer.mem 0
        (SmallClear.WIDTH * SmallClear.HEIGHT * 4 * 1)
        (c3.driver.invalidateMappedMemoryRanges res.color_buffer.mem 0
          (SmallClear.WIDTH * SmallClear.HEIGHT * 4 * 1))] := by
    simp only [vkInvalidateMappedMemoryRanges, Prod.mk.injEq, Outcome.ok.injEq] at h4
    rw [← h4.2]
  have l5 : c5.log = c4.log ++ [Call.fopen] := by
    simp only [fopen, Prod.mk.injEq, Outcome.ok.injEq] at h5
    rw [← h5.2]
  have l6 : c6.log = c5.log ++ [Call.fwrite none SmallClear.TGAhead] := by
    simp only [fwrite, Prod.mk.injEq, Outcome.ok.injEq] at h6
    rw [← h6.2]
  obtain ⟨reads, c7', h7', l7, hreads⟩ := SmallClear.pixel_loop_logs res.color_buffer.mem c6
  rw [h7'] at h7
  simp only [Prod.mk.injEq, Outcome.ok.injEq, true_and] at h7
  subst h7
  have l8 : c8.log = c7'.log ++ [Call.fclose] := by
    simp only [fclose, Prod.mk.injEq, Outcome.ok.injEq] at h8
    rw [← h8.2]
  have l9 : ctx'.log = c8.log ++
      [Call.vkdf_memory_unmap res.color_buffer.mem res.color_buffer.mem_props 0
        (SmallClear.WIDTH * SmallClear.HEIGHT * 4 * 1)] := by
    simp only [vkdf_memory_unmap, Prod.mk.injEq, Outcome.ok.injEq] at h9
    rw [← h9.2]
  refine ⟨c1.driver.deviceWaitIdle, c3.driver.invalidateMappedMemoryRanges res.color_buffer.mem 0
    (SmallClear.WIDTH * SmallClear.HEIGHT * 4 * 1), reads, ?_, hreads⟩
  rw [l9, l8, l7, l6, l5, l4, l3, l2, l1]
  simp only [List.append_assoc, List.cons_append, List.nil_append, array, NULL, List.take]
  rfl

end

section
open SsboTriangle

theorem SmallClear.scene_render_returns (res : SmallClear.DemoResources) (ctx : VkdfContext)
    (hr : Ready ctx res.cmd_buf) (hq : ctx.driver.queueSubmit res.cmd_buf = VK_SUCCESS)
    (hm : (ctx.memory res.color_buffer.mem).isSome = true)
    (hmap : ∀ size, ctx.driver.mapMemory res.color_buffer.mem 0 size = VK_SUCCESS) :
    ∃ ctx', SmallClear.scene_render res ctx = (Outcome.ok (), ctx') := by
  have key : ∃ (u : Unit) (ctx' : VkdfContext),
      SmallClear.scene_render res ctx = (Outcome.ok u, ctx') := by
    unfold SmallClear.scene_render SmallClear.write_pixels_to_file
    obtain ⟨c1, h1⟩ : ∃ c1, vkdf_command_buffer_execute res.cmd_buf
        (array 0 [VK_PIPELINE_STAGE_COLOR_ATTACHMENT_OUTPUT_BIT]) (array 0 NULL) (array 0 NULL)
        ctx = (Outcome.ok (), c1) :=
      ⟨_, Prog.returns_of_fst ((vkdf_command_buffer_execute_ready res.cmd_buf
        (array 0 [VK_PIPELINE_STAGE_COLOR_ATTACHMENT_OUTPUT_BIT]) (array 0 NULL) (array 0 NULL)
        ctx hr rfl).1.trans (if_pos hq))⟩
    have f1 := Touches.run (Q := fun s => s = Subject.queue)
      (Touches.vkdf_command_buffer_execute _ _ _ _ rfl) h1
    refine Prog.bind_returns h1 ?_
    obtain ⟨waited, c2, h2⟩ : ∃ waited c2, vkDeviceWaitIdle c1 = (Outcome.ok waited, c2) :=
      ⟨_, _, rfl⟩
    have f2 := Touches.run (Q := fun s => s = Subject.wait) (Touches.vkDeviceWaitIdle rfl) h2
    refine Prog.bind_returns h2 ?_
    have hm2 := (f2.memory (by simp) (by simp)).trans (f1.memory (by simp) (by simp))
    have hd2 := f2.driver.trans f1.driver
    obtain ⟨m, hm⟩ := Option.isSome_iff_exists.mp hm
    obtain ⟨c3, h3⟩ : ∃ c3, vkdf_memory_map res.color_buffer.mem 0
        (SmallClear.WIDTH * SmallClear.HEIGHT * 4 * 1) c2 = (Outcome.ok (), c3) := by
      refine ⟨_, Prod.ext ?_ rfl⟩
      simp only [vkdf_memory_map, VK_CHECK, mapResult, hm2, hd2, hm, hmap]
      rfl
    refine Prog.bind_returns h3 ?_
    obtain ⟨invalidated, c4, h4⟩ : ∃ invalidated c4,
        vkInvalidateMappedMemoryRanges res.color_buffer.mem 0
          (SmallClear.WIDTH * SmallClear.HEIGHT * 4 * 1) c3 = (Outcome.ok invalidated, c4) :=
      ⟨_, _, rfl⟩
    refine Prog.bind_returns h4 ?_
    obtain ⟨c5, h5⟩ : ∃ c5, fopen c4 = (Outcome.ok (), c5) := ⟨_, rfl⟩
    refine Prog.bind_returns h5 ?_
    obtain ⟨c6, h6⟩ : ∃ c6, fwrite SmallClear.TGAhead c5 = (Outcome.ok (), c6) := ⟨_, rfl⟩
    refine Prog.bind_returns h6 ?_
    obtain ⟨_, c7, h7, -, -⟩ := SmallClear.pixel_loop_logs res.color_buffer.mem c6
    refine Prog.bind_returns h7 ?_
    obtain ⟨c8, h8⟩ : ∃ c8, fclose c7 = (Outcome.ok (), c8) := ⟨_, rfl⟩
    refine Prog.bind_returns h8 ?_
    exact ⟨_, _, rfl⟩
  obtain ⟨_, ctx', h⟩ := key
  exact ⟨ctx', h⟩

theorem small_clear_scene_render_order_witness :
    ∃ ctx',
      SmallClear.scene_render { exampleResources with cmd_buf := 5 }
        (exampleContext acceptingDriver) = (Outcome.ok (), ctx') ∧
      ∃ waited invalidated reads,
        ctx'.log =
          [Call.vkQueueSubmit 5 [] [] [] VK_SUCCESS, Call.vkDeviceWaitIdle waited,
           Call.vkdf_memory_map 2 0 65536 VK_SUCCESS,
           Call.vkInvalidateMappedMemoryRanges 2 0 65536 invalidated, Call.fopen,
           Call.fwrite none SmallClear.TGAhead] ++ reads ++
          [Call.fclose,
           Call.vkdf_memory_unmap 2 VK_MEMORY_PROPERTY_HOST_VISIBLE_BIT 0 65536] ∧
        ∀ c ∈ reads, c.readsMapped 2 = true := by
  obtain ⟨ctx', h⟩ := SmallClear.scene_render_returns { exampleResources with cmd_buf := 5 }
    (exampleContext acceptingDriver) ⟨_, rfl, rfl, rfl⟩ rfl rfl (fun _ => rfl)
  exact ⟨ctx', h, small_clear_scene_render_order _ _ _ h⟩

end

section
open SsboTriangle

theorem vkdf_create_buffer_inv (ndebug : Bool) (uninit flags size usage mem_props : Nat)
    (buffer : VkdfBuffer) (ctx ctx' : VkdfContext)
    (h : vkdf_create_buffer ndebug uninit flags size usage mem_props ctx =
      (Outcome.ok buffer, ctx')) :
    buffer.buf = ctx.next ∧ buffer.mem = ctx.next + 1 ∧ ctx'.next = ctx.next + 2 ∧
    (∀ b, (ctx'.buffers b).isSome = true → b = ctx.next ∨ (ctx.buffers b).isSome = true) ∧
    (∀ m, (ctx'.memory m).isSome = true → m = ctx.next + 1 ∨ (ctx.memory m).isSome = true) ∧
    (ctx'.buffers ctx.next).isSome = true ∧ (ctx'.memory (ctx.next + 1)).isSome = true := by
  have key : ∀ index,
      (ndebug = true ∧ index = uninit ∨
        ndebug = false ∧ select_memory_type ctx.phy_device_mem_props
          (ctx.driver.requirements flags size usage).memoryTypeBits mem_props = some index) →
      buffer.buf = ctx.next ∧ buffer.mem = ctx.next + 1 ∧ ctx'.next = ctx.next + 2 ∧
      (∀ b, (ctx'.buffers b).isSome = true → b = ctx.next ∨ (ctx.buffers b).isSome = true) ∧
      (∀ m, (ctx'.memory m).isSome = true →
        m = ctx.next + 1 ∨ (ctx.memory m).isSome = true) ∧
      (ctx'.buffers ctx.next).isSome = true ∧ (ctx'.memory (ctx.next + 1)).isSome = true := by
    intro index hindex
    by_cases h1 : ctx.driver.createBuffer flags size usage = VK_SUCCESS
    · by_cases h2 : ctx.driver.allocateMemory (ctx.driver.requirements flags size usage).size
          index = VK_SUCCESS
      · by_cases h3 : ctx.driver.bindBufferMemory ctx.next (ctx.next + 1) 0 = VK_SUCCESS
        · rcases hindex with ⟨hn, hi⟩ | ⟨hn, hsel⟩
          · subst hn hi
            simp [vkdf_create_buffer, bind, Prog.bind, VK_CHECK, assertCall, vkCreateBuffer,
              vkGetBufferMemoryRequirements, vkdf_memory_type_from_properties,
              vkAllocateMemory, vkBindBufferMemory, Prog.pure, abort, pure, h1, h2,
              h3] at h
            obtain ⟨rfl, rfl⟩ := h
            refine ⟨rfl, rfl, rfl, fun b hb => ?_, fun m hm => ?_, ?_, ?_⟩
            · by_cases hb' : b = ctx.next <;> simp_all [Function.update]
            · by_cases hm' : m = ctx.next + 1 <;> simp_all [Function.update]
            · simp [Function.update]
            · simp [Function.update]
          · subst hn
            simp [vkdf_create_buffer, bind, Prog.bind, VK_CHECK, assertCall, vkCreateBuffer,
              vkGetBufferMemoryRequirements, vkdf_memory_type_from_properties,
              vkAllocateMemory, vkBindBufferMemory, Prog.pure, abort, pure, h1, h2,
              h3, hsel] at h
            obtain ⟨rfl, rfl⟩ := h
            refine ⟨rfl, rfl, rfl, fun b hb => ?_, fun m hm => ?_, ?_, ?_⟩
            · by_cases hb' : b = ctx.next <;> simp_all [Function.update]
            · by_cases hm' : m = ctx.next + 1 <;> simp_all [Function.update]
            · simp [Function.update]
            · simp [Function.update]
        · rcases hindex with ⟨hn, hi⟩ | ⟨hn, hsel⟩
          · subst hn hi
            simp [vkdf_create_buffer, bind, Prog.bind, VK_CHECK, assertCall, vkCreateBuffer,
              vkGetBufferMemoryRequirements, vkdf_memory_type_from_properties,
              vkAllocateMemory, vkBindBufferMemory, Prog.pure, abort, pure, h1, h2,
              h3] at h
          · subst hn
            simp [vkdf_create_buffer, bind, Prog.bind, VK_CHECK, assertCall, vkCreateBuffer,
              vkGetBufferMemoryRequirements, vkdf_memory_type_from_properties,
              vkAllocateMemory, vkBindBufferMemory, Prog.pure, abort, pure, h1, h2,
              h3, hsel] at h
      · rcases hindex with ⟨hn, hi⟩ | ⟨hn, hsel⟩
        · subst hn hi
          simp [vkdf_create_buffer, bind, Prog.bind, VK_CHECK, assertCall, vkCreateBuffer,
            vkGetBufferMemoryRequirements, vkdf_memory_type_from_properties,
            vkAllocateMemory, vkBindBufferMemory, Prog.pure, abort, pure, h1, h2] at h
        · subst hn
          simp [vkdf_create_buffer, bind, Prog.bind, VK_CHECK, assertCall, vkCreateBuffer,
            vkGetBufferMemoryRequirements, vkdf_memory_type_from_properties,
            vkAllocateMemory, vkBindBufferMemory, Prog.pure, abort, pure, h1, h2, hsel] at h
    · simp [vkdf_create_buffer, bind, Prog.bind, VK_CHECK, assertCall, vkCreateBuffer,
        vkGetBufferMemoryRequirements, vkdf_memory_type_from_properties, vkAllocateMemory,
        vkBindBufferMemory, Prog.pure, abort, pure, h1] at h
  cases hn : ndebug with
  | true => exact key uninit (Or.inl ⟨hn, rfl⟩)
  | false =>
    cases hsel : select_memory_type ctx.phy_device_mem_props
        (ctx.driver.requirements flags size usage).memoryTypeBits mem_props with
    | some index => exact key index (Or.inr ⟨hn, hsel⟩)
    | none =>
      subst hn
      by_cases h1 : ctx.driver.createBuffer flags size usage = VK_SUCCESS <;>
        simp [vkdf_create_buffer, bind, Prog.bind, VK_CHECK, assertCall, vkCreateBuffer,
          vkGetBufferMemoryRequirements, vkdf_memory_type_from_properties, vkAllocateMemory,
          vkBindBufferMemory, Prog.pure, abort, pure, h1, hsel] at h

theorem assertCall_select_inv (ndebug : Bool) (allowed required uninit index : Nat)
    (ctx ctx' : VkdfContext)
    (h : assertCall ndebug (vkdf_memory_type_from_properties allowed required uninit) uninit
      ctx = (Outcome.ok index, ctx')) :
    ctx'.memory = ctx.memory ∧ ctx'.buffers = ctx.buffers ∧ ctx'.next = ctx.next := by
  cases ndebug
  · cases hsel : select_memory_type ctx.phy_device_mem_props allowed required <;>
      simp [assertCall, bind, Prog.bind, vkdf_memory_type_from_properties, Prog.pure, abort,
        pure, hsel] at h
    obtain ⟨-, rfl⟩ := h
    exact ⟨rfl, rfl, rfl⟩
  · simp [assertCall, Prog.pure, pure] at h
    obtain ⟨-, rfl⟩ := h
    exact ⟨rfl, rfl, rfl⟩

theorem vkAllocateMemory_inv (size index mem : Nat) (ctx ctx' : VkdfContext)
    (h : VK_CHECK (vkAllocateMemory size index) ctx = (Outcome.ok mem, ctx')) :
    mem = ctx.next ∧ ctx'.next = ctx.next + 1 ∧ ctx'.buffers = ctx.buffers ∧
    (∀ m, (ctx'.memory m).isSome = true → m = ctx.next ∨ (ctx.memory m).isSome = true) ∧
    (ctx'.memory ctx.next).isSome = true := by
  by_cases hr : ctx.driver.allocateMemory size index = VK_SUCCESS <;>
    simp [VK_CHECK, vkAllocateMemory, hr] at h
  obtain ⟨rfl, rfl⟩ := h
  refine ⟨rfl, rfl, rfl, fun m hm => ?_, by simp [Function.update]⟩
  by_cases hm' : m = ctx.next <;> simp_all [Function.update]

theorem vkdf_create_image_detailed_inv (ndebug : Bool) (uninit width height num_levels
    image_type format format_flags usage mem_props aspect_flags image_view_type
    initial_layout : Nat) (image : VkdfImage) (ctx ctx' : VkdfContext)
    (h : vkdf_create_image_detailed ndebug uninit width height num_levels image_type format
      format_flags usage mem_props aspect_flags image_view_type initial_layout ctx =
      (Outcome.ok image, ctx')) :
    ctx.next ≤ image.mem ∧ image.mem < ctx'.next ∧ ctx'.buffers = ctx.buffers ∧
    (∀ m, (ctx'.memory m).isSome = true → m = image.mem ∨ (ctx.memory m).isSome = true) ∧
    (ctx'.memory image.mem).isSome = true := by
  simp only [vkdf_create_image_detailed, Prog.bind_eq_ok, Prog.pure_eq_ok] at h
  obtain ⟨handle, c1, h1, h⟩ := h
  obtain ⟨mem_reqs, c2, h2, h⟩ := h
  obtain ⟨index, c3, h3, h⟩ := h
  obtain ⟨mem, c4, h4, h⟩ := h
  obtain ⟨_, c5, h5, h⟩ := h
  obtain ⟨view, c6, h6, rfl, rfl⟩ := h
  have f1 := Touches.run (Q := fun s => s ≠ Subject.buffer ∧ s ≠ Subject.allocation)
    (Touches.VK_CHECK (Touches.createObject _ _ (by simp))) h1
  have f2 := Touches.run (Q := fun s => s ≠ Subject.buffer ∧ s ≠ Subject.allocation)
    (Touches.vkGetImageMemoryRequirements _ (by simp)) h2
  obtain ⟨m3, b3, n3⟩ := assertCall_select_inv _ _ _ _ _ _ _ h3
  obtain ⟨rfl, n4, b4, m4, s4⟩ := vkAllocateMemory_inv _ _ _ _ _ h4
  have f5 := Touches.run (Q := fun s => s ≠ Subject.buffer ∧ s ≠ Subject.allocation)
    (Touches.VK_CHECK (Touches.vkBindImageMemory _ _ _ (by simp))) h5
  have f6 := Touches.run (Q := fun s => s ≠ Subject.buffer ∧ s ≠ Subject.allocation)
    (Touches.VK_CHECK (Touches.createObject _ _ (by simp))) h6
  have f12 := f1.trans f2
  have f56 := f5.trans f6
  have l12 := f12.live (by simp)
  have l56 := f56.live (by simp)
  have n12 := f12.next
  have n56 := f56.next
  refine ⟨by dsimp only; omega, by dsimp only; omega, ?_, fun m hm => ?_, ?_⟩
  · rw [f56.buffers (by simp), b4, b3, f12.buffers (by simp)]
  · rw [l56] at hm
    rcases m4 m hm with hm | hm
    · exact Or.inl hm
    · rw [m3, l12] at hm
      exact Or.inr hm
  · dsimp only
    rw [l56]
    exact s4

theorem SsboTriangle.create_color_image_inv (build : Build) (res r : DemoResources)
    (image : VkdfImage) (ctx ctx' : VkdfContext)
    (h : create_color_image build res ctx = (Outcome.ok (image, r), ctx')) :
    r.ssbo = res.ssbo ∧ r.vertex_buf = res.vertex_buf ∧ r.ubo = res.ubo ∧
    ctx.next ≤ image.mem ∧ image.mem < ctx'.next ∧ ctx'.buffers = ctx.buffers ∧
    (∀ m, (ctx'.memory m).isSome = true → m = image.mem ∨ (ctx.memory m).isSome = true) ∧
    (ctx'.memory image.mem).isSome = true := by
  simp only [create_color_image, Prog.bind_eq_ok, Prog.pure_eq_ok] at h
  obtain ⟨_, c1, h1, h⟩ := h
  obtain ⟨rfl, rfl⟩ := (getContext_eq_ok _ _ _).mp h1
  obtain ⟨image', c2, h2, h⟩ := h
  obtain ⟨_, c3, h3, h, rfl⟩ := h
  simp only [Prod.mk.injEq] at h
  obtain ⟨rfl, rfl⟩ := h
  obtain ⟨n1, n2, b2, m2, s2⟩ := vkdf_create_image_detailed_inv _ _ _ _ _ _ _ _ _ _ _ _ _ _ _ _ h2
  have f3 := Touches.run (Q := fun s => s = Subject.memory)
    (Touches.vkdf_image_map_and_fill _ _ _ _ _ rfl) h3
  have l3 := f3.live (by simp)
  have n3 := f3.next
  refine ⟨rfl, rfl, rfl, n1, by omega, ?_, fun m hm => ?_, ?_⟩
  · rw [f3.buffers (by simp), b2]
  · rw [l3] at hm
    exact m2 m hm
  · rw [l3]
    exact s2

theorem SsboTriangle.create_ssbo_inv (build : Build) (res r : DemoResources)
    (buffer : VkdfBuffer) (ctx ctx' : VkdfContext)
    (h : create_ssbo build res ctx = (Outcome.ok (buffer, r), ctx')) :
    buffer.buf = ctx.next ∧ buffer.mem = ctx.next + 1 ∧ ctx.next + 2 ≤ ctx'.next ∧
    (∀ b, (ctx'.buffers b).isSome = true → b = buffer.buf ∨ (ctx.buffers b).isSome = true) ∧
    (∀ m, (ctx'.memory m).isSome = true → m = buffer.mem ∨ (ctx.memory m).isSome = true) ∧
    (ctx'.buffers buffer.buf).isSome = true ∧ (ctx'.memory buffer.mem).isSome = true := by
  simp only [create_ssbo, Prog.bind_eq_ok, Prog.pure_eq_ok] at h
  obtain ⟨buffer', c1, h1, h⟩ := h
  obtain ⟨_, c2, h2, h, rfl⟩ := h
  simp only [Prod.mk.injEq] at h
  obtain ⟨rfl, rfl⟩ := h
  obtain ⟨e1, e2, n1, b1, m1, sb, sm⟩ := vkdf_create_buffer_inv _ _ _ _ _ _ _ _ _ h1
  have f2 := Touches.run (Q := fun s => s = Subject.memory)
    (Touches.vkdf_buffer_map_and_fill _ _ _ _ _ rfl) h2
  have l2 := f2.live (by simp)
  have n2 := f2.next
  rw [e1, e2]
  refine ⟨rfl, rfl, by omega, fun b hb => ?_, fun m hm => ?_, ?_, ?_⟩
  · rw [f2.buffers (by simp)] at hb
    exact b1 b hb
  · rw [l2] at hm
    exact m1 m hm
  · rw [f2.buffers (by simp)]
    exact sb
  · rw [l2]
    exact sm

theorem SsboTriangle.create_vertex_buffer_inv (build : Build) (buffer : VkdfBuffer)
    (ctx ctx' : VkdfContext)
    (h : create_vertex_buffer build ctx = (Outcome.ok buffer, ctx')) :
    buffer.buf = ctx.next ∧ buffer.mem = ctx.next + 1 ∧ ctx.next + 2 ≤ ctx'.next ∧
    (∀ b, (ctx'.buffers b).isSome = true → b = buffer.buf ∨ (ctx.buffers b).isSome = true) ∧
    (∀ m, (ctx'.memory m).isSome = true → m = buffer.mem ∨ (ctx.memory m).isSome = true) ∧
    (ctx'.buffers buffer.buf).isSome = true ∧ (ctx'.memory buffer.mem).isSome = true := by
  simp only [create_vertex_buffer, Prog.bind_eq_ok, Prog.pure_eq_ok] at h
  obtain ⟨buffer', c1, h1, h⟩ := h
  obtain ⟨_, c2, h2, rfl, rfl⟩ := h
  obtain ⟨e1, e2, n1, b1, m1, sb, sm⟩ := vkdf_create_buffer_inv _ _ _ _ _ _ _ _ _ h1
  have f2 := Touches.run (Q := fun s => s = Subject.memory)
    (Touches.vkdf_buffer_map_and_fill _ _ _ _ _ rfl) h2
  have l2 := f2.live (by simp)
  have n2 := f2.next
  rw [e1, e2]
  refine ⟨rfl, rfl, by omega, fun b hb => ?_, fun m hm => ?_, ?_, ?_⟩
  · rw [f2.buffers (by simp)] at hb
    exact b1 b hb
  · rw [l2] at hm
    exact m1 m hm
  · rw [f2.buffers (by simp)]
    exact sb
  · rw [l2]
    exact sm

theorem SsboTriangle.create_ubo_inv (build : Build) (buffer : VkdfBuffer)
    (ctx ctx' : VkdfContext)
    (h : create_ubo build ctx = (Outcome.ok buffer, ctx')) :
    buffer.buf = ctx.next ∧ buffer.mem = ctx.next + 1 ∧ ctx.next + 2 ≤ ctx'.next ∧
    (∀ b, (ctx'.buffers b).isSome = true → b = buffer.buf ∨ (ctx.buffers b).isSome = true) ∧
    (∀ m, (ctx'.memory m).isSome = true → m = buffer.mem ∨ (ctx.memory m).isSome = true) ∧
    (ctx'.buffers buffer.buf).isSome = true ∧ (ctx'.memory buffer.mem).isSome = true := by
  simp only [create_ubo, Prog.bind_eq_ok, Prog.pure_eq_ok] at h
  obtain ⟨buffer', c1, h1, rfl, rfl⟩ := h
  obtain ⟨e1, e2, n1, b1, m1, sb, sm⟩ := vkdf_create_buffer_inv _ _ _ _ _ _ _ _ _ h1
  rw [e1, e2]
  exact ⟨rfl, rfl, by omega, b1, m1, sb, sm⟩

end

section
open SsboTriangle

theorem Frame.keeps_buffers {a b : VkdfContext} (h : Frame Subject.keepsBuffers a b) :
    b.log.filter Call.releases = a.log.filter Call.releases ∧ b.buffers = a.buffers ∧
    b.memory = a.memory := by
  refine ⟨h.filter_log _ (fun c hc => ?_), h.buffers (fun hq => hq.1 rfl),
    h.memory (fun hq => hq.2.1 rfl) (fun hq => hq.2.2 rfl)⟩
  cases c <;> first | rfl | exact absurd rfl hc.1 | exact absurd rfl hc.2.1

theorem destroy_buffer_inv (buf mem : Nat) (ctx ctx' : VkdfContext) (u : Unit)
    (h : (vkDestroyBuffer buf >>= fun _ => vkFreeMemory mem) ctx = (Outcome.ok u, ctx')) :
    ctx'.log.filter Call.releases = ctx.log.filter Call.releases ++
      [Call.vkDestroyBuffer buf, Call.vkFreeMemory mem] ∧
    (∀ b, ctx'.buffers b = if b = buf then none else ctx.buffers b) ∧
    (∀ m, ctx'.memory m = if m = mem then none else ctx.memory m) := by
  simp [bind, Prog.bind, vkDestroyBuffer, vkFreeMemory] at h
  subst h
  refine ⟨by simp [List.filter_append, List.filter, Call.releases], fun b => ?_, fun m => ?_⟩
  · by_cases hb : b = buf <;> simp [Function.update, hb]
  · by_cases hm : m = mem <;> simp [Function.update, hm]

theorem vkdf_destroy_image_inv (image : VkdfImage) (ctx ctx' : VkdfContext) (u : Unit)
    (h : vkdf_destroy_image image ctx = (Outcome.ok u, ctx')) :
    ctx'.log.filter Call.releases = ctx.log.filter Call.releases ++
      [Call.vkFreeMemory image.mem] ∧
    ctx'.buffers = ctx.buffers ∧
    (∀ m, ctx'.memory m = if m = image.mem then none else ctx.memory m) := by
  simp [vkdf_destroy_image, bind, Prog.bind, destroyObject, vkFreeMemory] at h
  subst h
  refine ⟨by simp [List.filter_append, List.filter, Call.releases], rfl, fun m => ?_⟩
  by_cases hm : m = image.mem <;> simp [Function.update, hm]

theorem SsboTriangle.cleanup_resources_returns (res : DemoResources) (ctx : VkdfContext) :
    (cleanup_resources res ctx).1 = Outcome.ok () := by
  simp [cleanup_resources, destroy_pipeline_resources, destroy_framebuffer_resources,
    destroy_shader_resources, destroy_command_buffer_resources,
    destroy_descriptor_resources, destroy_ubo_resources, destroy_ssbo_resources,
    destroy_feedback_data, vkdf_destroy_buffer, vkdf_destroy_image, vkDestroySemaphore,
    vkDestroyPipeline, vkDestroyPipelineLayout, vkDestroyRenderPass, vkDestroyFramebuffer,
    vkDestroyShaderModule, vkDestroyCommandPool, vkDestroyDescriptorSetLayout,
    vkFreeCommandBuffers, vkFreeDescriptorSets, vkDestroyDescriptorPool, destroyObject,
    vkDestroyBuffer, vkFreeMemory, getContext, bind, Prog.bind, pure, Prog.pure]

theorem SsboTriangle.cleanup_resources_inv (res : DemoResources) (ctx ctx' : VkdfContext)
    (u : Unit) (h : cleanup_resources res ctx = (Outcome.ok u, ctx')) :
    ctx'.log.filter Call.releases =
      ctx.log.filter Call.releases ++
        [Call.vkDestroyBuffer res.vertex_buf.buf, Call.vkFreeMemory res.vertex_buf.mem,
         Call.vkDestroyBuffer res.ubo.buf, Call.vkFreeMemory res.ubo.mem,
         Call.vkDestroyBuffer res.ssbo.buf, Call.vkFreeMemory res.ssbo.mem,
         Call.vkFreeMemory res.color_image.mem] ∧
    (∀ b, ctx'.buffers b =
      if b = res.vertex_buf.buf ∨ b = res.ubo.buf ∨ b = res.ssbo.buf then none
      else ctx.buffers b) ∧
    (∀ m, ctx'.memory m =
      if m = res.vertex_buf.mem ∨ m = res.ubo.mem ∨ m = res.ssbo.mem ∨
        m = res.color_image.mem then none
      else ctx.memory m) := by
  simp only [cleanup_resources, Prog.bind_eq_ok] at h
  obtain ⟨_, c1, h1, h⟩ := h
  obtain ⟨_, c2, h2, h⟩ := h
  obtain ⟨_, c3, h3, h⟩ := h
  obtain ⟨_, c4, h4, h⟩ := h
  obtain ⟨_, c5, h5, h⟩ := h
  obtain ⟨_, c6, h6, h⟩ := h
  obtain ⟨_, c7, h7, h⟩ := h
  obtain ⟨_, c8, h8, h⟩ := h
  obtain ⟨_, c9, h9, h⟩ := h
  obtain ⟨_, c10, h10, h⟩ := h
  obtain ⟨_, c11, h11, h⟩ := h
  obtain ⟨_, c12, h12, h13⟩ := h
  have k : ∀ kind : ObjectKind, Subject.keepsBuffers (Subject.object kind) :=
    fun kind => ⟨by simp, by simp, by simp⟩
  have f1 := (Touches.run (Touches.vkDestroySemaphore _ (k _)) h1).trans
    ((Touches.run (Touches.SsboTriangle.destroy_pipeline_resources _ (k _) (k _)) h2).trans
    ((Touches.run (Touches.vkDestroyRenderPass _ (k _)) h3).trans
    (Touches.run (Touches.vkDestroyRenderPass _ (k _)) h4)))
  obtain ⟨l5, b5, m5⟩ := destroy_buffer_inv _ _ _ _ _ h5
  have f6 := Touches.run (Q := Subject.keepsBuffers)
    (Touches.SsboTriangle.destroy_descriptor_resources _ ⟨by simp, by simp, by simp⟩ (k _)) h6
  obtain ⟨l7, b7, m7⟩ := destroy_buffer_inv _ _ _ _ _ h7
  obtain ⟨l8, b8, m8⟩ := destroy_buffer_inv _ _ _ _ _ h8
  have f9 := (Touches.run (Touches.SsboTriangle.destroy_framebuffer_resources _ (k _)) h9).trans
    ((Touches.run (Touches.SsboTriangle.destroy_shader_resources _ (k _)) h10).trans
    (Touches.run (Q := Subject.keepsBuffers)
      (Touches.SsboTriangle.destroy_command_buffer_resources _ ⟨by simp, by simp, by simp⟩
        (k _)) h11))
  obtain ⟨l12, b12, m12⟩ := vkdf_destroy_image_inv _ _ _ _ h12
  simp only [destroy_feedback_data, Prog.pure_eq_ok] at h13
  obtain ⟨-, rfl⟩ := h13
  obtain ⟨l1, b1, m1⟩ := f1.keeps_buffers
  obtain ⟨l6, b6, m6⟩ := f6.keeps_buffers
  obtain ⟨l9, b9, m9⟩ := f9.keeps_buffers
  refine ⟨?_, fun b => ?_, fun m => ?_⟩
  · rw [l12, l9, l8, l7, l6, l5, l1]
    simp
  · rw [b12, b9, b8, b7, b6, b5, b1]
    by_cases h1 : b = res.vertex_buf.buf <;> by_cases h2 : b = res.ubo.buf <;>
      by_cases h3 : b = res.ssbo.buf <;> simp [h1, h2, h3]
  · rw [m12, m9, m8, m7, m6, m5, m1]
    by_cases h1 : m = res.vertex_buf.mem <;> by_cases h2 : m = res.ubo.mem <;>
      by_cases h3 : m = res.ssbo.mem <;> by_cases h4 : m = res.color_image.mem <;>
      simp [h1, h2, h3, h4]

end

section
open SsboTriangle

theorem SsboTriangle.init_resources_created (build : Build) (bits : Nat)
    (ctx ctx' : VkdfContext) (res : DemoResources)
    (h : init_resources build bits ctx = (Outcome.ok res, ctx')) :
    (∀ b, (ctx'.buffers b).isSome = true →
      b = res.ssbo.buf ∨ b = res.vertex_buf.buf ∨ b = res.ubo.buf ∨
        (ctx.buffers b).isSome = true) ∧
    (∀ m, (ctx'.memory m).isSome = true →
      m = res.ssbo.mem ∨ m = res.vertex_buf.mem ∨ m = res.ubo.mem ∨
        m = res.color_image.mem ∨ (ctx.memory m).isSome = true) ∧
    [res.ssbo.buf, res.ssbo.mem, res.vertex_buf.buf, res.vertex_buf.mem, res.ubo.buf,
      res.ubo.mem, res.color_image.mem].Nodup := by
  simp only [init_resources, Prog.bind_eq_ok, Prod.exists, Prog.pure_eq_ok] at h
  obtain ⟨_, c1, h1, h⟩ := h
  obtain ⟨_, c2, h2, h⟩ := h
  obtain ⟨ssbo, r3, c3, h3, h⟩ := h
  obtain ⟨vertex_buf, c4, h4, h⟩ := h
  obtain ⟨ubo, c5, h5, h⟩ := h
  obtain ⟨vs_module, c6, h6, h⟩ := h
  obtain ⟨fs_module, c7, h7, h⟩ := h
  obtain ⟨offscreen_render_pass, c8, h8, h⟩ := h
  obtain ⟨onscreen_render_pass, c9, h9, h⟩ := h
  obtain ⟨color_image, r10, c10, h10, h⟩ := h
  obtain ⟨framebuffer, c11, h11, h⟩ := h
  obtain ⟨onscreen_framebuffers, c12, h12, h⟩ := h
  obtain ⟨pool_ubo, c13, h13, h⟩ := h
  obtain ⟨pool_ssbo, c14, h14, h⟩ := h
  obtain ⟨layout_ubo, c15, h15, h⟩ := h
  obtain ⟨set_ubo, c16, h16, h⟩ := h
  obtain ⟨layout_ssbo, c17, h17, h⟩ := h
  obtain ⟨set_ssbo, c18, h18, h⟩ := h
  obtain ⟨_, c19, h19, h⟩ := h
  obtain ⟨_, c20, h20, h⟩ := h
  obtain ⟨pipeline_layout, c21, h21, h⟩ := h
  obtain ⟨pipeline_offscreen, c22, h22, h⟩ := h
  obtain ⟨pipeline_onscreen, c23, h23, h⟩ := h
  obtain ⟨cmd_pool, c24, h24, h⟩ := h
  obtain ⟨cmd_bufs, c25, h25, h⟩ := h
  obtain ⟨_, c26, h26, h⟩ := h
  obtain ⟨_, c27, h27, h⟩ := h
  obtain ⟨_, c28, h28, h⟩ := h
  obtain ⟨onscreen_cmd_bufs, c29, h29, h⟩ := h
  obtain ⟨_, c30, h30, h⟩ := h
  obtain ⟨offscreen_draw_sem, c31, h31, h⟩ := h
  obtain ⟨rfl, rfl⟩ := h
  have k : ∀ kind : ObjectKind, Subject.keepsBuffers (Subject.object kind) :=
    fun kind => ⟨by simp, by simp, by simp⟩
  have kd : Subject.keepsBuffers Subject.descriptor := ⟨by simp, by simp, by simp⟩
  have kc : Subject.keepsBuffers Subject.commandBuffer := ⟨by simp, by simp, by simp⟩
  have f1 := Touches.run (Q := Subject.keepsBuffers)
    (Touches.assert _ _) h1
  have f2 := Touches.run (Q := Subject.keepsBuffers)
    (Touches.getContext) h2
  have f6 := Touches.run (Q := Subject.keepsBuffers)
    (Touches.vkdf_create_shader_module _ (k _)) h6
  have f7 := Touches.run (Q := Subject.keepsBuffers)
    (Touches.vkdf_create_shader_module _ (k _)) h7
  have f8 := Touches.run (Q := Subject.keepsBuffers)
    (Touches.SsboTriangle.create_offscreen_render_pass _ (k _)) h8
  have f9 := Touches.run (Q := Subject.keepsBuffers)
    (Touches.SsboTriangle.create_onscreen_render_pass (k _)) h9
  have f11 := Touches.run (Q := Subject.keepsBuffers)
    (Touches.vkdf_create_framebuffer _ _ _ _ _ _ (k _)) h11
  have f12 := Touches.run (Q := Subject.keepsBuffers)
    (Touches.vkdf_create_framebuffers_for_swap_chain _ _ _ (k _)) h12
  have f13 := Touches.run (Q := Subject.keepsBuffers)
    (Touches.vkdf_create_descriptor_pool _ _ kd) h13
  have f14 := Touches.run (Q := Subject.keepsBuffers)
    (Touches.vkdf_create_descriptor_pool _ _ kd) h14
  have f15 := Touches.run (Q := Subject.keepsBuffers)
    (Touches.vkdf_create_buffer_descriptor_set_layout _ _ _ _ (k _)) h15
  have f16 := Touches.run (Q := Subject.keepsBuffers)
    (Touches.SsboTriangle.create_descriptor_set _ _ kd) h16
  have f17 := Touches.run (Q := Subject.keepsBuffers)
    (Touches.vkdf_create_buffer_descriptor_set_layout _ _ _ _ (k _)) h17
  have f18 := Touches.run (Q := Subject.keepsBuffers)
    (Touches.SsboTriangle.create_descriptor_set _ _ kd) h18
  have f19 := Touches.run (Q := Subject.keepsBuffers)
    (Touches.vkdf_descriptor_set_buffer_update _ _ _ _ _ _ _ kd) h19
  have f20 := Touches.run (Q := Subject.keepsBuffers)
    (Touches.vkdf_descriptor_set_buffer_update _ _ _ _ _ _ _ kd) h20
  have f21 := Touches.run (Q := Subject.keepsBuffers)
    (Touches.SsboTriangle.create_pipeline_layout _ (k _)) h21
  have f22 := Touches.run (Q := Subject.keepsBuffers)
    (Touches.vkdf_create_gfx_pipeline _ (k _)) h22
  have f23 := Touches.run (Q := Subject.keepsBuffers)
    (Touches.vkdf_create_gfx_pipeline _ (k _)) h23
  have f24 := Touches.run (Q := Subject.keepsBuffers)
    (Touches.vkdf_create_gfx_command_pool _ (k _)) h24
  have f25 := Touches.run (Q := Subject.keepsBuffers)
    (Touches.vkdf_create_command_buffer _ _ _ kc) h25
  have f26 := Touches.run (Q := Subject.keepsBuffers)
    (Touches.vkdf_command_buffer_begin _ _ kc) h26
  have f27 := Touches.run (Q := Subject.keepsBuffers)
    (Touches.SsboTriangle.offscreen_pass_commands _ kc) h27
  have f28 := Touches.run (Q := Subject.keepsBuffers)
    (Touches.vkdf_command_buffer_end _ kc) h28
  have f29 := Touches.run (Q := Subject.keepsBuffers)
    (Touches.vkdf_create_command_buffer _ _ _ kc) h29
  have f30 := Touches.run (Q := Subject.keepsBuffers)
    (Touches.forEach _ (fun _ => Touches.bind (Touches.vkdf_command_buffer_begin _ _ kc)
      (fun _ => Touches.bind (Touches.SsboTriangle.onscreen_pass_commands _ _ kc)
        (fun _ => Touches.vkdf_command_buffer_end _ kc)))) h30
  have f31 := Touches.run (Q := Subject.keepsBuffers)
    (Touches.vkdf_create_semaphore (k _)) h31
  have F2 := f1.trans f2
  have F9 := f6.trans (f7.trans (f8.trans f9))
  have F31 := f11.trans (f12.trans (f13.trans (f14.trans (f15.trans (f16.trans (f17.trans (f18.trans (f19.trans (f20.trans (f21.trans (f22.trans (f23.trans (f24.trans (f25.trans (f26.trans (f27.trans (f28.trans (f29.trans (f30.trans (f31))))))))))))))))))))
  obtain ⟨lF2, bF2, mF2⟩ := F2.keeps_buffers
  obtain ⟨lF9, bF9, mF9⟩ := F9.keeps_buffers
  obtain ⟨lF31, bF31, mF31⟩ := F31.keeps_buffers
  have nF2 := F2.next
  have nF9 := F9.next
  obtain ⟨e3b, e3m, n3, b3, m3, -, -⟩ := create_ssbo_inv _ _ _ _ _ _ h3
  obtain ⟨e4b, e4m, n4, b4, m4, -, -⟩ := create_vertex_buffer_inv _ _ _ _ h4
  obtain ⟨e5b, e5m, n5, b5, m5, -, -⟩ := create_ubo_inv _ _ _ _ h5
  obtain ⟨r1, r2, r3', n10, -, b10, m10, -⟩ := create_color_image_inv _ _ _ _ _ _ h10
  dsimp only at r1 r2 r3'
  dsimp only
  rw [r1, r2, r3']
  refine ⟨fun b hb => ?_, fun m hm => ?_, ?_⟩
  · rw [bF31, b10, bF9] at hb
    rcases b5 b hb with hb | hb
    · exact Or.inr (Or.inr (Or.inl hb))
    · rcases b4 b hb with hb | hb
      · exact Or.inr (Or.inl hb)
      · rcases b3 b hb with hb | hb
        · exact Or.inl hb
        · rw [bF2] at hb
          exact Or.inr (Or.inr (Or.inr hb))
  · rw [mF31] at hm
    rcases m10 m hm with hm | hm
    · exact Or.inr (Or.inr (Or.inr (Or.inl hm)))
    · rw [mF9] at hm
      rcases m5 m hm with hm | hm
      · exact Or.inr (Or.inr (Or.inl hm))
      · rcases m4 m hm with hm | hm
        · exact Or.inr (Or.inl hm)
        · rcases m3 m hm with hm | hm
          · exact Or.inl hm
          · rw [mF2] at hm
            exact Or.inr (Or.inr (Or.inr (Or.inr hm)))
  · simp only [List.nodup_cons, List.mem_cons, List.mem_singleton, List.not_mem_nil,
      List.nodup_nil, or_false, not_or, and_true, not_false_eq_true]
    omega

end

section
open SsboTriangle

theorem SmallClear.record_command_buffer_res (res res' : SmallClear.DemoResources)
    (ctx ctx' : VkdfContext)
    (h : SmallClear.record_command_buffer res ctx = (Outcome.ok res', ctx')) :
    res'.color_buffer = res.color_buffer ∧ res'.color_image = res.color_image := by
  simp only [SmallClear.record_command_buffer, Prog.bind_eq_ok, Prog.pure_eq_ok] at h
  obtain ⟨_, _, _, h⟩ := h
  obtain ⟨_, _, _, h⟩ := h
  obtain ⟨_, _, _, h⟩ := h
  obtain ⟨_, _, _, h⟩ := h
  obtain ⟨_, _, _, h⟩ := h
  obtain ⟨_, _, _, h⟩ := h
  obtain ⟨_, _, _, h⟩ := h
  obtain ⟨_, _, _, h⟩ := h
  obtain ⟨_, _, _, h, _⟩ := h
  subst h
  exact ⟨rfl, rfl⟩

theorem SmallClear.small_clear_init_created (build : Build) (ctx ctx' : VkdfContext)
    (res : SmallClear.DemoResources)
    (h : SmallClear.init_resources build ctx = (Outcome.ok res, ctx')) :
    (∀ b, (ctx'.buffers b).isSome = true →
      b = res.color_buffer.buf ∨ (ctx.buffers b).isSome = true) ∧
    (∀ m, (ctx'.memory m).isSome = true →
      m = res.color_image.mem ∨ m = res.color_buffer.mem ∨ (ctx.memory m).isSome = true) ∧
    [res.color_image.mem, res.color_buffer.buf, res.color_buffer.mem].Nodup := by
  simp only [SmallClear.init_resources, Prog.bind_eq_ok] at h
  obtain ⟨_, c1, h1, h⟩ := h
  obtain ⟨rfl, rfl⟩ := (getContext_eq_ok _ _ _).mp h1
  obtain ⟨color_image, c2, h2, h⟩ := h
  obtain ⟨color_buffer, c3, h3, h⟩ := h
  obtain ⟨render_pass, c4, h4, h⟩ := h
  obtain ⟨framebuffer, c5, h5, h⟩ := h
  obtain ⟨cmd_pool, c6, h6, h7⟩ := h
  have k : ∀ kind : ObjectKind, Subject.keepsBuffers (Subject.object kind) :=
    fun kind => ⟨by simp, by simp, by simp⟩
  have kc : Subject.keepsBuffers Subject.commandBuffer := ⟨by simp, by simp, by simp⟩
  obtain ⟨n2, n2', b2, m2, -⟩ :=
    vkdf_create_image_detailed_inv _ _ _ _ _ _ _ _ _ _ _ _ _ _ _ _ h2
  obtain ⟨e3b, e3m, n3, b3, m3, -, -⟩ := vkdf_create_buffer_inv _ _ _ _ _ _ _ _ _ h3
  have F := (Touches.run (Touches.vkdf_renderpass_simple_new _ _ _ _ _ _ _ _ _ _ (k _)) h4).trans
    ((Touches.run (Touches.vkdf_create_framebuffer _ _ _ _ _ _ (k _)) h5).trans
    ((Touches.run (Touches.vkdf_create_gfx_command_pool _ (k _)) h6).trans
    (Touches.run (Touches.SmallClear.record_command_buffer _ kc) h7)))
  obtain ⟨-, bF, mF⟩ := F.keeps_buffers
  obtain ⟨r1, r2⟩ := SmallClear.record_command_buffer_res _ _ _ _ h7
  dsimp only at r1 r2
  rw [r1, r2]
  refine ⟨fun b hb => ?_, fun m hm => ?_, ?_⟩
  · rw [bF] at hb
    rcases b3 b hb with hb | hb
    · exact Or.inl (hb.trans e3b.symm)
    · rw [b2] at hb
      exact Or.inr hb
  · rw [mF] at hm
    rcases m3 m hm with hm | hm
    · exact Or.inr (Or.inl (hm.trans e3m.symm))
    · rcases m2 m hm with hm | hm
      · exact Or.inl hm
      · exact Or.inr (Or.inr hm)
  · simp only [List.nodup_cons, List.mem_cons, List.mem_singleton, List.not_mem_nil,
      List.nodup_nil, or_false, not_or, and_true, not_false_eq_true]
    omega

theorem SmallClear.small_clear_cleanup_returns (res : SmallClear.DemoResources)
    (ctx : VkdfContext) : (SmallClear.cleanup_resources res ctx).1 = Outcome.ok () := by
  simp [SmallClear.cleanup_resources, vkdf_destroy_buffer, vkdf_destroy_image,
    vkDestroyRenderPass, vkDestroyFramebuffer, vkDestroyCommandPool, vkFreeCommandBuffers,
    destroyObject, vkDestroyBuffer, vkFreeMemory, bind, Prog.bind]

theorem SmallClear.small_clear_cleanup_inv (res : SmallClear.DemoResources)
    (ctx ctx' : VkdfContext) (u : Unit)
    (h : SmallClear.cleanup_resources res ctx = (Outcome.ok u, ctx')) :
    ctx'.log.filter Call.releases =
      ctx.log.filter Call.releases ++
        [Call.vkDestroyBuffer res.color_buffer.buf, Call.vkFreeMemory res.color_buffer.mem,
         Call.vkFreeMemory res.color_image.mem] ∧
    (∀ b, ctx'.buffers b = if b = res.color_buffer.buf then none else ctx.buffers b) ∧
    (∀ m, ctx'.memory m =
      if m = res.color_buffer.mem ∨ m = res.color_image.mem then none else ctx.memory m) := by
  simp only [SmallClear.cleanup_resources, Prog.bind_eq_ok] at h
  obtain ⟨_, c1, h1, h⟩ := h
  obtain ⟨_, c2, h2, h⟩ := h
  obtain ⟨_, c3, h3, h⟩ := h
  obtain ⟨_, c4, h4, h⟩ := h
  obtain ⟨_, c5, h5, h6⟩ := h
  have k : ∀ kind : ObjectKind, Subject.keepsBuffers (Subject.object kind) :=
    fun kind => ⟨by simp, by simp, by simp⟩
  have kc : Subject.keepsBuffers Subject.commandBuffer := ⟨by simp, by simp, by simp⟩
  obtain ⟨l1, b1, m1⟩ := destroy_buffer_inv _ _ _ _ _ h1
  obtain ⟨l2, b2, m2⟩ := vkdf_destroy_image_inv _ _ _ _ h2
  have F := (Touches.run (Touches.vkDestroyRenderPass _ (k _)) h3).trans
    ((Touches.run (Touches.vkDestroyFramebuffer _ (k _)) h4).trans
    ((Touches.run (Touches.vkFreeCommandBuffers _ _ kc) h5).trans
    (Touches.run (Touches.vkDestroyCommandPool _ (k _)) h6)))
  obtain ⟨lF, bF, mF⟩ := F.keeps_buffers
  refine ⟨?_, fun b => ?_, fun m => ?_⟩
  · rw [lF, l2, l1]
    simp
  · rw [bF, b2, b1]
  · rw [mF, m2, m1]
    by_cases h1 : m = res.color_buffer.mem <;> by_cases h2 : m = res.color_image.mem <;>
      simp [h1, h2]

end

section
open SsboTriangle

/-- C18: the buffers `init_resources` creates are released by `cleanup_resources`. For
ssbo-triangle: after a run of `init_resources` that returns, `cleanup_resources`, called
on a context with the same live buffers and allocations, returns; the calls by which it
destroys a buffer or frees an allocation are, in this order, destroy and free of the
vertex buffer, of the UBO and of the SSBO (buffer before memory) and the free of the
memory of the colour image; these seven handles are different, so each is released once;
and every buffer and every allocation that is live afterwards was live before
`init_resources`. For small-clear likewise with the colour buffer and the memory of the
colour image. -/
theorem demo_buffers_released :
    (∀ (build : Build) (bits : Nat) (ctx c1 c2 : VkdfContext) (res : DemoResources),
      init_resources build bits ctx = (Outcome.ok res, c1) →
      (∀ b, (c2.buffers b).isSome = (c1.buffers b).isSome) →
      (∀ m, (c2.memory m).isSome = (c1.memory m).isSome) →
      (cleanup_resources res c2).1 = Outcome.ok () ∧
      (cleanup_resources res c2).2.log.filter Call.releases =
        c2.log.filter Call.releases ++
          [Call.vkDestroyBuffer res.vertex_buf.buf, Call.vkFreeMemory res.vertex_buf.mem,
           Call.vkDestroyBuffer res.ubo.buf, Call.vkFreeMemory res.ubo.mem,
           Call.vkDestroyBuffer res.ssbo.buf, Call.vkFreeMemory res.ssbo.mem,
           Call.vkFreeMemory res.color_image.mem] ∧
      [res.ssbo.buf, res.ssbo.mem, res.vertex_buf.buf, res.vertex_buf.mem, res.ubo.buf,
        res.ubo.mem, res.color_image.mem].Nodup ∧
      (∀ b, ((cleanup_resources res c2).2.buffers b).isSome = true →
        (ctx.buffers b).isSome = true) ∧
      (∀ m, ((cleanup_resources res c2).2.memory m).isSome = true →
        (ctx.memory m).isSome = true)) ∧
    (∀ (build : Build) (ctx c1 c2 : VkdfContext) (res : SmallClear.DemoResources),
      SmallClear.init_resources build ctx = (Outcome.ok res, c1) →
      (∀ b, (c2.buffers b).isSome = (c1.buffers b).isSome) →
      (∀ m, (c2.memory m).isSome = (c1.memory m).isSome) →
      (SmallClear.cleanup_resources res c2).1 = Outcome.ok () ∧
      (SmallClear.cleanup_resources res c2).2.log.filter Call.releases =
        c2.log.filter Call.releases ++
          [Call.vkDestroyBuffer res.color_buffer.buf, Call.vkFreeMemory res.color_buffer.mem,
           Call.vkFreeMemory res.color_image.mem] ∧
      [res.color_image.mem, res.color_buffer.buf, res.color_buffer.mem].Nodup ∧
      (∀ b, ((SmallClear.cleanup_resources res c2).2.buffers b).isSome = true →
        (ctx.buffers b).isSome = true) ∧
      (∀ m, ((SmallClear.cleanup_resources res c2).2.memory m).isSome = true →
        (ctx.memory m).isSome = true)) := by
  constructor
  · intro build bits ctx c1 c2 res h hb hm
    obtain ⟨cb, cm, hn⟩ := init_resources_created _ _ _ _ _ h
    have hr := cleanup_resources_returns res c2
    obtain ⟨l, b, m⟩ := cleanup_resources_inv res c2 (cleanup_resources res c2).2 ()
      (Prod.ext hr rfl)
    refine ⟨hr, l, hn, fun x hx => ?_, fun x hx => ?_⟩
    · rw [b] at hx
      split at hx
      · cases hx
      · rename_i hne
        rw [hb] at hx
        rcases cb x hx with h1 | h1 | h1 | h1
        · exact absurd (Or.inr (Or.inr h1)) hne
        · exact absurd (Or.inl h1) hne
        · exact absurd (Or.inr (Or.inl h1)) hne
        · exact h1
    · rw [m] at hx
      split at hx
      · cases hx
      · rename_i hne
        rw [hm] at hx
        rcases cm x hx with h1 | h1 | h1 | h1 | h1
        · exact absurd (Or.inr (Or.inr (Or.inl h1))) hne
        · exact absurd (Or.inl h1) hne
        · exact absurd (Or.inr (Or.inl h1)) hne
        · exact absurd (Or.inr (Or.inr (Or.inr h1))) hne
        · exact h1
  · intro build ctx c1 c2 res h hb hm
    obtain ⟨cb, cm, hn⟩ := SmallClear.small_clear_init_created _ _ _ _ h
    have hr := SmallClear.small_clear_cleanup_returns res c2
    obtain ⟨l, b, m⟩ := SmallClear.small_clear_cleanup_inv res c2
      (SmallClear.cleanup_resources res c2).2 () (Prod.ext hr rfl)
    refine ⟨hr, l, hn, fun x hx => ?_, fun x hx => ?_⟩
    · rw [b] at hx
      split at hx
      · cases hx
      · rename_i hne
        rw [hb] at hx
        rcases cb x hx with h1 | h1
        · exact absurd h1 hne
        · exact h1
    · rw [m] at hx
      split at hx
      · cases hx
      · rename_i hne
        rw [hm] at hx
        rcases cm x hx with h1 | h1 | h1
        · exact absurd (Or.inr h1) hne
        · exact absurd (Or.inl h1) hne
        · exact h1

theorem demo_buffers_released_witness :
    (∃ res c1, init_resources exampleBuild 32 ssboContext = (Outcome.ok res, c1) ∧
      (cleanup_resources res c1).1 = Outcome.ok () ∧
      (∀ b, (cleanup_resources res c1).2.buffers b = none) ∧
      (∀ m, (cleanup_resources res c1).2.memory m = none)) ∧
    (∃ c1,
      SmallClear.init_resources exampleBuild (freshContext acceptingDriver) =
        (Outcome.ok smallClearResources, c1) ∧
      (SmallClear.cleanup_resources smallClearResources c1).1 = Outcome.ok () ∧
      (∀ b, (SmallClear.cleanup_resources smallClearResources c1).2.buffers b = none) ∧
      (∀ m, (SmallClear.cleanup_resources smallClearResources c1).2.memory m = none)) := by
  constructor
  · obtain ⟨res, c1, h⟩ :=
      init_resources_returns exampleBuild 32 (Or.inr rfl) ssboContext ssboContext_willing
    obtain ⟨h1, -, -, h2, h3⟩ :=
      demo_buffers_released.1 _ _ _ _ c1 _ h (fun _ => rfl) (fun _ => rfl)
    refine ⟨res, c1, h, h1, fun b => ?_, fun m => ?_⟩
    · cases hx : (cleanup_resources res c1).2.buffers b with
      | none => rfl
      | some x => exact absurd (h2 b (by rw [hx]; rfl)) Bool.false_ne_true
    · cases hx : (cleanup_resources res c1).2.memory m with
      | none => rfl
      | some x => exact absurd (h3 m (by rw [hx]; rfl)) Bool.false_ne_true
  · have h : SmallClear.init_resources exampleBuild (freshContext acceptingDriver) =
        (Outcome.ok smallClearResources,
          (SmallClear.init_resources exampleBuild (freshContext acceptingDriver)).2) :=
      Prod.ext (by decide) rfl
    obtain ⟨h1, -, -, h2, h3⟩ :=
      demo_buffers_released.2 _ _ _ _ _ h (fun _ => rfl) (fun _ => rfl)
    refine ⟨_, h, h1, fun b => ?_, fun m => ?_⟩
    · cases hx : (SmallClear.cleanup_resources smallClearResources
          (SmallClear.init_resources exampleBuild (freshContext acceptingDriver)).2).2.buffers
          b with
      | none => rfl
      | some x => exact absurd (h2 b (by rw [hx]; rfl)) Bool.false_ne_true
    · cases hx : (SmallClear.cleanup_resources smallClearResources
          (SmallClear.init_resources exampleBuild (freshContext acceptingDriver)).2).2.memory
          m with
      | none => rfl
      | some x => exact absurd (h3 m (by rw [hx]; rfl)) Bool.false_ne_true

end

/-- C12: on a command buffer that is recording, `prepare_image_for_transfer` returns and
records one pipeline barrier from the fragment-shader stage to the transfer stage with
the image barrier shader-write to transfer-read, general to general layout, on the image
and the subresource range given to the helper; `prepare_buffer_for_host_read` returns
and records one pipeline barrier from the transfer stage to the host stage with the
buffer barrier transfer-write to host-read on the buffer, offset and size given. -/
theorem prepare_barriers_stage_selection (cmd_buf image buffer offset size : Nat)
    (ctx : VkdfContext) (c : CommandBuffer) (hc : ctx.cmd_bufs cmd_buf = some c)
    (hr : c.state = CommandBufferState.Recording) :
    (SmallClear.prepare_image_for_transfer cmd_buf image ctx).1 = Outcome.ok () ∧
    (SmallClear.prepare_image_for_transfer cmd_buf image ctx).2.cmd_bufs cmd_buf =
      some { c with commands := c.commands ++
        [Command.vkCmdPipelineBarrier VK_PIPELINE_STAGE_FRAGMENT_SHADER_BIT
          VK_PIPELINE_STAGE_TRANSFER_BIT 0 [] []
          [{ srcAccessMask := VK_ACCESS_SHADER_WRITE_BIT,
             dstAccessMask := VK_ACCESS_TRANSFER_READ_BIT,
             oldLayout := VK_IMAGE_LAYOUT_GENERAL, newLayout := VK_IMAGE_LAYOUT_GENERAL,
             image := image,
             subresourceRange :=
               { aspectMask := VK_IMAGE_ASPECT_COLOR_BIT, baseMipLevel := 0, levelCount := 1,
                 baseArrayLayer := 0, layerCount := 1 } }]] } ∧
    (SmallClear.prepare_buffer_for_host_read cmd_buf buffer offset size ctx).1 =
      Outcome.ok () ∧
    (SmallClear.prepare_buffer_for_host_read cmd_buf buffer offset size ctx).2.cmd_bufs
        cmd_buf =
      some { c with commands := c.commands ++
        [Command.vkCmdPipelineBarrier VK_PIPELINE_STAGE_TRANSFER_BIT
          VK_PIPELINE_STAGE_HOST_BIT 0 []
          [{ srcAccessMask := VK_ACCESS_TRANSFER_WRITE_BIT,
             dstAccessMask := VK_ACCESS_HOST_READ_BIT, buffer := buffer, offset := offset,
             size := size }] []] } := by
  simp [SmallClear.prepare_image_for_transfer, SmallClear.prepare_buffer_for_host_read,
    vkCmdPipelineBarrier, record, appendCommand, bind, Prog.bind, commandBufferState,
    invalidArgument, Prog.pure, pure, hc, hr, vkdf_create_image_barrier,
    vkdf_create_buffer_barrier, vkdf_create_image_subresource_range]

/-- C13, as stated, fails: in the command stream `record_command_buffer` records on
`exampleContext` the third command, which stands between the end of the render pass and
the copy, is a barrier. -/
theorem record_command_buffer_barrier_before_copy_counterexample :
    ((SmallClear.record_command_buffer exampleResources (exampleContext acceptingDriver)).2.cmd_bufs
      7).map (fun c => c.commands.map Command.isBarrier) =
      some [false, false, true, false, true] := by
  decide

/-- C13, amended: a run of `record_command_buffer` that returns has recorded exactly the
begin and the end of the render pass, one barrier (of the image, to the transfer stage),
the copy of the image to the buffer and one barrier (of the buffer, to the host
stage). -/
theorem record_command_buffer_stream (res res' : SmallClear.DemoResources)
    (ctx ctx' : VkdfContext)
    (h : SmallClear.record_command_buffer res ctx = (Outcome.ok res', ctx')) :
    (ctx'.cmd_bufs res'.cmd_buf).map (fun c => c.commands) =
      some
        [Command.vkCmdBeginRenderPass
           { renderPass := res.render_pass, framebuffer := res.framebuffer,
             renderArea := [0, 0, ctx.width, ctx.height], clearValues := [[1, 1, 0, 1]] }
           VK_SUBPASS_CONTENTS_INLINE,
         Command.vkCmdEndRenderPass,
         Command.vkCmdPipelineBarrier VK_PIPELINE_STAGE_FRAGMENT_SHADER_BIT
           VK_PIPELINE_STAGE_TRANSFER_BIT 0 [] []
           [{ srcAccessMask := VK_ACCESS_SHADER_WRITE_BIT,
              dstAccessMask := VK_ACCESS_TRANSFER_READ_BIT,
              oldLayout := VK_IMAGE_LAYOUT_GENERAL, newLayout := VK_IMAGE_LAYOUT_GENERAL,
              image := res.color_image.image,
              subresourceRange :=
                { aspectMask := VK_IMAGE_ASPECT_COLOR_BIT, baseMipLevel := 0, levelCount := 1,
                  baseArrayLayer := 0, layerCount := 1 } }],
         Command.vkCmdCopyImageToBuffer res.color_image.image VK_IMAGE_LAYOUT_GENERAL
           res.color_buffer.buf
           [{ bufferOffset := 0, bufferRowLength := 0, bufferImageHeight := 0,
              imageSubresource := [VK_IMAGE_ASPECT_COLOR_BIT, 0, 0, 1],
              imageOffset := [0, 0, 0],
              imageExtent := [SmallClear.WIDTH, SmallClear.HEIGHT, 1] }],
         Command.vkCmdPipelineBarrier VK_PIPELINE_STAGE_TRANSFER_BIT
           VK_PIPELINE_STAGE_HOST_BIT 0 []
           [{ srcAccessMask := VK_ACCESS_TRANSFER_WRITE_BIT,
              dstAccessMask := VK_ACCESS_HOST_READ_BIT, buffer := res.color_buffer.buf,
              offset := 0, size := VK_WHOLE_SIZE }] []] := by
  by_cases ha : ctx.driver.allocateCommandBuffers res.cmd_pool 1 = VK_SUCCESS
  · simp [SmallClear.record_command_buffer, SmallClear.prepare_image_for_transfer,
      SmallClear.prepare_buffer_for_host_read, vkdf_create_command_buffer,
      vkdf_command_buffer_begin, vkdf_command_buffer_end, vkAllocateCommandBuffers,
      vkBeginCommandBuffer, vkEndCommandBuffer, vkCmdBeginRenderPass, vkCmdEndRenderPass,
      vkCmdCopyImageToBuffer, getContext, index, vkdf_color_clear_set,
      vkCmdPipelineBarrier, record, appendCommand, bind, Prog.bind, commandBufferState,
      invalidArgument, Prog.pure, pure, VK_CHECK, vkdf_create_image_barrier,
      vkdf_create_buffer_barrier, vkdf_create_image_subresource_range, ha] at h
    obtain ⟨rfl, rfl⟩ := h
    simp
  · simp [SmallClear.record_command_buffer, vkdf_create_command_buffer,
      vkAllocateCommandBuffers, getContext, bind, Prog.bind, VK_CHECK, ha] at h

theorem SsboTriangle.check_outcome_res (build : Build) (res res' : SsboTriangle.DemoResources)
    (ctx ctx' : VkdfContext)
    (h : SsboTriangle.check_outcome build res ctx = (Outcome.ok res', ctx')) :
    ∃ ssbo_feedback image_feedback,
      res' = { res with ssbo_feedback := ssbo_feedback, image_feedback := image_feedback } := by
  simp only [SsboTriangle.check_outcome, Prog.bind_eq_ok, Prog.pure_eq_ok, Prod.exists] at h
  obtain ⟨_, _, _, _, _, _, _, _, _, _, _, _, _, _, _, _, _, _, _, h, -⟩ := h
  exact ⟨_, _, h⟩

/-- C14: a frame of ssbo-triangle that returns has made exactly two submissions: first
the offscreen command buffer, waiting on no semaphore and signalling exactly
`offscreen_draw_sem`; then, with no submission in between, the presentation command
buffer of the current swap chain image, waiting on the acquire semaphore and on
`offscreen_draw_sem`, each at the colour-attachment-output stage (two semaphores, two
stages), and signalling the draw semaphore. -/
theorem ssbo_triangle_frame_semaphores (build : Build) (res : SsboTriangle.DemoResources)
    (count : Nat) (ctx ctx' : VkdfContext) (r : SsboTriangle.DemoResources × Nat)
    (h : SsboTriangle.scene_render build res count ctx = (Outcome.ok r, ctx')) :
    ∃ calls,
      ctx'.log = ctx.log ++
        [Call.vkQueueSubmit res.offscreen_cmd_buf [] [] [res.offscreen_draw_sem] VK_SUCCESS] ++
        calls ++
        [Call.vkQueueSubmit
          (index res.onscreen_cmd_bufs ctx.swap_chain_index ctx.driver.unspecified)
          [index ctx.acquired_sem ctx.swap_chain_index ctx.driver.unspecified,
           res.offscreen_draw_sem]
          [VK_PIPELINE_STAGE_COLOR_ATTACHMENT_OUTPUT_BIT,
           VK_PIPELINE_STAGE_COLOR_ATTACHMENT_OUTPUT_BIT]
          [index ctx.draw_sem ctx.swap_chain_index ctx.driver.unspecified] VK_SUCCESS] ∧
      ∀ c ∈ calls, c.subject ≠ Subject.queue := by
  simp only [SsboTriangle.scene_render, Prog.bind_eq_ok, Prog.pure_eq_ok] at h
  obtain ⟨_, c1, h1, res1, c2, h2, _, c3, h3, _, c4, h4, -, rfl⟩ := h
  obtain ⟨-, -, rfl, hq1⟩ := vkdf_command_buffer_execute_eq_ok _ _ _ _ _ _ _ h1
  simp only [getContext, Prod.mk.injEq, Outcome.ok.injEq] at h3
  obtain ⟨rfl, rfl⟩ := h3
  obtain ⟨-, -, rfl, hq2⟩ := vkdf_command_buffer_execute_eq_ok _ _ _ _ _ _ _ h4
  have hres : res1.offscreen_draw_sem = res.offscreen_draw_sem ∧
      res1.onscreen_cmd_bufs = res.onscreen_cmd_bufs := by
    split at h2
    · obtain ⟨_, _, rfl⟩ := SsboTriangle.check_outcome_res _ _ _ _ _ h2
      exact ⟨rfl, rfl⟩
    · obtain ⟨rfl, -⟩ := (Prog.pure_eq_ok _ _ _ _).mp h2
      exact ⟨rfl, rfl⟩
  have hframe : Frame (fun s => s = Subject.memory ∨ s = Subject.print)
      (vkQueueSubmit res.offscreen_cmd_buf (array 0 NULL)
        (array 0 [VK_PIPELINE_STAGE_COLOR_ATTACHMENT_OUTPUT_BIT])
        (array 1 [res.offscreen_draw_sem]) ctx).2 c2 :=
    Touches.run (Touches.ite
      (Touches.SsboTriangle.check_outcome _ _ (Or.inl rfl) (Or.inr rfl)) (Touches.pure _)) h2
  obtain ⟨calls, hlog, hcalls⟩ := hframe.log
  have hd : c2.driver = ctx.driver := hframe.driver
  have hi : c2.swap_chain_index = ctx.swap_chain_index := hframe.swap_chain_index
  have ha : c2.acquired_sem = ctx.acquired_sem := hframe.acquired_sem
  have hs : c2.draw_sem = ctx.draw_sem := hframe.draw_sem
  rw [hd, hi, hres.2] at hq2
  refine ⟨calls, ?_, ?_⟩
  · simp [vkQueueSubmit, array, NULL, hq1, hq2, hres, hd, hi, ha, hs] at hlog ⊢
    simp [hlog]
  · intro c hc
    rcases hcalls c hc with h | h <;> simp [h]

theorem prepare_barriers_stage_selection_witness :
    (SmallClear.prepare_image_for_transfer 6 23 (exampleContext acceptingDriver)).1 =
      Outcome.ok () ∧
    (SmallClear.prepare_buffer_for_host_read 6 1 0 VK_WHOLE_SIZE
      (exampleContext acceptingDriver)).1 = Outcome.ok () :=
  ⟨(prepare_barriers_stage_selection 6 23 1 0 VK_WHOLE_SIZE (exampleContext acceptingDriver)
      _ rfl rfl).1,
   (prepare_barriers_stage_selection 6 23 1 0 VK_WHOLE_SIZE (exampleContext acceptingDriver)
      _ rfl rfl).2.2.1⟩

theorem record_command_buffer_stream_witness :
    ∃ res' ctx',
      SmallClear.record_command_buffer exampleResources (exampleContext acceptingDriver) =
        (Outcome.ok res', ctx') ∧
      (ctx'.cmd_bufs res'.cmd_buf).map (fun c => c.commands.length) = some 5 := by
  have h : SmallClear.record_command_buffer exampleResources
      (exampleContext acceptingDriver) =
      (Outcome.ok { exampleResources with cmd_buf := 7 },
        (SmallClear.record_command_buffer exampleResources
          (exampleContext acceptingDriver)).2) :=
    Prod.ext (by decide) rfl
  have k := congrArg (Option.map List.length) (record_command_buffer_stream _ _ _ _ h)
  rw [Option.map_map] at k
  exact ⟨_, _, h, k⟩

theorem ssbo_triangle_frame_semaphores_witness :
    ∃ r ctx',
      SsboTriangle.scene_render exampleBuild frameResources 1 frameContext =
        (Outcome.ok r, ctx') ∧
      ∃ calls,
        ctx'.log =
          [Call.vkQueueSubmit 5 [] [] [15] VK_SUCCESS] ++ calls ++
          [Call.vkQueueSubmit 8 [11, 15]
            [VK_PIPELINE_STAGE_COLOR_ATTACHMENT_OUTPUT_BIT,
             VK_PIPELINE_STAGE_COLOR_ATTACHMENT_OUTPUT_BIT] [13] VK_SUCCESS] ∧
        ∀ c ∈ calls, c.subject ≠ Subject.queue := by
  have h1 : (SsboTriangle.scene_render exampleBuild frameResources 1 frameContext).1 =
      Outcome.ok (frameResources, 2) := by
    simp [SsboTriangle.scene_render, bind, Prog.bind, vkdf_command_buffer_execute,
      commandBufferState, invalidArgument, VK_CHECK, vkQueueSubmit, getContext, pure,
      Prog.pure, array, NULL, index, frameContext, frameResources, exampleContext,
      acceptingDriver, SsboTriangle.DemoResources.zero]
  exact ⟨_, _, Prod.ext h1 rfl, ssbo_triangle_frame_semaphores _ _ _ _ _ _ (Prod.ext h1 rfl)⟩

section
open SsboTriangle

/-! ## The feedback arrays -/

theorem load_four (memory : Nat → Nat) (i : Nat) :
    load 4 memory i =
      memory (i * 4) + memory (i * 4 + 1) * 256 + memory (i * 4 + 2) * 65536 +
        memory (i * 4 + 3) * 16777216 := by
  simp [load, List.range_succ]
  omega

theorem load_two (memory : Nat → Nat) (i : Nat) :
    load 2 memory i = memory (i * 2) + memory (i * 2 + 1) * 256 := by
  simp [load, List.range_succ]

theorem load_store_four (memory : Nat → Nat) (i j value : Nat) (hv : value < 2 ^ 32) :
    load 4 (store 4 memory i value) j = if j = i then value else load 4 memory j := by
  by_cases h : j = i
  · subst h
    simp [load_four, store, byteOf]
    omega
  · have h1 : ¬ (i * 4 ≤ j * 4 ∧ j * 4 < i * 4 + 4) := by omega
    have h2 : ¬ (i * 4 ≤ j * 4 + 1 ∧ j * 4 + 1 < i * 4 + 4) := by omega
    have h3 : ¬ (i * 4 ≤ j * 4 + 2 ∧ j * 4 + 2 < i * 4 + 4) := by omega
    have h4 : ¬ (i * 4 ≤ j * 4 + 3 ∧ j * 4 + 3 < i * 4 + 4) := by omega
    simp only [load_four, store, h, if_false, h1, h2, h3, h4]

theorem load_store_two (memory : Nat → Nat) (i j value : Nat) (hv : value < 2 ^ 16) :
    load 2 (store 2 memory i value) j = if j = i then value else load 2 memory j := by
  by_cases h : j = i
  · subst h
    simp [load_two, store, byteOf]
    omega
  · have h1 : ¬ (i * 2 ≤ j * 2 ∧ j * 2 < i * 2 + 2) := by omega
    have h2 : ¬ (i * 2 ≤ j * 2 + 1 ∧ j * 2 + 1 < i * 2 + 2) := by omega
    simp only [load_two, store, h, if_false, h1, h2]

theorem SsboTriangle.load_fill_reference_32 (count : Nat) (feedback : Nat → Nat) (i : Nat)
    (h : i < count) : load 4 (fill_reference 32 count feedback) i = REFERENCE_VALUE := by
  induction count with
  | zero => omega
  | succ n ih =>
    unfold fill_reference at ih ⊢
    rw [List.range_succ, List.foldl_append]
    simp only [List.foldl_cons, List.foldl_nil, if_true]
    rw [load_store_four _ _ _ _ (by decide)]
    by_cases hi : i = n
    · rw [if_pos hi]
    · rw [if_neg hi]
      exact ih (by omega)

theorem SsboTriangle.load_fill_reference_16 (bits count : Nat) (hb : bits ≠ 32)
    (feedback : Nat → Nat) (i : Nat) (h : i < count) :
    load 2 (fill_reference bits count feedback) i = USHORT_REFERENCE_VALUE := by
  induction count with
  | zero => omega
  | succ n ih =>
    unfold fill_reference at ih ⊢
    rw [List.range_succ, List.foldl_append]
    simp only [List.foldl_cons, List.foldl_nil, if_neg hb] at ih ⊢
    rw [load_store_two _ _ _ _ (by decide)]
    by_cases hi : i = n
    · rw [if_pos hi]
      rfl
    · rw [if_neg hi]
      exact ih (by omega)

end

section
open SsboTriangle

theorem image_color_fold (w comps idx : Nat) (img init : Nat → Nat) (k : Nat) :
    ((List.range comps).foldl
        (fun image_color component =>
          Function.update image_color component (load w img ((idx + component) % 2 ^ 32)))
        init) k =
      if k < comps then load w img ((idx + k) % 2 ^ 32) else init k := by
  induction comps with
  | zero => simp
  | succ n ih =>
    rw [List.range_succ, List.foldl_append]
    simp only [List.foldl_cons, List.foldl_nil]
    by_cases hk : k = n
    · subst hk
      simp
    · rw [Function.update_noteq hk, ih]
      by_cases hlt : k < n
      · rw [if_pos hlt, if_pos (by omega)]
      · rw [if_neg hlt, if_neg (by omega)]

theorem pixel_loop_fold (comps : Nat) (first ssbo_at : Nat → Nat) (D : Nat → Nat → Prop)
    [∀ a b, Decidable (D a b)] (P : Nat → Prop) [∀ a, Decidable (P a)] (n : Nat) :
    (List.range n).foldl
        (fun (s : Nat × Nat × Nat × Nat) (_ : Nat) =>
          ((s.1 + comps) % 2 ^ 32, (s.2.1 + 1) % 2 ^ 32,
           (if D (ssbo_at s.2.1) (first s.1) then (s.2.2.1 + 1) % 2 ^ 32 else s.2.2.1),
           (if P (first s.1) then (s.2.2.2 + 1) % 2 ^ 32 else s.2.2.2)))
        (0, 0, 0, 0) =
      (n * comps % 2 ^ 32, n % 2 ^ 32,
       ((List.range n).filter
          (fun q => decide (D (ssbo_at (q % 2 ^ 32)) (first (q * comps % 2 ^ 32))))).length %
         2 ^ 32,
       ((List.range n).filter
          (fun q => decide (P (first (q * comps % 2 ^ 32))))).length % 2 ^ 32) := by
  induction n with
  | zero => simp
  | succ n ih =>
    rw [List.range_succ, List.foldl_append, ih]
    simp only [List.foldl_cons, List.foldl_nil, List.filter_append, List.length_append,
      List.filter_cons, List.filter_nil]
    refine Prod.ext ?_ (Prod.ext ?_ (Prod.ext ?_ ?_))
    · show (n * comps % 2 ^ 32 + comps) % 2 ^ 32 = (n + 1) * comps % 2 ^ 32
      rw [Nat.add_mul, one_mul]
      omega
    · show (n % 2 ^ 32 + 1) % 2 ^ 32 = (n + 1) % 2 ^ 32
      omega
    · dsimp only
      by_cases hd : D (ssbo_at (n % 2 ^ 32)) (first (n * comps % 2 ^ 32))
      · simp only [hd, if_true, decide_True, List.length_cons, List.length_nil]
        omega
      · simp only [hd, if_false, decide_False, Bool.false_eq_true, List.length_nil]
        omega
    · dsimp only
      by_cases hp : P (first (n * comps % 2 ^ 32))
      · simp only [hp, if_true, decide_True, List.length_cons, List.length_nil]
        omega
      · simp only [hp, if_false, decide_False, Bool.false_eq_true, List.length_nil]
        omega

theorem SsboTriangle.check_data_32bits_eq (build : Build) (res : DemoResources)
    (image_feedback ssbo_feedback : Nat → Nat) :
    check_data_32bits build res image_feedback ssbo_feedback =
      if 0 < res.num_pixels ∧ 4 < res.num_image_components then undefinedBehaviour else
      (fun (s : Nat × Nat × Nat × Nat) => (do
        assert build.ndebug (s.1 == res.num_image_elements)
        assert build.ndebug (s.2.1 == res.num_ssbo_elements)
        return (s.2.2.1, s.2.2.2) : Prog (Nat × Nat)))
      ((List.range res.num_pixels).foldl
        (fun (s : Nat × Nat × Nat × Nat) (_ : Nat) =>
          ((s.1 + res.num_image_components) % 2 ^ 32, (s.2.1 + 1) % 2 ^ 32,
           (if float_ne (load 4 ssbo_feedback s.2.1)
              ((List.range res.num_image_components).foldl
                (fun image_color component =>
                  Function.update image_color component
                    (load 4 image_feedback ((s.1 + component) % 2 ^ 32)))
                (fun component => build.uninit (4 + component)) 0) = true
            then (s.2.2.1 + 1) % 2 ^ 32 else s.2.2.1),
           (if float_ne
              ((List.range res.num_image_components).foldl
                (fun image_color component =>
                  Function.update image_color component
                    (load 4 image_feedback ((s.1 + component) % 2 ^ 32)))
                (fun component => build.uninit (4 + component)) 0) REFERENCE_VALUE = true
            then (s.2.2.2 + 1) % 2 ^ 32 else s.2.2.2)))
        (0, 0, 0, 0)) := rfl

theorem SsboTriangle.check_data_16bits_eq (build : Build) (res : DemoResources)
    (image_feedback ssbo_feedback : Nat → Nat) :
    check_data_16bits build res image_feedback ssbo_feedback =
      if 0 < res.num_pixels ∧ 4 < res.num_image_components then undefinedBehaviour else
      (fun (s : Nat × Nat × Nat × Nat) => (do
        assert build.ndebug (s.1 == res.num_image_elements)
        assert build.ndebug (s.2.1 == res.num_ssbo_elements)
        return (s.2.2.1, s.2.2.2) : Prog (Nat × Nat)))
      ((List.range res.num_pixels).foldl
        (fun (s : Nat × Nat × Nat × Nat) (_ : Nat) =>
          ((s.1 + res.num_image_components) % 2 ^ 32, (s.2.1 + 1) % 2 ^ 32,
           (if load 2 ssbo_feedback s.2.1 ≠
              ((List.range res.num_image_components).foldl
                (fun image_color component =>
                  Function.update image_color component
                    (load 2 image_feedback ((s.1 + component) % 2 ^ 32)))
                (fun component => build.uninit (4 + component)) 0)
            then (s.2.2.1 + 1) % 2 ^ 32 else s.2.2.1),
           (if ((List.range res.num_image_components).foldl
                (fun image_color component =>
                  Function.update image_color component
                    (load 2 image_feedback ((s.1 + component) % 2 ^ 32)))
                (fun component => build.uninit (4 + component)) 0) ≠ USHORT_REFERENCE_VALUE
            then (s.2.2.2 + 1) % 2 ^ 32 else s.2.2.2)))
        (0, 0, 0, 0)) := rfl

end

section
open SsboTriangle

theorem filter_length_mod (n : Nat) (hn : n < 2 ^ 32) (p : Nat → Bool) :
    ((List.range n).filter p).length % 2 ^ 32 = ((List.range n).filter p).length := by
  have h := List.length_filter_le p (List.range n)
  rw [List.length_range] at h
  exact Nat.mod_eq_of_lt (by omega)

theorem SsboTriangle.check_data_32bits_run (build : Build) (res : DemoResources)
    (image_feedback ssbo_feedback : Nat → Nat) (hc : 1 ≤ res.num_image_components)
    (h4 : res.num_image_components ≤ 4)
    (hn : res.num_pixels * res.num_image_components < 2 ^ 32) :
    check_data_32bits build res image_feedback ssbo_feedback = (do
      assert build.ndebug (res.num_pixels * res.num_image_components == res.num_image_elements)
      assert build.ndebug (res.num_pixels == res.num_ssbo_elements)
      return (((List.range res.num_pixels).filter (fun p =>
                float_ne (load 4 ssbo_feedback p)
                  (load 4 image_feedback (p * res.num_image_components)))).length,
              ((List.range res.num_pixels).filter (fun p =>
                float_ne (load 4 image_feedback (p * res.num_image_components))
                  REFERENCE_VALUE)).length)) := by
  have hp : res.num_pixels < 2 ^ 32 := by nlinarith
  have hg : ¬ (0 < res.num_pixels ∧ 4 < res.num_image_components) := by omega
  rw [check_data_32bits_eq, if_neg hg,
    pixel_loop_fold res.num_image_components
      (fun idx => (List.range res.num_image_components).foldl
        (fun image_color component =>
          Function.update image_color component
            (load 4 image_feedback ((idx + component) % 2 ^ 32)))
        (fun component => build.uninit (4 + component)) 0)
      (load 4 ssbo_feedback) (fun a b => float_ne a b = true)
      (fun a => float_ne a REFERENCE_VALUE = true)]
  have key : ∀ q ∈ List.range res.num_pixels,
      q % 2 ^ 32 = q ∧
      (List.range res.num_image_components).foldl
        (fun image_color component =>
          Function.update image_color component
            (load 4 image_feedback ((q * res.num_image_components % 2 ^ 32 + component) % 2 ^ 32)))
        (fun component => build.uninit (4 + component)) 0 =
      load 4 image_feedback (q * res.num_image_components) := by
    intro q hq
    have hq := List.mem_range.mp hq
    have h1 : q * res.num_image_components < 2 ^ 32 :=
      lt_of_le_of_lt (Nat.mul_le_mul_right _ hq.le) hn
    refine ⟨Nat.mod_eq_of_lt (by omega), ?_⟩
    rw [image_color_fold, if_pos (by omega), Nat.add_zero, Nat.mod_mod, Nat.mod_eq_of_lt h1]
  have f1 : (List.range res.num_pixels).filter
      (fun q => decide (float_ne (load 4 ssbo_feedback (q % 2 ^ 32))
        ((List.range res.num_image_components).foldl
          (fun image_color component =>
            Function.update image_color component
              (load 4 image_feedback
                ((q * res.num_image_components % 2 ^ 32 + component) % 2 ^ 32)))
          (fun component => build.uninit (4 + component)) 0) = true)) =
      (List.range res.num_pixels).filter (fun p =>
        float_ne (load 4 ssbo_feedback p)
          (load 4 image_feedback (p * res.num_image_components))) :=
    List.filter_congr (fun q hq => by rw [(key q hq).1, (key q hq).2]; simp)
  have f2 : (List.range res.num_pixels).filter
      (fun q => decide (float_ne
        ((List.range res.num_image_components).foldl
          (fun image_color component =>
            Function.update image_color component
              (load 4 image_feedback
                ((q * res.num_image_components % 2 ^ 32 + component) % 2 ^ 32)))
          (fun component => build.uninit (4 + component)) 0) REFERENCE_VALUE = true)) =
      (List.range res.num_pixels).filter (fun p =>
        float_ne (load 4 image_feedback (p * res.num_image_components)) REFERENCE_VALUE) :=
    List.filter_congr (fun q hq => by rw [(key q hq).2]; simp)
  dsimp only
  rw [f1, f2, filter_length_mod _ hp, filter_length_mod _ hp, Nat.mod_eq_of_lt hn,
    Nat.mod_eq_of_lt hp]

theorem SsboTriangle.check_data_16bits_run (build : Build) (res : DemoResources)
    (image_feedback ssbo_feedback : Nat → Nat) (hc : 1 ≤ res.num_image_components)
    (h4 : res.num_image_components ≤ 4)
    (hn : res.num_pixels * res.num_image_components < 2 ^ 32) :
    check_data_16bits build res image_feedback ssbo_feedback = (do
      assert build.ndebug (res.num_pixels * res.num_image_components == res.num_image_elements)
      assert build.ndebug (res.num_pixels == res.num_ssbo_elements)
      return (((List.range res.num_pixels).filter (fun p =>
                decide (load 2 ssbo_feedback p ≠
                  load 2 image_feedback (p * res.num_image_components)))).length,
              ((List.range res.num_pixels).filter (fun p =>
                decide (load 2 image_feedback (p * res.num_image_components) ≠
                  USHORT_REFERENCE_VALUE))).length)) := by
  have hp : res.num_pixels < 2 ^ 32 := by nlinarith
  have hg : ¬ (0 < res.num_pixels ∧ 4 < res.num_image_components) := by omega
  rw [check_data_16bits_eq, if_neg hg,
    pixel_loop_fold res.num_image_components
      (fun idx => (List.range res.num_image_components).foldl
        (fun image_color component =>
          Function.update image_color component
            (load 2 image_feedback ((idx + component) % 2 ^ 32)))
        (fun component => build.uninit (4 + component)) 0)
      (load 2 ssbo_feedback) (fun a b => a ≠ b)
      (fun a => a ≠ USHORT_REFERENCE_VALUE)]
  have key : ∀ q ∈ List.range res.num_pixels,
      q % 2 ^ 32 = q ∧
      (List.range res.num_image_components).foldl
        (fun image_color component =>
          Function.update image_color component
            (load 2 image_feedback ((q * res.num_image_components % 2 ^ 32 + component) % 2 ^ 32)))
        (fun component => build.uninit (4 + component)) 0 =
      load 2 image_feedback (q * res.num_image_components) := by
    intro q hq
    have hq := List.mem_range.mp hq
    have h1 : q * res.num_image_components < 2 ^ 32 :=
      lt_of_le_of_lt (Nat.mul_le_mul_right _ hq.le) hn
    refine ⟨Nat.mod_eq_of_lt (by omega), ?_⟩
    rw [image_color_fold, if_pos (by omega), Nat.add_zero, Nat.mod_mod, Nat.mod_eq_of_lt h1]
  have f1 : (List.range res.num_pixels).filter
      (fun q => decide (load 2 ssbo_feedback (q % 2 ^ 32) ≠
        ((List.range res.num_image_components).foldl
          (fun image_color component =>
            Function.update image_color component
              (load 2 image_feedback
                ((q * res.num_image_components % 2 ^ 32 + component) % 2 ^ 32)))
          (fun component => build.uninit (4 + component)) 0))) =
      (List.range res.num_pixels).filter (fun p =>
        decide (load 2 ssbo_feedback p ≠
          load 2 image_feedback (p * res.num_image_components))) :=
    List.filter_congr (fun q hq => by rw [(key q hq).1, (key q hq).2])
  have f2 : (List.range res.num_pixels).filter
      (fun q => decide (
        ((List.range res.num_image_components).foldl
          (fun image_color component =>
            Function.update image_color component
              (load 2 image_feedback
                ((q * res.num_image_components % 2 ^ 32 + component) % 2 ^ 32)))
          (fun component => build.uninit (4 + component)) 0) ≠ USHORT_REFERENCE_VALUE)) =
      (List.range res.num_pixels).filter (fun p =>
        decide (load 2 image_feedback (p * res.num_image_components) ≠
          USHORT_REFERENCE_VALUE)) :=
    List.filter_congr (fun q hq => by rw [(key q hq).2])
  dsimp only
  rw [f1, f2, filter_length_mod _ hp, filter_length_mod _ hp, Nat.mod_eq_of_lt hn,
    Nat.mod_eq_of_lt hp]

end

section
open SsboTriangle

theorem SsboTriangle.create_ssbo_res (build : Build) (res r : DemoResources)
    (buffer : VkdfBuffer) (ctx ctx' : VkdfContext)
    (h : create_ssbo build res ctx = (Outcome.ok (buffer, r), ctx')) :
    r = { res with
      ssbo_feedback := fill_reference res.bits res.num_ssbo_elements build.malloc } := by
  simp only [create_ssbo, Prog.bind_eq_ok, Prog.pure_eq_ok] at h
  obtain ⟨buffer', c1, h1, h⟩ := h
  obtain ⟨_, c2, h2, h, rfl⟩ := h
  simp only [Prod.mk.injEq] at h
  exact h.2

theorem SsboTriangle.create_color_image_res (build : Build) (res r : DemoResources)
    (image : VkdfImage) (ctx ctx' : VkdfContext)
    (h : create_color_image build res ctx = (Outcome.ok (image, r), ctx')) :
    r = { res with
      image_feedback := fill_reference res.bits res.num_image_elements build.malloc } := by
  simp only [create_color_image, Prog.bind_eq_ok, Prog.pure_eq_ok] at h
  obtain ⟨_, c1, h1, h⟩ := h
  obtain ⟨rfl, rfl⟩ := (getContext_eq_ok _ _ _).mp h1
  obtain ⟨image', c2, h2, h⟩ := h
  obtain ⟨_, c3, h3, h, rfl⟩ := h
  simp only [Prod.mk.injEq] at h
  exact h.2

set_option maxHeartbeats 1600000 in
theorem SsboTriangle.init_resources_res (build : Build) (bits : Nat)
    (ctx ctx' : VkdfContext) (res : DemoResources)
    (h : init_resources build bits ctx = (Outcome.ok res, ctx')) :
    res.bits = bits ∧ res.num_pixels = 786432 ∧ res.num_image_components = 4 ∧
    res.num_ssbo_elements = 786432 ∧ res.num_image_elements = 3145728 ∧
    res.ssbo_feedback = fill_reference bits 786432 build.malloc ∧
    res.image_feedback = fill_reference bits 3145728 build.malloc := by
  simp only [init_resources, Prog.bind_eq_ok, Prod.exists, Prog.pure_eq_ok] at h
  obtain ⟨_, c1, h1, h⟩ := h
  obtain ⟨_, c2, h2, h⟩ := h
  obtain ⟨ssbo, r3, c3, h3, h⟩ := h
  obtain ⟨vertex_buf, c4, h4, h⟩ := h
  obtain ⟨ubo, c5, h5, h⟩ := h
  obtain ⟨vs_module, c6, h6, h⟩ := h
  obtain ⟨fs_module, c7, h7, h⟩ := h
  obtain ⟨offscreen_render_pass, c8, h8, h⟩ := h
  obtain ⟨onscreen_render_pass, c9, h9, h⟩ := h
  obtain ⟨color_image, r10, c10, h10, h⟩ := h
  obtain ⟨framebuffer, c11, h11, h⟩ := h
  obtain ⟨onscreen_framebuffers, c12, h12, h⟩ := h
  obtain ⟨pool_ubo, c13, h13, h⟩ := h
  obtain ⟨pool_ssbo, c14, h14, h⟩ := h
  obtain ⟨layout_ubo, c15, h15, h⟩ := h
  obtain ⟨set_ubo, c16, h16, h⟩ := h
  obtain ⟨layout_ssbo, c17, h17, h⟩ := h
  obtain ⟨set_ssbo, c18, h18, h⟩ := h
  obtain ⟨_, c19, h19, h⟩ := h
  obtain ⟨_, c20, h20, h⟩ := h
  obtain ⟨pipeline_layout, c21, h21, h⟩ := h
  obtain ⟨pipeline_offscreen, c22, h22, h⟩ := h
  obtain ⟨pipeline_onscreen, c23, h23, h⟩ := h
  obtain ⟨cmd_pool, c24, h24, h⟩ := h
  obtain ⟨cmd_bufs, c25, h25, h⟩ := h
  obtain ⟨_, c26, h26, h⟩ := h
  obtain ⟨_, c27, h27, h⟩ := h
  obtain ⟨_, c28, h28, h⟩ := h
  obtain ⟨onscreen_cmd_bufs, c29, h29, h⟩ := h
  obtain ⟨_, c30, h30, h⟩ := h
  obtain ⟨offscreen_draw_sem, c31, h31, h⟩ := h
  obtain ⟨rfl, rfl⟩ := h
  have e3 := create_ssbo_res _ _ _ _ _ _ h3
  have e10 := create_color_image_res _ _ _ _ _ _ h10
  subst e3
  subst e10
  have e1 : WIDTH * HEIGHT * DEFAULT_SSBO_NUM_COMPONENTS % 2 ^ 32 = 786432 := by decide
  have e2 : WIDTH * HEIGHT * DEFAULT_IMAGE_NUM_COMPONENTS % 2 ^ 32 = 3145728 := by decide
  have e0 : WIDTH * HEIGHT = 786432 := by decide
  dsimp only
  rw [e1, e2, e0]
  exact ⟨rfl, rfl, rfl, rfl, rfl, rfl, rfl⟩

end

section
open SsboTriangle

/-! ## The indices of the check -/

theorem component_loop_fold (comps idx : Nat) (hidx : idx < 2 ^ 32) :
    (List.range comps).foldl
        (fun (s : List (Nat × Nat) × Nat) component =>
          (s.1 ++ [(s.2, component)], (s.2 + 1) % 2 ^ 32))
        ([], idx) =
      ((List.range comps).map (fun component => ((idx + component) % 2 ^ 32, component)),
       (idx + comps) % 2 ^ 32) := by
  induction comps with
  | zero =>
    simp
    omega
  | succ n ih =>
    rw [List.range_succ, List.foldl_append, ih]
    simp only [List.foldl_cons, List.foldl_nil, List.map_append, List.map_cons, List.map_nil]
    refine Prod.ext rfl ?_
    show ((idx + n) % 2 ^ 32 + 1) % 2 ^ 32 = (idx + (n + 1)) % 2 ^ 32
    omega

theorem SsboTriangle.check_data_accesses_eq (res : DemoResources) :
    check_data_accesses res =
      ((List.range res.num_pixels).map (fun pixel =>
         ((List.range res.num_image_components).map (fun component =>
            ((pixel * res.num_image_components % 2 ^ 32 + component) % 2 ^ 32, component)),
          pixel % 2 ^ 32)),
       res.num_pixels * res.num_image_components % 2 ^ 32, res.num_pixels % 2 ^ 32) := by
  have e : check_data_accesses res =
      (List.range res.num_pixels).foldl
        (fun (s : List (List (Nat × Nat) × Nat) × Nat × Nat) (_ : Nat) =>
          (s.1 ++
            [(((List.range res.num_image_components).foldl
                (fun (s : List (Nat × Nat) × Nat) component =>
                  (s.1 ++ [(s.2, component)], (s.2 + 1) % 2 ^ 32))
                ([], s.2.1)).1, s.2.2)],
           ((List.range res.num_image_components).foldl
                (fun (s : List (Nat × Nat) × Nat) component =>
                  (s.1 ++ [(s.2, component)], (s.2 + 1) % 2 ^ 32))
                ([], s.2.1)).2,
           (s.2.2 + 1) % 2 ^ 32))
        ([], 0, 0) := rfl
  rw [e]
  generalize res.num_pixels = n
  induction n with
  | zero => simp
  | succ n ih =>
    rw [List.range_succ, List.foldl_append, ih]
    simp only [List.foldl_cons, List.foldl_nil, List.map_append, List.map_cons, List.map_nil]
    rw [component_loop_fold _ _ (Nat.mod_lt _ (Nat.two_pow_pos 32))]
    refine Prod.ext rfl (Prod.ext ?_ ?_)
    · show (n * res.num_image_components % 2 ^ 32 + res.num_image_components) % 2 ^ 32 =
        (n + 1) * res.num_image_components % 2 ^ 32
      rw [Nat.add_mul, one_mul]
      omega
    · show (n % 2 ^ 32 + 1) % 2 ^ 32 = (n + 1) % 2 ^ 32
      omega

end

section
open SsboTriangle

theorem assert_self (ndebug : Bool) (a : Nat) : assert ndebug (a == a) = Prog.pure () := by
  cases ndebug <;> simp [assert]

theorem SsboTriangle.check_data_32bits_returns (build : Build) (res : DemoResources)
    (image_feedback ssbo_feedback : Nat → Nat) (ctx : VkdfContext)
    (hp : res.num_pixels < 2 ^ 32)
    (hn : res.num_pixels * res.num_image_components < 2 ^ 32)
    (hi : res.num_image_elements = res.num_pixels * res.num_image_components)
    (hs : res.num_ssbo_elements = res.num_pixels)
    (hc : res.num_image_components ≤ 4) :
    ∃ counts, check_data_32bits build res image_feedback ssbo_feedback ctx =
      (Outcome.ok counts, ctx) := by
  have hg : ¬ (0 < res.num_pixels ∧ 4 < res.num_image_components) := by omega
  rw [check_data_32bits_eq, if_neg hg,
    pixel_loop_fold res.num_image_components
      (fun idx => (List.range res.num_image_components).foldl
        (fun image_color component =>
          Function.update image_color component
            (load 4 image_feedback ((idx + component) % 2 ^ 32)))
        (fun component => build.uninit (4 + component)) 0)
      (load 4 ssbo_feedback) (fun a b => float_ne a b = true)
      (fun a => float_ne a REFERENCE_VALUE = true)]
  dsimp only
  rw [Nat.mod_eq_of_lt hn, Nat.mod_eq_of_lt hp, hi, hs, assert_self, assert_self]
  exact ⟨_, rfl⟩

theorem SsboTriangle.check_data_16bits_returns (build : Build) (res : DemoResources)
    (image_feedback ssbo_feedback : Nat → Nat) (ctx : VkdfContext)
    (hp : res.num_pixels < 2 ^ 32)
    (hn : res.num_pixels * res.num_image_components < 2 ^ 32)
    (hi : res.num_image_elements = res.num_pixels * res.num_image_components)
    (hs : res.num_ssbo_elements = res.num_pixels)
    (hc : res.num_image_components ≤ 4) :
    ∃ counts, check_data_16bits build res image_feedback ssbo_feedback ctx =
      (Outcome.ok counts, ctx) := by
  have hg : ¬ (0 < res.num_pixels ∧ 4 < res.num_image_components) := by omega
  rw [check_data_16bits_eq, if_neg hg,
    pixel_loop_fold res.num_image_components
      (fun idx => (List.range res.num_image_components).foldl
        (fun image_color component =>
          Function.update image_color component
            (load 2 image_feedback ((idx + component) % 2 ^ 32)))
        (fun component => build.uninit (4 + component)) 0)
      (load 2 ssbo_feedback) (fun a b => a ≠ b)
      (fun a => a ≠ USHORT_REFERENCE_VALUE)]
  dsimp only
  rw [Nat.mod_eq_of_lt hn, Nat.mod_eq_of_lt hp, hi, hs, assert_self, assert_self]
  exact ⟨_, rfl⟩

theorem pixel_loop_congr (comps : Nat) (first first' ssbo_at ssbo_at' : Nat → Nat)
    (D : Nat → Nat → Prop) [∀ a b, Decidable (D a b)] (P : Nat → Prop) [∀ a, Decidable (P a)]
    (n : Nat)
    (h : ∀ q ∈ List.range n, ssbo_at (q % 2 ^ 32) = ssbo_at' (q % 2 ^ 32) ∧
      first (q * comps % 2 ^ 32) = first' (q * comps % 2 ^ 32)) :
    (List.range n).foldl
        (fun (s : Nat × Nat × Nat × Nat) (_ : Nat) =>
          ((s.1 + comps) % 2 ^ 32, (s.2.1 + 1) % 2 ^ 32,
           (if D (ssbo_at s.2.1) (first s.1) then (s.2.2.1 + 1) % 2 ^ 32 else s.2.2.1),
           (if P (first s.1) then (s.2.2.2 + 1) % 2 ^ 32 else s.2.2.2)))
        (0, 0, 0, 0) =
    (List.range n).foldl
        (fun (s : Nat × Nat × Nat × Nat) (_ : Nat) =>
          ((s.1 + comps) % 2 ^ 32, (s.2.1 + 1) % 2 ^ 32,
           (if D (ssbo_at' s.2.1) (first' s.1) then (s.2.2.1 + 1) % 2 ^ 32 else s.2.2.1),
           (if P (first' s.1) then (s.2.2.2 + 1) % 2 ^ 32 else s.2.2.2)))
        (0, 0, 0, 0) := by
  have f1 : (List.range n).filter
      (fun q => decide (D (ssbo_at (q % 2 ^ 32)) (first (q * comps % 2 ^ 32)))) =
      (List.range n).filter
        (fun q => decide (D (ssbo_at' (q % 2 ^ 32)) (first' (q * comps % 2 ^ 32)))) :=
    List.filter_congr (fun q hq => by rw [(h q hq).1, (h q hq).2])
  have f2 : (List.range n).filter (fun q => decide (P (first (q * comps % 2 ^ 32)))) =
      (List.range n).filter (fun q => decide (P (first' (q * comps % 2 ^ 32)))) :=
    List.filter_congr (fun q hq => by rw [(h q hq).2])
  rw [pixel_loop_fold, pixel_loop_fold, f1, f2]

/-- What `check_data_32bits` returns depends on the two arrays only through the elements
at the indices of `check_data_accesses`. -/
theorem SsboTriangle.check_data_32bits_reads (build : Build) (res : DemoResources)
    (image image' ssbo ssbo' : Nat → Nat)
    (h : ∀ access ∈ (check_data_accesses res).1,
      (∀ read ∈ access.1, load 4 image read.1 = load 4 image' read.1) ∧
      load 4 ssbo access.2 = load 4 ssbo' access.2) :
    check_data_32bits build res image ssbo = check_data_32bits build res image' ssbo' := by
  rw [check_data_accesses_eq] at h
  have key : ∀ q ∈ List.range res.num_pixels,
      load 4 ssbo (q % 2 ^ 32) = load 4 ssbo' (q % 2 ^ 32) ∧
      (List.range res.num_image_components).foldl
        (fun image_color component =>
          Function.update image_color component
            (load 4 image ((q * res.num_image_components % 2 ^ 32 + component) % 2 ^ 32)))
        (fun component => build.uninit (4 + component)) 0 =
      (List.range res.num_image_components).foldl
        (fun image_color component =>
          Function.update image_color component
            (load 4 image' ((q * res.num_image_components % 2 ^ 32 + component) % 2 ^ 32)))
        (fun component => build.uninit (4 + component)) 0 := by
    intro q hq
    obtain ⟨h1, h2⟩ := h _ (List.mem_map.mpr ⟨q, hq, rfl⟩)
    refine ⟨h2, ?_⟩
    rw [image_color_fold, image_color_fold]
    by_cases hc : 0 < res.num_image_components
    · rw [if_pos hc, if_pos hc]
      exact h1 _ (List.mem_map.mpr ⟨0, List.mem_range.mpr hc, rfl⟩)
    · rw [if_neg hc, if_neg hc]
  rw [check_data_32bits_eq, check_data_32bits_eq]
  rw [(pixel_loop_congr res.num_image_components
    (fun idx => (List.range res.num_image_components).foldl
      (fun image_color component =>
        Function.update image_color component
          (load 4 image ((idx + component) % 2 ^ 32)))
      (fun component => build.uninit (4 + component)) 0)
    (fun idx => (List.range res.num_image_components).foldl
      (fun image_color component =>
        Function.update image_color component
          (load 4 image' ((idx + component) % 2 ^ 32)))
      (fun component => build.uninit (4 + component)) 0)
    (load 4 ssbo) (load 4 ssbo') (fun a b => float_ne a b = true)
    (fun a => float_ne a REFERENCE_VALUE = true) res.num_pixels key)]

/-- What `check_data_16bits` returns depends on the two arrays only through the elements
at the indices of `check_data_accesses`. -/
theorem SsboTriangle.check_data_16bits_reads (build : Build) (res : DemoResources)
    (image image' ssbo ssbo' : Nat → Nat)
    (h : ∀ access ∈ (check_data_accesses res).1,
      (∀ read ∈ access.1, load 2 image read.1 = load 2 image' read.1) ∧
      load 2 ssbo access.2 = load 2 ssbo' access.2) :
    check_data_16bits build res image ssbo = check_data_16bits build res image' ssbo' := by
  rw [check_data_accesses_eq] at h
  have key : ∀ q ∈ List.range res.num_pixels,
      load 2 ssbo (q % 2 ^ 32) = load 2 ssbo' (q % 2 ^ 32) ∧
      (List.range res.num_image_components).foldl
        (fun image_color component =>
          Function.update image_color component
            (load 2 image ((q * res.num_image_components % 2 ^ 32 + component) % 2 ^ 32)))
        (fun component => build.uninit (4 + component)) 0 =
      (List.range res.num_image_components).foldl
        (fun image_color component =>
          Function.update image_color component
            (load 2 image' ((q * res.num_image_components % 2 ^ 32 + component) % 2 ^ 32)))
        (fun component => build.uninit (4 + component)) 0 := by
    intro q hq
    obtain ⟨h1, h2⟩ := h _ (List.mem_map.mpr ⟨q, hq, rfl⟩)
    refine ⟨h2, ?_⟩
    rw [image_color_fold, image_color_fold]
    by_cases hc : 0 < res.num_image_components
    · rw [if_pos hc, if_pos hc]
      exact h1 _ (List.mem_map.mpr ⟨0, List.mem_range.mpr hc, rfl⟩)
    · rw [if_neg hc, if_neg hc]
  rw [check_data_16bits_eq, check_data_16bits_eq]
  rw [(pixel_loop_congr res.num_image_components
    (fun idx => (List.range res.num_image_components).foldl
      (fun image_color component =>
        Function.update image_color component
          (load 2 image ((idx + component) % 2 ^ 32)))
      (fun component => build.uninit (4 + component)) 0)
    (fun idx => (List.range res.num_image_components).foldl
      (fun image_color component =>
        Function.update image_color component
          (load 2 image' ((idx + component) % 2 ^ 32)))
      (fun component => build.uninit (4 + component)) 0)
    (load 2 ssbo) (load 2 ssbo') (fun a b => a ≠ b)
    (fun a => a ≠ USHORT_REFERENCE_VALUE) res.num_pixels key)]

theorem SsboTriangle.check_data_accesses_first (res : DemoResources) (h1 : 0 < res.num_pixels)
    (h2 : 0 < res.num_image_components) :
    ∃ access ∈ (check_data_accesses res).1, (0, 0) ∈ access.1 := by
  rw [check_data_accesses_eq]
  refine ⟨_, List.mem_map_of_mem _ (List.mem_range.mpr h1), ?_⟩
  have h := List.mem_map_of_mem
    (fun component => ((0 * res.num_image_components % 2 ^ 32 + component) % 2 ^ 32, component))
    (List.mem_range.mpr h2)
  simpa using h

/-- C25, as stated, fails: in the record with `2 ^ 30` pixels of 4 components the element
counts are the products the code computes in 32-bit unsigned arithmetic, so
`num_image_elements` is 0, and the first pixel reads `image_feedback[0]`, an index that
is not below `num_image_elements`. -/
theorem check_data_indices_wrap_counterexample :
    wrappingResources.num_image_elements =
      wrappingResources.num_pixels * wrappingResources.num_image_components % 2 ^ 32 ∧
    wrappingResources.num_ssbo_elements = wrappingResources.num_pixels ∧
    wrappingResources.num_image_components ≤ 4 ∧
    ∃ access ∈ (check_data_accesses wrappingResources).1, ∃ read ∈ access.1,
      ¬ read.1 < wrappingResources.num_image_elements := by
  refine ⟨by decide, rfl, by decide, ?_⟩
  obtain ⟨access, ha, hr⟩ :=
    check_data_accesses_first wrappingResources (by decide) (by decide)
  exact ⟨access, ha, (0, 0), hr, by decide⟩

/-- C25, amended: for every resource record whose product
`num_pixels * num_image_components` stays below `2 ^ 32`, with
`num_image_elements = num_pixels * num_image_components`,
`num_ssbo_elements = num_pixels` and `num_image_components <= 4`, every index at which
the loop of `check_data_32bits` and `check_data_16bits` reads `image_feedback` is below
`num_image_elements`, every component of `image_color` written is below 4, every index
at which `ssbo_feedback` is read is below `num_ssbo_elements`, the loop leaves
`index_image` and `index_ssbo` at the two element counts, and so both functions return
also in a build with assertions. -/
theorem check_data_indices_in_bounds (res : DemoResources)
    (hp : res.num_pixels < 2 ^ 32)
    (hn : res.num_pixels * res.num_image_components < 2 ^ 32)
    (hi : res.num_image_elements = res.num_pixels * res.num_image_components)
    (hs : res.num_ssbo_elements = res.num_pixels)
    (hc : res.num_image_components ≤ 4) :
    (∀ access ∈ (check_data_accesses res).1,
      (∀ read ∈ access.1, read.1 < res.num_image_elements ∧ read.2 < 4) ∧
      access.2 < res.num_ssbo_elements) ∧
    (check_data_accesses res).2 = (res.num_image_elements, res.num_ssbo_elements) ∧
    ∀ (build : Build) (image_feedback ssbo_feedback : Nat → Nat) (ctx : VkdfContext),
      (∃ counts, check_data_32bits build res image_feedback ssbo_feedback ctx =
        (Outcome.ok counts, ctx)) ∧
      (∃ counts, check_data_16bits build res image_feedback ssbo_feedback ctx =
        (Outcome.ok counts, ctx)) := by
  refine ⟨?_, ?_, fun build image_feedback ssbo_feedback ctx =>
    ⟨check_data_32bits_returns build res image_feedback ssbo_feedback ctx hp hn hi hs hc,
     check_data_16bits_returns build res image_feedback ssbo_feedback ctx hp hn hi hs hc⟩⟩
  · rw [check_data_accesses_eq]
    intro access ha
    obtain ⟨pixel, hpixel, rfl⟩ := List.mem_map.mp ha
    have hpixel := List.mem_range.mp hpixel
    have h1 : (pixel + 1) * res.num_image_components ≤
        res.num_pixels * res.num_image_components := Nat.mul_le_mul_right _ hpixel
    rw [Nat.add_mul, one_mul] at h1
    refine ⟨fun read hr => ?_, ?_⟩
    · obtain ⟨component, hcomponent, rfl⟩ := List.mem_map.mp hr
      have hcomponent := List.mem_range.mp hcomponent
      dsimp only
      rw [hi]
      constructor
      · rw [Nat.mod_eq_of_lt (by omega), Nat.mod_eq_of_lt (by omega)]
        omega
      · omega
    · dsimp only
      rw [hs, Nat.mod_eq_of_lt (by omega)]
      exact hpixel
  · rw [check_data_accesses_eq]
    dsimp only
    rw [Nat.mod_eq_of_lt hn, Nat.mod_eq_of_lt hp, hi, hs]

/-- C25 amended, at the numbers the demo sets: 786432 pixels of 4 components. -/
theorem check_data_indices_in_bounds_witness :
    screenResources.num_pixels * screenResources.num_image_components < 2 ^ 32 ∧
    (∀ access ∈ (check_data_accesses screenResources).1,
      (∀ read ∈ access.1, read.1 < 3145728 ∧ read.2 < 4) ∧ access.2 < 786432) ∧
    (check_data_accesses screenResources).2 = (3145728, 786432) ∧
    ∀ (build : Build) (image_feedback ssbo_feedback : Nat → Nat) (ctx : VkdfContext),
      (∃ counts, check_data_32bits build screenResources image_feedback ssbo_feedback ctx =
        (Outcome.ok counts, ctx)) ∧
      (∃ counts, check_data_16bits build screenResources image_feedback ssbo_feedback ctx =
        (Outcome.ok counts, ctx)) :=
  ⟨by decide,
   check_data_indices_in_bounds screenResources (by decide) (by decide) rfl rfl (by decide)⟩

end

section
open SsboTriangle

/-! ## The counts of the check -/

theorem assert_of_or (ndebug : Bool) (cond : Bool) (h : ndebug = true ∨ cond = true) :
    assert ndebug cond = Prog.pure () := by
  rcases h with h | h <;> simp [assert, h]

theorem SsboTriangle.check_outcome_inv (build : Build) (res res' : DemoResources)
    (ctx ctx' : VkdfContext) (h : check_outcome build res ctx = (Outcome.ok res', ctx')) :
    ∃ calls count_different count_painted c c',
      (if res.bits = 32 then
          check_data_32bits build res' res'.image_feedback res'.ssbo_feedback
        else check_data_16bits build res' res'.image_feedback res'.ssbo_feedback) c =
        (Outcome.ok (count_different, count_painted), c') ∧
      ctx'.log = ctx.log ++ calls ++
        [Call.fprintf (Message.painted count_painted res.num_pixels),
         Call.fprintf (Message.different count_different res.num_pixels),
         Call.fprintf (if count_different = 0 then Message.correct else Message.wrong)] ∧
      ∀ call ∈ calls, call.subject = Subject.memory := by
  simp only [check_outcome, Prog.bind_eq_ok, Prog.pure_eq_ok, Prod.exists] at h
  obtain ⟨ssbo_bytes, c1, h1, image_bytes, c2, h2, cd, cp, c3, h3, _, c4, h4, _, c5, h5, _, c6,
    h6, rfl, rfl⟩ := h
  have f1 := Touches.run (Q := fun s => s = Subject.memory)
    (Touches.vkdf_buffer_map_and_get _ _ _ _ rfl) h1
  have f2 := Touches.run (Q := fun s => s = Subject.memory)
    (Touches.vkdf_image_map_and_get _ _ _ _ rfl) h2
  obtain ⟨calls, hl, hc⟩ := (f1.trans f2).log
  have l3 : c3.log = c2.log := by
    have f3 : Frame (fun _ => False) c2 c3 := by
      split at h3
      · exact Touches.run (Touches.SsboTriangle.check_data_32bits _ _ _ _) h3
      · exact Touches.run (Touches.SsboTriangle.check_data_16bits _ _ _ _) h3
    obtain ⟨calls3, hl3, hc3⟩ := f3.log
    cases calls3 with
    | nil => simpa using hl3
    | cons x xs => exact absurd (hc3 x (List.mem_cons_self _ _)) id
  have l4 : c4.log = c3.log ++ [Call.fprintf (Message.painted cp res.num_pixels)] := by
    simp only [fprintf, Prod.mk.injEq, Outcome.ok.injEq] at h4
    rw [← h4.2]
  have l5 : c5.log = c4.log ++ [Call.fprintf (Message.different cd res.num_pixels)] := by
    simp only [fprintf, Prod.mk.injEq, Outcome.ok.injEq] at h5
    rw [← h5.2]
  have l6 : ctx'.log = c5.log ++
      [Call.fprintf (if cd = 0 then Message.correct else Message.wrong)] := by
    by_cases hz : cd = 0
    · simp only [hz, beq_self_eq_true, if_true, fprintf, Prod.mk.injEq, Outcome.ok.injEq] at h6
      rw [← h6.2, if_pos hz]
    · have hb : (cd == 0) = false := by simpa using hz
      simp only [hb, Bool.false_eq_true, if_false, fprintf, Prod.mk.injEq,
        Outcome.ok.injEq] at h6
      rw [← h6.2, if_neg hz]
  refine ⟨calls, cd, cp, c2, c3, h3, ?_, hc⟩
  rw [l6, l5, l4, l3, hl]
  simp only [List.append_assoc, List.cons_append, List.nil_append]

/-- C21: in the resources `init_resources` of ssbo-triangle returns, every element of
the initial SSBO contents and of the initial image contents holds the same value, which
is the reference the check compares against: `REFERENCE_VALUE` as a `float` when `bits`
is 32, `USHORT_REFERENCE_VALUE` as a `ushort` when `bits` is 16. Hence the check of that
width, run on the initial contents, returns `count_different = 0` and
`count_painted = 0`. -/
theorem initial_contents_are_reference (build : Build) (bits : Nat) (ctx ctx' : VkdfContext)
    (res : DemoResources) (h : init_resources build bits ctx = (Outcome.ok res, ctx')) :
    (bits = 32 →
      (∀ i < res.num_ssbo_elements, load 4 res.ssbo_feedback i = REFERENCE_VALUE) ∧
      (∀ i < res.num_image_elements, load 4 res.image_feedback i = REFERENCE_VALUE) ∧
      ∀ c, check_data_32bits build res res.image_feedback res.ssbo_feedback c =
        (Outcome.ok (0, 0), c)) ∧
    (bits = 16 →
      (∀ i < res.num_ssbo_elements, load 2 res.ssbo_feedback i = USHORT_REFERENCE_VALUE) ∧
      (∀ i < res.num_image_elements, load 2 res.image_feedback i = USHORT_REFERENCE_VALUE) ∧
      ∀ c, check_data_16bits build res res.image_feedback res.ssbo_feedback c =
        (Outcome.ok (0, 0), c)) := by
  obtain ⟨-, hpix, hcomp, hsn, hin, hsf, hif⟩ := init_resources_res _ _ _ _ _ h
  have hc : 1 ≤ res.num_image_components := by rw [hcomp]; decide
  have h4 : res.num_image_components ≤ 4 := le_of_eq hcomp
  have hn : res.num_pixels * res.num_image_components < 2 ^ 32 := by
    rw [hpix, hcomp]
    decide
  have ha1 : (res.num_pixels * res.num_image_components == res.num_image_elements) = true := by
    rw [hpix, hcomp, hin]
    decide
  have ha2 : (res.num_pixels == res.num_ssbo_elements) = true := by
    rw [hpix, hsn]
    decide
  have hidx : ∀ p ∈ List.range res.num_pixels,
      p < 786432 ∧ p * res.num_image_components < 3145728 := by
    intro p hp
    have hp := List.mem_range.mp hp
    rw [hpix] at hp
    rw [hcomp]
    omega
  constructor
  · rintro rfl
    have s : ∀ i < 786432, load 4 res.ssbo_feedback i = REFERENCE_VALUE := fun i hi => by
      rw [hsf]
      exact load_fill_reference_32 _ _ _ hi
    have m : ∀ i < 3145728, load 4 res.image_feedback i = REFERENCE_VALUE := fun i hi => by
      rw [hif]
      exact load_fill_reference_32 _ _ _ hi
    refine ⟨fun i hi => s i (by omega), fun i hi => m i (by omega), fun c => ?_⟩
    have f1 : (List.range res.num_pixels).filter (fun p =>
        float_ne (load 4 res.ssbo_feedback p)
          (load 4 res.image_feedback (p * res.num_image_components))) = [] :=
      List.filter_eq_nil_iff.mpr (fun p hp => by
        rw [s p (hidx p hp).1, m _ (hidx p hp).2]
        decide)
    have f2 : (List.range res.num_pixels).filter (fun p =>
        float_ne (load 4 res.image_feedback (p * res.num_image_components))
          REFERENCE_VALUE) = [] :=
      List.filter_eq_nil_iff.mpr (fun p hp => by
        rw [m _ (hidx p hp).2]
        decide)
    rw [check_data_32bits_run build res _ _ hc h4 hn, f1, f2, assert_of_or _ _ (Or.inr ha1),
      assert_of_or _ _ (Or.inr ha2)]
    rfl
  · rintro rfl
    have s : ∀ i < 786432, load 2 res.ssbo_feedback i = USHORT_REFERENCE_VALUE := fun i hi => by
      rw [hsf]
      exact load_fill_reference_16 _ _ (by decide) _ _ hi
    have m : ∀ i < 3145728, load 2 res.image_feedback i = USHORT_REFERENCE_VALUE :=
      fun i hi => by
        rw [hif]
        exact load_fill_reference_16 _ _ (by decide) _ _ hi
    refine ⟨fun i hi => s i (by omega), fun i hi => m i (by omega), fun c => ?_⟩
    have f1 : (List.range res.num_pixels).filter (fun p =>
        decide (load 2 res.ssbo_feedback p ≠
          load 2 res.image_feedback (p * res.num_image_components))) = [] :=
      List.filter_eq_nil_iff.mpr (fun p hp => by
        rw [s p (hidx p hp).1, m _ (hidx p hp).2]
        simp)
    have f2 : (List.range res.num_pixels).filter (fun p =>
        decide (load 2 res.image_feedback (p * res.num_image_components) ≠
          USHORT_REFERENCE_VALUE)) = [] :=
      List.filter_eq_nil_iff.mpr (fun p hp => by
        rw [m _ (hidx p hp).2]
        simp)
    rw [check_data_16bits_run build res _ _ hc h4 hn, f1, f2, assert_of_or _ _ (Or.inr ha1),
      assert_of_or _ _ (Or.inr ha2)]
    rfl

/-- C21, at concrete inputs: `init_resources` returns on the device of `ssboContext` for
32 and for 16 bits, and the check of the contents it leaves returns the counts 0 and
0. -/
theorem initial_contents_are_reference_witness :
    (∃ res ctx', init_resources exampleBuild 32 ssboContext = (Outcome.ok res, ctx') ∧
      (∀ i < res.num_ssbo_elements, load 4 res.ssbo_feedback i = REFERENCE_VALUE) ∧
      (∀ i < res.num_image_elements, load 4 res.image_feedback i = REFERENCE_VALUE) ∧
      ∀ c, check_data_32bits exampleBuild res res.image_feedback res.ssbo_feedback c =
        (Outcome.ok (0, 0), c)) ∧
    (∃ res ctx', init_resources exampleBuild 16 ssboContext = (Outcome.ok res, ctx') ∧
      (∀ i < res.num_ssbo_elements, load 2 res.ssbo_feedback i = USHORT_REFERENCE_VALUE) ∧
      (∀ i < res.num_image_elements, load 2 res.image_feedback i = USHORT_REFERENCE_VALUE) ∧
      ∀ c, check_data_16bits exampleBuild res res.image_feedback res.ssbo_feedback c =
        (Outcome.ok (0, 0), c)) := by
  constructor
  · obtain ⟨res, ctx', h⟩ :=
      init_resources_returns exampleBuild 32 (Or.inr rfl) ssboContext ssboContext_willing
    exact ⟨res, ctx', h,
      (initial_contents_are_reference exampleBuild 32 ssboContext ctx' res h).1 rfl⟩
  · obtain ⟨res, ctx', h⟩ :=
      init_resources_returns exampleBuild 16 (Or.inl rfl) ssboContext ssboContext_willing
    exact ⟨res, ctx', h,
      (initial_contents_are_reference exampleBuild 16 ssboContext ctx' res h).2 rfl⟩

/-- C22: for every pair of feedback arrays, on a resource record with at least one and at
most four image components (the four of `image_color`) whose product
`num_pixels * num_image_components` stays below `2 ^ 32` (as in the record
`init_resources` builds), `check_data_32bits` and `check_data_16bits` return,
unless an assertion on the element counts fails, with `count_different` the number of
pixels `p` in `[0, num_pixels)` whose element `ssbo[p]` differs from the first component
`image[p * num_image_components]` of the pixel, and `count_painted` the number of pixels
whose first component differs from the reference; both counts are at most `num_pixels`.
A `check_outcome` that returns has printed the two counts of the check on the arrays
read back and then `Correct.` if `count_different` is 0 and the `WRONG` message
otherwise. -/
theorem check_data_counts (build : Build) (res : DemoResources)
    (image_feedback ssbo_feedback : Nat → Nat)
    (hc : 1 ≤ res.num_image_components)
    (h4 : res.num_image_components ≤ 4)
    (hn : res.num_pixels * res.num_image_components < 2 ^ 32)
    (ha : build.ndebug = true ∨
      (res.num_image_elements = res.num_pixels * res.num_image_components ∧
        res.num_ssbo_elements = res.num_pixels)) :
    (∀ ctx, ∃ count_different count_painted,
      check_data_32bits build res image_feedback ssbo_feedback ctx =
        (Outcome.ok (count_different, count_painted), ctx) ∧
      count_different = ((List.range res.num_pixels).filter (fun p =>
        float_ne (load 4 ssbo_feedback p)
          (load 4 image_feedback (p * res.num_image_components)))).length ∧
      count_painted = ((List.range res.num_pixels).filter (fun p =>
        float_ne (load 4 image_feedback (p * res.num_image_components))
          REFERENCE_VALUE)).length ∧
      count_different ≤ res.num_pixels ∧ count_painted ≤ res.num_pixels) ∧
    (∀ ctx, ∃ count_different count_painted,
      check_data_16bits build res image_feedback ssbo_feedback ctx =
        (Outcome.ok (count_different, count_painted), ctx) ∧
      count_different = ((List.range res.num_pixels).filter (fun p =>
        decide (load 2 ssbo_feedback p ≠
          load 2 image_feedback (p * res.num_image_components)))).length ∧
      count_painted = ((List.range res.num_pixels).filter (fun p =>
        decide (load 2 image_feedback (p * res.num_image_components) ≠
          USHORT_REFERENCE_VALUE))).length ∧
      count_different ≤ res.num_pixels ∧ count_painted ≤ res.num_pixels) ∧
    ∀ (r r' : DemoResources) (ctx ctx' : VkdfContext),
      check_outcome build r ctx = (Outcome.ok r', ctx') →
      ∃ calls count_different count_painted c c',
        (if r.bits = 32 then check_data_32bits build r' r'.image_feedback r'.ssbo_feedback
          else check_data_16bits build r' r'.image_feedback r'.ssbo_feedback) c =
          (Outcome.ok (count_different, count_painted), c') ∧
        ctx'.log = ctx.log ++ calls ++
          [Call.fprintf (Message.painted count_painted r.num_pixels),
           Call.fprintf (Message.different count_different r.num_pixels),
           Call.fprintf (if count_different = 0 then Message.correct else Message.wrong)] ∧
        ∀ call ∈ calls, call.subject = Subject.memory := by
  have ha1 : build.ndebug = true ∨
      (res.num_pixels * res.num_image_components == res.num_image_elements) = true := by
    rcases ha with h | h
    · exact Or.inl h
    · exact Or.inr (by rw [h.1]; simp)
  have ha2 : build.ndebug = true ∨ (res.num_pixels == res.num_ssbo_elements) = true := by
    rcases ha with h | h
    · exact Or.inl h
    · exact Or.inr (by rw [h.2]; simp)
  have hle : ∀ p : Nat → Bool, ((List.range res.num_pixels).filter p).length ≤
      res.num_pixels := fun p => by
    have h := List.length_filter_le p (List.range res.num_pixels)
    rwa [List.length_range] at h
  refine ⟨fun ctx => ⟨_, _, ?_, rfl, rfl, hle _, hle _⟩,
    fun ctx => ⟨_, _, ?_, rfl, rfl, hle _, hle _⟩,
    fun r r' ctx ctx' h => check_outcome_inv build r r' ctx ctx' h⟩
  · rw [check_data_32bits_run build res _ _ hc h4 hn, assert_of_or _ _ ha1,
      assert_of_or _ _ ha2]
    rfl
  · rw [check_data_16bits_run build res _ _ hc h4 hn, assert_of_or _ _ ha1,
      assert_of_or _ _ ha2]
    rfl

/-- C22, at a concrete input: of two pixels whose SSBO elements both hold the reference,
the first pixel of the image holds the reference and the second holds 1.0f, so one pixel
differs and one is painted. -/
theorem check_data_counts_witness :
    check_data_32bits exampleBuild twoPixelResources twoPixelImage twoPixelSsbo
        (exampleContext acceptingDriver) =
      (Outcome.ok (1, 1), exampleContext acceptingDriver) := by
  obtain ⟨cd, cp, h, hcd, hcp, -, -⟩ :=
    (check_data_counts exampleBuild twoPixelResources twoPixelImage twoPixelSsbo (by decide)
      (by decide) (by decide) (Or.inr ⟨rfl, rfl⟩)).1 (exampleContext acceptingDriver)
  have e1 : cd = 1 := by
    rw [hcd]
    decide
  have e2 : cp = 1 := by
    rw [hcp]
    decide
  rw [h, e1, e2]

end

section
open SsboTriangle

/-! ## The recorded request and the written range -/

/-- C23, as stated, fails: on the host-visible buffer of `exampleContext`, whose
allocation and `mem_reqs.size` are 4 bytes, a fill of 4 bytes at offset 1 passes both
assertions of a build with assertions, maps, copies the 4 bytes to the mapped range,
flushes, unmaps and returns, although `offset + size` is 5 and exceeds
`mem_reqs.size`. -/
theorem vkdf_buffer_map_and_fill_range_exceeds_allocation :
    hasFlag hostVisibleBuffer.mem_props VK_MEMORY_PROPERTY_HOST_VISIBLE_BIT = true ∧
    4 ≤ hostVisibleBuffer.mem_reqs.size ∧
    ((exampleContext acceptingDriver).memory hostVisibleBuffer.mem).map
      (fun m => m.allocationSize) = some 4 ∧
    (vkdf_buffer_map_and_fill false hostVisibleBuffer 1 4 sourceBytes
      (exampleContext acceptingDriver)).1 = Outcome.ok () ∧
    (vkdf_buffer_map_and_fill false hostVisibleBuffer 1 4 sourceBytes
      (exampleContext acceptingDriver)).2.log =
      [Call.vkMapMemory 2 1 4 VK_SUCCESS, Call.memcpy_to_mapped 2 1 [10, 11, 12, 13],
       Call.vkFlushMappedMemoryRanges 2 1 4 VK_SUCCESS, Call.vkUnmapMemory 2] ∧
    ¬ (1 + 4 ≤ hostVisibleBuffer.mem_reqs.size) := by
  decide

theorem vkdf_buffer_map_and_fill_log (ndebug : Bool) (ctx : VkdfContext) (buf : VkdfBuffer)
    (offset size : Nat) (data : Nat → Nat)
    (hok : (vkdf_buffer_map_and_fill ndebug buf offset size data ctx).1 = Outcome.ok ()) :
    (vkdf_buffer_map_and_fill ndebug buf offset size data ctx).2.log =
      ctx.log ++
        [Call.vkMapMemory buf.mem offset size VK_SUCCESS,
         Call.memcpy_to_mapped buf.mem offset ((List.range size).map data)] ++
        (if hasFlag buf.mem_props VK_MEMORY_PROPERTY_HOST_COHERENT_BIT then []
         else [Call.vkFlushMappedMemoryRanges buf.mem offset size VK_SUCCESS]) ++
        [Call.vkUnmapMemory buf.mem] := by
  revert hok
  simp only [vkdf_buffer_map_and_fill, bind, Prog.bind, VK_CHECK, assert, vkMapMemory,
    memcpy_to_mapped]
  cases ndebug <;>
    cases hv : hasFlag buf.mem_props VK_MEMORY_PROPERTY_HOST_VISIBLE_BIT <;>
    cases hc : hasFlag buf.mem_props VK_MEMORY_PROPERTY_HOST_COHERENT_BIT <;>
    by_cases hr : mapResult ctx buf.mem offset size = VK_SUCCESS <;>
    by_cases hs : size ≤ buf.mem_reqs.size <;>
    by_cases hf : ctx.driver.flushMappedMemoryRanges buf.mem offset size = VK_SUCCESS <;>
    simp [hv, hc, hr, hs, hf, Prog.pure, abort, Prog.bind, VK_CHECK,
      vkFlushMappedMemoryRanges, vkUnmapMemory, pure]

theorem vkdf_create_buffer_mem_props (ndebug : Bool) (uninit flags size usage mem_props : Nat)
    (buffer : VkdfBuffer) (ctx ctx' : VkdfContext)
    (h : vkdf_create_buffer ndebug uninit flags size usage mem_props ctx =
      (Outcome.ok buffer, ctx')) :
    buffer.mem_props = mem_props ∧ ∃ b, ctx'.buffers buffer.buf = some b ∧ b.size = size := by
  simp only [vkdf_create_buffer, Prog.bind_eq_ok, Prog.pure_eq_ok] at h
  obtain ⟨buf, c1, h1, h⟩ := h
  obtain ⟨mem_reqs, c2, h2, h⟩ := h
  obtain ⟨index, c3, h3, h⟩ := h
  obtain ⟨mem, c4, h4, h⟩ := h
  obtain ⟨_, c5, h5, rfl, rfl⟩ := h
  refine ⟨rfl, ?_⟩
  obtain ⟨-, b3, -⟩ := assertCall_select_inv _ _ _ _ _ _ _ h3
  obtain ⟨-, -, b4, -, -⟩ := vkAllocateMemory_inv _ _ _ _ _ h4
  have b2 : c2.buffers = c1.buffers := by
    simp only [vkGetBufferMemoryRequirements, Prod.mk.injEq, Outcome.ok.injEq] at h2
    rw [← h2.2]
  have b1 : c1.buffers buf =
      some { flags := flags, size := size, usage := usage, bound := none } := by
    by_cases hr : ctx.driver.createBuffer flags size usage = VK_SUCCESS <;>
      simp [VK_CHECK, vkCreateBuffer, hr] at h1
    obtain ⟨rfl, rfl⟩ := h1
    simp [Function.update]
  by_cases hr : c4.driver.bindBufferMemory buf mem 0 = VK_SUCCESS <;>
    simp [VK_CHECK, vkBindBufferMemory, hr] at h5
  rw [← h5]
  simp [b4, b3, b2, b1]

/-- C24: every buffer `vkdf_create_buffer` returns, in either build, records in
`mem_props` the property mask the caller requested, whatever the flags of the memory type
the allocation came from. So every `vkdf_buffer_map_and_fill` of that buffer that
returns, on whatever device state, has made one `vkFlushMappedMemoryRanges` call exactly
when the request lacked the host-coherent bit; a buffer requested host-visible only is
always flushed. -/
theorem vkdf_create_buffer_records_request (ndebug : Bool)
    (uninit flags size usage mem_props : Nat) (buffer : VkdfBuffer) (ctx ctx1 : VkdfContext)
    (h : vkdf_create_buffer ndebug uninit flags size usage mem_props ctx =
      (Outcome.ok buffer, ctx1)) :
    buffer.mem_props = mem_props ∧
    ∀ (ndebug' : Bool) (offset n : Nat) (data : Nat → Nat) (ctx2 : VkdfContext),
      (vkdf_buffer_map_and_fill ndebug' buffer offset n data ctx2).1 = Outcome.ok () →
      (vkdf_buffer_map_and_fill ndebug' buffer offset n data ctx2).2.log =
        ctx2.log ++
          [Call.vkMapMemory buffer.mem offset n VK_SUCCESS,
           Call.memcpy_to_mapped buffer.mem offset ((List.range n).map data)] ++
          (if hasFlag mem_props VK_MEMORY_PROPERTY_HOST_COHERENT_BIT then []
           else [Call.vkFlushMappedMemoryRanges buffer.mem offset n VK_SUCCESS]) ++
          [Call.vkUnmapMemory buffer.mem] ∧
      (mem_props = VK_MEMORY_PROPERTY_HOST_VISIBLE_BIT →
        Call.vkFlushMappedMemoryRanges buffer.mem offset n VK_SUCCESS ∈
          (vkdf_buffer_map_and_fill ndebug' buffer offset n data ctx2).2.log) := by
  obtain ⟨hp, -⟩ := vkdf_create_buffer_mem_props _ _ _ _ _ _ _ _ _ h
  refine ⟨hp, fun ndebug' offset n data ctx2 hok => ?_⟩
  have hl := vkdf_buffer_map_and_fill_log ndebug' ctx2 buffer offset n data hok
  rw [hp] at hl
  refine ⟨hl, fun hv => ?_⟩
  rw [hl, hv]
  have hc : hasFlag VK_MEMORY_PROPERTY_HOST_VISIBLE_BIT VK_MEMORY_PROPERTY_HOST_COHERENT_BIT =
      false := by decide
  rw [hc]
  simp

/-- C24, at a concrete input: on a device that offers the buffer only the host-visible
and host-coherent memory type 2, a buffer requested host-visible only records the
request, its allocation carries the coherent flag, and a fill of it is flushed. -/
theorem vkdf_create_buffer_records_request_witness :
    vkdf_create_buffer false 0 0 5 1 VK_MEMORY_PROPERTY_HOST_VISIBLE_BIT
        (exampleContext coherentOnlyDriver) =
      (Outcome.ok coherentTypeBuffer,
        (vkdf_create_buffer false 0 0 5 1 VK_MEMORY_PROPERTY_HOST_VISIBLE_BIT
          (exampleContext coherentOnlyDriver)).2) ∧
    ((vkdf_create_buffer false 0 0 5 1 VK_MEMORY_PROPERTY_HOST_VISIBLE_BIT
        (exampleContext coherentOnlyDriver)).2.memory 8).map (fun m => m.propertyFlags) =
      some (VK_MEMORY_PROPERTY_HOST_VISIBLE_BIT ||| VK_MEMORY_PROPERTY_HOST_COHERENT_BIT) ∧
    coherentTypeBuffer.mem_props = VK_MEMORY_PROPERTY_HOST_VISIBLE_BIT ∧
    Call.vkFlushMappedMemoryRanges 8 0 4 VK_SUCCESS ∈
      (vkdf_buffer_map_and_fill false coherentTypeBuffer 0 4 sourceBytes
        (vkdf_create_buffer false 0 0 5 1 VK_MEMORY_PROPERTY_HOST_VISIBLE_BIT
          (exampleContext coherentOnlyDriver)).2).2.log :=
  ⟨Prod.ext (by decide) rfl, by decide, rfl,
   ((vkdf_create_buffer_records_request false 0 0 5 1 VK_MEMORY_PROPERTY_HOST_VISIBLE_BIT
      coherentTypeBuffer (exampleContext coherentOnlyDriver) _
      (Prod.ext (by decide) rfl)).2 false 0 4 sourceBytes _ (by decide)).2 rfl⟩

end

section
open SsboTriangle

/-! ## The file of small-clear -/

theorem forEach_exact {α : Type} (I : VkdfContext → Prop) (g : α → List Call) (xs : List α)
    (body : α → Prog Unit)
    (hb : ∀ x ctx, I ctx → ∃ ctx', body x ctx = (Outcome.ok (), ctx') ∧
      ctx'.log = ctx.log ++ g x ∧ I ctx') :
    ∀ ctx, I ctx → ∃ ctx', forEach xs body ctx = (Outcome.ok (), ctx') ∧
      ctx'.log = ctx.log ++ xs.flatMap g ∧ I ctx' := by
  induction xs with
  | nil => exact fun ctx hI => ⟨ctx, rfl, by simp, hI⟩
  | cons x xs ih =>
    intro ctx hI
    obtain ⟨c1, h1, l1, i1⟩ := hb x ctx hI
    obtain ⟨c2, h2, l2, i2⟩ := ih c1 i1
    refine ⟨c2, ?_, ?_, i2⟩
    · rw [forEach]
      exact (Prog.bind_eq_ok _ _ _ _ _).mpr ⟨(), c1, h1, h2⟩
    · rw [l2, l1, List.flatMap_cons, List.append_assoc]

theorem flatMap_range_mul {β : Type} (a b : Nat) (f : Nat → List β) :
    (List.range a).flatMap (fun i => (List.range b).flatMap (fun j => f (i * b + j))) =
      (List.range (a * b)).flatMap f := by
  induction a with
  | zero => simp
  | succ n ih =>
    rw [List.range_succ, List.flatMap_append, ih, List.flatMap_singleton, Nat.add_mul, one_mul,
      List.range_add, List.flatMap_append, List.flatMap_map]

theorem length_flatMap_three {β : Type} (n : Nat) (f : Nat → List β)
    (h : ∀ k, (f k).length = 3) : ((List.range n).flatMap f).length = n * 3 := by
  induction n with
  | zero => simp
  | succ n ih =>
    rw [List.range_succ, List.flatMap_append, List.length_append, ih, List.flatMap_singleton, h]
    omega

theorem SmallClear.pixel_exact (mem : Nat) (data : Nat → Nat) (i j : Nat) (ctx : VkdfContext)
    (hI : ∀ addr, ctx.mappedByte mem addr = data addr) :
    ∃ ctx',
        (do
          fwrite_mapped mem ((i * SmallClear.WIDTH + j) * 4 + 2) 1
          fwrite_mapped mem ((i * SmallClear.WIDTH + j) * 4 + 1) 1
          fwrite_mapped mem ((i * SmallClear.WIDTH + j) * 4 + 0) 1 : Prog Unit) ctx =
        (Outcome.ok (), ctx') ∧
      ctx'.log = ctx.log ++
        [Call.fwrite (some (mem, 4 * (i * SmallClear.HEIGHT + j) + 2))
           [data (4 * (i * SmallClear.HEIGHT + j) + 2)],
         Call.fwrite (some (mem, 4 * (i * SmallClear.HEIGHT + j) + 1))
           [data (4 * (i * SmallClear.HEIGHT + j) + 1)],
         Call.fwrite (some (mem, 4 * (i * SmallClear.HEIGHT + j)))
           [data (4 * (i * SmallClear.HEIGHT + j))]] ∧
      ∀ addr, ctx'.mappedByte mem addr = data addr := by
  refine ⟨_, rfl, ?_, fun addr => hI addr⟩
  have e : (i * SmallClear.WIDTH + j) * 4 = 4 * (i * SmallClear.HEIGHT + j) :=
    Nat.mul_comm _ _
  simp only [List.append_assoc, List.cons_append, List.nil_append, List.range_succ, List.range_zero, List.map_cons,
    List.map_nil, Nat.add_zero, e]
  rw [← hI, ← hI, ← hI]
  rfl

theorem SmallClear.pixel_loop_exact (mem : Nat) (data : Nat → Nat) (ctx : VkdfContext)
    (hI : ∀ addr, ctx.mappedByte mem addr = data addr) :
    ∃ ctx',
      forEach (List.range SmallClear.WIDTH) (fun i =>
        forEach (List.range SmallClear.HEIGHT) (fun j => do
          fwrite_mapped mem ((i * SmallClear.WIDTH + j) * 4 + 2) 1
          fwrite_mapped mem ((i * SmallClear.WIDTH + j) * 4 + 1) 1
          fwrite_mapped mem ((i * SmallClear.WIDTH + j) * 4 + 0) 1)) ctx =
        (Outcome.ok (), ctx') ∧
      ctx'.log = ctx.log ++
        (List.range (SmallClear.WIDTH * SmallClear.HEIGHT)).flatMap (fun k =>
          [Call.fwrite (some (mem, 4 * k + 2)) [data (4 * k + 2)],
           Call.fwrite (some (mem, 4 * k + 1)) [data (4 * k + 1)],
           Call.fwrite (some (mem, 4 * k)) [data (4 * k)]]) := by
  obtain ⟨ctx', h, l, -⟩ :=
    forEach_exact (fun c => ∀ addr, c.mappedByte mem addr = data addr)
      (fun i => (List.range SmallClear.HEIGHT).flatMap (fun j =>
        [Call.fwrite (some (mem, 4 * (i * SmallClear.HEIGHT + j) + 2))
           [data (4 * (i * SmallClear.HEIGHT + j) + 2)],
         Call.fwrite (some (mem, 4 * (i * SmallClear.HEIGHT + j) + 1))
           [data (4 * (i * SmallClear.HEIGHT + j) + 1)],
         Call.fwrite (some (mem, 4 * (i * SmallClear.HEIGHT + j)))
           [data (4 * (i * SmallClear.HEIGHT + j))]]))
      (List.range SmallClear.WIDTH) _
      (fun i c hc =>
        forEach_exact (fun c => ∀ addr, c.mappedByte mem addr = data addr) _
          (List.range SmallClear.HEIGHT) _
          (fun j c hc => SmallClear.pixel_exact mem data i j c hc) c hc)
      ctx hI
  refine ⟨ctx', h, ?_⟩
  rw [l, flatMap_range_mul SmallClear.WIDTH SmallClear.HEIGHT (fun k =>
    [Call.fwrite (some (mem, 4 * k + 2)) [data (4 * k + 2)],
     Call.fwrite (some (mem, 4 * k + 1)) [data (4 * k + 1)],
     Call.fwrite (some (mem, 4 * k)) [data (4 * k)]])]

end

section
open SsboTriangle

theorem SmallClear.small_clear_buffer_size (build : Build) (ctx ctx' : VkdfContext)
    (res : SmallClear.DemoResources)
    (h : SmallClear.init_resources build ctx = (Outcome.ok res, ctx')) :
    ∃ b, ctx'.buffers res.color_buffer.buf = some b ∧
      b.size = 4 * ctx.width * ctx.height % 2 ^ 32 * 4 := by
  simp only [SmallClear.init_resources, Prog.bind_eq_ok] at h
  obtain ⟨_, c1, h1, h⟩ := h
  obtain ⟨rfl, rfl⟩ := (getContext_eq_ok _ _ _).mp h1
  obtain ⟨color_image, c2, h2, h⟩ := h
  obtain ⟨color_buffer, c3, h3, h⟩ := h
  obtain ⟨render_pass, c4, h4, h⟩ := h
  obtain ⟨framebuffer, c5, h5, h⟩ := h
  obtain ⟨cmd_pool, c6, h6, h7⟩ := h
  have k : ∀ kind : ObjectKind, Subject.keepsBuffers (Subject.object kind) :=
    fun kind => ⟨by simp, by simp, by simp⟩
  have kc : Subject.keepsBuffers Subject.commandBuffer := ⟨by simp, by simp, by simp⟩
  obtain ⟨-, b, hb, hs⟩ := vkdf_create_buffer_mem_props _ _ _ _ _ _ _ _ _ h3
  have F := (Touches.run (Touches.vkdf_renderpass_simple_new _ _ _ _ _ _ _ _ _ _ (k _)) h4).trans
    ((Touches.run (Touches.vkdf_create_framebuffer _ _ _ _ _ _ (k _)) h5).trans
    ((Touches.run (Touches.vkdf_create_gfx_command_pool _ (k _)) h6).trans
    (Touches.run (Touches.SmallClear.record_command_buffer _ kc) h7)))
  obtain ⟨-, bF, -⟩ := F.keeps_buffers
  obtain ⟨r1, -⟩ := SmallClear.record_command_buffer_res _ _ _ _ h7
  dsimp only at r1
  rw [r1, bF]
  exact ⟨b, hb, hs⟩

theorem SmallClear.write_pixels_to_file_returns (res : SmallClear.DemoResources)
    (ctx : VkdfContext) (hm : (ctx.memory res.color_buffer.mem).isSome = true)
    (hmap : ∀ size, ctx.driver.mapMemory res.color_buffer.mem 0 size = VK_SUCCESS) :
    ∃ ctx', SmallClear.write_pixels_to_file res ctx = (Outcome.ok (), ctx') := by
  have key : ∃ (u : Unit) (ctx' : VkdfContext),
      SmallClear.write_pixels_to_file res ctx = (Outcome.ok u, ctx') := by
    unfold SmallClear.write_pixels_to_file
    obtain ⟨m, hm⟩ := Option.isSome_iff_exists.mp hm
    obtain ⟨c3, h3⟩ : ∃ c3, vkdf_memory_map res.color_buffer.mem 0
        (SmallClear.WIDTH * SmallClear.HEIGHT * 4 * 1) ctx = (Outcome.ok (), c3) := by
      refine ⟨_, Prod.ext ?_ rfl⟩
      simp only [vkdf_memory_map, VK_CHECK, mapResult, hm, hmap]
      rfl
    refine Prog.bind_returns h3 ?_
    obtain ⟨invalidated, c4, h4⟩ : ∃ invalidated c4,
        vkInvalidateMappedMemoryRanges res.color_buffer.mem 0
          (SmallClear.WIDTH * SmallClear.HEIGHT * 4 * 1) c3 = (Outcome.ok invalidated, c4) :=
      ⟨_, _, rfl⟩
    refine Prog.bind_returns h4 ?_
    obtain ⟨c5, h5⟩ : ∃ c5, fopen c4 = (Outcome.ok (), c5) := ⟨_, rfl⟩
    refine Prog.bind_returns h5 ?_
    obtain ⟨c6, h6⟩ : ∃ c6, fwrite SmallClear.TGAhead c5 = (Outcome.ok (), c6) := ⟨_, rfl⟩
    refine Prog.bind_returns h6 ?_
    obtain ⟨_, c7, h7, -, -⟩ := SmallClear.pixel_loop_logs res.color_buffer.mem c6
    refine Prog.bind_returns h7 ?_
    obtain ⟨c8, h8⟩ : ∃ c8, fclose c7 = (Outcome.ok (), c8) := ⟨_, rfl⟩
    refine Prog.bind_returns h8 ?_
    exact ⟨_, _, rfl⟩
  obtain ⟨_, ctx', h⟩ := key
  exact ⟨ctx', h⟩

/-- C26: a `write_pixels_to_file` of small-clear that returns has written to the file
the 18 bytes of the header `0 0 2 0 0 0 0 0 0 0 0 0 128 0 128 0 24 0` (image type 2,
uncompressed true-colour; width 128 and height 128, little-endian; 24 bits per pixel) and
then, for each pixel `k = i * 128 + j` in order, the three bytes `data[4k+2]`,
`data[4k+1]`, `data[4k]` of the mapped buffer, `128 * 128 * 3` bytes in all, each with an
`fwrite` of one byte; every index read is below 65536. The colour buffer that
`init_resources` creates in a window of 128 by 128 has the requested size
`4 * 128 * 128 * 4`, which 65536 does not exceed. -/
theorem write_pixels_to_file_bytes (build : Build) (ctx0 ctx1 ctx ctx' : VkdfContext)
    (res : SmallClear.DemoResources) (hw : ctx0.width = 128) (hh : ctx0.height = 128)
    (hinit : SmallClear.init_resources build ctx0 = (Outcome.ok res, ctx1))
    (h : SmallClear.write_pixels_to_file res ctx = (Outcome.ok (), ctx')) :
    ∃ (invalidated : VkResult) (data : Nat → Nat),
      (∀ addr, data addr =
        VkdfContext.mappedByte
          (vkInvalidateMappedMemoryRanges res.color_buffer.mem 0 65536
            (vkdf_memory_map res.color_buffer.mem 0 65536 ctx).2).2
          res.color_buffer.mem addr) ∧
      ctx'.log = ctx.log ++
        ([Call.vkdf_memory_map res.color_buffer.mem 0 65536 VK_SUCCESS,
          Call.vkInvalidateMappedMemoryRanges res.color_buffer.mem 0 65536 invalidated,
          Call.fopen,
          Call.fwrite none [0, 0, 2, 0, 0, 0, 0, 0, 0, 0, 0, 0, 128, 0, 128, 0, 24, 0]] ++
         (List.range (128 * 128)).flatMap (fun k =>
           [Call.fwrite (some (res.color_buffer.mem, 4 * k + 2)) [data (4 * k + 2)],
            Call.fwrite (some (res.color_buffer.mem, 4 * k + 1)) [data (4 * k + 1)],
            Call.fwrite (some (res.color_buffer.mem, 4 * k)) [data (4 * k)]]) ++
         [Call.fclose,
          Call.vkdf_memory_unmap res.color_buffer.mem res.color_buffer.mem_props 0 65536]) ∧
      (ctx'.log.drop ctx.log.length).flatMap Call.fileBytes =
        [0, 0, 2, 0, 0, 0, 0, 0, 0, 0, 0, 0, 128, 0, 128, 0, 24, 0] ++
          (List.range (128 * 128)).flatMap (fun k =>
            [data (4 * k + 2), data (4 * k + 1), data (4 * k)]) ∧
      ((List.range (128 * 128)).flatMap (fun k =>
        [data (4 * k + 2), data (4 * k + 1), data (4 * k)])).length = 128 * 128 * 3 ∧
      (∀ call ∈ ctx'.log.drop ctx.log.length, ∀ mem offset bytes,
        call = Call.fwrite (some (mem, offset)) bytes →
          mem = res.color_buffer.mem ∧ offset + bytes.length ≤ 65536) ∧
      ∃ b, ctx1.buffers res.color_buffer.buf = some b ∧ b.size = 4 * 128 * 128 * 4 ∧
        65536 ≤ b.size := by
  simp only [SmallClear.write_pixels_to_file, Prog.bind_eq_ok] at h
  obtain ⟨_, c3, h3, _, c4, h4, _, c5, h5, _, c6, h6, _, c7, h7, _, c8, h8, h9⟩ := h
  have e3 : c3 = (vkdf_memory_map res.color_buffer.mem 0 65536 ctx).2 :=
    (congrArg Prod.snd h3).symm
  have e4 : c4 = (vkInvalidateMappedMemoryRanges res.color_buffer.mem 0 65536 c3).2 :=
    (congrArg Prod.snd h4).symm
  have l3 : c3.log = ctx.log ++
      [Call.vkdf_memory_map res.color_buffer.mem 0 65536 VK_SUCCESS] := by
    simp only [vkdf_memory_map, VK_CHECK_eq_ok, Prod.mk.injEq, Outcome.ok.injEq] at h3
    rw [← h3.2, ← h3.1.1]
    rfl
  have l4 : c4.log = c3.log ++
      [Call.vkInvalidateMappedMemoryRanges res.color_buffer.mem 0 65536
        (c3.driver.invalidateMappedMemoryRanges res.color_buffer.mem 0 65536)] := by
    rw [e4]
    rfl
  have l5 : c5.log = c4.log ++ [Call.fopen] := by
    simp only [fopen, Prod.mk.injEq, Outcome.ok.injEq] at h5
    rw [← h5.2]
  have l6 : c6.log = c5.log ++
      [Call.fwrite none [0, 0, 2, 0, 0, 0, 0, 0, 0, 0, 0, 0, 128, 0, 128, 0, 24, 0]] := by
    simp only [fwrite, Prod.mk.injEq, Outcome.ok.injEq] at h6
    rw [← h6.2]
    rfl
  have i5 : ∀ addr, c5.mappedByte res.color_buffer.mem addr =
      c4.mappedByte res.color_buffer.mem addr := by
    simp only [fopen, Prod.mk.injEq, Outcome.ok.injEq] at h5
    rw [← h5.2]
    exact fun _ => rfl
  have i6 : ∀ addr, c6.mappedByte res.color_buffer.mem addr =
      c4.mappedByte res.color_buffer.mem addr := by
    simp only [fwrite, Prod.mk.injEq, Outcome.ok.injEq] at h6
    rw [← h6.2]
    exact i5
  obtain ⟨c7', h7', l7⟩ := SmallClear.pixel_loop_exact res.color_buffer.mem
    (c4.mappedByte res.color_buffer.mem) c6 i6
  rw [h7'] at h7
  simp only [Prod.mk.injEq, Outcome.ok.injEq, true_and] at h7
  subst h7
  have l8 : c8.log = c7'.log ++ [Call.fclose] := by
    simp only [fclose, Prod.mk.injEq, Outcome.ok.injEq] at h8
    rw [← h8.2]
  have l9 : ctx'.log = c8.log ++
      [Call.vkdf_memory_unmap res.color_buffer.mem res.color_buffer.mem_props 0 65536] := by
    simp only [vkdf_memory_unmap, Prod.mk.injEq, Outcome.ok.injEq] at h9
    rw [← h9.2]
    rfl
  have hlog : ctx'.log = ctx.log ++
      ([Call.vkdf_memory_map res.color_buffer.mem 0 65536 VK_SUCCESS,
        Call.vkInvalidateMappedMemoryRanges res.color_buffer.mem 0 65536
          (c3.driver.invalidateMappedMemoryRanges res.color_buffer.mem 0 65536),
        Call.fopen,
        Call.fwrite none [0, 0, 2, 0, 0, 0, 0, 0, 0, 0, 0, 0, 128, 0, 128, 0, 24, 0]] ++
       (List.range (128 * 128)).flatMap (fun k =>
         [Call.fwrite (some (res.color_buffer.mem, 4 * k + 2))
            [c4.mappedByte res.color_buffer.mem (4 * k + 2)],
          Call.fwrite (some (res.color_buffer.mem, 4 * k + 1))
            [c4.mappedByte res.color_buffer.mem (4 * k + 1)],
          Call.fwrite (some (res.color_buffer.mem, 4 * k))
            [c4.mappedByte res.color_buffer.mem (4 * k)]]) ++
       [Call.fclose,
        Call.vkdf_memory_unmap res.color_buffer.mem res.color_buffer.mem_props 0 65536]) := by
    rw [l9, l8, l7, l6, l5, l4, l3]
    simp only [List.append_assoc, List.cons_append, List.nil_append]
    rfl
  have hdrop := congrArg (List.drop ctx.log.length) hlog
  rw [List.drop_left] at hdrop
  refine ⟨c3.driver.invalidateMappedMemoryRanges res.color_buffer.mem 0 65536,
    c4.mappedByte res.color_buffer.mem, fun addr => by rw [e4, e3], hlog, ?_,
    length_flatMap_three _ _ (fun _ => rfl), ?_, ?_⟩
  · rw [hdrop, List.flatMap_append, List.flatMap_append, List.flatMap_assoc]
    simp only [List.flatMap_cons, List.flatMap_nil, Call.fileBytes, List.nil_append,
      List.append_nil, List.cons_append]
  · intro call hcall mem offset bytes hc
    rw [hdrop] at hcall
    subst hc
    rcases List.mem_append.mp hcall with hcall | hcall
    · rcases List.mem_append.mp hcall with hcall | hcall
      · simp at hcall
      · obtain ⟨k, hk, hcall⟩ := List.mem_flatMap.mp hcall
        have hk := List.mem_range.mp hk
        simp only [List.mem_cons, Call.fwrite.injEq, Option.some.injEq, Prod.mk.injEq,
          List.mem_singleton, List.not_mem_nil, or_false] at hcall
        rcases hcall with ⟨⟨rfl, rfl⟩, rfl⟩ | ⟨⟨rfl, rfl⟩, rfl⟩ | ⟨⟨rfl, rfl⟩, rfl⟩ <;>
          exact ⟨rfl, by simp only [List.length_singleton]; omega⟩
    · simp at hcall
  · obtain ⟨b, hb, hs⟩ := SmallClear.small_clear_buffer_size build ctx0 ctx1 res hinit
    rw [hw, hh] at hs
    exact ⟨b, hb, hs.trans (by norm_num), by rw [hs]; norm_num⟩

/-- C26, at a concrete input: on the device `init_resources` of small-clear leaves, the
file is written, and its bytes are the header followed by three bytes per pixel. -/
theorem write_pixels_to_file_bytes_witness :
    ∃ (ctx' : VkdfContext) (data : Nat → Nat),
      SmallClear.write_pixels_to_file smallClearResources
        (SmallClear.init_resources exampleBuild (freshContext acceptingDriver)).2 =
        (Outcome.ok (), ctx') ∧
      (ctx'.log.drop
          (SmallClear.init_resources exampleBuild
            (freshContext acceptingDriver)).2.log.length).flatMap Call.fileBytes =
        [0, 0, 2, 0, 0, 0, 0, 0, 0, 0, 0, 0, 128, 0, 128, 0, 24, 0] ++
          (List.range (128 * 128)).flatMap (fun k =>
            [data (4 * k + 2), data (4 * k + 1), data (4 * k)]) := by
  have hinit : SmallClear.init_resources exampleBuild (freshContext acceptingDriver) =
      (Outcome.ok smallClearResources,
        (SmallClear.init_resources exampleBuild (freshContext acceptingDriver)).2) :=
    Prod.ext (by decide) rfl
  obtain ⟨ctx', h⟩ := SmallClear.write_pixels_to_file_returns smallClearResources
    (SmallClear.init_resources exampleBuild (freshContext acceptingDriver)).2 (by decide)
    (fun _ => rfl)
  obtain ⟨_, data, -, -, hbytes, -⟩ :=
    write_pixels_to_file_bytes exampleBuild (freshContext acceptingDriver) _ _ ctx'
      smallClearResources rfl rfl hinit h
  exact ⟨ctx', data, h, hbytes⟩

end

section
open SsboTriangle

/-! ## The state machine and the frames of the demos -/

theorem neverInvalid_returns {α : Type} {m : Prog α}
    (h : ∀ ctx, ∃ a, (m ctx).1 = Outcome.ok a) : NeverInvalid m := by
  refine ⟨fun ctx hi => ?_⟩
  obtain ⟨a, ha⟩ := h ctx
  rw [ha] at hi
  cases hi

theorem neverInvalid_getContext : NeverInvalid getContext :=
  neverInvalid_returns (fun ctx => ⟨ctx, rfl⟩)

end

end Vkdf
